import Mathlib

/-!
# Celestial bridge simulator: ship model and simulator registries

A shallow embedding of `internal/ship/ship.go` and
`internal/simulation/simulator.go`.

Conventions of the embedding

* `float64` fields are numbers of a linearly ordered field `F`, a parameter of
  the whole development: every property below is a statement of exact
  arithmetic, valid for the rationals (on which the definitions run) and for
  the reals alike; rounding, infinities and NaN are outside the model.  The
  scenarios and witnesses are stated over `ℚ`.
* Go `int` is `Int` (no operation below can leave the 64-bit range from a
  state inside it: the only arithmetic is a decrement of a positive count).
* A Go `map[string]T` is an association list `List (String × T)` read with
  `mapGet`, written with `mapSet` and shrunk with `mapDelete`.  The order of
  the list stands for the (unspecified) iteration order of the Go map.
* The sub-aggregates of a ship (engines, weapons, emitters, ...) are reachable
  only through their ship, so a `Ship` is a value.  Ships, projectiles,
  objects, attribute bags and the registries that hold them are shared through
  pointers in the source and therefore live in an explicit `Memory` of heaps,
  addressed by natural numbers.
* Locks, channels and log output are not modelled.
* The Go field `Type` is written `Type_`, since `Type` is reserved.
-/

namespace Celestial

set_option linter.unusedSectionVars false

variable {F : Type} [LinearOrderedField F]

/-- Default number, for the cells of a heap nothing was stored in. -/
instance (priority := low) : Inhabited F := ⟨0⟩

/-! ## Go maps -/

/-- Lookup `m[key]`: the value and `ok = true`, or `none` for `ok = false`. -/
def mapGet {V : Type} : List (String × V) → String → Option V
  | [], _ => none
  | (k, v) :: rest, key => if k = key then some v else mapGet rest key

/-- Assignment `m[key] = v`. -/
def mapSet {V : Type} : List (String × V) → String → V → List (String × V)
  | [], key, v => [(key, v)]
  | (k, x) :: rest, key, v =>
    if k = key then (k, v) :: rest else (k, x) :: mapSet rest key v

/-- Removal `delete(m, key)`. -/
def mapDelete {V : Type} : List (String × V) → String → List (String × V)
  | [], _ => []
  | (k, x) :: rest, key =>
    if k = key then mapDelete rest key else (k, x) :: mapDelete rest key

/-- Keys of a map, in iteration order. -/
def mapKeys {V : Type} (m : List (String × V)) : List String := m.map Prod.fst

/-! ## Ship data model (`ship.go`, lines 9-164) -/

structure Vector3 (F : Type) where
  X : F
  Y : F
  Z : F
  deriving DecidableEq, Inhabited

structure Quaternion (F : Type) where
  W : F
  X : F
  Y : F
  Z : F
  deriving DecidableEq, Inhabited

structure Engine (F : Type) where
  ID : String
  Type_ : String
  Thrust : F
  MaxHealth : F
  Health : F
  Enabled : Bool
  PowerDraw : F
  OnFire : Bool
  deriving DecidableEq, Inhabited

structure Weapon (F : Type) where
  ID : String
  Type_ : String
  Damage : F
  Range : F
  CooldownTime : F
  Cooldown : F
  MaxHealth : F
  Health : F
  Enabled : Bool
  PowerDraw : F
  OnFire : Bool
  Armed : Bool
  Loaded : Bool
  Locked : Bool
  AmmoCapacity : Int
  AmmoCount : Int
  deriving DecidableEq, Inhabited

structure ShieldEmitter (F : Type) where
  ID : String
  Facing : String
  MaxStrength : F
  Strength : F
  MaxHealth : F
  Health : F
  OnFire : Bool
  deriving DecidableEq, Inhabited

structure ShieldSystem (F : Type) where
  Emitters : List (String × ShieldEmitter F)
  RechargeRate : F
  PowerDraw : F
  Enabled : Bool
  deriving DecidableEq, Inhabited

structure HullSection (F : Type) where
  ID : String
  MaxArmor : F
  Armor : F
  MaxHealth : F
  Health : F
  Breached : Bool
  OnFire : Bool
  deriving DecidableEq, Inhabited

structure HullSystem (F : Type) where
  Sections : List (String × HullSection F)
  deriving DecidableEq, Inhabited

structure Subsystem (F : Type) where
  ID : String
  Type_ : String
  MaxHealth : F
  Health : F
  Enabled : Bool
  PowerDraw : F
  OnFire : Bool
  deriving DecidableEq, Inhabited

structure LaunchBay (F : Type) where
  ID : String
  Capacity : Int
  Current : Int
  MaxHealth : F
  Health : F
  OnFire : Bool
  deriving DecidableEq, Inhabited

structure Breaker (F : Type) where
  ID : String
  System : String
  Enabled : Bool
  Load : F
  deriving DecidableEq, Inhabited

structure PowerSystem (F : Type) where
  MaxCapacity : F
  CurrentCapacity : F
  Generation : F
  Consumption : F
  Breakers : List (String × Breaker F)
  deriving DecidableEq, Inhabited

structure Compartment (F : Type) where
  ID : String
  MaxPressure : F
  Pressure : F
  MaxOxygen : F
  Oxygen : F
  Temperature : F
  OnFire : Bool
  Breached : Bool
  deriving DecidableEq, Inhabited

structure LifeSupportSystem (F : Type) where
  Compartments : List (String × Compartment F)
  deriving DecidableEq, Inhabited

structure CrewMember (F : Type) where
  Role : String
  Health : F
  Status : String
  deriving DecidableEq, Inhabited

structure Ship (F : Type) where
  ID : String
  ClassID : String
  Name : String
  IsPlayer : Bool
  Position : Vector3 F
  Velocity : Vector3 F
  Rotation : Quaternion F
  AngularVelocity : Vector3 F
  Mass : F
  MaxSpeed : F
  Acceleration : F
  TurnRate : F
  Engines : List (String × Engine F)
  Weapons : List (String × Weapon F)
  Shields : ShieldSystem F
  Hull : HullSystem F
  Subsystems : List (String × Subsystem F)
  LaunchBays : List (String × LaunchBay F)
  Power : PowerSystem F
  LifeSupport : LifeSupportSystem F
  Crew : List (String × CrewMember F)
  TargetID : String
  Docked : Bool
  deriving DecidableEq, Inhabited

/-! ## Ship configuration (`config.go`, lines 32-100) -/

structure EngineConfig (F : Type) where
  ID : String
  Type_ : String
  Thrust : F
  Health : F
  PowerDraw : F
  deriving DecidableEq, Inhabited

structure WeaponConfig (F : Type) where
  ID : String
  Type_ : String
  Damage : F
  Range : F
  CooldownTime : F
  Health : F
  PowerDraw : F
  AmmoCapacity : Int
  deriving DecidableEq, Inhabited

structure EmitterConfig (F : Type) where
  ID : String
  Facing : String
  Strength : F
  Health : F
  deriving DecidableEq, Inhabited

structure ShieldConfig (F : Type) where
  Emitters : List (EmitterConfig F)
  RechargeRate : F
  PowerDraw : F
  deriving DecidableEq, Inhabited

structure HullSectionConfig (F : Type) where
  ID : String
  Armor : F
  Health : F
  deriving DecidableEq, Inhabited

structure HullConfig (F : Type) where
  Sections : List (HullSectionConfig F)
  deriving DecidableEq, Inhabited

structure SubsystemConfig (F : Type) where
  ID : String
  Type_ : String
  Health : F
  PowerDraw : F
  deriving DecidableEq, Inhabited

structure LaunchBayConfig (F : Type) where
  ID : String
  Capacity : Int
  Health : F
  deriving DecidableEq, Inhabited

structure ShipClass (F : Type) where
  ID : String
  Name : String
  Mass : F
  MaxSpeed : F
  Acceleration : F
  TurnRate : F
  Engines : List (EngineConfig F)
  Weapons : List (WeaponConfig F)
  Shields : ShieldConfig F
  Hull : HullConfig F
  Subsystems : List (SubsystemConfig F)
  LaunchBays : List (LaunchBayConfig F)
  deriving DecidableEq, Inhabited

/-! ## `NewShip` (`ship.go`, lines 166-302) -/

/-- The five compartments every ship is built with. -/
def compartmentNames : List String :=
  ["bridge", "engineering", "weapons_bay", "crew_quarters", "cargo_bay"]

/-- The eight crew roles of a player ship. -/
def crewRoles : List String :=
  ["engineer", "flight", "weapons", "captain", "comms", "operations", "relay", "first_officer"]

/-- Constructor `NewShip(id, classID, name, class, isPlayer)`. -/
def NewShip (id classID name : String) (cls : ShipClass F) (isPlayer : Bool) : Ship F :=
  { ID := id
    ClassID := classID
    Name := name
    IsPlayer := isPlayer
    Position := ⟨0, 0, 0⟩
    Velocity := ⟨0, 0, 0⟩
    Rotation := ⟨1, 0, 0, 0⟩
    AngularVelocity := ⟨0, 0, 0⟩
    Mass := cls.Mass
    MaxSpeed := cls.MaxSpeed
    Acceleration := cls.Acceleration
    TurnRate := cls.TurnRate
    Engines := cls.Engines.foldl (fun m c => mapSet m c.ID
      { ID := c.ID, Type_ := c.Type_, Thrust := c.Thrust, MaxHealth := c.Health,
        Health := c.Health, Enabled := true, PowerDraw := c.PowerDraw, OnFire := false }) []
    Weapons := cls.Weapons.foldl (fun m c => mapSet m c.ID
      { ID := c.ID, Type_ := c.Type_, Damage := c.Damage, Range := c.Range,
        CooldownTime := c.CooldownTime, Cooldown := 0, MaxHealth := c.Health,
        Health := c.Health, Enabled := true, PowerDraw := c.PowerDraw, OnFire := false,
        Armed := false, Loaded := false, Locked := false,
        AmmoCapacity := c.AmmoCapacity, AmmoCount := c.AmmoCapacity }) []
    Shields :=
      { Emitters := cls.Shields.Emitters.foldl (fun m c => mapSet m c.ID
          { ID := c.ID, Facing := c.Facing, MaxStrength := c.Strength, Strength := c.Strength,
            MaxHealth := c.Health, Health := c.Health, OnFire := false }) []
        RechargeRate := cls.Shields.RechargeRate
        PowerDraw := cls.Shields.PowerDraw
        Enabled := true }
    Hull :=
      { Sections := cls.Hull.Sections.foldl (fun m c => mapSet m c.ID
          { ID := c.ID, MaxArmor := c.Armor, Armor := c.Armor, MaxHealth := c.Health,
            Health := c.Health, Breached := false, OnFire := false }) [] }
    Subsystems := cls.Subsystems.foldl (fun m c => mapSet m c.ID
      { ID := c.ID, Type_ := c.Type_, MaxHealth := c.Health, Health := c.Health,
        Enabled := true, PowerDraw := c.PowerDraw, OnFire := false }) []
    LaunchBays := cls.LaunchBays.foldl (fun m c => mapSet m c.ID
      { ID := c.ID, Capacity := c.Capacity, Current := c.Capacity, MaxHealth := c.Health,
        Health := c.Health, OnFire := false }) []
    Power :=
      { MaxCapacity := 10000, CurrentCapacity := 10000, Generation := 1000,
        Consumption := 0, Breakers := [] }
    LifeSupport :=
      { Compartments := compartmentNames.foldl (fun m name => mapSet m name
          { ID := name, MaxPressure := 1013 / 10, Pressure := 1013 / 10, MaxOxygen := 21,
            Oxygen := 21, Temperature := 20, OnFire := false, Breached := false }) [] }
    Crew :=
      if isPlayer then
        crewRoles.foldl (fun m role => mapSet m role
          { Role := role, Health := 100, Status := "healthy" }) []
      else []
    TargetID := ""
    Docked := false }

/-! ## `Ship.FireWeapon` (`ship.go`, lines 528-551) -/

/-- Method `FireWeapon(weaponID, targetID)`: the ship afterwards and the
returned flag. -/
def FireWeapon (s : Ship F) (weaponID targetID : String) : (Ship F) × Bool :=
  match mapGet s.Weapons weaponID with
  | none => (s, false)
  | some weapon =>
    if weapon.Health ≤ 0 ∨ weapon.Cooldown > 0 then (s, false)
    else if weapon.Type_ = "torpedo" then
      if weapon.Armed = false ∨ weapon.Loaded = false ∨ weapon.Locked = false then (s, false)
      else if weapon.AmmoCount ≤ 0 then (s, false)
      else
        ({ s with
            Weapons := mapSet s.Weapons weaponID
              { weapon with
                AmmoCount := weapon.AmmoCount - 1
                Loaded := false
                Cooldown := weapon.CooldownTime }
            TargetID := targetID }, true)
    else
      ({ s with
          Weapons := mapSet s.Weapons weaponID { weapon with Cooldown := weapon.CooldownTime }
          TargetID := targetID }, true)

/-! ## `Ship.TakeDamage` (`ship.go`, lines 553-587) -/

/-- Lines 557-559: an empty location means `forward`. -/
def defaultLocation (location : String) : String :=
  if location = "" then "forward" else location

/-- Lines 575-585: the update of one hull section that `amount` reaches. -/
def damageSection (sec : HullSection F) (amount : F) : HullSection F :=
  let armor :=
    if sec.Armor > 0 then
      (if sec.Armor - amount * (1 / 2) < 0 then 0 else sec.Armor - amount * (1 / 2))
    else sec.Armor
  let health := sec.Health - amount
  if health ≤ 0 then
    { sec with Armor := armor, Health := 0, Breached := true }
  else
    { sec with Armor := armor, Health := health }

/-- Lines 573-586: the hull part of `TakeDamage`, at an already defaulted
location. -/
def damageHull (s : Ship F) (amount : F) (location : String) : Ship F :=
  match mapGet s.Hull.Sections location with
  | some sec =>
    { s with Hull := { s.Hull with
        Sections := mapSet s.Hull.Sections location (damageSection sec amount) } }
  | none => s

/-- Method `TakeDamage(amount, location)`. -/
def TakeDamage (s : Ship F) (amount : F) (location : String) : Ship F :=
  let location := defaultLocation location
  match mapGet s.Shields.Emitters location with
  | some emitter =>
    if emitter.Strength > 0 then
      if emitter.Strength - amount < 0 then
        let overflow := -(emitter.Strength - amount)
        damageHull
          { s with Shields := { s.Shields with
              Emitters := mapSet s.Shields.Emitters location { emitter with Strength := 0 } } }
          overflow location
      else
        { s with Shields := { s.Shields with
            Emitters := mapSet s.Shields.Emitters location
              { emitter with Strength := emitter.Strength - amount } } }
    else damageHull s amount location
  | none => damageHull s amount location

/-! ## Scenario ships (`ship_test.go`) -/

/-- Ship class of `TestShipDamage`: one emitter and one hull section, both
named `forward`. -/
def damageTestClass : ShipClass ℚ :=
  { ID := "test_ship", Name := "Test Ship", Mass := 100000, MaxSpeed := 200,
    Acceleration := 50, TurnRate := 1,
    Engines := [], Weapons := [],
    Shields := { RechargeRate := 10, PowerDraw := 100,
                 Emitters := [{ ID := "forward", Facing := "forward", Strength := 500,
                                Health := 100 }] },
    Hull := { Sections := [{ ID := "forward", Armor := 200, Health := 500 }] },
    Subsystems := [], LaunchBays := [] }

/-- Ship of `TestShipDamage`. -/
def damageTestShip : Ship ℚ := NewShip "ship_1" "test_ship" "Test Ship" damageTestClass false

/-- Ship class of `TestShipWeaponFire`: one torpedo tube with ten rounds. -/
def torpedoTestClass : ShipClass ℚ :=
  { ID := "test_ship", Name := "Test Ship", Mass := 100000, MaxSpeed := 200,
    Acceleration := 50, TurnRate := 1,
    Engines := [],
    Weapons := [{ ID := "torpedo_1", Type_ := "torpedo", Damage := 100, Range := 5000,
                  CooldownTime := 5, Health := 100, PowerDraw := 20, AmmoCapacity := 10 }],
    Shields := { RechargeRate := 0, PowerDraw := 0, Emitters := [] },
    Hull := { Sections := [] },
    Subsystems := [], LaunchBays := [] }

/-- The torpedo tube of `TestShipWeaponFire` once the test has set
`Armed`, `Loaded` and `Locked`. -/
def readyTorpedo : Weapon ℚ :=
  { ID := "torpedo_1", Type_ := "torpedo", Damage := 100, Range := 5000, CooldownTime := 5,
    Cooldown := 0, MaxHealth := 100, Health := 100, Enabled := true, PowerDraw := 20,
    OnFire := false, Armed := true, Loaded := true, Locked := true,
    AmmoCapacity := 10, AmmoCount := 10 }

/-- Ship of `TestShipWeaponFire` with its tube armed, loaded and locked. -/
def torpedoTestShip : Ship ℚ :=
  let s := NewShip "ship_1" "test_ship" "Test Ship" torpedoTestClass false
  { s with Weapons := mapSet s.Weapons "torpedo_1" readyTorpedo }

/-- Ship class of `TestShipWeaponFire` with `cooldown_time: -1` in its class
file (the loader accepts any number). -/
def negativeCooldownClass : ShipClass ℚ :=
  { torpedoTestClass with
    Weapons := [{ ID := "torpedo_1", Type_ := "torpedo", Damage := 100, Range := 5000,
                  CooldownTime := -1, Health := 100, PowerDraw := 20, AmmoCapacity := 10 }] }

/-- The tube of that class after one shot and a reload. -/
def reloadedTorpedo : Weapon ℚ :=
  { ID := "torpedo_1", Type_ := "torpedo", Damage := 100, Range := 5000, CooldownTime := -1,
    Cooldown := -1, MaxHealth := 100, Health := 100, Enabled := true, PowerDraw := 20,
    OnFire := false, Armed := true, Loaded := true, Locked := true,
    AmmoCapacity := 10, AmmoCount := 9 }

/-- A ship of that class whose tube was armed, loaded and locked, fired once
with `FireWeapon`, and loaded again (`Loaded = true`, as the load action sets
it while rounds remain). -/
def negativeCooldownShip : Ship ℚ :=
  let s0 := NewShip "ship_1" "test_ship" "Test Ship" negativeCooldownClass false
  let tube : Weapon ℚ := { readyTorpedo with CooldownTime := -1 }
  let s1 := { s0 with Weapons := mapSet s0.Weapons "torpedo_1" tube }
  let s2 := (FireWeapon s1 "torpedo_1" "target_1").1
  match mapGet s2.Weapons "torpedo_1" with
  | some w =>
    if w.AmmoCount ≤ 0 then s2
    else { s2 with Weapons := mapSet s2.Weapons "torpedo_1" { w with Loaded := true } }
  | none => s2

/-! ## Pointers and heaps

Ships, projectiles, objects, attribute bags and the three registries are
reached through pointers that several owners may hold at once (the live
simulator and its snapshots).  A heap is a store of cells with a bump
allocator; an address is a cell number. -/

abbrev Addr := Nat

structure Heap (α : Type) where
  next : Addr
  cell : Addr → α

/-- Heap with nothing allocated. -/
def Heap.empty {α : Type} [Inhabited α] : Heap α :=
  { next := 0, cell := fun _ => default }

/-- Allocate a fresh cell holding `v`; its address is the old `next`. -/
def Heap.alloc {α : Type} (h : Heap α) (v : α) : Heap α :=
  { next := h.next + 1, cell := Function.update h.cell h.next v }

/-- Store `v` through the pointer `a`. -/
def Heap.write {α : Type} (h : Heap α) (a : Addr) (v : α) : Heap α :=
  { h with cell := Function.update h.cell a v }

/-! ## Simulator data model (`simulator.go`, lines 12-61; `ai.go`, lines 10-25) -/

structure Projectile (F : Type) where
  ID : String
  Type_ : String
  Position : Vector3 F
  Velocity : Vector3 F
  Damage : F
  SourceID : String
  TargetID : String
  Lifetime : F
  MaxLifetime : F
  deriving DecidableEq, Inhabited

/-- A value of an attribute bag (`interface{}` in the source). -/
inductive Value (F : Type) where
  | str (s : String)
  | num (q : F)
  | flag (b : Bool)
  deriving DecidableEq, Inhabited

/-- Object of the world; `Data` is the pointer to its attribute bag. -/
structure Object (F : Type) where
  ID : String
  Type_ : String
  Position : Vector3 F
  Velocity : Vector3 F
  Rotation : Quaternion F
  Data : Addr
  deriving DecidableEq, Inhabited

/-- Snapshot; the three registries are pointers to map objects. -/
structure Snapshot (F : Type) where
  Time : F
  Ships : Addr
  Projectiles : Addr
  Objects : Addr
  deriving DecidableEq, Inhabited

structure Controller (F : Type) where
  State : String
  TargetID : String
  Difficulty : F
  AggressionLevel : F
  TacticalMode : String
  deriving DecidableEq, Inhabited

/-- Constructor `ai.NewController()`. -/
def NewController : Controller F :=
  { State := "patrol", TargetID := "", Difficulty := 1, AggressionLevel := 1 / 2,
    TacticalMode := "balanced" }

/-- Everything the simulator and its snapshots can point to. -/
structure Memory (F : Type) where
  ships : Heap (Ship F)
  projectiles : Heap (Projectile F)
  objects : Heap (Object F)
  bags : Heap (List (String × Value F))
  shipMaps : Heap (List (String × Addr))
  projectileMaps : Heap (List (String × Addr))
  objectMaps : Heap (List (String × Addr))

/-- The simulator: `Ships`, `Projectiles` and `Objects` are pointers to the
live registries; `mem` is the memory they and the snapshots point into. -/
structure Simulator (F : Type) where
  tickRate : Int
  dt : F
  running : Bool
  paused : Bool
  Ships : Addr
  Projectiles : Addr
  Objects : Addr
  ShipClasses : List (String × ShipClass F)
  AIControllers : List (String × Controller F)
  CurrentTime : F
  Snapshots : List (Snapshot F)
  SnapshotIndex : Int
  mem : Memory F

/-- Constructor `NewSimulator(tickRate, shipClasses)`: three empty registries
are made. -/
def NewSimulator (tickRate : Int) (shipClasses : List (String × ShipClass F)) : Simulator F :=
  { tickRate := tickRate
    dt := 1 / (tickRate : F)
    running := false
    paused := false
    Ships := 0
    Projectiles := 0
    Objects := 0
    ShipClasses := shipClasses
    AIControllers := []
    CurrentTime := 0
    Snapshots := []
    SnapshotIndex := 0
    mem :=
      { ships := Heap.empty
        projectiles := Heap.empty
        objects := Heap.empty
        bags := Heap.empty
        shipMaps := (Heap.empty : Heap (List (String × Addr))).alloc []
        projectileMaps := (Heap.empty : Heap (List (String × Addr))).alloc []
        objectMaps := (Heap.empty : Heap (List (String × Addr))).alloc [] } }

/-! ## Registry operations (`simulator.go`, lines 208-289) -/

/-- Method `SpawnShip`; the returned error is always nil and is not modelled. -/
def SpawnShip (s : Simulator F) (id classID name : String) (isPlayer : Bool)
    (position : Vector3 F) : Simulator F :=
  match mapGet s.ShipClasses classID with
  | none => s
  | some cls =>
    let sh := { NewShip id classID name cls isPlayer with Position := position }
    let a := s.mem.ships.next
    let mem1 := { s.mem with ships := s.mem.ships.alloc sh }
    let mem2 := { mem1 with
      shipMaps := mem1.shipMaps.write s.Ships (mapSet (mem1.shipMaps.cell s.Ships) id a) }
    { s with
      mem := mem2
      AIControllers :=
        if isPlayer = false then mapSet s.AIControllers id NewController else s.AIControllers }

/-- Method `RemoveShip`. -/
def RemoveShip (s : Simulator F) (id : String) : Simulator F :=
  { s with
    mem := { s.mem with
      shipMaps := s.mem.shipMaps.write s.Ships (mapDelete (s.mem.shipMaps.cell s.Ships) id) }
    AIControllers := mapDelete s.AIControllers id }

/-- Method `SpawnProjectile`. -/
def SpawnProjectile (s : Simulator F) (id projType sourceID targetID : String)
    (position velocity : Vector3 F) (damage : F) : Simulator F :=
  let proj : Projectile F :=
    { ID := id, Type_ := projType, Position := position, Velocity := velocity,
      Damage := damage, SourceID := sourceID, TargetID := targetID, Lifetime := 0,
      MaxLifetime := 10 }
  let a := s.mem.projectiles.next
  let mem1 := { s.mem with projectiles := s.mem.projectiles.alloc proj }
  { s with mem := { mem1 with
      projectileMaps := mem1.projectileMaps.write s.Projectiles
        (mapSet (mem1.projectileMaps.cell s.Projectiles) id a) } }

/-- Method `SpawnObject`. -/
def SpawnObject (s : Simulator F) (id objType : String) (position : Vector3 F) : Simulator F :=
  let bag := s.mem.bags.next
  let mem1 := { s.mem with bags := s.mem.bags.alloc [] }
  let obj : Object F :=
    { ID := id, Type_ := objType, Position := position, Velocity := ⟨0, 0, 0⟩,
      Rotation := ⟨1, 0, 0, 0⟩, Data := bag }
  let a := mem1.objects.next
  let mem2 := { mem1 with objects := mem1.objects.alloc obj }
  { s with mem := { mem2 with
      objectMaps := mem2.objectMaps.write s.Objects
        (mapSet (mem2.objectMaps.cell s.Objects) id a) } }

/-- Method `RemoveObject`. -/
def RemoveObject (s : Simulator F) (id : String) : Simulator F :=
  { s with mem := { s.mem with
      objectMaps := s.mem.objectMaps.write s.Objects
        (mapDelete (s.mem.objectMaps.cell s.Objects) id) } }

/-- Method `GetShip`: the pointer stored under `id`, `none` for nil. -/
def GetShip (s : Simulator F) (id : String) : Option Addr :=
  mapGet (s.mem.shipMaps.cell s.Ships) id

/-! ## Snapshots (`simulator.go`, lines 302-360) -/

/-- Method `copyShips`: a new map with the same pointers; the result is the
memory after the allocation and the pointer to the new map. -/
def copyShips (s : Simulator F) : (Memory F) × Addr :=
  let ships := (s.mem.shipMaps.cell s.Ships).foldl (fun m e => mapSet m e.1 e.2) []
  ({ s.mem with shipMaps := s.mem.shipMaps.alloc ships }, s.mem.shipMaps.next)

/-- Loop shared by `copyProjectiles` and `copyObjects`
(`xCopy := *v; m[k] = &xCopy`): every pointed-to struct is copied into a new
cell and the new map records the pointer to the copy. -/
def copyCellsLoop {α : Type} (entries : List (String × Addr)) (h : Heap α)
    (m : List (String × Addr)) : Heap α × List (String × Addr) :=
  entries.foldl
    (fun acc e =>
      let cellCopy := acc.1.cell e.2
      (acc.1.alloc cellCopy, mapSet acc.2 e.1 acc.1.next))
    (h, m)

/-- Method `copyProjectiles`, run in memory `mem`. -/
def copyProjectiles (s : Simulator F) (mem : Memory F) : (Memory F) × Addr :=
  let r := copyCellsLoop (mem.projectileMaps.cell s.Projectiles) mem.projectiles []
  ({ mem with projectiles := r.1, projectileMaps := mem.projectileMaps.alloc r.2 },
    mem.projectileMaps.next)

/-- Method `copyObjects`, run in memory `mem`; a copied object holds the same
`Data` pointer as the original. -/
def copyObjects (s : Simulator F) (mem : Memory F) : (Memory F) × Addr :=
  let r := copyCellsLoop (mem.objectMaps.cell s.Objects) mem.objects []
  ({ mem with objects := r.1, objectMaps := mem.objectMaps.alloc r.2 },
    mem.objectMaps.next)

/-- Method `CreateSnapshot`. -/
def CreateSnapshot (s : Simulator F) : Simulator F :=
  let r1 := copyShips s
  let r2 := copyProjectiles s r1.1
  let r3 := copyObjects s r2.1
  let snapshot : Snapshot F :=
    { Time := s.CurrentTime, Ships := r1.2, Projectiles := r2.2, Objects := r3.2 }
  { s with mem := r3.1, Snapshots := s.Snapshots ++ [snapshot] }

/-- Method `RestoreSnapshot`; the returned error is always nil and is not
modelled. -/
def RestoreSnapshot (s : Simulator F) (index : Int) : Simulator F :=
  if index < 0 ∨ index ≥ (s.Snapshots.length : Int) then s
  else
    match s.Snapshots.get? index.toNat with
    | none => s
    | some snapshot =>
      { s with
        CurrentTime := snapshot.Time
        Ships := snapshot.Ships
        Projectiles := snapshot.Projectiles
        Objects := snapshot.Objects }

/-! ## Mutation of a live ship through its pointer (`gm.go`, lines 127-137) -/

/-- Method `gm.Controller.DamageShip`: `TakeDamage` on the ship `GetShip`
returns. -/
def DamageShip (s : Simulator F) (shipID : String) (amount : F) (location : String) :
    (Simulator F) :=
  match GetShip s shipID with
  | none => s
  | some a =>
    { s with mem := { s.mem with
        ships := s.mem.ships.write a (TakeDamage (s.mem.ships.cell a) amount location) } }

/-! ## What a registry holds -/

/-- Object together with the contents of its attribute bag. -/
structure ObjectRecord (F : Type) where
  ID : String
  Type_ : String
  Position : Vector3 F
  Velocity : Vector3 F
  Rotation : Quaternion F
  Data : List (String × Value F)
  deriving DecidableEq

/-- Ships recorded in the ship registry at `m`, by id. -/
def shipsAt (mem : Memory F) (m : Addr) : List (String × Ship F) :=
  (mem.shipMaps.cell m).map (fun e => (e.1, mem.ships.cell e.2))

/-- Projectiles recorded in the projectile registry at `m`, by id. -/
def projectilesAt (mem : Memory F) (m : Addr) : List (String × Projectile F) :=
  (mem.projectileMaps.cell m).map (fun e => (e.1, mem.projectiles.cell e.2))

/-- Contents of an object, its attribute bag included. -/
def objectRecord (mem : Memory F) (o : Object F) : ObjectRecord F :=
  { ID := o.ID, Type_ := o.Type_, Position := o.Position, Velocity := o.Velocity,
    Rotation := o.Rotation, Data := mem.bags.cell o.Data }

/-- Objects recorded in the object registry at `m`, by id. -/
def objectsAt (mem : Memory F) (m : Addr) : List (String × ObjectRecord F) :=
  (mem.objectMaps.cell m).map (fun e => (e.1, objectRecord mem (mem.objects.cell e.2)))

/-- Structural content of a world: time, ships, projectiles and objects. -/
structure WorldRecord (F : Type) where
  Time : F
  Ships : List (String × Ship F)
  Projectiles : List (String × Projectile F)
  Objects : List (String × ObjectRecord F)
  deriving DecidableEq

/-- Content of the live world. -/
def worldRecord (s : Simulator F) : WorldRecord F :=
  { Time := s.CurrentTime
    Ships := shipsAt s.mem s.Ships
    Projectiles := projectilesAt s.mem s.Projectiles
    Objects := objectsAt s.mem s.Objects }

/-- Content of a snapshot, read in memory `mem`. -/
def snapshotRecord (mem : Memory F) (snap : Snapshot F) : WorldRecord F :=
  { Time := snap.Time
    Ships := shipsAt mem snap.Ships
    Projectiles := projectilesAt mem snap.Projectiles
    Objects := objectsAt mem snap.Objects }

/-- A registry is in order when its keys are distinct, distinct keys hold
distinct pointers, and every pointer is allocated (below `bound`). -/
def registryOK (l : List (String × Addr)) (bound : Addr) : Prop :=
  (mapKeys l).Nodup ∧ (l.map Prod.snd).Nodup ∧ ∀ e ∈ l, e.2 < bound

instance (l : List (String × Addr)) (bound : Addr) : Decidable (registryOK l bound) := by
  unfold registryOK
  infer_instance

/-- A registry heap is well formed when every allocated map is in order. -/
def registriesWF (maps : Heap (List (String × Addr))) (bound : Addr) : Prop :=
  ∀ m, m < maps.next → registryOK (maps.cell m) bound

instance (maps : Heap (List (String × Addr))) (bound : Addr) :
    Decidable (registriesWF maps bound) := by
  unfold registriesWF
  infer_instance

/-- Well-formed simulator state: every pointer held by the simulator, by a
snapshot or by a registry is allocated, and every registry is in order.
`NewSimulator` establishes this and every operation below keeps it (see the
last section). -/
def Simulator.WF (s : Simulator F) : Prop :=
  s.Ships < s.mem.shipMaps.next ∧
  s.Projectiles < s.mem.projectileMaps.next ∧
  s.Objects < s.mem.objectMaps.next ∧
  (∀ snap ∈ s.Snapshots,
    snap.Ships < s.mem.shipMaps.next ∧
    snap.Projectiles < s.mem.projectileMaps.next ∧
    snap.Objects < s.mem.objectMaps.next) ∧
  registriesWF s.mem.shipMaps s.mem.ships.next ∧
  registriesWF s.mem.projectileMaps s.mem.projectiles.next ∧
  registriesWF s.mem.objectMaps s.mem.objects.next

instance (s : Simulator F) : Decidable s.WF := by
  unfold Simulator.WF
  infer_instance

/-! ## Scenario worlds (`simulator_test.go`) -/

/-- World of `TestSnapshotRestore`, with the ship class of `TestShipDamage` so
that the one ship `ship_1` has a shield emitter and a hull section. -/
def snapshotTestSim : Simulator ℚ :=
  SpawnShip (NewSimulator 60 [("test_ship", damageTestClass)])
    "ship_1" "test_ship" "Test Ship" false ⟨100, 0, 0⟩

/-- The same world with a torpedo in flight and a mission object. -/
def busyTestSim : Simulator ℚ :=
  SpawnObject
    (SpawnProjectile snapshotTestSim "torpedo_1" "torpedo" "ship_2" "ship_1"
      ⟨0, 0, 0⟩ ⟨500, 0, 0⟩ 100)
    "beacon_1" "beacon" ⟨10, 20, 30⟩

/-- Strength of the `forward` emitter of the ship recorded under `ship_1` in
a list of ships. -/
def forwardStrengthOf (ships : List (String × Ship F)) : Option F :=
  match mapGet ships "ship_1" with
  | none => none
  | some sh =>
    match mapGet sh.Shields.Emitters "forward" with
    | none => none
    | some e => some e.Strength

/-! ## Collisions and projectiles (`simulator.go`, lines 147-206 and 362-367) -/

/-- Function `distance` of `simulator.go`: the sum of the squared coordinate
differences. -/
def distance (a b : Vector3 F) : F :=
  let dx := a.X - b.X
  let dy := a.Y - b.Y
  let dz := a.Z - b.Z
  dx * dx + dy * dy + dz * dz

/-- Call of the method `TakeDamage` through a ship pointer. -/
def hitShip (h : Heap (Ship F)) (a : Addr) (amount : F) (location : String) : Heap (Ship F) :=
  h.write a (TakeDamage (h.cell a) amount location)

/-- Inner loop of `checkCollisions`: the ship at `a` against every later ship
of the slice. -/
def collideWith (h : Heap (Ship F)) (a : Addr) : List Addr → Heap (Ship F)
  | [] => h
  | b :: rest =>
    let dist := distance (h.cell a).Position (h.cell b).Position
    let h1 := if dist < 100 then hitShip (hitShip h a 10 "forward") b 10 "forward" else h
    collideWith h1 a rest

/-- Outer loop of `checkCollisions` over the slice of ship pointers. -/
def collidePairs (h : Heap (Ship F)) : List Addr → Heap (Ship F)
  | [] => h
  | a :: rest => collidePairs (collideWith h a rest) rest

/-- Method `checkCollisions`: the slice is filled from the live registry. -/
def checkCollisions (s : Simulator F) : Simulator F :=
  let ships := (s.mem.shipMaps.cell s.Ships).map Prod.snd
  { s with mem := { s.mem with ships := collidePairs s.mem.ships ships } }

/-- Body of the loop of `updateProjectiles` for the registry entry `e`; the
state is the ship heap, the projectile heap and `toDelete`. -/
def updateProjectilesStep (s : Simulator F)
    (acc : Heap (Ship F) × Heap (Projectile F) × List String) (e : String × Addr) :
    Heap (Ship F) × Heap (Projectile F) × List String :=
  let proj0 := acc.2.1.cell e.2
  let proj : Projectile F :=
    { proj0 with
      Position :=
        { X := proj0.Position.X + proj0.Velocity.X * s.dt
          Y := proj0.Position.Y + proj0.Velocity.Y * s.dt
          Z := proj0.Position.Z + proj0.Velocity.Z * s.dt }
      Lifetime := proj0.Lifetime + s.dt }
  let projs := acc.2.1.write e.2 proj
  if proj.Lifetime > proj.MaxLifetime then (acc.1, projs, acc.2.2 ++ [e.1])
  else if proj.TargetID ≠ "" then
    match mapGet (s.mem.shipMaps.cell s.Ships) proj.TargetID with
    | some target =>
      if distance proj.Position (acc.1.cell target).Position < 50 then
        (hitShip acc.1 target proj.Damage "forward", projs, acc.2.2 ++ [e.1])
      else (acc.1, projs, acc.2.2)
    | none => (acc.1, projs, acc.2.2)
  else (acc.1, projs, acc.2.2)

/-- Method `updateProjectiles`. -/
def updateProjectiles (s : Simulator F) : Simulator F :=
  let r := (s.mem.projectileMaps.cell s.Projectiles).foldl (updateProjectilesStep s)
    (s.mem.ships, s.mem.projectiles, [])
  let remaining := r.2.2.foldl (fun m id => mapDelete m id)
    (s.mem.projectileMaps.cell s.Projectiles)
  { s with mem := { s.mem with
      ships := r.1
      projectiles := r.2.1
      projectileMaps := s.mem.projectileMaps.write s.Projectiles remaining } }

/-- Number of ships of the slice, other than the one at `a`, whose `distance`
to it is below 100. -/
def closeShips (h : Heap (Ship F)) (ships : List Addr) (a : Addr) : Nat :=
  ships.countP (fun b =>
    decide (b ≠ a ∧ distance (h.cell a).Position (h.cell b).Position < 100))

/-- Hits the pair `(a, b)` gives the ship at `c`. -/
def pairHits (pos : Addr → (Vector3 F)) (a b c : Addr) : Nat :=
  if distance (pos a) (pos b) < 100 then
    (if c = a then 1 else 0) + (if c = b then 1 else 0)
  else 0

/-- Hits the pairs `(a, b)`, `b` in `l`, give the ship at `c`. -/
def innerHits (pos : Addr → (Vector3 F)) (a : Addr) (l : List Addr) (c : Addr) : Nat :=
  (l.map (fun b => pairHits pos a b c)).sum

/-- Hits the pairs visited by the two loops give the ship at `c`. -/
def outerHits (pos : Addr → (Vector3 F)) : List Addr → Addr → Nat
  | [], _ => 0
  | a :: rest, c => innerHits pos a rest c + outerHits pos rest c

/-- Three ships: `ship_1` and `ship_2` at the same place, `ship_3` ten units
away from both. -/
def collisionTestSim : Simulator ℚ :=
  SpawnShip
    (SpawnShip
      (SpawnShip (NewSimulator 60 [("test_ship", damageTestClass)])
        "ship_1" "test_ship" "Test Ship" false ⟨0, 0, 0⟩)
      "ship_2" "test_ship" "Test Ship" false ⟨0, 0, 0⟩)
    "ship_3" "test_ship" "Test Ship" false ⟨10, 0, 0⟩

/-- World of `TestSnapshotRestore` plus a torpedo aimed at `ship_1`, at rest
ten units away from it. -/
def nearMissSim : Simulator ℚ :=
  SpawnProjectile snapshotTestSim "torpedo_1" "torpedo" "ship_2" "ship_1"
    ⟨90, 0, 0⟩ ⟨0, 0, 0⟩ 100

/-! ## Weapon firing: auxiliary notions -/

/-- The refusal condition of `FireWeapon` on a weapon that exists. -/
def refusesToFire (w : Weapon F) : Prop :=
  w.Health ≤ 0 ∨ w.Cooldown > 0 ∨
    (w.Type_ = "torpedo" ∧
      (w.Armed = false ∨ w.Loaded = false ∨ w.Locked = false ∨ w.AmmoCount ≤ 0))

instance (w : Weapon F) : Decidable (refusesToFire w) := by
  unfold refusesToFire
  infer_instance

/-- The weapon after a successful shot: cooldown restarted and, for a
torpedo, one round consumed and the tube unloaded. -/
def firedWeapon (w : Weapon F) : Weapon F :=
  if w.Type_ = "torpedo" then
    { w with AmmoCount := w.AmmoCount - 1, Loaded := false, Cooldown := w.CooldownTime }
  else
    { w with Cooldown := w.CooldownTime }

/-! ## `Ship.Update` (`ship.go`, lines 304-526 and 589-620) -/

/-- The functions of Go's `math` package the source calls.  They are a
parameter of the model: a property below assumes of them only what it states
(for instance that `Sqrt` returns a square root at one given argument). -/
structure MathFns (F : Type) where
  Sqrt : F → F
  Sin : F → F
  Cos : F → F

/-- A loop `for _, x := range m` that updates every value of `m` in place. -/
def mapValues {V : Type} (f : V → V) (m : List (String × V)) : List (String × V) :=
  m.map (fun e => (e.1, f e.2))

/-- Method `getForwardVector`. -/
def getForwardVector (s : Ship F) : Vector3 F :=
  { X := 2 * (s.Rotation.X * s.Rotation.Z + s.Rotation.W * s.Rotation.Y)
    Y := 2 * (s.Rotation.Y * s.Rotation.Z - s.Rotation.W * s.Rotation.X)
    Z := 1 - 2 * (s.Rotation.X * s.Rotation.X + s.Rotation.Y * s.Rotation.Y) }

/-- Function `axisAngleToQuaternion`. -/
def axisAngleToQuaternion (m : MathFns F) (axis : Vector3 F) (angle : F) : Quaternion F :=
  let halfAngle := angle * (1 / 2)
  let sn := m.Sin halfAngle
  { W := m.Cos halfAngle
    X := axis.X * sn
    Y := axis.Y * sn
    Z := axis.Z * sn }

/-- Function `multiplyQuaternions`. -/
def multiplyQuaternions (q1 q2 : Quaternion F) : Quaternion F :=
  { W := q1.W * q2.W - q1.X * q2.X - q1.Y * q2.Y - q1.Z * q2.Z
    X := q1.W * q2.X + q1.X * q2.W + q1.Y * q2.Z - q1.Z * q2.Y
    Y := q1.W * q2.Y - q1.X * q2.Z + q1.Y * q2.W + q1.Z * q2.X
    Z := q1.W * q2.Z + q1.X * q2.Y - q1.Y * q2.X + q1.Z * q2.W }

/-- Function `normalizeQuaternion`. -/
def normalizeQuaternion (m : MathFns F) (q : Quaternion F) : Quaternion F :=
  let mag := m.Sqrt (q.W * q.W + q.X * q.X + q.Y * q.Y + q.Z * q.Z)
  if mag < 1 / 10000 then { W := 1, X := 0, Y := 0, Z := 0 }
  else { W := q.W / mag, X := q.X / mag, Y := q.Y / mag, Z := q.Z / mag }

/-- Lines 317-324: the thrust summed over the engines that are enabled and
have health above 0. -/
def totalThrust (engines : List (String × Engine F)) : F :=
  engines.foldl
    (fun total e =>
      if e.2.Enabled = true ∧ e.2.Health > 0 then
        let thrustFactor := e.2.Health / e.2.MaxHealth
        let thrust := e.2.Thrust * thrustFactor
        total + thrust
      else total)
    0

/-- Lines 326-346: the velocity after thrust and drag, before the speed
clamp. -/
def draggedVelocity (s : Ship F) (dt : F) : Vector3 F :=
  let totalThrustZ := totalThrust s.Engines
  let forward := getForwardVector s
  let thrustWorld : Vector3 F :=
    { X := forward.X * totalThrustZ, Y := forward.Y * totalThrustZ,
      Z := forward.Z * totalThrustZ }
  let accel : Vector3 F :=
    { X := thrustWorld.X / s.Mass, Y := thrustWorld.Y / s.Mass, Z := thrustWorld.Z / s.Mass }
  let drag : F := 98 / 100
  { X := (s.Velocity.X + accel.X * dt) * drag
    Y := (s.Velocity.Y + accel.Y * dt) * drag
    Z := (s.Velocity.Z + accel.Z * dt) * drag }

/-- Lines 348-354: the speed clamp. -/
def clampSpeed (m : MathFns F) (v : Vector3 F) (maxSpeed : F) : Vector3 F :=
  let speed := m.Sqrt (v.X * v.X + v.Y * v.Y + v.Z * v.Z)
  if speed > maxSpeed then
    let scale := maxSpeed / speed
    { X := v.X * scale, Y := v.Y * scale, Z := v.Z * scale }
  else v

/-- Lines 360-363: the angular velocity after the rotational drag. -/
def draggedAngularVelocity (angularVelocity : Vector3 F) : Vector3 F :=
  let rotDrag : F := 95 / 100
  { X := angularVelocity.X * rotDrag, Y := angularVelocity.Y * rotDrag,
    Z := angularVelocity.Z * rotDrag }

/-- Lines 365-367: the angle turned in the tick. -/
def turnAngle (m : MathFns F) (w : Vector3 F) (dt : F) : F :=
  m.Sqrt (w.X * w.X + w.Y * w.Y + w.Z * w.Z) * dt

/-- Lines 369-375: the rotation turned by `angle` about `w / angle`, before it
is normalized. -/
def turnedRotation (m : MathFns F) (w : Vector3 F) (angle : F) (rotation : Quaternion F) :
    Quaternion F :=
  let axis : Vector3 F := { X := w.X / angle, Y := w.Y / angle, Z := w.Z / angle }
  let deltaQ := axisAngleToQuaternion m axis angle
  multiplyQuaternions deltaQ rotation

/-- Lines 360-377: angular drag and the integration of the rotation; the
result is the new angular velocity and the new rotation. -/
def integrateRotation (m : MathFns F) (angularVelocity : Vector3 F) (rotation : Quaternion F)
    (dt : F) : Vector3 F × Quaternion F :=
  let w := draggedAngularVelocity angularVelocity
  let angle := turnAngle m w dt
  if angle > 1 / 1000 then (w, normalizeQuaternion m (turnedRotation m w angle rotation))
  else (w, rotation)

/-- Method `updatePhysics`. -/
def updatePhysics (m : MathFns F) (s : Ship F) (dt : F) : Ship F :=
  let velocity := clampSpeed m (draggedVelocity s dt) s.MaxSpeed
  let position : Vector3 F :=
    { X := s.Position.X + velocity.X * dt
      Y := s.Position.Y + velocity.Y * dt
      Z := s.Position.Z + velocity.Z * dt }
  let r := integrateRotation m s.AngularVelocity s.Rotation dt
  { s with Velocity := velocity, Position := position, AngularVelocity := r.1,
           Rotation := r.2 }

/-- Lines 381-399: the consumption summed in the order of the source: engines,
weapons, the shield system, subsystems. -/
def powerConsumption (s : Ship F) : F :=
  let c1 := s.Engines.foldl
    (fun c e => if e.2.Enabled = true then c + e.2.PowerDraw else c) 0
  let c2 := s.Weapons.foldl
    (fun c e => if e.2.Enabled = true then c + e.2.PowerDraw else c) c1
  let c3 := if s.Shields.Enabled = true then c2 + s.Shields.PowerDraw else c2
  s.Subsystems.foldl
    (fun c e => if e.2.Enabled = true then c + e.2.PowerDraw else c) c3

/-- Method `updatePower`. -/
def updatePower (s : Ship F) (dt : F) : Ship F :=
  let consumption := powerConsumption s
  let c1 := s.Power.CurrentCapacity + (s.Power.Generation - consumption) * dt
  let c2 := if c1 > s.Power.MaxCapacity then s.Power.MaxCapacity else c1
  let c3 := if c2 < 0 then 0 else c2
  { s with Power := { s.Power with Consumption := consumption, CurrentCapacity := c3 } }

/-- Lines 418-423: the recharge of one emitter. -/
def rechargeEmitter (rechargeRate dt : F) (emitter : ShieldEmitter F) : ShieldEmitter F :=
  if emitter.Health > 0 ∧ emitter.Strength < emitter.MaxStrength then
    let strength := emitter.Strength + rechargeRate * dt
    if strength > emitter.MaxStrength then { emitter with Strength := emitter.MaxStrength }
    else { emitter with Strength := strength }
  else emitter

/-- Method `updateShields`. -/
def updateShields (s : Ship F) (dt : F) : Ship F :=
  if s.Shields.Enabled = false then s
  else
    { s with Shields := { s.Shields with
        Emitters := mapValues (rechargeEmitter s.Shields.RechargeRate dt) s.Shields.Emitters } }

/-- Lines 429-434: the cooldown of one weapon. -/
def coolWeapon (dt : F) (weapon : Weapon F) : Weapon F :=
  if weapon.Cooldown > 0 then
    let cooldown := weapon.Cooldown - dt
    if cooldown < 0 then { weapon with Cooldown := 0 } else { weapon with Cooldown := cooldown }
  else weapon

/-- Method `updateWeapons`. -/
def updateWeapons (s : Ship F) (dt : F) : Ship F :=
  { s with Weapons := mapValues (coolWeapon dt) s.Weapons }

/-- Lines 441-444 and their four repetitions: the health left by a fire. -/
def burn (dt : F) (onFire : Bool) (health : F) : F :=
  if onFire = true then
    (if health - 5 * dt < 0 then 0 else health - 5 * dt)
  else health

/-- Method `updateDamage`. -/
def updateDamage (s : Ship F) (dt : F) : Ship F :=
  { s with
    Engines := mapValues (fun e => { e with Health := burn dt e.OnFire e.Health }) s.Engines
    Weapons := mapValues (fun w => { w with Health := burn dt w.OnFire w.Health }) s.Weapons
    Shields := { s.Shields with
      Emitters := mapValues (fun e => { e with Health := burn dt e.OnFire e.Health })
        s.Shields.Emitters }
    Hull := { s.Hull with
      Sections := mapValues (fun c => { c with Health := burn dt c.OnFire c.Health })
        s.Hull.Sections }
    Subsystems :=
      mapValues (fun b => { b with Health := burn dt b.OnFire b.Health }) s.Subsystems }

/-- Lines 487-500: one compartment. -/
def updateCompartment (dt : F) (comp : Compartment F) : Compartment F :=
  let c1 : Compartment F :=
    if comp.Breached = true then
      let pressure := comp.Pressure - 10 * dt
      let oxygen := comp.Oxygen - 2 * dt
      { comp with
        Pressure := if pressure < 0 then 0 else pressure
        Oxygen := if oxygen < 0 then 0 else oxygen }
    else comp
  if c1.OnFire = true then
    { c1 with Oxygen := c1.Oxygen - (1 / 2) * dt, Temperature := c1.Temperature + 10 * dt }
  else c1

/-- Method `updateLifeSupport`. -/
def updateLifeSupport (s : Ship F) (dt : F) : Ship F :=
  { s with LifeSupport := { s.LifeSupport with
      Compartments := mapValues (updateCompartment dt) s.LifeSupport.Compartments } }

/-- Method `Update`: the six phases in the order of the source. -/
def Update (m : MathFns F) (s : Ship F) (dt : F) : Ship F :=
  updateLifeSupport
    (updateDamage (updateWeapons (updateShields (updatePower (updatePhysics m s dt) dt) dt) dt) dt)
    dt

/-- Method `ApplyThrust`: the body is empty. -/
def ApplyThrust (s : Ship F) (_x _y _z : F) : Ship F := s

/-- Method `ApplyRotation`. -/
def ApplyRotation (s : Ship F) (pitch yaw roll : F) : Ship F :=
  { s with AngularVelocity :=
      { X := s.AngularVelocity.X + pitch * s.TurnRate
        Y := s.AngularVelocity.Y + yaw * s.TurnRate
        Z := s.AngularVelocity.Z + roll * s.TurnRate } }

/-! ## Scenarios for `Ship.Update` -/

/-- A `math` package on the rationals, for running scenarios: Heron's first
step from 1 for the square root (exact at 0 and at 1, never below the root) and
the first terms of the series for sine and cosine. -/
def testMath : MathFns ℚ :=
  { Sqrt := fun x => if x = 0 then 0 else (x + 1) / 2
    Sin := fun x => x
    Cos := fun x => 1 - x * x / 2 }

/-- The ship of `TestShipDamage` with its shield system switched off and its
`forward` emitter drained to 400 of 500. -/
def shieldsOffShip : Ship ℚ :=
  { damageTestShip with
    Shields :=
      { Emitters := [("forward", { ID := "forward", Facing := "forward", MaxStrength := 500,
                                   Strength := 400, MaxHealth := 100, Health := 100,
                                   OnFire := false })]
        RechargeRate := 10
        PowerDraw := 100
        Enabled := false } }

/-- The same ship with the shield system on. -/
def shieldsOnShip : Ship ℚ :=
  { shieldsOffShip with Shields := { shieldsOffShip.Shields with Enabled := true } }

/-- Ship class of `TestNewShip`: one engine, one phaser, one emitter, one hull
section and one subsystem. -/
def fullTestClass : ShipClass ℚ :=
  { ID := "test_ship", Name := "Test Ship", Mass := 100000, MaxSpeed := 200,
    Acceleration := 50, TurnRate := 1,
    Engines := [{ ID := "main_1", Type_ := "main", Thrust := 50000, Health := 100,
                  PowerDraw := 100 }],
    Weapons := [{ ID := "phaser_1", Type_ := "phaser", Damage := 25, Range := 2000,
                  CooldownTime := 2, Health := 100, PowerDraw := 50, AmmoCapacity := 0 }],
    Shields := { RechargeRate := 10, PowerDraw := 100,
                 Emitters := [{ ID := "forward", Facing := "forward", Strength := 500,
                                Health := 100 }] },
    Hull := { Sections := [{ ID := "forward", Armor := 200, Health := 500 }] },
    Subsystems := [{ ID := "sensors", Type_ := "sensors", Health := 100, PowerDraw := 30 }],
    LaunchBays := [] }

/-- Ship of `TestNewShip`, with its energy store half full. -/
def fullTestShip : Ship ℚ :=
  let s := NewShip "ship_1" "test_ship" "Test Ship" fullTestClass true
  { s with Power := { s.Power with CurrentCapacity := 5000 } }

/-- The ship of `TestShipDamage` whose `bridge` compartment has been breached
and on fire long enough for its pressure and oxygen to reach 0. -/
def ventedBridgeShip : Ship ℚ :=
  { damageTestShip with
    LifeSupport :=
      { Compartments := mapSet damageTestShip.LifeSupport.Compartments "bridge"
          { ID := "bridge", MaxPressure := 1013 / 10, Pressure := 0, MaxOxygen := 21,
            Oxygen := 0, Temperature := 120, OnFire := true, Breached := true } } }

/-! ## The clamped ranges of the data model -/

/-- Ranges of a weapon: health, cooldown and ammunition. -/
def weaponInRange (w : Weapon F) : Prop :=
  0 ≤ w.Health ∧ w.Health ≤ w.MaxHealth ∧ 0 ≤ w.Cooldown ∧
    0 ≤ w.AmmoCount ∧ w.AmmoCount ≤ w.AmmoCapacity

/-- Ranges of a shield emitter: health and strength. -/
def emitterInRange (e : ShieldEmitter F) : Prop :=
  0 ≤ e.Health ∧ e.Health ≤ e.MaxHealth ∧ 0 ≤ e.Strength ∧ e.Strength ≤ e.MaxStrength

/-- Ranges of a hull section: health and armor. -/
def sectionInRange (c : HullSection F) : Prop :=
  0 ≤ c.Health ∧ c.Health ≤ c.MaxHealth ∧ 0 ≤ c.Armor ∧ c.Armor ≤ c.MaxArmor

/-- The clamped ranges: `0 ≤ health ≤ max-health` for every engine, weapon,
emitter, hull section and subsystem, `0 ≤ strength ≤ max-strength`,
`0 ≤ armor ≤ max-armor`, `0 ≤ cooldown`, `0 ≤ ammo-count ≤ ammo-capacity` and
`0 ≤ current-capacity ≤ max-capacity`. -/
def clampedRanges (s : Ship F) : Prop :=
  (∀ e ∈ s.Engines, 0 ≤ e.2.Health ∧ e.2.Health ≤ e.2.MaxHealth) ∧
  (∀ w ∈ s.Weapons, weaponInRange w.2) ∧
  (∀ e ∈ s.Shields.Emitters, emitterInRange e.2) ∧
  (∀ c ∈ s.Hull.Sections, sectionInRange c.2) ∧
  (∀ b ∈ s.Subsystems, 0 ≤ b.2.Health ∧ b.2.Health ≤ b.2.MaxHealth) ∧
  0 ≤ s.Power.CurrentCapacity ∧ s.Power.CurrentCapacity ≤ s.Power.MaxCapacity

/-- A ship class whose healths, strengths, armors and ammunition capacities
are not negative. -/
def nonNegativeClass (cls : ShipClass F) : Prop :=
  (∀ c ∈ cls.Engines, 0 ≤ c.Health) ∧
  (∀ c ∈ cls.Weapons, 0 ≤ c.Health ∧ 0 ≤ c.AmmoCapacity) ∧
  (∀ c ∈ cls.Shields.Emitters, 0 ≤ c.Health ∧ 0 ≤ c.Strength) ∧
  (∀ c ∈ cls.Hull.Sections, 0 ≤ c.Health ∧ 0 ≤ c.Armor) ∧
  (∀ c ∈ cls.Subsystems, 0 ≤ c.Health)

/-- A ship of the class with cooldown-time `-1` whose tube is armed, loaded and
locked and has not fired yet. -/
def negativeCooldownFreshShip : Ship ℚ :=
  let s0 := NewShip "ship_1" "test_ship" "Test Ship" negativeCooldownClass false
  let tube : Weapon ℚ := { readyTorpedo with CooldownTime := -1 }
  { s0 with Weapons := mapSet s0.Weapons "torpedo_1" tube }

/-! ## Magnitudes, and the linear step in the words of the specification -/

/-- Squared magnitude of a vector. -/
def normSq (v : Vector3 F) : F := v.X * v.X + v.Y * v.Y + v.Z * v.Z

/-- Squared magnitude of a quaternion. -/
def quatNormSq (q : Quaternion F) : F := q.W * q.W + q.X * q.X + q.Y * q.Y + q.Z * q.Z

/-- Specification, 4.1: the sum of `thrust * (health / max-health)` over the
engines that are enabled and have health above 0. -/
def specThrust (s : Ship F) : F :=
  ((s.Engines.filter (fun e => decide (e.2.Enabled = true ∧ e.2.Health > 0))).map
    (fun e => e.2.Thrust * (e.2.Health / e.2.MaxHealth))).sum

/-- Specification, 4.1: `forward = (2(xz + wy), 2(yz - wx), 1 - 2(x² + y²))`. -/
def specForward (q : Quaternion F) : Vector3 F :=
  { X := 2 * (q.X * q.Z + q.W * q.Y)
    Y := 2 * (q.Y * q.Z - q.W * q.X)
    Z := 1 - 2 * (q.X ^ 2 + q.Y ^ 2) }

/-- Specification, 4.1: `0.98 * (v + forward * (T / mass) * dt)`. -/
def specDraggedVelocity (s : Ship F) (dt : F) : Vector3 F :=
  { X := 98 / 100 * (s.Velocity.X + (specForward s.Rotation).X * (specThrust s / s.Mass) * dt)
    Y := 98 / 100 * (s.Velocity.Y + (specForward s.Rotation).Y * (specThrust s / s.Mass) * dt)
    Z := 98 / 100 * (s.Velocity.Z + (specForward s.Rotation).Z * (specThrust s / s.Mass) * dt) }

/-- Specification, 4.1: the velocity `u` scaled by `max-speed / |u|` when its
magnitude `|u|`, as `Sqrt` gives it, exceeds max-speed. -/
def specClampedVelocity (m : MathFns F) (u : Vector3 F) (maxSpeed : F) : Vector3 F :=
  if m.Sqrt (normSq u) > maxSpeed then
    { X := u.X * (maxSpeed / m.Sqrt (normSq u))
      Y := u.Y * (maxSpeed / m.Sqrt (normSq u))
      Z := u.Z * (maxSpeed / m.Sqrt (normSq u)) }
  else u

/-- Ship class of `TestShipUpdate`: one engine of thrust 50000, mass 100000,
max-speed 200. -/
def updateTestClass : ShipClass F :=
  { ID := "test_ship", Name := "Test Ship", Mass := 100000, MaxSpeed := 200,
    Acceleration := 50, TurnRate := 1,
    Engines := [{ ID := "main_1", Type_ := "main", Thrust := 50000, Health := 100,
                  PowerDraw := 100 }],
    Weapons := [],
    Shields := { RechargeRate := 0, PowerDraw := 0, Emitters := [] },
    Hull := { Sections := [] },
    Subsystems := [], LaunchBays := [] }

/-- Ship of `TestShipUpdate`: at rest, rotation the identity. -/
def updateTestShip : Ship F := NewShip "ship_1" "test_ship" "Test Ship" updateTestClass false

/-- The same ship moving at 300 along `z` and spinning at 2 about `z`. -/
def fastSpinningShip : Ship F :=
  { (updateTestShip : Ship F) with
    Velocity := { X := 0, Y := 0, Z := 300 }
    AngularVelocity := { X := 0, Y := 0, Z := 2 } }

/-! ## Damage controller (`damage.go`)

The controller holds a pointer to one ship and nothing else, so its methods
are functions of that ship.  `rand.Float64()` is read from a stream
`rnd : Nat → F`; a method that draws takes the index of the next draw and
returns the index after its last one.  A method that can dereference a nil
pointer returns an `Outcome`: the ship (and draw index) as the call left it,
marked `done` or `panicked`. -/

/-- Result of a call that may panic, with the state it left behind. -/
inductive Outcome (α : Type) where
  | done (v : α)
  | panicked (v : α)

/-- The state a call left behind, whether it returned or panicked. -/
def Outcome.state {α : Type} : Outcome α → α
  | Outcome.done v => v
  | Outcome.panicked v => v

/-- Method `getAdjacentLocations`. -/
def getAdjacentLocations (location : String) : List String :=
  if location = "forward" then ["port", "starboard", "bridge"]
  else if location = "aft" then ["port", "starboard", "engineering"]
  else if location = "port" then ["forward", "aft"]
  else if location = "starboard" then ["forward", "aft"]
  else if location = "dorsal" then ["forward", "aft"]
  else if location = "ventral" then ["forward", "aft"]
  else if location = "bridge" then ["forward"]
  else if location = "engineering" then ["aft"]
  else if location = "weapons_bay" then ["forward"]
  else []

/-- Method `startFire`: the first statement writes through
`Hull.Sections[location]` and panics when the ship has no such section. -/
def startFire (s : Ship F) (location : String) : Outcome (Ship F) :=
  match mapGet s.Hull.Sections location with
  | none => Outcome.panicked s
  | some sec =>
    let s1 : Ship F := { s with Hull := { s.Hull with
      Sections := mapSet s.Hull.Sections location { sec with OnFire := true } } }
    match mapGet s1.LifeSupport.Compartments location with
    | some comp =>
      Outcome.done { s1 with LifeSupport := { s1.LifeSupport with
        Compartments := mapSet s1.LifeSupport.Compartments location
                          { comp with OnFire := true } } }
    | none => Outcome.done s1

/-- Lines 137-144: one subsystem in the loop of `causeSystemOverload`, with
the draw `r`. -/
def overloadSubsystem (r : F) (subsystem : Subsystem F) : Subsystem F :=
  if r < 1 / 10 then
    if subsystem.Health - 20 < 0 then { subsystem with Health := 0, Enabled := false }
    else { subsystem with Health := subsystem.Health - 20 }
  else subsystem

/-- Loop of `causeSystemOverload` over the subsystem map: one draw for each
subsystem. -/
def overloadLoop (rnd : Nat → F) : List (String × Subsystem F) → Nat →
    List (String × Subsystem F) × Nat
  | [], i => ([], i)
  | (k, b) :: rest, i =>
    let r := overloadLoop rnd rest (i + 1)
    ((k, overloadSubsystem (rnd i) b) :: r.1, r.2)

/-- Method `causeSystemOverload`. -/
def causeSystemOverload (rnd : Nat → F) (s : Ship F) (i : Nat) : Ship F × Nat :=
  let r := overloadLoop rnd s.Subsystems i
  ({ s with Subsystems := r.1 }, r.2)

/-- Method `applyKineticDamage`. -/
def applyKineticDamage (rnd : Nat → F) (s : Ship F) (i : Nat) (amount : F)
    (location : String) : Outcome (Ship F × Nat) :=
  let s1 := TakeDamage s amount location
  if rnd i < 3 / 10 then
    match startFire s1 location with
    | Outcome.done s2 => Outcome.done (s2, i + 1)
    | Outcome.panicked s2 => Outcome.panicked (s2, i + 1)
  else Outcome.done (s1, i + 1)

/-- Method `applyEnergyDamage`. -/
def applyEnergyDamage (rnd : Nat → F) (s : Ship F) (i : Nat) (amount : F)
    (location : String) : Outcome (Ship F × Nat) :=
  let s1 := TakeDamage s (amount * (3 / 2)) location
  if rnd i < 2 / 10 then Outcome.done (causeSystemOverload rnd s1 (i + 1))
  else Outcome.done (s1, i + 1)

/-- Method `applyExplosiveDamage`. -/
def applyExplosiveDamage (rnd : Nat → F) (s : Ship F) (i : Nat) (amount : F)
    (location : String) : Outcome (Ship F × Nat) :=
  let s1 := TakeDamage s amount location
  let s2 := (getAdjacentLocations location).foldl
    (fun t loc => TakeDamage t (amount * (1 / 2)) loc) s1
  if rnd i < 5 / 10 then
    match startFire s2 location with
    | Outcome.done s3 => Outcome.done (s3, i + 1)
    | Outcome.panicked s3 => Outcome.panicked (s3, i + 1)
  else Outcome.done (s2, i + 1)

/-- Lines 163-170: the pressure drops in the compartments adjacent to a new
breach; a draw is made only for a compartment that exists. -/
def pressureDrops (rnd : Nat → F) : List String → Ship F → Nat → Ship F × Nat
  | [], s, i => (s, i)
  | adjacentLoc :: rest, s, i =>
    match mapGet s.LifeSupport.Compartments adjacentLoc with
    | some adjComp =>
      if rnd i < 3 / 10 then
        pressureDrops rnd rest
          { s with LifeSupport := { s.LifeSupport with
              Compartments := mapSet s.LifeSupport.Compartments adjacentLoc
                                { adjComp with Pressure := adjComp.Pressure - 20 } } }
          (i + 1)
      else pressureDrops rnd rest s (i + 1)
    | none => pressureDrops rnd rest s i

/-- Lines 174-178: the fire spreading to the adjacent locations; one draw for
each, and `startFire` may panic. -/
def spreadFire (rnd : Nat → F) : List String → Ship F → Nat → Outcome (Ship F × Nat)
  | [], s, i => Outcome.done (s, i)
  | adjacentLoc :: rest, s, i =>
    if rnd i < 1 / 10 then
      match startFire s adjacentLoc with
      | Outcome.done s1 => spreadFire rnd rest s1 (i + 1)
      | Outcome.panicked s1 => Outcome.panicked (s1, i + 1)
    else spreadFire rnd rest s (i + 1)

/-- Method `checkCascadingFailures`. -/
def checkCascadingFailures (rnd : Nat → F) (s : Ship F) (i : Nat) (location : String) :
    Outcome (Ship F × Nat) :=
  match mapGet s.Hull.Sections location with
  | none => Outcome.done (s, i)
  | some sec =>
    let r : Ship F × Nat :=
      if sec.Health ≤ 0 ∧ sec.Breached = false then
        let s1 : Ship F := { s with Hull := { s.Hull with
          Sections := mapSet s.Hull.Sections location { sec with Breached := true } } }
        let s2 : Ship F :=
          match mapGet s1.LifeSupport.Compartments location with
          | some comp =>
            { s1 with LifeSupport := { s1.LifeSupport with
                Compartments := mapSet s1.LifeSupport.Compartments location
                                  { comp with Breached := true } } }
          | none => s1
        pressureDrops rnd (getAdjacentLocations location) s2 i
      else (s, i)
    if sec.OnFire = true then spreadFire rnd (getAdjacentLocations location) r.1 r.2
    else Outcome.done r

/-- Method `ApplyDamage`. -/
def ApplyDamage (rnd : Nat → F) (s : Ship F) (i : Nat) (amount : F)
    (location damageType : String) : Outcome (Ship F × Nat) :=
  let damaged : Outcome (Ship F × Nat) :=
    if damageType = "kinetic" then applyKineticDamage rnd s i amount location
    else if damageType = "energy" then applyEnergyDamage rnd s i amount location
    else if damageType = "explosive" then applyExplosiveDamage rnd s i amount location
    else Outcome.done (TakeDamage s amount location, i)
  match damaged with
  | Outcome.done r => checkCascadingFailures rnd r.1 r.2 location
  | Outcome.panicked r => Outcome.panicked r

/-- Lines 115-121: the repair of one hull section. -/
def repairSection (amount : F) (sec : HullSection F) : HullSection F :=
  let health := sec.Health + amount
  let health := if health > sec.MaxHealth then sec.MaxHealth else health
  if health > 0 then { sec with Health := health, Breached := false }
  else { sec with Health := health }

/-- The health after a repair, capped at max-health (engines, weapons,
emitters and subsystems). -/
def repairedHealth (amount health maxHealth : F) : F :=
  if health + amount > maxHealth then maxHealth else health + amount

/-- Method `RepairSystem`. -/
def RepairSystem (s : Ship F) (systemType systemID : String) (amount : F) : Ship F :=
  if systemType = "engine" then
    match mapGet s.Engines systemID with
    | some engine =>
      { s with
          Engines := mapSet s.Engines systemID
                       { engine with Health := repairedHealth amount engine.Health engine.MaxHealth } }
    | none => s
  else if systemType = "weapon" then
    match mapGet s.Weapons systemID with
    | some weapon =>
      { s with
          Weapons := mapSet s.Weapons systemID
                       { weapon with Health := repairedHealth amount weapon.Health weapon.MaxHealth } }
    | none => s
  else if systemType = "shield" then
    match mapGet s.Shields.Emitters systemID with
    | some emitter =>
      { s with Shields := { s.Shields with
          Emitters := mapSet s.Shields.Emitters systemID
                        { emitter with Health := repairedHealth amount emitter.Health emitter.MaxHealth } } }
    | none => s
  else if systemType = "hull" then
    match mapGet s.Hull.Sections systemID with
    | some sec =>
      { s with Hull := { s.Hull with
          Sections := mapSet s.Hull.Sections systemID (repairSection amount sec) } }
    | none => s
  else if systemType = "subsystem" then
    match mapGet s.Subsystems systemID with
    | some subsystem =>
      { s with
          Subsystems := mapSet s.Subsystems systemID
                          { subsystem with Health := repairedHealth amount subsystem.Health subsystem.MaxHealth } }
    | none => s
  else s

/-- Method `SealBreach`. -/
def SealBreach (s : Ship F) (location : String) : Ship F :=
  let s1 : Ship F :=
    match mapGet s.LifeSupport.Compartments location with
    | some comp =>
      { s with LifeSupport := { s.LifeSupport with
          Compartments := mapSet s.LifeSupport.Compartments location
                            { comp with Breached := false } } }
    | none => s
  match mapGet s1.Hull.Sections location with
  | some sec =>
    { s1 with Hull := { s1.Hull with
        Sections := mapSet s1.Hull.Sections location { sec with Breached := false } } }
  | none => s1

/-! ## The breach invariant -/

/-- For every hull section, breached implies health = 0. -/
def breachInvariant (s : Ship F) : Prop :=
  ∀ c ∈ s.Hull.Sections, c.2.Breached = true → c.2.Health = 0

/-- Every hull section has health `≥ 0`. -/
def sectionHealthsNonneg (s : Ship F) : Prop :=
  ∀ c ∈ s.Hull.Sections, 0 ≤ c.2.Health

/-- Every hull section has max-health `≥ 0`. -/
def sectionMaxHealthsNonneg (s : Ship F) : Prop :=
  ∀ c ∈ s.Hull.Sections, 0 ≤ c.2.MaxHealth

/-- A ship with no shields whose one hull section `forward` is breached, at
health 0 of 500, and on fire. -/
def breachedShip : Ship ℚ :=
  { damageTestShip with
    Shields := { damageTestShip.Shields with Emitters := [] }
    Hull := { Sections := [("forward", { ID := "forward", MaxArmor := 200, Armor := 0,
                                         MaxHealth := 500, Health := 0, Breached := true,
                                         OnFire := true })] } }

/-- The same ship with the max-health of the section at `-1`. -/
def negativeMaxHealthShip : Ship ℚ :=
  { breachedShip with
    Hull := { Sections := [("forward", { ID := "forward", MaxArmor := 200, Armor := 0,
                                         MaxHealth := -1, Health := 0, Breached := true,
                                         OnFire := false })] } }

/-! ## Projectile ageing: auxiliary notions -/

/-- Lines 151-155 of `updateProjectiles`: the projectile after its position and
its lifetime are stepped by `dt`. -/
def advanced (dt : F) (p : Projectile F) : Projectile F :=
  { p with
    Position :=
      { X := p.Position.X + p.Velocity.X * dt
        Y := p.Position.Y + p.Velocity.Y * dt
        Z := p.Position.Z + p.Velocity.Z * dt }
    Lifetime := p.Lifetime + dt }

/-- Line 156: the guard of the removal for age. -/
def expired (p : Projectile F) : Prop := p.Lifetime > p.MaxLifetime

instance (p : Projectile F) : Decidable (expired p) := by
  unfold expired
  infer_instance

/-- Lines 161-165: the guard of the hit, for a projectile `p` and the ships
in `ships`: `p` names a target, the target is in the live registry and its
`distance` to `p` is below 50. -/
def hitsTarget (s : Simulator F) (ships : Heap (Ship F)) (p : Projectile F) : Prop :=
  p.TargetID ≠ "" ∧
    ∃ target, mapGet (s.mem.shipMaps.cell s.Ships) p.TargetID = some target ∧
      distance p.Position (ships.cell target).Position < 50

/-- World of `TestSnapshotRestore` with two torpedoes aimed at `ship_1`:
`torpedo_1`, just launched at the origin with velocity 60 along x, and
`torpedo_2`, at rest one unit from the ship with its lifetime of 10 used up. -/
def agedTorpedoSim : Simulator ℚ :=
  let s := SpawnProjectile
    (SpawnProjectile snapshotTestSim "torpedo_1" "torpedo" "ship_2" "ship_1"
      ⟨0, 0, 0⟩ ⟨60, 0, 0⟩ 100)
    "torpedo_2" "torpedo" "ship_2" "ship_1" ⟨99, 0, 0⟩ ⟨0, 0, 0⟩ 100
  let aged : Projectile ℚ := { s.mem.projectiles.cell 1 with Lifetime := 10 }
  { s with mem := { s.mem with projectiles := s.mem.projectiles.write 1 aged } }

/-! ## The AI controller (`ai.go`)

`Controller.Update(dt, sh, allShips)` works on the controller, on the ship
behind the pointer `sh` and, when it fires, on the ship behind the pointer of
its target, which may be `sh` itself. The model threads the controller, the
heap of ships and the index of the next random draw. The registry `allShips`
is a list, traversed in its order where the source ranges over the map. -/

/-- Call of a method that only updates the ship behind the pointer `a`. -/
def callShip (ships : Heap (Ship F)) (a : Addr) (f : Ship F → Ship F) : Heap (Ship F) :=
  ships.write a (f (ships.cell a))

/-- Function `distance` of `ai.go`, with the square root. -/
def ai.distance (m : MathFns F) (a b : Vector3 F) : F :=
  let dx := a.X - b.X
  let dy := a.Y - b.Y
  let dz := a.Z - b.Z
  m.Sqrt (dx * dx + dy * dy + dz * dz)

/-- Function `normalize` of `ai.go`. -/
def ai.normalize (m : MathFns F) (v : Vector3 F) : Vector3 F :=
  let mag := m.Sqrt (v.X * v.X + v.Y * v.Y + v.Z * v.Z)
  if mag < 1 / 10000 then { X := 0, Y := 0, Z := 1 }
  else { X := v.X / mag, Y := v.Y / mag, Z := v.Z / mag }

/-- Body of the loop of `findNearestThreat`; the state is `nearest` and
`minDist`, where `none` for `minDist` stands for its initial value
`math.MaxFloat64`, above every distance. -/
def nearestThreatStep (m : MathFns F) (ships : Heap (Ship F)) (sh : Addr)
    (acc : Option Addr × Option F) (e : String × Addr) : Option Addr × Option F :=
  if (ships.cell e.2).ID = (ships.cell sh).ID then acc
  else if (ships.cell sh).IsPlayer = (ships.cell e.2).IsPlayer then acc
  else
    let dist := ai.distance m (ships.cell sh).Position (ships.cell e.2).Position
    match acc.2 with
    | none => (some e.2, some dist)
    | some minDist => if dist < minDist then (some e.2, some dist) else acc

/-- Method `findNearestThreat`. -/
def findNearestThreat (m : MathFns F) (ships : Heap (Ship F)) (sh : Addr)
    (allShips : List (String × Addr)) : Option Addr :=
  (allShips.foldl (nearestThreatStep m ships sh) (none, none)).1

/-- Method `updatePatrol`. -/
def Controller.updatePatrol (m : MathFns F) (c : Controller F) (sh : Addr)
    (allShips : List (String × Addr)) (ships : Heap (Ship F)) :
    Controller F × Heap (Ship F) :=
  let ships1 := callShip ships sh (fun s => ApplyThrust s 0 0 (s.MaxSpeed * (3 / 10)))
  let yawRate := 1 / 10 * c.Difficulty
  let ships2 := callShip ships1 sh (fun s => ApplyRotation s 0 yawRate 0)
  match findNearestThreat m ships2 sh allShips with
  | some threat =>
    let dist := ai.distance m (ships2.cell sh).Position (ships2.cell threat).Position
    if dist < 5000 then
      ({ c with State := "combat", TargetID := (ships2.cell threat).ID }, ships2)
    else (c, ships2)
  | none => (c, ships2)

/-- Loop of `attemptFire` over the weapon ids of the ship at `sh`: the first
phaser that passes the checks and fires ends the loop, with the damage applied
to the ship at `target`. `FireWeapon` does not change the damage value of the
weapon, which is read here before the call. -/
def attemptFireLoop (c : Controller F) (sh target : Addr) :
    List String → Heap (Ship F) → Heap (Ship F)
  | [], ships => ships
  | id :: rest, ships =>
    match mapGet (ships.cell sh).Weapons id with
    | none => attemptFireLoop c sh target rest ships
    | some weapon =>
      if weapon.Type_ = "phaser" ∧ weapon.Health > 0 ∧ weapon.Cooldown ≤ 0 then
        let r := FireWeapon (ships.cell sh) id (ships.cell target).ID
        let ships1 := ships.write sh r.1
        if r.2 = true then
          callShip ships1 target (fun t => TakeDamage t (weapon.Damage * c.Difficulty) "forward")
        else attemptFireLoop c sh target rest ships1
      else attemptFireLoop c sh target rest ships

/-- Method `attemptFire`. -/
def Controller.attemptFire (c : Controller F) (sh target : Addr) (ships : Heap (Ship F)) :
    Heap (Ship F) :=
  attemptFireLoop c sh target (mapKeys (ships.cell sh).Weapons) ships

/-- The torpedo tube with its three flags set (lines 177-179). -/
def readiedTube (weapon : Weapon F) : Weapon F :=
  { weapon with Armed := true, Loaded := true, Locked := true }

/-- Loop of `attemptMissilefire` over the weapon ids of the ship at `sh`. -/
def attemptMissilefireLoop (sh target : Addr) : List String → Heap (Ship F) → Heap (Ship F)
  | [], ships => ships
  | id :: rest, ships =>
    match mapGet (ships.cell sh).Weapons id with
    | none => attemptMissilefireLoop sh target rest ships
    | some weapon =>
      if weapon.Type_ = "torpedo" ∧ weapon.Health > 0 ∧ weapon.Cooldown ≤ 0
          ∧ weapon.AmmoCount > 0 then
        let ships1 := callShip ships sh
          (fun s => { s with Weapons := mapSet s.Weapons id (readiedTube weapon) })
        let r := FireWeapon (ships1.cell sh) id (ships1.cell target).ID
        let ships2 := ships1.write sh r.1
        if r.2 = true then ships2
        else attemptMissilefireLoop sh target rest ships2
      else attemptMissilefireLoop sh target rest ships

/-- Method `attemptMissilefire`. -/
def Controller.attemptMissilefire (sh target : Addr) (ships : Heap (Ship F)) : Heap (Ship F) :=
  attemptMissilefireLoop sh target (mapKeys (ships.cell sh).Weapons) ships

/-- Method `updateCombat`; one random draw when the target exists. -/
def Controller.updateCombat (m : MathFns F) (rnd : Nat → F) (c : Controller F) (sh : Addr)
    (allShips : List (String × Addr)) (ships : Heap (Ship F)) (i : Nat) :
    Controller F × Heap (Ship F) × Nat :=
  match mapGet allShips c.TargetID with
  | none => ({ c with State := "patrol", TargetID := "" }, ships, i)
  | some target =>
    let shPos := (ships.cell sh).Position
    let targetPos := (ships.cell target).Position
    let dist := ai.distance m shPos targetPos
    let toTarget := ai.normalize m
      { X := targetPos.X - shPos.X, Y := targetPos.Y - shPos.Y, Z := targetPos.Z - shPos.Z }
    let forward := shPos
    let dot := toTarget.X * forward.X + toTarget.Y * forward.Y + toTarget.Z * forward.Z
    let turnRate := c.Difficulty * (1 / 2)
    let ships1 :=
      if dot < 9 / 10 then
        callShip ships sh (fun s => ApplyRotation s (toTarget.Y * turnRate) (toTarget.X * turnRate) 0)
      else ships
    let optimalRange : F := 1000
    let ships2 :=
      if dist > optimalRange * (3 / 2) then
        callShip ships1 sh (fun s => ApplyThrust s 0 0 (s.MaxSpeed * (8 / 10)))
      else if dist < optimalRange * (1 / 2) then
        callShip ships1 sh (fun s => ApplyThrust s 0 0 (-s.MaxSpeed * (1 / 2)))
      else callShip ships1 sh (fun s => ApplyThrust s 0 0 (s.MaxSpeed * (3 / 10)))
    let ships3 :=
      if dot > 95 / 100 ∧ dist < 2000 then Controller.attemptFire c sh target ships2
      else ships2
    let ships4 :=
      if rnd i < 1 / 10 * c.AggressionLevel then Controller.attemptMissilefire sh target ships3
      else ships3
    (c, ships4, i + 1)

/-- Method `updateEvade`; two random draws when the target exists. -/
def Controller.updateEvade (m : MathFns F) (rnd : Nat → F) (c : Controller F) (sh : Addr)
    (allShips : List (String × Addr)) (ships : Heap (Ship F)) (i : Nat) :
    Controller F × Heap (Ship F) × Nat :=
  match mapGet allShips c.TargetID with
  | none => ({ c with State := "patrol", TargetID := "" }, ships, i)
  | some target =>
    let shPos := (ships.cell sh).Position
    let targetPos := (ships.cell target).Position
    let away := ai.normalize m
      { X := shPos.X - targetPos.X, Y := shPos.Y - targetPos.Y, Z := shPos.Z - targetPos.Z }
    let ships1 := callShip ships sh (fun s => ApplyThrust s 0 0 s.MaxSpeed)
    let ships2 := callShip ships1 sh
      (fun s => ApplyRotation s (away.Y * (1 / 2)) (away.X * (1 / 2)) (rnd i * (2 / 10) - 1 / 10))
    if rnd (i + 1) < 3 / 10 then ({ c with State := "combat" }, ships2, i + 2)
    else (c, ships2, i + 2)

/-- Method `updateRetreat`. -/
def Controller.updateRetreat (m : MathFns F) (c : Controller F) (sh : Addr)
    (allShips : List (String × Addr)) (ships : Heap (Ship F)) :
    Controller F × Heap (Ship F) :=
  let ships1 := callShip ships sh (fun s => ApplyThrust s 0 0 s.MaxSpeed)
  let dist : F :=
    if c.TargetID ≠ "" then
      match mapGet allShips c.TargetID with
      | some target => ai.distance m (ships1.cell sh).Position (ships1.cell target).Position
      | none => 10000
    else 10000
  if dist > 8000 then ({ c with State := "patrol", TargetID := "" }, ships1)
  else (c, ships1)

/-- Method `calculateHullHealth`. -/
def calculateHullHealth (sh : Ship F) : F :=
  let r := sh.Hull.Sections.foldl
    (fun (acc : F × F) e => (acc.1 + e.2.Health, acc.2 + e.2.MaxHealth)) (0, 0)
  if r.2 = 0 then 1 else r.1 / r.2

/-- Method `calculateShieldHealth`. -/
def calculateShieldHealth (sh : Ship F) : F :=
  let r := sh.Shields.Emitters.foldl
    (fun (acc : F × F) e => (acc.1 + e.2.Strength, acc.2 + e.2.MaxStrength)) (0, 0)
  if r.2 = 0 then 0 else r.1 / r.2

/-- Method `evaluateState`; the random draw is made only when the two health
tests pass and the state is `combat`. -/
def Controller.evaluateState (rnd : Nat → F) (c : Controller F) (sh : Ship F) (i : Nat) :
    Controller F × Nat :=
  let hullHealth := calculateHullHealth sh
  let shieldHealth := calculateShieldHealth sh
  if hullHealth < 3 / 10 ∨ shieldHealth < 2 / 10 then
    if c.State ≠ "retreat" then ({ c with State := "retreat" }, i) else (c, i)
  else if hullHealth < 6 / 10 ∧ shieldHealth < 5 / 10 then
    if c.State = "combat" then
      if rnd i < 3 / 10 then ({ c with State := "evade" }, i + 1) else (c, i + 1)
    else (c, i)
  else (c, i)

/-- Lines 28-37 of `Controller.Update`: the dispatch on the state. -/
def Controller.dispatch (m : MathFns F) (rnd : Nat → F) (c : Controller F) (_dt : F)
    (sh : Addr) (allShips : List (String × Addr)) (ships : Heap (Ship F)) (i : Nat) :
    Controller F × Heap (Ship F) × Nat :=
  if c.State = "patrol" then
    let r := Controller.updatePatrol m c sh allShips ships
    (r.1, r.2, i)
  else if c.State = "combat" then Controller.updateCombat m rnd c sh allShips ships i
  else if c.State = "evade" then Controller.updateEvade m rnd c sh allShips ships i
  else if c.State = "retreat" then
    let r := Controller.updateRetreat m c sh allShips ships
    (r.1, r.2, i)
  else (c, ships, i)

/-- Method `Controller.Update`. -/
def Controller.Update (m : MathFns F) (rnd : Nat → F) (c : Controller F) (dt : F)
    (sh : Addr) (allShips : List (String × Addr)) (ships : Heap (Ship F)) (i : Nat) :
    Controller F × Heap (Ship F) × Nat :=
  let r := Controller.dispatch m rnd c dt sh allShips ships i
  let e := Controller.evaluateState rnd r.1 (r.2.1.cell sh) r.2.2
  (e.1, r.2.1, e.2)

/-- Hull fraction: the sum of the section healths over the sum of the section
max-healths, taken as 1 when the sum of the max-healths is 0. -/
def hullFraction (sh : Ship F) : F :=
  if (sh.Hull.Sections.map (fun e => e.2.MaxHealth)).sum = 0 then 1
  else (sh.Hull.Sections.map (fun e => e.2.Health)).sum
    / (sh.Hull.Sections.map (fun e => e.2.MaxHealth)).sum

/-- Shield fraction: the sum of the emitter strengths over the sum of the
emitter max-strengths, taken as 0 when that sum is 0. -/
def shieldFraction (sh : Ship F) : F :=
  if (sh.Shields.Emitters.map (fun e => e.2.MaxStrength)).sum = 0 then 0
  else (sh.Shields.Emitters.map (fun e => e.2.Strength)).sum
    / (sh.Shields.Emitters.map (fun e => e.2.MaxStrength)).sum

/-- The ship of `TestShipDamage` with its hull section at health 100 of 500:
hull fraction 0.2, shield fraction 1. -/
def weakHullShip : Ship ℚ :=
  { damageTestShip with
    Hull := { Sections := [("forward", { ID := "forward", MaxArmor := 200, Armor := 200,
                                         MaxHealth := 500, Health := 100, Breached := false,
                                         OnFire := false })] } }

/-- A heap holding `weakHullShip` alone, at address 0. -/
def weakHullWorld : Heap (Ship ℚ) := (Heap.empty : Heap (Ship ℚ)).alloc weakHullShip

/-- A controller in the state `state`, with no target. -/
def controllerIn (state : String) : Controller ℚ :=
  { (NewController : Controller ℚ) with State := state }

/-! ## Patrol and combat: auxiliary notions -/

/-- The ship at `a` counts for `findNearestThreat` of the ship at `sh`: its
id is another one and its `IsPlayer` flag differs. -/
def isThreat (ships : Heap (Ship F)) (sh a : Addr) : Prop :=
  (ships.cell a).ID ≠ (ships.cell sh).ID ∧ (ships.cell sh).IsPlayer ≠ (ships.cell a).IsPlayer

/-- World of `TestSnapshotRestore` (the AI ship `ship_1` at `(100, 0, 0)`) with
two player ships: `player_1` at `(100, 0, 1)` and `player_2` at the origin. -/
def patrolTestSim : Simulator ℚ :=
  SpawnShip
    (SpawnShip snapshotTestSim "player_1" "test_ship" "Player One" true ⟨100, 0, 1⟩)
    "player_2" "test_ship" "Player Two" true ⟨0, 0, 0⟩

/-- A ship class with one phaser, one shield emitter and one hull section. -/
def phaserTestClass : ShipClass F :=
  { ID := "test_ship", Name := "Test Ship", Mass := 100000, MaxSpeed := 200,
    Acceleration := 50, TurnRate := 1,
    Engines := [],
    Weapons := [{ ID := "phaser_1", Type_ := "phaser", Damage := 50, Range := 2000,
                  CooldownTime := 2, Health := 100, PowerDraw := 20, AmmoCapacity := 0 }],
    Shields := { RechargeRate := 10, PowerDraw := 100,
                 Emitters := [{ ID := "forward", Facing := "forward", Strength := 500,
                                Health := 100 }] },
    Hull := { Sections := [{ ID := "forward", Armor := 200, Health := 500 }] },
    Subsystems := [], LaunchBays := [] }

/-- Two ships of that class: the AI ship `ai_1` at the origin, rotation the
identity (so its forward vector is `(0, 0, 1)`), and the player ship
`player_1` one unit ahead of it, at `(0, 0, 1)`. -/
def alignedSim : Simulator F :=
  SpawnShip
    (SpawnShip (NewSimulator 60 [("test_ship", phaserTestClass)])
      "ai_1" "test_ship" "AI One" false ⟨0, 0, 0⟩)
    "player_1" "test_ship" "Player One" true ⟨0, 0, 1⟩

/-- The controller of `ai_1` in combat with `player_1`. -/
def combatController : Controller F :=
  { (NewController : Controller F) with State := "combat", TargetID := "player_1" }

/-! ## The action router (`input/actions.go`)

A handler works on the simulator behind the router and returns an error or
nil: here it maps the simulator to the simulator afterwards and to the error
text, `none` for nil. Log lines are left out. The format verb `%.0f` is a
parameter `fmt0`. -/

/-- A decoded action value (`interface{}` in the source): the kinds the
handlers tell apart by type assertion, and `null` for every other one. -/
inductive ActionValue (F : Type) where
  | null
  | flag (b : Bool)
  | num (q : F)
  | str (s : String)
  | table (entries : List (String × ActionValue F))

/-- Struct `Action`. -/
structure Action (F : Type) where
  Role : String
  System : String
  Action_ : String
  Value : ActionValue F

/-- Type `ActionHandler`, with the simulator passed explicitly. -/
abbrev ActionHandler (F : Type) := Simulator F → Action F → Simulator F × Option String

/-- Method `getPlayerShip`: the first ship, in the order in which the call
ranges over the ship map, whose `IsPlayer` flag is set, nil when there is none.
The order of the list stands for the order of this one call; the source ranges
over a fresh copy of the map (`GetAllShips`) at every call, so a statement
about two calls lets each of them range in an order of its own (`rangedAs`). -/
def getPlayerShip (s : Simulator F) : Option Addr :=
  ((s.mem.shipMaps.cell s.Ships).find? (fun e => (s.mem.ships.cell e.2).IsPlayer)).map Prod.snd

/-- A write through the ship pointer `a`, in the memory of the simulator. -/
def withShip (s : Simulator F) (a : Addr) (f : Ship F → Ship F) : Simulator F :=
  { s with mem := { s.mem with ships := callShip s.mem.ships a f } }

/-- The assertion `.(float64)` on an entry of a decoded map, 0 when it fails. -/
def floatEntry (entries : List (String × ActionValue F)) (key : String) : F :=
  match mapGet entries key with
  | some (ActionValue.num q) => q
  | _ => 0

/-- Handler `handleToggleBreaker`. -/
def handleToggleBreaker : ActionHandler F := fun s action =>
  match getPlayerShip s with
  | none => (s, some "no player ship found")
  | some playerShip =>
    match action.Value with
    | ActionValue.flag enabled =>
      let breakerID := action.System
      match mapGet (s.mem.ships.cell playerShip).Power.Breakers breakerID with
      | none => (s, some ("breaker not found: " ++ breakerID))
      | some breaker =>
        (withShip s playerShip (fun sh =>
          { sh with Power := { sh.Power with
              Breakers := mapSet sh.Power.Breakers breakerID
                            { breaker with Enabled := enabled } } }), none)
    | _ => (s, some "invalid value type for toggle_breaker")

/-- Handler `handleRepair`. -/
def handleRepair : ActionHandler F := fun s _action =>
  match getPlayerShip s with
  | none => (s, some "no player ship found")
  | some _ => (s, none)

/-- Handler `handleExtinguishFire`. -/
def handleExtinguishFire : ActionHandler F := fun s action =>
  match getPlayerShip s with
  | none => (s, some "no player ship found")
  | some playerShip =>
    let location := action.System
    let s1 :=
      match mapGet (s.mem.ships.cell playerShip).Hull.Sections location with
      | some sec =>
        withShip s playerShip (fun sh =>
          { sh with Hull := { sh.Hull with
              Sections := mapSet sh.Hull.Sections location { sec with OnFire := false } } })
      | none => s
    let s2 :=
      match mapGet (s1.mem.ships.cell playerShip).LifeSupport.Compartments location with
      | some comp =>
        withShip s1 playerShip (fun sh =>
          { sh with LifeSupport := { sh.LifeSupport with
              Compartments := mapSet sh.LifeSupport.Compartments location
                                { comp with OnFire := false } } })
      | none => s1
    (s2, none)

/-- Handler `handleSealBreach`. -/
def handleSealBreach : ActionHandler F := fun s action =>
  match getPlayerShip s with
  | none => (s, some "no player ship found")
  | some playerShip =>
    let location := action.System
    let s1 :=
      match mapGet (s.mem.ships.cell playerShip).LifeSupport.Compartments location with
      | some comp =>
        withShip s playerShip (fun sh =>
          { sh with LifeSupport := { sh.LifeSupport with
              Compartments := mapSet sh.LifeSupport.Compartments location
                                { comp with Breached := false } } })
      | none => s
    let s2 :=
      match mapGet (s1.mem.ships.cell playerShip).Hull.Sections location with
      | some sec =>
        withShip s1 playerShip (fun sh =>
          { sh with Hull := { sh.Hull with
              Sections := mapSet sh.Hull.Sections location { sec with Breached := false } } })
      | none => s1
    (s2, none)

/-- Handler `handleSetThrust`. -/
def handleSetThrust : ActionHandler F := fun s action =>
  match getPlayerShip s with
  | none => (s, some "no player ship found")
  | some playerShip =>
    match action.Value with
    | ActionValue.num thrust => (withShip s playerShip (fun sh => ApplyThrust sh 0 0 thrust), none)
    | _ => (s, some "invalid thrust value")

/-- Handler `handleSetRotation`. -/
def handleSetRotation : ActionHandler F := fun s action =>
  match getPlayerShip s with
  | none => (s, some "no player ship found")
  | some playerShip =>
    match action.Value with
    | ActionValue.table rotData =>
      let pitch := floatEntry rotData "pitch"
      let yaw := floatEntry rotData "yaw"
      let roll := floatEntry rotData "roll"
      (withShip s playerShip (fun sh => ApplyRotation sh pitch yaw roll), none)
    | _ => (s, some "invalid rotation value")

/-- Handler `handleReleaseDocking`. -/
def handleReleaseDocking : ActionHandler F := fun s _action =>
  match getPlayerShip s with
  | none => (s, some "no player ship found")
  | some playerShip => (withShip s playerShip (fun sh => { sh with Docked := false }), none)

/-- Handler `handleArmTorpedo`. -/
def handleArmTorpedo : ActionHandler F := fun s action =>
  match getPlayerShip s with
  | none => (s, some "no player ship found")
  | some playerShip =>
    let weaponID := action.System
    match mapGet (s.mem.ships.cell playerShip).Weapons weaponID with
    | none => (s, some ("weapon not found: " ++ weaponID))
    | some weapon =>
      match action.Value with
      | ActionValue.flag armed =>
        (withShip s playerShip (fun sh =>
          { sh with Weapons := mapSet sh.Weapons weaponID { weapon with Armed := armed } }), none)
      | _ => (s, some "invalid arm value")

/-- Handler `handleLoadTorpedo`. -/
def handleLoadTorpedo : ActionHandler F := fun s action =>
  match getPlayerShip s with
  | none => (s, some "no player ship found")
  | some playerShip =>
    let weaponID := action.System
    match mapGet (s.mem.ships.cell playerShip).Weapons weaponID with
    | none => (s, some ("weapon not found: " ++ weaponID))
    | some weapon =>
      if weapon.AmmoCount ≤ 0 then (s, some "no torpedoes remaining")
      else
        (withShip s playerShip (fun sh =>
          { sh with Weapons := mapSet sh.Weapons weaponID { weapon with Loaded := true } }), none)

/-- Handler `handleLockTorpedo`. -/
def handleLockTorpedo : ActionHandler F := fun s action =>
  match getPlayerShip s with
  | none => (s, some "no player ship found")
  | some playerShip =>
    let weaponID := action.System
    match mapGet (s.mem.ships.cell playerShip).Weapons weaponID with
    | none => (s, some ("weapon not found: " ++ weaponID))
    | some weapon =>
      match action.Value with
      | ActionValue.flag locked =>
        (withShip s playerShip (fun sh =>
          { sh with Weapons := mapSet sh.Weapons weaponID { weapon with Locked := locked } }),
          none)
      | _ => (s, some "invalid lock value")

/-- Handler `handleFireTorpedo`. The variable `forward` of the source holds the
position of the ship; the velocity of the ship gets 500 added along x.
`FireWeapon` does not change the damage value of the weapon, read here before
the call. -/
def handleFireTorpedo (fmt0 : F → String) : ActionHandler F := fun s action =>
  match getPlayerShip s with
  | none => (s, some "no player ship found")
  | some playerShip =>
    let weaponID := action.System
    match mapGet (s.mem.ships.cell playerShip).Weapons weaponID with
    | none => (s, some ("weapon not found: " ++ weaponID))
    | some weapon =>
      if weapon.Armed = false ∨ weapon.Loaded = false ∨ weapon.Locked = false then
        (s, some "torpedo not ready to fire")
      else if weapon.Cooldown > 0 then (s, some "torpedo on cooldown")
      else
        let targetID := (s.mem.ships.cell playerShip).TargetID
        if targetID = "" then (s, some "no target set")
        else
          let r := FireWeapon (s.mem.ships.cell playerShip) weaponID targetID
          let s1 := withShip s playerShip (fun _ => r.1)
          if r.2 = true then
            let forward := (s1.mem.ships.cell playerShip).Position
            let velocity0 := (s1.mem.ships.cell playerShip).Velocity
            let velocity : Vector3 F :=
              { X := velocity0.X + 500, Y := velocity0.Y + 0, Z := velocity0.Z + 0 }
            (SpawnProjectile s1
              ("torpedo_" ++ weaponID ++ "_" ++ fmt0 s1.CurrentTime)
              "torpedo" (s1.mem.ships.cell playerShip).ID targetID forward velocity
              weapon.Damage, none)
          else (s1, some "failed to fire torpedo")

/-- Handler `handleFirePhaser`. -/
def handleFirePhaser : ActionHandler F := fun s action =>
  match getPlayerShip s with
  | none => (s, some "no player ship found")
  | some playerShip =>
    let weaponID := action.System
    match mapGet (s.mem.ships.cell playerShip).Weapons weaponID with
    | none => (s, some ("weapon not found: " ++ weaponID))
    | some weapon =>
      if weapon.Cooldown > 0 then (s, some "phaser on cooldown")
      else
        let targetID := (s.mem.ships.cell playerShip).TargetID
        if targetID = "" then (s, some "no target set")
        else
          match GetShip s targetID with
          | none => (s, some "target not found")
          | some target =>
            let r := FireWeapon (s.mem.ships.cell playerShip) weaponID targetID
            let s1 := withShip s playerShip (fun _ => r.1)
            if r.2 = true then
              (withShip s1 target (fun t => TakeDamage t weapon.Damage "forward"), none)
            else (s1, some "failed to fire phaser")

/-- Handler `handleSetTarget`. -/
def handleSetTarget : ActionHandler F := fun s action =>
  match getPlayerShip s with
  | none => (s, some "no player ship found")
  | some playerShip =>
    match action.Value with
    | ActionValue.str targetID =>
      (withShip s playerShip (fun sh => { sh with TargetID := targetID }), none)
    | _ => (s, some "invalid target ID")

/-- The handlers that only check that the value is a string and log it:
`handleSetAlert`, `handleIssueOrder`, `handleSendHail`, `handleSendMessage`,
`handleInitiateScan` and `handleSetSensorMode`, each with its error text. -/
def stringOnlyHandler (errorText : String) : ActionHandler F := fun s action =>
  match action.Value with
  | ActionValue.str _ => (s, none)
  | _ => (s, some errorText)

/-- Handler `handleSetAlert`. -/
def handleSetAlert : ActionHandler F := stringOnlyHandler "invalid alert level"

/-- Handler `handleIssueOrder`. -/
def handleIssueOrder : ActionHandler F := stringOnlyHandler "invalid order"

/-- Handler `handleSendHail`. -/
def handleSendHail : ActionHandler F := stringOnlyHandler "invalid target ID"

/-- Handler `handleSendMessage`. -/
def handleSendMessage : ActionHandler F := stringOnlyHandler "invalid message"

/-- Handler `handleRoutePower`. -/
def handleRoutePower : ActionHandler F := fun s _action => (s, none)

/-- Handler `handleToggleShields`. -/
def handleToggleShields : ActionHandler F := fun s action =>
  match getPlayerShip s with
  | none => (s, some "no player ship found")
  | some playerShip =>
    match action.Value with
    | ActionValue.flag enabled =>
      (withShip s playerShip (fun sh => { sh with Shields := { sh.Shields with
          Enabled := enabled } }), none)
    | _ => (s, some "invalid shield toggle value")

/-- Handler `handleInitiateScan`. -/
def handleInitiateScan : ActionHandler F := stringOnlyHandler "invalid scan target"

/-- Handler `handleSetSensorMode`. -/
def handleSetSensorMode : ActionHandler F := stringOnlyHandler "invalid sensor mode"

/-- Handler `handleToggleSystem`. -/
def handleToggleSystem : ActionHandler F := fun s action =>
  match getPlayerShip s with
  | none => (s, some "no player ship found")
  | some playerShip =>
    match action.Value with
    | ActionValue.flag enabled =>
      let systemID := action.System
      match mapGet (s.mem.ships.cell playerShip).Subsystems systemID with
      | some subsystem =>
        (withShip s playerShip (fun sh =>
          { sh with Subsystems := mapSet sh.Subsystems systemID
                                    { subsystem with Enabled := enabled } }), none)
      | none => (s, none)
    | _ => (s, some "invalid toggle value")

/-- Method `registerHandlers`: the table of the router, in the order of the
source. -/
def registerHandlers (fmt0 : F → String) : List (String × ActionHandler F) :=
  [("engineer.power.toggle_breaker", handleToggleBreaker),
   ("engineer.damage.repair", handleRepair),
   ("engineer.damage.extinguish_fire", handleExtinguishFire),
   ("engineer.damage.seal_breach", handleSealBreach),
   ("flight.thrust.set", handleSetThrust),
   ("flight.rotation.set", handleSetRotation),
   ("flight.docking.release", handleReleaseDocking),
   ("weapons.torpedo.arm", handleArmTorpedo),
   ("weapons.torpedo.load", handleLoadTorpedo),
   ("weapons.torpedo.lock", handleLockTorpedo),
   ("weapons.torpedo.fire", handleFireTorpedo fmt0),
   ("weapons.phaser.fire", handleFirePhaser),
   ("weapons.target.set", handleSetTarget),
   ("captain.alert.set", handleSetAlert),
   ("captain.order.issue", handleIssueOrder),
   ("comms.hail.send", handleSendHail),
   ("comms.message.send", handleSendMessage),
   ("operations.power.route", handleRoutePower),
   ("operations.shields.toggle", handleToggleShields),
   ("relay.scan.initiate", handleInitiateScan),
   ("relay.sensors.set_mode", handleSetSensorMode),
   ("first_officer.system.toggle", handleToggleSystem)]

/-- Method `RouteAction`. -/
def RouteAction (fmt0 : F → String) (s : Simulator F) (action : Action F) :
    Simulator F × Option String :=
  let key := action.Role ++ "." ++ action.System ++ "." ++ action.Action_
  match mapGet (registerHandlers fmt0) key with
  | none => (s, some ("no handler for action: " ++ key))
  | some handler => handler s action

/-- The 22 keys of the table. -/
def registeredKeys : List String :=
  [ "engineer.power.toggle_breaker", "engineer.damage.repair",
    "engineer.damage.extinguish_fire", "engineer.damage.seal_breach",
    "flight.thrust.set", "flight.rotation.set", "flight.docking.release",
    "weapons.torpedo.arm", "weapons.torpedo.load", "weapons.torpedo.lock",
    "weapons.torpedo.fire", "weapons.phaser.fire", "weapons.target.set",
    "captain.alert.set", "captain.order.issue",
    "comms.hail.send", "comms.message.send",
    "operations.power.route", "operations.shields.toggle",
    "relay.scan.initiate", "relay.sensors.set_mode",
    "first_officer.system.toggle" ]

/-- The text `s` starts with the text `p`. -/
def startsWith (s p : String) : Prop := p.data <+: s.data

/-! ## Scenarios for the action router -/

/-- A ship class with the torpedo tube `torpedo_bay_1`, the weapon id the panel
`weapons_torpedos_1` reads. -/
def torpedoBayClass : ShipClass ℚ :=
  { ID := "test_ship", Name := "Test Ship", Mass := 100000, MaxSpeed := 200,
    Acceleration := 50, TurnRate := 1,
    Engines := [],
    Weapons := [{ ID := "torpedo_bay_1", Type_ := "torpedo", Damage := 100, Range := 5000,
                  CooldownTime := 5, Health := 100, PowerDraw := 20, AmmoCapacity := 10 }],
    Shields := { RechargeRate := 0, PowerDraw := 0, Emitters := [] },
    Hull := { Sections := [] },
    Subsystems := [], LaunchBays := [] }

/-- A world with the player ship `player_1` of that class at `(10, 20, 30)`, at
rest, rotation the identity. -/
def bridgeSim : Simulator ℚ :=
  SpawnShip (NewSimulator 60 [("test_ship", torpedoBayClass)])
    "player_1" "test_ship" "Player One" true ⟨10, 20, 30⟩

/-- The intent `(weapons, system, action, value)`. -/
def weaponsIntent (system action : String) (value : ActionValue ℚ) : Action ℚ :=
  { Role := "weapons", System := system, Action_ := action, Value := value }

/-- The precondition failures of `handleFireTorpedo` on a weapon that exists:
a flag not set, the weapon cooling down, no target, no health, or (checked by
`FireWeapon` for a weapon of type torpedo only) no ammunition. -/
def torpedoFireBlocked (sh : Ship F) (weapon : Weapon F) : Prop :=
  weapon.Armed = false ∨ weapon.Loaded = false ∨ weapon.Locked = false ∨
    weapon.Cooldown > 0 ∨ sh.TargetID = "" ∨ weapon.Health ≤ 0 ∨
    (weapon.Type_ = "torpedo" ∧ weapon.AmmoCount ≤ 0)

/-- The world `bridgeSim` after the tube `torpedo_bay_1` has been armed, loaded
and locked and the target `enemy_1` set, each by its handler. -/
def readyBridgeSim : Simulator ℚ :=
  (handleSetTarget
    (handleLockTorpedo
      (handleLoadTorpedo
        (handleArmTorpedo bridgeSim
          (weaponsIntent "torpedo_bay_1" "arm" (ActionValue.flag true))).1
        (weaponsIntent "torpedo_bay_1" "load" ActionValue.null)).1
      (weaponsIntent "torpedo_bay_1" "lock" (ActionValue.flag true))).1
    (weaponsIntent "target" "set" (ActionValue.str "enemy_1"))).1

/-- A world with a player ship of the phaser class whose phaser (no ammunition)
has its three flags set, and with the target `enemy_1`. The flags are written
here directly: the handlers do not load a weapon that has no ammunition. -/
def phaserBridgeSim : Simulator ℚ :=
  let s := SpawnShip (NewSimulator 60 [("test_ship", phaserTestClass)])
    "player_1" "test_ship" "Player One" true ⟨10, 20, 30⟩
  withShip s 0 (fun sh =>
    { sh with
      Weapons := mapValues
        (fun w => { w with Armed := true, Loaded := true, Locked := true }) sh.Weapons
      TargetID := "enemy_1" })

/-- The intent `(engineer, breaker, toggle_breaker, enabled)`, with the breaker
id in the system field as `handleToggleBreaker` reads it. -/
def breakerIntent (breakerID : String) (enabled : Bool) : Action F :=
  { Role := "engineer", System := breakerID, Action_ := "toggle_breaker",
    Value := ActionValue.flag enabled }

/-- The world `bridgeSim` with two breakers on the player ship, both enabled.
The breakers are written here directly: `NewShip` makes the map empty and no
code path fills it. -/
def breakerSim : Simulator ℚ :=
  withShip bridgeSim 0 (fun sh =>
    { sh with Power := { sh.Power with
        Breakers := [("main", { ID := "main", System := "engines", Enabled := true, Load := 50 }),
                     ("aux", { ID := "aux", System := "shields", Enabled := true, Load := 10 })] } })

/-! ## The panel projector (`panel/panel_state.go`)

The maps `Indicators` and `Displays` are filled by assignments `m[key] = v`;
a loop `for id, x := range m` is a fold over the entries of `m` in the order of
the list. -/

/-- The value of an indicator or display (`interface{}` in the source): the
kinds the projections store. -/
inductive PanelValue (F : Type) where
  | flag (b : Bool)
  | num (q : F)
  | int (n : Int)
  | text (s : String)
  deriving DecidableEq, Inhabited

/-- Struct `Indicator`. -/
structure Indicator (F : Type) where
  Type_ : String
  Value : PanelValue F
  Color : String
  Blink : Bool
  deriving DecidableEq, Inhabited

/-- Struct `Display`. -/
structure Display (F : Type) where
  Type_ : String
  Value : PanelValue F
  Unit : String
  Format : String
  deriving DecidableEq, Inhabited

/-- Struct `PanelState`. -/
structure PanelState (F : Type) where
  PanelID : String
  Indicators : List (String × Indicator F)
  Displays : List (String × Display F)
  Timestamp : F
  deriving DecidableEq, Inhabited

/-- Struct `PanelStateManager` (without its mutex). -/
structure PanelStateManager (F : Type) where
  states : List (String × PanelState F)

/-- Constructor `NewPanelStateManager`. -/
def NewPanelStateManager : PanelStateManager F := { states := [] }

/-- Assignment `state.Indicators[key] = ind`. -/
def setIndicator (state : PanelState F) (key : String) (ind : Indicator F) : PanelState F :=
  { state with Indicators := mapSet state.Indicators key ind }

/-- Assignment `state.Displays[key] = d`. -/
def setDisplay (state : PanelState F) (key : String) (d : Display F) : PanelState F :=
  { state with Displays := mapSet state.Displays key d }

/-- Body of the breaker loop of `updateEngineerPowerPanel`. -/
def breakerPanelStep (state : PanelState F) (e : String × Breaker F) : PanelState F :=
  let s1 := setIndicator state ("breaker_" ++ e.1)
    { Type_ := "led", Value := PanelValue.flag e.2.Enabled, Color := "green", Blink := false }
  setDisplay s1 ("breaker_load_" ++ e.1)
    { Type_ := "numeric", Value := PanelValue.num e.2.Load, Unit := "MW", Format := "%.1f" }

/-- Method `updateEngineerPowerPanel`. -/
def updateEngineerPowerPanel (state : PanelState F) (sh : Ship F) : PanelState F :=
  let powerPercent := sh.Power.CurrentCapacity / sh.Power.MaxCapacity * 100
  let s1 := setDisplay state "power_level"
    { Type_ := "numeric", Value := PanelValue.num powerPercent, Unit := "%", Format := "%.1f" }
  let s2 := setDisplay s1 "power_generation"
    { Type_ := "numeric", Value := PanelValue.num sh.Power.Generation, Unit := "MW",
      Format := "%.0f" }
  let s3 := setDisplay s2 "power_consumption"
    { Type_ := "numeric", Value := PanelValue.num sh.Power.Consumption, Unit := "MW",
      Format := "%.0f" }
  let color :=
    if powerPercent < 25 then "red" else if powerPercent < 50 then "yellow" else "green"
  let s4 := setIndicator s3 "power_status"
    { Type_ := "led", Value := PanelValue.flag true, Color := color,
      Blink := decide (powerPercent < 15) }
  sh.Power.Breakers.foldl breakerPanelStep s4

/-- Body of the section loop of `updateEngineerDamagePanel`. -/
def hullPanelStep (state : PanelState F) (e : String × HullSection F) : PanelState F :=
  let healthPercent := e.2.Health / e.2.MaxHealth * 100
  let color :=
    if healthPercent < 25 then "red" else if healthPercent < 50 then "yellow" else "green"
  let s1 := setIndicator state ("hull_" ++ e.1)
    { Type_ := "led", Value := PanelValue.flag true, Color := color,
      Blink := e.2.OnFire || e.2.Breached }
  let s2 := setDisplay s1 ("hull_health_" ++ e.1)
    { Type_ := "numeric", Value := PanelValue.num healthPercent, Unit := "%", Format := "%.0f" }
  let s3 :=
    if e.2.OnFire = true then
      setIndicator s2 ("fire_" ++ e.1)
        { Type_ := "led", Value := PanelValue.flag true, Color := "red", Blink := true }
    else s2
  if e.2.Breached = true then
    setIndicator s3 ("breach_" ++ e.1)
      { Type_ := "led", Value := PanelValue.flag true, Color := "red", Blink := true }
  else s3

/-- Body of the compartment loop of `updateEngineerDamagePanel`. -/
def compartmentPanelStep (state : PanelState F) (e : String × Compartment F) : PanelState F :=
  let s1 := setDisplay state ("pressure_" ++ e.1)
    { Type_ := "numeric", Value := PanelValue.num e.2.Pressure, Unit := "kPa", Format := "%.1f" }
  setDisplay s1 ("oxygen_" ++ e.1)
    { Type_ := "numeric", Value := PanelValue.num e.2.Oxygen, Unit := "%", Format := "%.1f" }

/-- Method `updateEngineerDamagePanel`. -/
def updateEngineerDamagePanel (state : PanelState F) (sh : Ship F) : PanelState F :=
  sh.LifeSupport.Compartments.foldl compartmentPanelStep
    (sh.Hull.Sections.foldl hullPanelStep state)

/-- Body of the loop of `updateEngineerSystemsPanel`. -/
def enginePanelStep (state : PanelState F) (e : String × Engine F) : PanelState F :=
  let healthPercent := e.2.Health / e.2.MaxHealth * 100
  let color :=
    if healthPercent < 25 then "red" else if healthPercent < 50 then "yellow" else "green"
  let s1 := setIndicator state ("engine_" ++ e.1)
    { Type_ := "led", Value := PanelValue.flag e.2.Enabled, Color := color,
      Blink := e.2.OnFire }
  let s2 := setDisplay s1 ("engine_health_" ++ e.1)
    { Type_ := "numeric", Value := PanelValue.num healthPercent, Unit := "%", Format := "%.0f" }
  setDisplay s2 ("engine_thrust_" ++ e.1)
    { Type_ := "numeric", Value := PanelValue.num (e.2.Thrust * (healthPercent / 100)),
      Unit := "kN", Format := "%.0f" }

/-- Method `updateEngineerSystemsPanel`. -/
def updateEngineerSystemsPanel (state : PanelState F) (sh : Ship F) : PanelState F :=
  sh.Engines.foldl enginePanelStep state

/-- Method `updateFlightMainPanel`. -/
def updateFlightMainPanel (state : PanelState F) (sh : Ship F) : PanelState F :=
  let s1 := setDisplay state "velocity_x"
    { Type_ := "numeric", Value := PanelValue.num sh.Velocity.X, Unit := "m/s", Format := "%.1f" }
  let s2 := setDisplay s1 "velocity_y"
    { Type_ := "numeric", Value := PanelValue.num sh.Velocity.Y, Unit := "m/s", Format := "%.1f" }
  let s3 := setDisplay s2 "velocity_z"
    { Type_ := "numeric", Value := PanelValue.num sh.Velocity.Z, Unit := "m/s", Format := "%.1f" }
  let speed0 :=
    sh.Velocity.X * sh.Velocity.X + sh.Velocity.Y * sh.Velocity.Y + sh.Velocity.Z * sh.Velocity.Z
  let speed := if speed0 > 0 then speed0 * (1 / 2) else speed0
  let s4 := setDisplay s3 "speed"
    { Type_ := "numeric", Value := PanelValue.num speed, Unit := "m/s", Format := "%.0f" }
  setIndicator s4 "docked"
    { Type_ := "led", Value := PanelValue.flag sh.Docked, Color := "blue", Blink := false }

/-- Method `updateFlightNavigationPanel`. -/
def updateFlightNavigationPanel (state : PanelState F) (sh : Ship F) : PanelState F :=
  let s1 := setDisplay state "position_x"
    { Type_ := "numeric", Value := PanelValue.num sh.Position.X, Unit := "km", Format := "%.0f" }
  let s2 := setDisplay s1 "position_y"
    { Type_ := "numeric", Value := PanelValue.num sh.Position.Y, Unit := "km", Format := "%.0f" }
  let s3 := setDisplay s2 "position_z"
    { Type_ := "numeric", Value := PanelValue.num sh.Position.Z, Unit := "km", Format := "%.0f" }
  setDisplay s3 "heading"
    { Type_ := "numeric", Value := PanelValue.num 0, Unit := "°", Format := "%.1f" }

/-- Method `updateTorpedoBay`. -/
def updateTorpedoBay (state : PanelState F) (sh : Ship F) (bayID : String) : PanelState F :=
  match mapGet sh.Weapons bayID with
  | none => state
  | some weapon =>
    let s1 := setIndicator state (bayID ++ "_armed")
      { Type_ := "led", Value := PanelValue.flag weapon.Armed, Color := "yellow", Blink := false }
    let s2 := setIndicator s1 (bayID ++ "_loaded")
      { Type_ := "led", Value := PanelValue.flag weapon.Loaded, Color := "green", Blink := false }
    let s3 := setIndicator s2 (bayID ++ "_locked")
      { Type_ := "led", Value := PanelValue.flag weapon.Locked, Color := "red", Blink := false }
    let s4 := setDisplay s3 (bayID ++ "_ammo")
      { Type_ := "numeric", Value := PanelValue.int weapon.AmmoCount, Unit := "", Format := "%d" }
    let s5 := setDisplay s4 (bayID ++ "_cooldown")
      { Type_ := "numeric", Value := PanelValue.num weapon.Cooldown, Unit := "s",
        Format := "%.1f" }
    let healthPercent := weapon.Health / weapon.MaxHealth * 100
    setDisplay s5 (bayID ++ "_health")
      { Type_ := "numeric", Value := PanelValue.num healthPercent, Unit := "%", Format := "%.0f" }

/-- Method `updateWeaponsTorpedosPanel1`. -/
def updateWeaponsTorpedosPanel1 (state : PanelState F) (sh : Ship F) : PanelState F :=
  updateTorpedoBay (updateTorpedoBay state sh "torpedo_bay_1") sh "torpedo_bay_2"

/-- Method `updateWeaponsTorpedosPanel2`. -/
def updateWeaponsTorpedosPanel2 (state : PanelState F) (sh : Ship F) : PanelState F :=
  updateTorpedoBay (updateTorpedoBay state sh "torpedo_bay_3") sh "torpedo_bay_4"

/-- Body of the loop of `updateWeaponsPhasersPanel`. -/
def phaserPanelStep (state : PanelState F) (e : String × Weapon F) : PanelState F :=
  if e.2.Type_ ≠ "phaser" then state
  else
    let healthPercent := e.2.Health / e.2.MaxHealth * 100
    let color :=
      if healthPercent < 25 then "red" else if healthPercent < 50 then "yellow" else "green"
    let s1 := setIndicator state ("phaser_" ++ e.1)
      { Type_ := "led", Value := PanelValue.flag (e.2.Enabled && decide (e.2.Health > 0)),
        Color := color, Blink := decide (e.2.Cooldown > 0) }
    let s2 := setDisplay s1 ("phaser_health_" ++ e.1)
      { Type_ := "numeric", Value := PanelValue.num healthPercent, Unit := "%", Format := "%.0f" }
    setDisplay s2 ("phaser_cooldown_" ++ e.1)
      { Type_ := "numeric", Value := PanelValue.num e.2.Cooldown, Unit := "s", Format := "%.1f" }

/-- Method `updateWeaponsPhasersPanel`. -/
def updateWeaponsPhasersPanel (state : PanelState F) (sh : Ship F) : PanelState F :=
  setDisplay (sh.Weapons.foldl phaserPanelStep state) "target_id"
    { Type_ := "text", Value := PanelValue.text sh.TargetID, Unit := "", Format := "%s" }

/-- Body of the crew loop of `updateCaptainCommandPanel`. -/
def crewPanelStep (state : PanelState F) (e : String × CrewMember F) : PanelState F :=
  let healthPercent := e.2.Health
  let color :=
    if healthPercent < 25 then "red" else if healthPercent < 50 then "yellow" else "green"
  setIndicator state ("crew_" ++ e.1)
    { Type_ := "led", Value := PanelValue.flag (decide (healthPercent > 0)), Color := color,
      Blink := decide (e.2.Status ≠ "healthy") }

/-- Method `updateCaptainCommandPanel`. -/
def updateCaptainCommandPanel (state : PanelState F) (sh : Ship F) : PanelState F :=
  let s1 := setIndicator state "red_alert"
    { Type_ := "led", Value := PanelValue.flag false, Color := "red", Blink := false }
  let s2 := setIndicator s1 "yellow_alert"
    { Type_ := "led", Value := PanelValue.flag true, Color := "yellow", Blink := false }
  sh.Crew.foldl crewPanelStep s2

/-- Method `updateCaptainStatusPanel`. -/
def updateCaptainStatusPanel (state : PanelState F) (sh : Ship F) : PanelState F :=
  let hull := sh.Hull.Sections.foldl
    (fun (acc : F × F) e => (acc.1 + e.2.Health, acc.2 + e.2.MaxHealth)) (0, 0)
  let hullPercent := if hull.2 > 0 then hull.1 / hull.2 * 100 else 0
  let s1 := setDisplay state "hull_integrity"
    { Type_ := "numeric", Value := PanelValue.num hullPercent, Unit := "%", Format := "%.0f" }
  let shields := sh.Shields.Emitters.foldl
    (fun (acc : F × F) e => (acc.1 + e.2.Strength, acc.2 + e.2.MaxStrength)) (0, 0)
  let shieldPercent := if shields.2 > 0 then shields.1 / shields.2 * 100 else 0
  let s2 := setDisplay s1 "shield_strength"
    { Type_ := "numeric", Value := PanelValue.num shieldPercent, Unit := "%", Format := "%.0f" }
  let powerPercent := sh.Power.CurrentCapacity / sh.Power.MaxCapacity * 100
  setDisplay s2 "power_level"
    { Type_ := "numeric", Value := PanelValue.num powerPercent, Unit := "%", Format := "%.0f" }

/-- Method `updateCommsMainPanel`. -/
def updateCommsMainPanel (state : PanelState F) (sh : Ship F) : PanelState F :=
  match mapGet sh.Subsystems "comms" with
  | none => state
  | some comms =>
    let healthPercent := comms.Health / comms.MaxHealth * 100
    let s1 := setDisplay state "comms_health"
      { Type_ := "numeric", Value := PanelValue.num healthPercent, Unit := "%", Format := "%.0f" }
    let color :=
      if healthPercent < 25 then "red" else if healthPercent < 50 then "yellow" else "green"
    setIndicator s1 "comms_online"
      { Type_ := "led", Value := PanelValue.flag (comms.Enabled && decide (healthPercent > 0)),
        Color := color, Blink := false }

/-- Body of the emitter loop of `updateOperationsPowerPanel`. -/
def shieldPanelStep (state : PanelState F) (e : String × ShieldEmitter F) : PanelState F :=
  let strengthPercent := e.2.Strength / e.2.MaxStrength * 100
  let s1 := setDisplay state ("shield_" ++ e.1)
    { Type_ := "numeric", Value := PanelValue.num strengthPercent, Unit := "%", Format := "%.0f" }
  let color :=
    if strengthPercent < 25 then "red" else if strengthPercent < 50 then "yellow" else "green"
  setIndicator s1 ("shield_" ++ e.1 ++ "_status")
    { Type_ := "led", Value := PanelValue.flag true, Color := color, Blink := false }

/-- Method `updateOperationsPowerPanel`. -/
def updateOperationsPowerPanel (state : PanelState F) (sh : Ship F) : PanelState F :=
  let s1 := setIndicator state "shields_enabled"
    { Type_ := "led", Value := PanelValue.flag sh.Shields.Enabled, Color := "blue",
      Blink := false }
  sh.Shields.Emitters.foldl shieldPanelStep s1

/-- The conversion `string(rune(n))` of an int: the character with code point
`n` cut to 32 bits, and U+FFFD when that is not a valid code point. -/
def runeString (n : Int) : String :=
  let r := (n + 2147483648) % 4294967296 - 2147483648
  if 0 ≤ r ∧ Nat.isValidChar r.toNat then String.singleton (Char.ofNat r.toNat)
  else "�"

/-- Body of the loop of `updateOperationsResourcesPanel`. -/
def bayPanelStep (state : PanelState F) (e : String × LaunchBay F) : PanelState F :=
  setDisplay state ("bay_" ++ e.1 ++ "_count")
    { Type_ := "numeric", Value := PanelValue.int e.2.Current,
      Unit := "/" ++ runeString e.2.Capacity, Format := "%d" }

/-- Method `updateOperationsResourcesPanel`. -/
def updateOperationsResourcesPanel (state : PanelState F) (sh : Ship F) : PanelState F :=
  sh.LaunchBays.foldl bayPanelStep state

/-- Method `updateRelaySensorsPanel`. -/
def updateRelaySensorsPanel (state : PanelState F) (sh : Ship F) : PanelState F :=
  match mapGet sh.Subsystems "sensors" with
  | none => state
  | some sensors =>
    let healthPercent := sensors.Health / sensors.MaxHealth * 100
    let s1 := setDisplay state "sensors_health"
      { Type_ := "numeric", Value := PanelValue.num healthPercent, Unit := "%", Format := "%.0f" }
    let color :=
      if healthPercent < 25 then "red" else if healthPercent < 50 then "yellow" else "green"
    setIndicator s1 "sensors_online"
      { Type_ := "led", Value := PanelValue.flag (sensors.Enabled && decide (healthPercent > 0)),
        Color := color, Blink := false }

/-- Method `updateRelayScanningPanel`. -/
def updateRelayScanningPanel (state : PanelState F) (_sh : Ship F) : PanelState F :=
  setIndicator state "scan_active"
    { Type_ := "led", Value := PanelValue.flag false, Color := "blue", Blink := false }

/-- Body of the loop of `updateFirstOfficerMainPanel`. -/
def systemPanelStep (state : PanelState F) (e : String × Subsystem F) : PanelState F :=
  let healthPercent := e.2.Health / e.2.MaxHealth * 100
  let color :=
    if healthPercent < 25 then "red" else if healthPercent < 50 then "yellow" else "green"
  let s1 := setIndicator state ("system_" ++ e.1)
    { Type_ := "led", Value := PanelValue.flag e.2.Enabled, Color := color,
      Blink := e.2.OnFire }
  setDisplay s1 ("system_health_" ++ e.1)
    { Type_ := "numeric", Value := PanelValue.num healthPercent, Unit := "%", Format := "%.0f" }

/-- Method `updateFirstOfficerMainPanel`. -/
def updateFirstOfficerMainPanel (state : PanelState F) (sh : Ship F) : PanelState F :=
  sh.Subsystems.foldl systemPanelStep state

/-- The `switch` of `UpdateFromShip`: the projection of the panel `panelID`. -/
def projectPanel (panelID : String) (state : PanelState F) (sh : Ship F) : PanelState F :=
  if panelID = "engineer_power_main" then updateEngineerPowerPanel state sh
  else if panelID = "engineer_damage_main" then updateEngineerDamagePanel state sh
  else if panelID = "engineer_systems" then updateEngineerSystemsPanel state sh
  else if panelID = "flight_main" then updateFlightMainPanel state sh
  else if panelID = "flight_navigation" then updateFlightNavigationPanel state sh
  else if panelID = "weapons_torpedos_1" then updateWeaponsTorpedosPanel1 state sh
  else if panelID = "weapons_torpedos_2" then updateWeaponsTorpedosPanel2 state sh
  else if panelID = "weapons_phasers" then updateWeaponsPhasersPanel state sh
  else if panelID = "captain_command" then updateCaptainCommandPanel state sh
  else if panelID = "captain_status" then updateCaptainStatusPanel state sh
  else if panelID = "comms_main" then updateCommsMainPanel state sh
  else if panelID = "operations_power" then updateOperationsPowerPanel state sh
  else if panelID = "operations_resources" then updateOperationsResourcesPanel state sh
  else if panelID = "relay_sensors" then updateRelaySensorsPanel state sh
  else if panelID = "relay_scanning" then updateRelayScanningPanel state sh
  else if panelID = "first_officer_main" then updateFirstOfficerMainPanel state sh
  else state

/-- Method `UpdateFromShip`: the manager afterwards and the state returned. -/
def UpdateFromShip (psm : PanelStateManager F) (panelID : String) (sh : Ship F)
    (currentTime : F) : PanelStateManager F × PanelState F :=
  let state := projectPanel panelID
    { PanelID := panelID, Indicators := [], Displays := [], Timestamp := currentTime } sh
  ({ psm with states := mapSet psm.states panelID state }, state)

/-- The common colour mapping of the specification, for a percentage `p`: red
if `p < 25`, yellow if `25 ≤ p < 50`, green otherwise. -/
def colourFor (p : F) : String :=
  if p < 25 then "red" else if 25 ≤ p ∧ p < 50 then "yellow" else "green"

/-- The colour of the indicator under `key` on a panel state, if there is one. -/
def indicatorColour (state : PanelState F) (key : String) : Option String :=
  (mapGet state.Indicators key).map (fun i => i.Color)

/-- The blink flag of the indicator under `key` on a panel state, if there is one. -/
def indicatorBlink (state : PanelState F) (key : String) : Option Bool :=
  (mapGet state.Indicators key).map (fun i => i.Blink)

/-- A ship class with one of everything the panels show, and both the
`comms` and the `sensors` subsystem. -/
def panelTestClass : ShipClass ℚ :=
  { ID := "test_ship", Name := "Test Ship", Mass := 100000, MaxSpeed := 200,
    Acceleration := 50, TurnRate := 1,
    Engines := [{ ID := "main_1", Type_ := "main", Thrust := 50000, Health := 100,
                  PowerDraw := 100 }],
    Weapons := [{ ID := "phaser_1", Type_ := "phaser", Damage := 25, Range := 2000,
                  CooldownTime := 2, Health := 100, PowerDraw := 50, AmmoCapacity := 0 }],
    Shields := { RechargeRate := 10, PowerDraw := 100,
                 Emitters := [{ ID := "forward", Facing := "forward", Strength := 500,
                                Health := 100 }] },
    Hull := { Sections := [{ ID := "forward", Armor := 200, Health := 500 }] },
    Subsystems := [{ ID := "sensors", Type_ := "sensors", Health := 100, PowerDraw := 30 },
                   { ID := "comms", Type_ := "comms", Health := 100, PowerDraw := 20 }],
    LaunchBays := [] }

/-- A fresh player ship of that class. -/
def panelTestShip : Ship ℚ := NewShip "ship_1" "test_ship" "Test Ship" panelTestClass true

/-- That ship with its phaser and its shield emitter on fire; the phaser's
cooldown is 0. The flags are written here directly: the source sets `OnFire`
on hull sections and compartments only. -/
def burningShip : Ship ℚ :=
  { panelTestShip with
    Weapons := mapValues (fun w => { w with OnFire := true }) panelTestShip.Weapons
    Shields := { panelTestShip.Shields with
      Emitters := mapValues (fun e => { e with OnFire := true }) panelTestShip.Shields.Emitters } }

/-! ## The mission engine (`mission/mission.go`)

The engine holds pointers to its missions; the mission objects live in a heap
of their own.  The simulator behind the engine's `simulator` pointer is carried
in the engine state.  Log lines are left out.  The Lua interpreter is not
modelled: running a script is an opaque step, a parameter of `StartMission`. -/

/-- Type `Objective`. -/
structure Objective where
  ID : String
  Description : String
  Completed : Bool
  deriving DecidableEq, Inhabited

/-- Type `Mission`. -/
structure Mission (F : Type) where
  ID : String
  Name : String
  Description : String
  Script : String
  Objectives : List Objective
  State : List (String × Value F)
  deriving Inhabited

/-- A value bound to a global name of the interpreter: a Go function of the
engine, or a value defined by a script (kept as text). -/
inductive LValue where
  | goFunction (name : String)
  | scriptValue (text : String)
  deriving DecidableEq, Inhabited

/-- Interpreter state `lua.LState`, reduced to its table of globals. -/
structure LState where
  globals : List (String × LValue)
  deriving DecidableEq, Inhabited

/-- Type `Engine` of package `mission`; `missions` maps an id to the pointer
to its mission, `active` and `L` are pointers (`none` for nil). -/
structure mission.Engine (F : Type) where
  simulator : Simulator F
  missionCells : Heap (Mission F)
  missions : List (String × Addr)
  active : Option Addr
  L : Option LState

/-- Constructor `NewEngine`. -/
def NewEngine (sim : Simulator F) : mission.Engine F :=
  { simulator := sim, missionCells := Heap.empty, missions := [], active := none, L := none }

/-- Body of the loop of `LoadMissions` for a file `<missionID>.lua` with the
content `script`. -/
def loadMission (e : mission.Engine F) (missionID script : String) : mission.Engine F :=
  { e with
    missionCells := e.missionCells.alloc
      { ID := missionID, Name := "", Description := "", Script := script, Objectives := [],
        State := [] }
    missions := mapSet e.missions missionID e.missionCells.next }

/-- The ten globals that `registerAPI` binds, with the Go function behind each. -/
def apiFunctions : List (String × LValue) :=
  [("spawn_ship", LValue.goFunction "luaSpawnShip"),
   ("remove_ship", LValue.goFunction "luaRemoveShip"),
   ("spawn_object", LValue.goFunction "luaSpawnObject"),
   ("remove_object", LValue.goFunction "luaRemoveObject"),
   ("damage_ship", LValue.goFunction "luaDamageShip"),
   ("set_objective", LValue.goFunction "luaSetObjective"),
   ("complete_objective", LValue.goFunction "luaCompleteObjective"),
   ("mission_win", LValue.goFunction "luaMissionWin"),
   ("mission_lose", LValue.goFunction "luaMissionLose"),
   ("log", LValue.goFunction "luaLog")]

/-- Method `registerAPI`. -/
def registerAPI (e : mission.Engine F) : mission.Engine F :=
  match e.L with
  | none => e
  | some l =>
    { e with L := some { globals := apiFunctions.foldl (fun g p => mapSet g p.1 p.2) l.globals } }

/-- How a run of the interpreter ends: normally, with an error value, or with
a Go panic raised inside an API function. -/
inductive ScriptExit where
  | ok
  | failed (err : String)
  | panicked
  deriving DecidableEq, Inhabited

/-- What a running script reaches through the functions bound by
`registerAPI`: the simulator (`spawn_ship`, `remove_ship`, `spawn_object`,
`remove_object`, `damage_ship`), the objectives of the active mission
(`set_objective`, `complete_objective`), and its own interpreter state. -/
structure ScriptWorld (F : Type) where
  simulator : Simulator F
  Objectives : List Objective
  L : LState

/-- The interpreter as an opaque step: `DoString` for `e.L.DoString(script)`,
`CallOnStart` for the protected call of the global `on_start`. -/
structure Interpreter (F : Type) where
  DoString : String → ScriptWorld F → ScriptWorld F × ScriptExit
  CallOnStart : ScriptWorld F → ScriptWorld F × ScriptExit

/-- Run a step of the interpreter held in `e.L` against the engine: the step
works on the simulator and, when a mission is active, on its objectives.  With
`e.L` nil the call panics. -/
def mission.Engine.run (e : mission.Engine F)
    (step : ScriptWorld F → ScriptWorld F × ScriptExit) : mission.Engine F × ScriptExit :=
  match e.L with
  | none => (e, ScriptExit.panicked)
  | some l =>
    match e.active with
    | none =>
      let r := step { simulator := e.simulator, Objectives := [], L := l }
      ({ e with simulator := r.1.simulator, L := some r.1.L }, r.2)
    | some a =>
      let m := e.missionCells.cell a
      let r := step { simulator := e.simulator, Objectives := m.Objectives, L := l }
      ({ e with
         simulator := r.1.simulator
         missionCells := e.missionCells.write a { m with Objectives := r.1.Objectives }
         L := some r.1.L }, r.2)

/-- Method `StartMission(missionID)`: the engine afterwards and the error
returned (`none` for nil).  A panic is recovered by the deferred function, and
the method then returns nil; an error of `on_start` is only logged. -/
def mission.Engine.StartMission (lua : Interpreter F) (e : mission.Engine F)
    (missionID : String) : mission.Engine F × Option String :=
  match mapGet e.missions missionID with
  | none => (e, some ("mission not found: " ++ missionID))
  | some mission =>
    let e1 := registerAPI { e with active := some mission, L := some { globals := [] } }
    match e1.run (lua.DoString (e1.missionCells.cell mission).Script) with
    | (e2, ScriptExit.failed err) => (e2, some ("executing mission script: " ++ err))
    | (e2, ScriptExit.panicked) => (e2, none)
    | (e2, ScriptExit.ok) => ((e2.run lua.CallOnStart).1, none)

/-- Method `StopMission`. -/
def mission.Engine.StopMission (e : mission.Engine F) : mission.Engine F :=
  match e.active with
  | none => e
  | some _ => { e with L := none, active := none }

/-- The interpreter on scripts that define nothing: `DoString` succeeds, the
call of the missing global `on_start` fails, and nothing changes. -/
def quietLua : Interpreter ℚ :=
  { DoString := fun _ w => (w, ScriptExit.ok)
    CallOnStart := fun w => (w, ScriptExit.failed "attempt to call a non-function object") }

/-- An engine with the two missions `tutorial` and `patrol` loaded from empty
scripts. -/
def loadedEngine : mission.Engine ℚ :=
  loadMission (loadMission (NewEngine (NewSimulator 60 [])) "tutorial" "") "patrol" ""

/-- That engine after `StartMission("tutorial")`. -/
def activeEngine : mission.Engine ℚ :=
  (mission.Engine.StartMission quietLua loadedEngine "tutorial").1

/-! ## Scenarios for the damage controller and for the controller registry -/

/-- A ship class whose one subsystem, `sensors`, has the health 20. -/
def overloadTestClass : ShipClass ℚ :=
  { ID := "test_ship", Name := "Test Ship", Mass := 100000, MaxSpeed := 200,
    Acceleration := 50, TurnRate := 1,
    Engines := [], Weapons := [],
    Shields := { RechargeRate := 10, PowerDraw := 100, Emitters := [] },
    Hull := { Sections := [{ ID := "forward", Armor := 200, Health := 500 }] },
    Subsystems := [{ ID := "sensors", Type_ := "sensors", Health := 20, PowerDraw := 30 }],
    LaunchBays := [] }

/-- A fresh ship of that class. -/
def overloadTestShip : Ship ℚ := NewShip "ship_1" "test_ship" "Test Ship" overloadTestClass false

/-- A ship class with no shield emitter and one hull section, named `bridge`
like the life-support compartment. -/
def bridgeHullClass : ShipClass ℚ :=
  { ID := "test_ship", Name := "Test Ship", Mass := 100000, MaxSpeed := 200,
    Acceleration := 50, TurnRate := 1,
    Engines := [], Weapons := [],
    Shields := { RechargeRate := 10, PowerDraw := 100, Emitters := [] },
    Hull := { Sections := [{ ID := "bridge", Armor := 0, Health := 100 }] },
    Subsystems := [], LaunchBays := [] }

/-- A fresh ship of that class. -/
def bridgeHullShip : Ship ℚ := NewShip "ship_1" "test_ship" "Test Ship" bridgeHullClass false

/-- The ids of the AI controllers of the simulator. -/
def controllerIds (s : Simulator F) : List String := mapKeys s.AIControllers

/-- The ids of the ships of the live registry whose `IsPlayer` flag is false. -/
def aiShipIds (s : Simulator F) : List String :=
  ((s.mem.shipMaps.cell s.Ships).filter
    (fun e => (s.mem.ships.cell e.2).IsPlayer = false)).map Prod.fst

/-- `NewSimulator`, `SpawnShip` of the AI ship `ai_1`, `CreateSnapshot`,
`RemoveShip("ai_1")`, `RestoreSnapshot(0)`. -/
def restoredAISim : Simulator ℚ :=
  RestoreSnapshot
    (RemoveShip
      (CreateSnapshot
        (SpawnShip (NewSimulator 60 [("test_ship", damageTestClass)])
          "ai_1" "test_ship" "AI One" false ⟨0, 0, 0⟩))
      "ai_1")
    0

/-- `NewSimulator`, `SpawnShip` of the AI ship `ship_1`, then `SpawnShip` of a
player ship under the same id. -/
def respawnedSim : Simulator ℚ :=
  SpawnShip
    (SpawnShip (NewSimulator 60 [("test_ship", damageTestClass)])
      "ship_1" "test_ship" "AI One" false ⟨0, 0, 0⟩)
    "ship_1" "test_ship" "Player One" true ⟨0, 0, 0⟩

/-- The max-strengths of the shield emitters of a ship, in map order. -/
def maxStrengths (sh : Ship F) : List F := sh.Shields.Emitters.map (fun e => e.2.MaxStrength)

/-- A ship class with no shield emitter. -/
def noShieldClass : ShipClass ℚ :=
  { ID := "test_ship", Name := "Test Ship", Mass := 100000, MaxSpeed := 200,
    Acceleration := 50, TurnRate := 1,
    Engines := [], Weapons := [],
    Shields := { RechargeRate := 10, PowerDraw := 100, Emitters := [] },
    Hull := { Sections := [{ ID := "forward", Armor := 200, Health := 500 }] },
    Subsystems := [], LaunchBays := [] }

/-- A world with one AI ship of that class. -/
def noShieldWorld : Heap (Ship ℚ) :=
  (Heap.empty : Heap (Ship ℚ)).alloc (NewShip "ship_1" "test_ship" "Test Ship" noShieldClass false)

/-! ## Angular integration in the words of the specification -/

/-- The rotation after a tick, for the angular velocity `w` that the angle is
taken from: with `theta = |w| * dt`, the rotation
`normalize(axisAngle(w / theta, theta) * rotation)` if `theta > 0.001`, and
the old rotation otherwise. -/
def specRotation (m : MathFns F) (w : Vector3 F) (rotation : Quaternion F) (dt : F) :
    Quaternion F :=
  let theta := m.Sqrt (w.X * w.X + w.Y * w.Y + w.Z * w.Z) * dt
  if theta > 1 / 1000 then
    normalizeQuaternion m
      (multiplyQuaternions
        (axisAngleToQuaternion m { X := w.X / theta, Y := w.Y / theta, Z := w.Z / theta } theta)
        rotation)
  else rotation

/-- The ship of `TestShipUpdate` spinning at 1 about `z`. -/
def unitSpinShip : Ship F :=
  { (updateTestShip : Ship F) with AngularVelocity := { X := 0, Y := 0, Z := 1 } }

/-! ## The ship lock (`ship.go`, field `mu sync.RWMutex`)

The model above leaves the lock of a ship out.  Here three code paths are
followed once more with a log of what the running goroutine does to ships:
`s.mu.Lock()` and `s.mu.Unlock()` on the ship behind a pointer, and the reads
and writes of the pose and of the sub-aggregate maps of a ship (the part is
named by its field).  Reads of the identity fields `ID` and `IsPlayer` are not
logged. -/

/-- One entry of the log. -/
inductive LockEvent where
  | lock (ship : Addr)
  | unlock (ship : Addr)
  | read (ship : Addr) (part : String)
  | write (ship : Addr) (part : String)
  deriving DecidableEq, Inhabited

/-- The log keeps the lock discipline from a state in which the goroutine holds
the locks of the ships in `held`: every read and write of a ship happens while
its lock is held. -/
def guardedFrom : List LockEvent → List Addr → Bool
  | [], _ => true
  | LockEvent.lock a :: rest, held => guardedFrom rest (a :: held)
  | LockEvent.unlock a :: rest, held => guardedFrom rest (held.erase a)
  | LockEvent.read a _ :: rest, held => decide (a ∈ held) && guardedFrom rest held
  | LockEvent.write a _ :: rest, held => decide (a ∈ held) && guardedFrom rest held

/-- The log keeps the lock discipline, no lock being held at its start. -/
def guarded (log : List LockEvent) : Bool := guardedFrom log []

/-- The log of `Ship.Update(dt)` on the ship at `a` (`ship.go`, lines 304-314):
the lock is taken first and released by the deferred call, with the six phases
in between. -/
def UpdateEvents (a : Addr) : List LockEvent :=
  [LockEvent.lock a,
   LockEvent.read a "Engines", LockEvent.read a "Rotation", LockEvent.write a "Velocity",
   LockEvent.write a "Position", LockEvent.write a "AngularVelocity",
   LockEvent.write a "Rotation",
   LockEvent.read a "Engines", LockEvent.read a "Weapons", LockEvent.read a "Shields",
   LockEvent.read a "Subsystems", LockEvent.write a "Power",
   LockEvent.write a "Shields",
   LockEvent.write a "Weapons",
   LockEvent.write a "Engines", LockEvent.write a "Weapons", LockEvent.write a "Shields",
   LockEvent.write a "Hull", LockEvent.write a "Subsystems",
   LockEvent.write a "LifeSupport",
   LockEvent.unlock a]

/-- The log of `Ship.FireWeapon(weaponID, targetID)` on the ship at `a`, whose
value is `s` (`ship.go`, lines 528-551): the lock is held from the first line
to the return. -/
def FireWeaponEvents (a : Addr) (s : Ship F) (weaponID targetID : String) : List LockEvent :=
  [LockEvent.lock a, LockEvent.read a "Weapons"] ++
    (if (FireWeapon s weaponID targetID).2 = true then
      [LockEvent.write a "Weapons", LockEvent.write a "TargetID"]
    else []) ++
    [LockEvent.unlock a]

/-- Handler `handleArmTorpedo` with its log (`actions.go`, lines 196-216): the
lookup `playerShip.Weapons[weaponID]` and the assignment `weapon.Armed = armed`
are made on the pointer `getPlayerShip` returns, with no call of the ship's
lock (the field `mu` is not exported by package `ship`). -/
def handleArmTorpedoLogged (s : Simulator F) (action : Action F) :
    (Simulator F × Option String) × List LockEvent :=
  match getPlayerShip s with
  | none => ((s, some "no player ship found"), [])
  | some playerShip =>
    let weaponID := action.System
    match mapGet (s.mem.ships.cell playerShip).Weapons weaponID with
    | none => ((s, some ("weapon not found: " ++ weaponID)), [LockEvent.read playerShip "Weapons"])
    | some weapon =>
      match action.Value with
      | ActionValue.flag armed =>
        ((withShip s playerShip (fun sh =>
          { sh with Weapons := mapSet sh.Weapons weaponID { weapon with Armed := armed } }), none),
          [LockEvent.read playerShip "Weapons", LockEvent.write playerShip "Weapons"])
      | _ => ((s, some "invalid arm value"), [LockEvent.read playerShip "Weapons"])

/-- Loop of `attemptMissilefire` with its log (`ai.go`, lines 174-186): the
range over `sh.Weapons`, the reads of the weapon and the three assignments to
its flags are made outside any lock; `FireWeapon` takes the lock itself. -/
def attemptMissilefireLogged (sh target : Addr) :
    List String → Heap (Ship F) → Heap (Ship F) × List LockEvent
  | [], ships => (ships, [])
  | id :: rest, ships =>
    match mapGet (ships.cell sh).Weapons id with
    | none => attemptMissilefireLogged sh target rest ships
    | some weapon =>
      if weapon.Type_ = "torpedo" ∧ weapon.Health > 0 ∧ weapon.Cooldown ≤ 0
          ∧ weapon.AmmoCount > 0 then
        let ships1 := callShip ships sh
          (fun s => { s with Weapons := mapSet s.Weapons id (readiedTube weapon) })
        let r := FireWeapon (ships1.cell sh) id (ships1.cell target).ID
        let ships2 := ships1.write sh r.1
        let log := [LockEvent.read sh "Weapons", LockEvent.write sh "Weapons",
          LockEvent.write sh "Weapons", LockEvent.write sh "Weapons"] ++
          FireWeaponEvents sh (ships1.cell sh) id (ships1.cell target).ID
        if r.2 = true then (ships2, log)
        else
          let next := attemptMissilefireLogged sh target rest ships2
          (next.1, log ++ next.2)
      else
        let next := attemptMissilefireLogged sh target rest ships
        (next.1, LockEvent.read sh "Weapons" :: next.2)

/-- Two ships of the torpedo class of `TestShipWeaponFire`: the AI ship at 0
and its target at 1. -/
def torpedoDuelWorld : Heap (Ship ℚ) :=
  ((Heap.empty : Heap (Ship ℚ)).alloc
    (NewShip "ai_1" "test_ship" "AI One" torpedoTestClass false)).alloc
    (NewShip "player_1" "test_ship" "Player One" torpedoTestClass true)

/-! ## The parts of `TakeDamage` -/

/-- Lines 576-581 of `TakeDamage`: the armor of a section after a hit of `x`. -/
def armorAfter (armor x : F) : F :=
  if armor > 0 then (if armor - x * (1 / 2) < 0 then 0 else armor - x * (1 / 2)) else armor

/-- Lines 582-585 of `TakeDamage`: the health of a section after a hit of `x`. -/
def healthAfter (health x : F) : F :=
  if health - x ≤ 0 then 0 else health - x

/-- The ship with its emitter at `location` replaced by `emitter`. -/
def withEmitter (s : Ship F) (location : String) (emitter : ShieldEmitter F) : Ship F :=
  { s with Shields := { s.Shields with
      Emitters := mapSet s.Shields.Emitters location emitter } }

/-! ## One tick of the simulator (`simulator.go`, lines 132-186)

The ship map, the projectile map and the controller map are ranged over in the
order of their lists; the enumeration order of a Go map is not fixed, so a
statement about a tick that is to hold for the program has to hold for every
order of the lists. -/

/-- Every weapon of the ship whose `Loaded` flag is set has ammunition. The
flag is set in two places (`handleLoadTorpedo`, `attemptMissilefire`), both
after a test `AmmoCount > 0`, and the count is lowered in one (`FireWeapon`),
which clears the flag. -/
def loadedHasAmmo (sh : Ship F) : Prop :=
  ∀ e ∈ sh.Weapons, e.2.Loaded = true → 0 < e.2.AmmoCount

instance (sh : Ship F) : Decidable (loadedHasAmmo sh) := by
  unfold loadedHasAmmo
  infer_instance

/-- The class of `bridgeSim` with no torpedo in the tube's magazine. -/
def dryTubeClass : ShipClass ℚ :=
  { ID := "test_ship", Name := "Test Ship", Mass := 100000, MaxSpeed := 200,
    Acceleration := 50, TurnRate := 1,
    Engines := [],
    Weapons := [{ ID := "torpedo_bay_1", Type_ := "torpedo", Damage := 100, Range := 5000,
                  CooldownTime := 5, Health := 100, PowerDraw := 20, AmmoCapacity := 0 }],
    Shields := { RechargeRate := 0, PowerDraw := 0, Emitters := [] },
    Hull := { Sections := [] },
    Subsystems := [], LaunchBays := [] }

/-- A world with the player ship `player_1` of that class, after the handlers
have been asked to arm, load and lock the tube `torpedo_bay_1` and to set the
target `enemy_1`. -/
def dryBridgeSim : Simulator ℚ :=
  (handleSetTarget
    (handleLockTorpedo
      (handleLoadTorpedo
        (handleArmTorpedo
          (SpawnShip (NewSimulator 60 [("test_ship", dryTubeClass)])
            "player_1" "test_ship" "Player One" true ⟨10, 20, 30⟩)
          (weaponsIntent "torpedo_bay_1" "arm" (ActionValue.flag true))).1
        (weaponsIntent "torpedo_bay_1" "load" ActionValue.null)).1
      (weaponsIntent "torpedo_bay_1" "lock" (ActionValue.flag true))).1
    (weaponsIntent "target" "set" (ActionValue.str "enemy_1"))).1

/-- The world of `s` with its ship map ranged over in the order `ships`. The
order in which a `range` statement visits a Go map is not fixed, and
`getPlayerShip` ranges over a fresh copy of the ship map (`GetAllShips`) at
every call: two calls of a handler may see two orders. -/
def rangedAs (s : Simulator F) (ships : List (String × Addr)) : Simulator F :=
  { s with mem := { s.mem with shipMaps := s.mem.shipMaps.write s.Ships ships } }

/-- The ship at `p` is the only ship of the live registry whose `IsPlayer`
flag is set. -/
def onlyPlayerShip (s : Simulator F) (p : Addr) : Prop :=
  ∀ e ∈ s.mem.shipMaps.cell s.Ships, (s.mem.ships.cell e.2).IsPlayer = true → e.2 = p

instance (s : Simulator F) (p : Addr) : Decidable (onlyPlayerShip s p) := by
  unfold onlyPlayerShip
  infer_instance

/-- The world `bridgeSim` with a second ship, `escort_1`, run by the AI. -/
def escortSim : Simulator ℚ :=
  SpawnShip bridgeSim "escort_1" "test_ship" "Escort One" false ⟨0, 0, 0⟩

/-- No weapon and no shield emitter of the ship is on fire. `NewShip` builds
them so, and the two assignments `OnFire = true` of the source (`startFire`,
lines 64 and 69 of `damage.go`) are to a hull section and to a compartment. -/
def weaponsAndEmittersNotOnFire (sh : Ship F) : Prop :=
  (∀ e ∈ sh.Weapons, e.2.OnFire = false) ∧ (∀ e ∈ sh.Shields.Emitters, e.2.OnFire = false)

instance (sh : Ship F) : Decidable (weaponsAndEmittersNotOnFire sh) := by
  unfold weaponsAndEmittersNotOnFire
  infer_instance

theorem mapGet_mapSet_same {V : Type} (m : List (String × V)) (k : String) (v : V) :
    mapGet (mapSet m k v) k = some v := by
  induction m with
  | nil => simp [mapSet, mapGet]
  | cons e rest ih =>
    obtain ⟨k0, x⟩ := e
    by_cases h : k0 = k
    · simp [mapSet, mapGet, h]
    · simp [mapSet, mapGet, h, ih]

theorem mapGet_mapSet_ne {V : Type} (m : List (String × V)) (k k2 : String) (v : V)
    (hne : k2 ≠ k) : mapGet (mapSet m k v) k2 = mapGet m k2 := by
  have hne2 : ¬ k = k2 := fun h => hne h.symm
  induction m with
  | nil => simp [mapSet, mapGet, hne2]
  | cons e rest ih =>
    obtain ⟨k0, x⟩ := e
    by_cases h : k0 = k
    · subst h
      simp [mapSet, mapGet, hne2]
    · by_cases h3 : k0 = k2
      · subst h3
        simp [mapSet, mapGet, h]
      · simp [mapSet, mapGet, h, h3, ih]

theorem mapGet_mapDelete_same {V : Type} (m : List (String × V)) (k : String) :
    mapGet (mapDelete m k) k = none := by
  induction m with
  | nil => simp [mapDelete, mapGet]
  | cons e rest ih =>
    obtain ⟨k0, x⟩ := e
    by_cases h : k0 = k
    · simp [mapDelete, h, ih]
    · simp [mapDelete, mapGet, h, ih]

theorem mapGet_mapDelete_ne {V : Type} (m : List (String × V)) (k k2 : String)
    (hne : k2 ≠ k) : mapGet (mapDelete m k) k2 = mapGet m k2 := by
  have hne2 : ¬ k = k2 := fun h => hne h.symm
  induction m with
  | nil => simp [mapDelete, mapGet]
  | cons e rest ih =>
    obtain ⟨k0, x⟩ := e
    by_cases h : k0 = k
    · subst h
      simp [mapDelete, mapGet, hne2, ih]
    · by_cases h3 : k0 = k2
      · subst h3
        simp [mapDelete, mapGet, h]
      · simp [mapDelete, mapGet, h, h3, ih]

/-! ## Damage: shield absorption and the hull step -/

theorem damageHull_Shields (s : Ship F) (x : F) (loc : String) :
    (damageHull s x loc).Shields = s.Shields := by
  unfold damageHull
  cases mapGet s.Hull.Sections loc <;> rfl

theorem TakeDamage_overflow (s : Ship F) (D : F) (location : String) (e : ShieldEmitter F)
    (he : mapGet s.Shields.Emitters (defaultLocation location) = some e)
    (hS : 0 < e.Strength) (hlt : e.Strength - D < 0) :
    TakeDamage s D location =
      damageHull
        { s with Shields := { s.Shields with
            Emitters := mapSet s.Shields.Emitters (defaultLocation location)
              { e with Strength := 0 } } }
        (-(e.Strength - D)) (defaultLocation location) := by
  have hpos : e.Strength > 0 := hS
  simp only [TakeDamage, he, if_pos hpos, if_pos hlt]

theorem TakeDamage_absorbed (s : Ship F) (D : F) (location : String) (e : ShieldEmitter F)
    (he : mapGet s.Shields.Emitters (defaultLocation location) = some e)
    (hS : 0 < e.Strength) (hlt : ¬ e.Strength - D < 0) :
    TakeDamage s D location =
      { s with Shields := { s.Shields with
          Emitters := mapSet s.Shields.Emitters (defaultLocation location)
            { e with Strength := e.Strength - D } } } := by
  have hpos : e.Strength > 0 := hS
  simp only [TakeDamage, he, if_pos hpos, if_neg hlt]

/-- The two cases of the shield step of `TakeDamage`, with the damage handed to
the hull in each. -/
theorem TakeDamage_absorption_cases (s : Ship F) (D : F) (location : String)
    (e : ShieldEmitter F)
    (he : mapGet s.Shields.Emitters (defaultLocation location) = some e)
    (hS : 0 < e.Strength) :
    mapGet (TakeDamage s D location).Shields.Emitters (defaultLocation location)
        = some { e with Strength := max 0 (e.Strength - D) } ∧
    (D ≤ e.Strength →
      (TakeDamage s D location).Hull = s.Hull ∧
      TakeDamage s D location =
        { s with Shields := { s.Shields with
            Emitters := mapSet s.Shields.Emitters (defaultLocation location)
              { e with Strength := max 0 (e.Strength - D) } } }) ∧
    (e.Strength < D →
      TakeDamage s D location =
        damageHull
          { s with Shields := { s.Shields with
              Emitters := mapSet s.Shields.Emitters (defaultLocation location)
                { e with Strength := max 0 (e.Strength - D) } } }
          (max 0 (D - e.Strength)) (defaultLocation location)) := by
  by_cases hlt : e.Strength - D < 0
  · have h1 : max 0 (e.Strength - D) = 0 := max_eq_left (le_of_lt hlt)
    have h2 : max 0 (D - e.Strength) = -(e.Strength - D) := by
      rw [max_eq_right (by linarith)]; ring
    have hT := TakeDamage_overflow s D location e he hS hlt
    refine ⟨?_, ?_, ?_⟩
    · rw [hT, damageHull_Shields, h1]
      exact mapGet_mapSet_same _ _ _
    · intro hle
      exact absurd hle (by linarith)
    · intro _
      rw [hT, h1, h2]
  · have h1 : max 0 (e.Strength - D) = e.Strength - D := max_eq_right (not_lt.mp hlt)
    have hT := TakeDamage_absorbed s D location e he hS hlt
    refine ⟨?_, ?_, ?_⟩
    · rw [hT, h1]
      exact mapGet_mapSet_same _ _ _
    · intro _
      rw [hT, h1]
      exact ⟨rfl, rfl⟩
    · intro hlt2
      exact absurd hlt2 (by linarith)

/-- C1. Damage absorption law of `TakeDamage`: with an emitter of strength
`S > 0` at the (defaulted) location, the emitter ends at `max 0 (S - D)`; when
`D ≤ S` nothing but that emitter changes, so the hull is untouched; when
`S < D` the ship is the one obtained by giving the hull step exactly
`max 0 (D - S)` at that location. -/
theorem TakeDamage_shield_absorption (s : Ship F) (D : F) (location : String)
    (e : ShieldEmitter F)
    (he : mapGet s.Shields.Emitters (defaultLocation location) = some e)
    (hS : 0 < e.Strength) :
    mapGet (TakeDamage s D location).Shields.Emitters (defaultLocation location)
        = some { e with Strength := max 0 (e.Strength - D) } ∧
    (D ≤ e.Strength →
      (TakeDamage s D location).Hull = s.Hull ∧
      TakeDamage s D location =
        { s with Shields := { s.Shields with
            Emitters := mapSet s.Shields.Emitters (defaultLocation location)
              { e with Strength := max 0 (e.Strength - D) } } }) ∧
    (e.Strength < D →
      TakeDamage s D location =
        damageHull
          { s with Shields := { s.Shields with
              Emitters := mapSet s.Shields.Emitters (defaultLocation location)
                { e with Strength := max 0 (e.Strength - D) } } }
          (max 0 (D - e.Strength)) (defaultLocation location)) :=
  TakeDamage_absorption_cases s D location e he hS

/-- C1, at the ship of `TestShipDamage` hit by 100 at `forward`: the emitter
goes from 500 to 400 and the hull is as it was. -/
theorem TakeDamage_shield_absorption_witness :
    mapGet (TakeDamage damageTestShip 100 "forward").Shields.Emitters "forward"
        = some { ID := "forward", Facing := "forward", MaxStrength := 500, Strength := 400,
                 MaxHealth := 100, Health := 100, OnFire := false } ∧
    (TakeDamage damageTestShip 100 "forward").Hull = damageTestShip.Hull := by
  have h := TakeDamage_shield_absorption damageTestShip 100 "forward"
    { ID := "forward", Facing := "forward", MaxStrength := 500, Strength := 500,
      MaxHealth := 100, Health := 100, OnFire := false } (by rfl) (by norm_num)
  refine ⟨?_, (h.2.1 (by norm_num)).1⟩
  have h1 := h.1
  have hloc : defaultLocation "forward" = "forward" := by decide
  rw [hloc] at h1
  rw [h1]
  norm_num

theorem damageSection_eq (sec : HullSection F) (x : F) (ha : 0 ≤ sec.Armor) (hx : 0 ≤ x) :
    damageSection sec x =
      { sec with
        Armor := max 0 (sec.Armor - (1 / 2) * x)
        Health := if 0 < sec.Health - x then sec.Health - x else 0
        Breached := if 0 < sec.Health - x then sec.Breached else true } := by
  have harm : (if sec.Armor > 0 then
        (if sec.Armor - x * (1 / 2) < 0 then 0 else sec.Armor - x * (1 / 2))
      else sec.Armor) = max 0 (sec.Armor - (1 / 2) * x) := by
    by_cases h0 : sec.Armor > 0
    · rw [if_pos h0]
      by_cases h1 : sec.Armor - x * (1 / 2) < 0
      · rw [if_pos h1, max_eq_left (by linarith)]
      · rw [if_neg h1, max_eq_right (by linarith)]
        ring
    · rw [if_neg h0]
      have h2 : sec.Armor = 0 := le_antisymm (not_lt.mp h0) ha
      rw [h2, max_eq_left (by linarith)]
  unfold damageSection
  simp only [harm]
  by_cases hh : sec.Health - x ≤ 0
  · rw [if_pos hh, if_neg (not_lt.mpr hh), if_neg (not_lt.mpr hh)]
  · rw [if_neg hh, if_pos (not_le.mp hh), if_pos (not_le.mp hh)]

/-- C2. Hull step of `TakeDamage`: when an amount `x ≥ 0` reaches the hull
section at the (defaulted) location, whose armor is `a ≥ 0` and health `h`,
the section ends with armor `max 0 (a - x/2)`, with health `h - x` and its
breached flag as before if `h - x > 0`, and with health 0 and breached set
otherwise.  The amount `x` reaches the hull either directly (no emitter with
positive strength at the location, `x` the whole amount) or as the overflow
`amount - S` of an emitter of strength `S` with `0 < S < amount`. -/
theorem TakeDamage_hull_step (s : Ship F) (amount x : F) (location : String)
    (sec : HullSection F)
    (hsec : mapGet s.Hull.Sections (defaultLocation location) = some sec)
    (ha : 0 ≤ sec.Armor) (hx : 0 ≤ x)
    (hreach :
      ((∀ e, mapGet s.Shields.Emitters (defaultLocation location) = some e → e.Strength ≤ 0)
          ∧ x = amount) ∨
      (∃ e, mapGet s.Shields.Emitters (defaultLocation location) = some e ∧
          0 < e.Strength ∧ e.Strength < amount ∧ x = amount - e.Strength)) :
    mapGet (TakeDamage s amount location).Hull.Sections (defaultLocation location) =
      some { sec with
        Armor := max 0 (sec.Armor - (1 / 2) * x)
        Health := if 0 < sec.Health - x then sec.Health - x else 0
        Breached := if 0 < sec.Health - x then sec.Breached else true } := by
  have key : ∀ (t : Ship F), t.Hull = s.Hull →
      mapGet (damageHull t x (defaultLocation location)).Hull.Sections (defaultLocation location)
        = some (damageSection sec x) := by
    intro t ht
    unfold damageHull
    rw [ht, hsec]
    exact mapGet_mapSet_same _ _ _
  rw [← damageSection_eq sec x ha hx]
  rcases hreach with ⟨hno, hxa⟩ | ⟨e, he, hS, hlt, hxa⟩
  · subst hxa
    have hT : TakeDamage s x location = damageHull s x (defaultLocation location) := by
      cases hem : mapGet s.Shields.Emitters (defaultLocation location) with
      | none => simp only [TakeDamage, hem]
      | some e =>
        have hle : ¬ e.Strength > 0 := not_lt.mpr (hno e hem)
        simp only [TakeDamage, hem, if_neg hle]
    rw [hT]
    exact key s rfl
  · have h3 := (TakeDamage_absorption_cases s amount location e he hS).2.2 hlt
    have hm : max 0 (amount - e.Strength) = x := by
      rw [hxa]
      exact max_eq_right (by linarith)
    rw [h3, hm]
    exact key _ rfl

/-- C2, scenario 2 of the specification: emitter 500, section health 500 and
armor 200, `TakeDamage(600, "forward")` leaves strength 0, armor 150, health
400 and the section not breached. -/
theorem TakeDamage_hull_step_witness :
    mapGet (TakeDamage damageTestShip 600 "forward").Shields.Emitters "forward"
        = some { ID := "forward", Facing := "forward", MaxStrength := 500, Strength := 0,
                 MaxHealth := 100, Health := 100, OnFire := false } ∧
    mapGet (TakeDamage damageTestShip 600 "forward").Hull.Sections "forward"
        = some { ID := "forward", MaxArmor := 200, Armor := 150, MaxHealth := 500,
                 Health := 400, Breached := false, OnFire := false } := by
  have hloc : defaultLocation "forward" = "forward" := by decide
  have h := TakeDamage_hull_step damageTestShip 600 100 "forward"
    { ID := "forward", MaxArmor := 200, Armor := 200, MaxHealth := 500, Health := 500,
      Breached := false, OnFire := false } (by rfl) (by norm_num) (by norm_num)
    (Or.inr ⟨{ ID := "forward", Facing := "forward", MaxStrength := 500, Strength := 500,
               MaxHealth := 100, Health := 100, OnFire := false },
             by rfl, by norm_num, by norm_num, by norm_num⟩)
  rw [hloc] at h
  constructor
  · simp [TakeDamage, damageHull, damageSection, defaultLocation, damageTestShip, NewShip,
      damageTestClass, mapSet, mapGet]
  · rw [h]
    norm_num

/-! ## Weapon firing -/

theorem FireWeapon_absent (s : Ship F) (weaponID targetID : String)
    (h : mapGet s.Weapons weaponID = none) : FireWeapon s weaponID targetID = (s, false) := by
  simp only [FireWeapon, h]

theorem FireWeapon_refused (s : Ship F) (weaponID targetID : String) (w : Weapon F)
    (h : mapGet s.Weapons weaponID = some w) (hr : refusesToFire w) :
    FireWeapon s weaponID targetID = (s, false) := by
  simp only [FireWeapon, h]
  rcases hr with h1 | h1 | ⟨ht, h1⟩
  · rw [if_pos (Or.inl h1)]
  · rw [if_pos (Or.inr h1)]
  · by_cases h0 : w.Health ≤ 0 ∨ w.Cooldown > 0
    · rw [if_pos h0]
    · rw [if_neg h0, if_pos ht]
      by_cases h2 : w.Armed = false ∨ w.Loaded = false ∨ w.Locked = false
      · rw [if_pos h2]
      · rw [if_neg h2]
        have h3 : w.AmmoCount ≤ 0 := by
          rcases h1 with h1 | h1 | h1 | h1
          · exact absurd (Or.inl h1) h2
          · exact absurd (Or.inr (Or.inl h1)) h2
          · exact absurd (Or.inr (Or.inr h1)) h2
          · exact h1
        rw [if_pos h3]

theorem FireWeapon_fired (s : Ship F) (weaponID targetID : String) (w : Weapon F)
    (h : mapGet s.Weapons weaponID = some w) (hr : ¬ refusesToFire w) :
    FireWeapon s weaponID targetID =
      ({ s with Weapons := mapSet s.Weapons weaponID (firedWeapon w), TargetID := targetID },
        true) := by
  have h0 : ¬ (w.Health ≤ 0 ∨ w.Cooldown > 0) := by
    rintro (h1 | h1)
    · exact hr (Or.inl h1)
    · exact hr (Or.inr (Or.inl h1))
  simp only [FireWeapon, h, if_neg h0, firedWeapon]
  by_cases ht : w.Type_ = "torpedo"
  · have h2 : ¬ (w.Armed = false ∨ w.Loaded = false ∨ w.Locked = false) := by
      rintro (h1 | h1 | h1)
      · exact hr (Or.inr (Or.inr ⟨ht, Or.inl h1⟩))
      · exact hr (Or.inr (Or.inr ⟨ht, Or.inr (Or.inl h1)⟩))
      · exact hr (Or.inr (Or.inr ⟨ht, Or.inr (Or.inr (Or.inl h1))⟩))
    have h3 : ¬ w.AmmoCount ≤ 0 := fun h1 =>
      hr (Or.inr (Or.inr ⟨ht, Or.inr (Or.inr (Or.inr h1))⟩))
    rw [if_pos ht, if_neg h2, if_neg h3, if_pos ht]
  · rw [if_neg ht, if_neg ht]

/-- C3 as the specification words it fails: the tube of a class with
cooldown-time `-1`, after one shot and a reload, is armed, loaded, locked,
healthy, has nine rounds and a cooldown of `-1`; `FireWeapon` fires it although
its cooldown is not 0. -/
theorem FireWeapon_negative_cooldown_fires :
    mapGet negativeCooldownShip.Weapons "torpedo_1" = some reloadedTorpedo ∧
    reloadedTorpedo.Type_ = "torpedo" ∧
    (FireWeapon negativeCooldownShip "torpedo_1" "target_2").2 = true ∧
    ¬ (reloadedTorpedo.Cooldown = 0) := by
  have hget : mapGet negativeCooldownShip.Weapons "torpedo_1" = some reloadedTorpedo := by
    simp [negativeCooldownShip, negativeCooldownClass, torpedoTestClass, NewShip, FireWeapon,
      mapGet, mapSet, reloadedTorpedo, readyTorpedo]
  have hnr : ¬ refusesToFire reloadedTorpedo := by
    simp [refusesToFire, reloadedTorpedo]
  refine ⟨hget, rfl, ?_, ?_⟩
  · rw [FireWeapon_fired _ _ _ _ hget hnr]
  · simp [reloadedTorpedo]

/-- C3 (amended). `FireWeapon` returns false exactly when the weapon is
absent, or its health is `≤ 0`, or its cooldown is `> 0`, or it is a torpedo
that is not armed, not loaded, not locked or has ammo `≤ 0`; it returns true in
every other case; a refusal leaves the whole ship unchanged; and a torpedo that
fires is armed, loaded, locked, has ammo `> 0`, health `> 0` and cooldown
`≤ 0`, which is cooldown `= 0` whenever the cooldown is not negative. -/
theorem FireWeapon_refusal (s : Ship F) (weaponID targetID : String) :
    ((FireWeapon s weaponID targetID).2 = false ↔
      (mapGet s.Weapons weaponID = none ∨
        ∃ w, mapGet s.Weapons weaponID = some w ∧
          (w.Health ≤ 0 ∨ w.Cooldown > 0 ∨
            (w.Type_ = "torpedo" ∧
              (w.Armed = false ∨ w.Loaded = false ∨ w.Locked = false ∨ w.AmmoCount ≤ 0))))) ∧
    ((FireWeapon s weaponID targetID).2 = false → (FireWeapon s weaponID targetID).1 = s) ∧
    (∀ w, mapGet s.Weapons weaponID = some w → w.Type_ = "torpedo" →
      (FireWeapon s weaponID targetID).2 = true →
        w.Armed = true ∧ w.Loaded = true ∧ w.Locked = true ∧ 0 < w.AmmoCount ∧
        0 < w.Health ∧ w.Cooldown ≤ 0 ∧ (0 ≤ w.Cooldown → w.Cooldown = 0)) := by
  cases hw : mapGet s.Weapons weaponID with
  | none =>
    rw [FireWeapon_absent s weaponID targetID hw]
    refine ⟨⟨fun _ => Or.inl rfl, fun _ => rfl⟩, fun _ => rfl, ?_⟩
    intro w h
    exact absurd h (by simp)
  | some w0 =>
    by_cases hr : refusesToFire w0
    · rw [FireWeapon_refused s weaponID targetID w0 hw hr]
      refine ⟨⟨fun _ => Or.inr ⟨w0, rfl, hr⟩, fun _ => rfl⟩, fun _ => rfl, ?_⟩
      intro w _ _ h
      exact absurd h (by simp)
    · rw [FireWeapon_fired s weaponID targetID w0 hw hr]
      refine ⟨⟨fun h => absurd h (by simp), ?_⟩, fun h => absurd h (by simp), ?_⟩
      · rintro (h | ⟨w, h, hc⟩)
        · exact absurd h (by simp)
        · have hww : w0 = w := Option.some.inj h
          subst hww
          exact absurd hc hr
      · intro w h ht _
        have hww : w0 = w := Option.some.inj h
        subst hww
        have hA : w0.Armed = true := by
          cases hb : w0.Armed
          · exact absurd (Or.inr (Or.inr ⟨ht, Or.inl hb⟩)) hr
          · rfl
        have hL : w0.Loaded = true := by
          cases hb : w0.Loaded
          · exact absurd (Or.inr (Or.inr ⟨ht, Or.inr (Or.inl hb)⟩)) hr
          · rfl
        have hK : w0.Locked = true := by
          cases hb : w0.Locked
          · exact absurd (Or.inr (Or.inr ⟨ht, Or.inr (Or.inr (Or.inl hb))⟩)) hr
          · rfl
        have hammo : 0 < w0.AmmoCount :=
          not_le.mp (fun hb => hr (Or.inr (Or.inr ⟨ht, Or.inr (Or.inr (Or.inr hb))⟩)))
        have hh : 0 < w0.Health := not_le.mp (fun hb => hr (Or.inl hb))
        have hc : w0.Cooldown ≤ 0 := not_lt.mp (fun hb => hr (Or.inr (Or.inl hb)))
        exact ⟨hA, hL, hK, hammo, hh, hc, fun h0 => le_antisymm hc h0⟩

/-- C4. Effects of a successful `FireWeapon(w, t)`: the weapon existed, and
afterwards its cooldown is its cooldown-time, a torpedo has one round fewer and
is unloaded (nothing else about the weapon changes), `TargetID` is `t`, every
other weapon and every other field of the ship is as before, and a second
`FireWeapon` on the same torpedo right away returns false. -/
theorem FireWeapon_effects (s : Ship F) (weaponID targetID : String)
    (hfire : (FireWeapon s weaponID targetID).2 = true) :
    ∃ w, mapGet s.Weapons weaponID = some w ∧
      mapGet (FireWeapon s weaponID targetID).1.Weapons weaponID =
        some { w with
          Cooldown := w.CooldownTime
          AmmoCount := if w.Type_ = "torpedo" then w.AmmoCount - 1 else w.AmmoCount
          Loaded := if w.Type_ = "torpedo" then false else w.Loaded } ∧
      (FireWeapon s weaponID targetID).1.TargetID = targetID ∧
      (∀ k, k ≠ weaponID →
        mapGet (FireWeapon s weaponID targetID).1.Weapons k = mapGet s.Weapons k) ∧
      { (FireWeapon s weaponID targetID).1 with
          Weapons := s.Weapons, TargetID := s.TargetID } = s ∧
      (w.Type_ = "torpedo" → ∀ target2,
        (FireWeapon (FireWeapon s weaponID targetID).1 weaponID target2).2 = false) := by
  cases hw : mapGet s.Weapons weaponID with
  | none =>
    rw [FireWeapon_absent s weaponID targetID hw] at hfire
    exact absurd hfire (by simp)
  | some w =>
    by_cases hr : refusesToFire w
    · rw [FireWeapon_refused s weaponID targetID w hw hr] at hfire
      exact absurd hfire (by simp)
    · rw [FireWeapon_fired s weaponID targetID w hw hr]
      have hfw : firedWeapon w = { w with
          Cooldown := w.CooldownTime
          AmmoCount := if w.Type_ = "torpedo" then w.AmmoCount - 1 else w.AmmoCount
          Loaded := if w.Type_ = "torpedo" then false else w.Loaded } := by
        unfold firedWeapon
        by_cases ht : w.Type_ = "torpedo"
        · simp only [if_pos ht]
        · simp only [if_neg ht]
      refine ⟨w, rfl, ?_, rfl, ?_, rfl, ?_⟩
      · rw [← hfw]
        exact mapGet_mapSet_same _ _ _
      · intro k hk
        exact mapGet_mapSet_ne _ _ _ _ hk
      · intro ht target2
        have hget : mapGet
            ({ s with Weapons := mapSet s.Weapons weaponID (firedWeapon w),
                      TargetID := targetID } : Ship F).Weapons weaponID
            = some (firedWeapon w) := mapGet_mapSet_same _ _ _
        have href : refusesToFire (firedWeapon w) := by
          refine Or.inr (Or.inr ⟨?_, Or.inr (Or.inl ?_)⟩)
          · simp only [firedWeapon, if_pos ht]
            exact ht
          · simp only [firedWeapon, if_pos ht]
        rw [FireWeapon_refused _ weaponID target2 _ hget href]

/-- C4, scenario 3 of the specification: the torpedo with ten rounds, armed,
loaded, locked and off cooldown fires; afterwards it has nine rounds, is
unloaded, its cooldown is its cooldown-time 5, the target is recorded and a
second shot is refused. -/
theorem FireWeapon_effects_witness :
    (FireWeapon torpedoTestShip "torpedo_1" "target_1").2 = true ∧
    mapGet (FireWeapon torpedoTestShip "torpedo_1" "target_1").1.Weapons "torpedo_1" =
      some { readyTorpedo with AmmoCount := 9, Loaded := false, Cooldown := 5 } ∧
    (FireWeapon torpedoTestShip "torpedo_1" "target_1").1.TargetID = "target_1" ∧
    (FireWeapon (FireWeapon torpedoTestShip "torpedo_1" "target_1").1
      "torpedo_1" "target_1").2 = false := by
  have hget : mapGet torpedoTestShip.Weapons "torpedo_1" = some readyTorpedo := by rfl
  have hnr : ¬ refusesToFire readyTorpedo := by simp [refusesToFire, readyTorpedo]
  have hfire : (FireWeapon torpedoTestShip "torpedo_1" "target_1").2 = true := by
    rw [FireWeapon_fired _ _ _ _ hget hnr]
  obtain ⟨w, hw, h1, h2, _, _, h5⟩ := FireWeapon_effects torpedoTestShip "torpedo_1" "target_1" hfire
  have hww : readyTorpedo = w := Option.some.inj (hget.symm.trans hw)
  subst hww
  refine ⟨hfire, ?_, h2, h5 rfl "target_1"⟩
  rw [h1]
  simp [readyTorpedo]

/-- C3 (amended), at the torpedo of `TestShipWeaponFire` after one shot: the
tube is unloaded and cooling down, the second `FireWeapon` is refused and the
ship is left as it was. -/
theorem FireWeapon_refusal_witness :
    (FireWeapon (FireWeapon torpedoTestShip "torpedo_1" "target_1").1
      "torpedo_1" "target_2").2 = false ∧
    (FireWeapon (FireWeapon torpedoTestShip "torpedo_1" "target_1").1
      "torpedo_1" "target_2").1 = (FireWeapon torpedoTestShip "torpedo_1" "target_1").1 := by
  have h := FireWeapon_refusal (FireWeapon torpedoTestShip "torpedo_1" "target_1").1
    "torpedo_1" "target_2"
  have hget : mapGet torpedoTestShip.Weapons "torpedo_1" = some readyTorpedo := by rfl
  have hnr : ¬ refusesToFire readyTorpedo := by simp [refusesToFire, readyTorpedo]
  have hfalse : (FireWeapon (FireWeapon torpedoTestShip "torpedo_1" "target_1").1
      "torpedo_1" "target_2").2 = false := by
    rw [h.1]
    refine Or.inr ⟨firedWeapon readyTorpedo, ?_, ?_⟩
    · rw [FireWeapon_fired _ _ _ _ hget hnr]
      exact mapGet_mapSet_same _ _ _
    · simp [firedWeapon, readyTorpedo]
  exact ⟨hfalse, h.2.1 hfalse⟩

/-! ## Copies made by `CreateSnapshot` -/

theorem mapSet_new {V : Type} (m : List (String × V)) (k : String) (v : V)
    (hk : k ∉ mapKeys m) : mapSet m k v = m ++ [(k, v)] := by
  induction m with
  | nil => rfl
  | cons e rest ih =>
    obtain ⟨k0, x⟩ := e
    have hne : ¬ k0 = k := by
      intro h
      apply hk
      simp [mapKeys, h]
    have hrest : k ∉ mapKeys rest := by
      intro h
      apply hk
      simp only [mapKeys, List.map_cons, List.mem_cons]
      exact Or.inr h
    simp [mapSet, hne, ih hrest]

theorem copy_pointers_eq (l acc : List (String × Addr))
    (hnd : (mapKeys (acc ++ l)).Nodup) :
    l.foldl (fun m e => mapSet m e.1 e.2) acc = acc ++ l := by
  induction l generalizing acc with
  | nil => simp
  | cons e rest ih =>
    have hk : e.1 ∉ mapKeys acc := by
      intro h
      simp only [mapKeys, List.map_append, List.map_cons] at hnd
      have h2 := (List.nodup_append.mp hnd).2.2
      exact h2 h (List.mem_cons_self _ _)
    rw [List.foldl_cons, mapSet_new acc e.1 e.2 hk]
    have hnd2 : (mapKeys ((acc ++ [(e.1, e.2)]) ++ rest)).Nodup := by
      simpa [mapKeys] using hnd
    rw [ih _ hnd2]
    simp

theorem copyCellsLoop_spec {α : Type} (l : List (String × Addr)) (h : Heap α)
    (m : List (String × Addr))
    (hnd : (mapKeys (m ++ l)).Nodup)
    (hl : ∀ e ∈ l, e.2 < h.next) (hm : ∀ e ∈ m, e.2 < h.next)
    (hmp : (m.map Prod.snd).Nodup) :
    (copyCellsLoop l h m).1.next = h.next + l.length ∧
    (∀ a, a < h.next → (copyCellsLoop l h m).1.cell a = h.cell a) ∧
    (copyCellsLoop l h m).2.map (fun e => (e.1, (copyCellsLoop l h m).1.cell e.2))
      = (m ++ l).map (fun e => (e.1, h.cell e.2)) ∧
    mapKeys (copyCellsLoop l h m).2 = mapKeys (m ++ l) ∧
    (∀ e ∈ (copyCellsLoop l h m).2, e.2 < (copyCellsLoop l h m).1.next) ∧
    ((copyCellsLoop l h m).2.map Prod.snd).Nodup := by
  induction l generalizing h m with
  | nil =>
    refine ⟨by simp [copyCellsLoop], fun a _ => rfl, by simp [copyCellsLoop],
      by simp [copyCellsLoop], ?_, hmp⟩
    intro e he
    exact hm e (by simpa [copyCellsLoop] using he)
  | cons e rest ih =>
    have hk : e.1 ∉ mapKeys m := by
      intro hin
      simp only [mapKeys, List.map_append, List.map_cons] at hnd
      exact (List.nodup_append.mp hnd).2.2 hin (List.mem_cons_self _ _)
    have hstep : copyCellsLoop (e :: rest) h m =
        copyCellsLoop rest (h.alloc (h.cell e.2)) (m ++ [(e.1, h.next)]) := by
      simp only [copyCellsLoop, List.foldl_cons]
      rw [mapSet_new m e.1 h.next hk]
    have hnd2 : (mapKeys ((m ++ [(e.1, h.next)]) ++ rest)).Nodup := by
      simpa [mapKeys] using hnd
    have hl2 : ∀ e2 ∈ rest, e2.2 < (h.alloc (h.cell e.2)).next := by
      intro e2 he2
      exact Nat.lt_succ_of_lt (hl e2 (List.mem_cons_of_mem _ he2))
    have hm2 : ∀ e2 ∈ m ++ [(e.1, h.next)], e2.2 < (h.alloc (h.cell e.2)).next := by
      intro e2 he2
      simp only [Heap.alloc]
      rcases List.mem_append.mp he2 with h1 | h1
      · exact Nat.lt_succ_of_lt (hm e2 h1)
      · have h3 : e2 = (e.1, h.next) := by simpa using h1
        rw [h3]
        simp
    have hmp2 : ((m ++ [(e.1, h.next)]).map Prod.snd).Nodup := by
      rw [List.map_append]
      refine List.nodup_append.mpr ⟨hmp, List.nodup_singleton _, ?_⟩
      intro x hx hx2
      have hxn : x = h.next := by simpa using hx2
      obtain ⟨e2, he2, he3⟩ := List.mem_map.mp hx
      have hlt := hm e2 he2
      rw [he3, hxn] at hlt
      exact Nat.lt_irrefl _ hlt
    obtain ⟨i1, i2, i3, i4, i5, i6⟩ :=
      ih (h.alloc (h.cell e.2)) (m ++ [(e.1, h.next)]) hnd2 hl2 hm2 hmp2
    have hcell : ∀ a, a < h.next → (h.alloc (h.cell e.2)).cell a = h.cell a := by
      intro a ha
      simp only [Heap.alloc]
      exact Function.update_noteq (Nat.ne_of_lt ha) _ _
    have hnew : (h.alloc (h.cell e.2)).cell h.next = h.cell e.2 := by
      simp [Heap.alloc]
    rw [hstep]
    refine ⟨?_, ?_, ?_, ?_, i5, i6⟩
    · rw [i1]
      simp only [Heap.alloc, List.length_cons]
      rw [Nat.add_assoc, Nat.add_comm 1]
    · intro a ha
      rw [i2 a (Nat.lt_succ_of_lt ha), hcell a ha]
    · rw [i3]
      simp only [List.map_append, List.map_cons, List.map_nil, List.append_assoc,
        List.singleton_append, hnew]
      congr 1
      · apply List.map_congr_left
        intro e2 he2
        rw [hcell _ (hm e2 he2)]
      · congr 1
        apply List.map_congr_left
        intro e2 he2
        rw [hcell _ (hl e2 (List.mem_cons_of_mem _ he2))]
    · rw [i4]
      simp [mapKeys]

/-! ## Snapshots -/

theorem CreateSnapshot_mem (s : Simulator F) :
    (CreateSnapshot s).mem.ships = s.mem.ships ∧
    (CreateSnapshot s).mem.bags = s.mem.bags ∧
    (CreateSnapshot s).mem.shipMaps = s.mem.shipMaps.alloc
      ((s.mem.shipMaps.cell s.Ships).foldl (fun m e => mapSet m e.1 e.2) []) ∧
    (CreateSnapshot s).mem.projectiles =
      (copyCellsLoop (s.mem.projectileMaps.cell s.Projectiles) s.mem.projectiles []).1 ∧
    (CreateSnapshot s).mem.projectileMaps = s.mem.projectileMaps.alloc
      (copyCellsLoop (s.mem.projectileMaps.cell s.Projectiles) s.mem.projectiles []).2 ∧
    (CreateSnapshot s).mem.objects =
      (copyCellsLoop (s.mem.objectMaps.cell s.Objects) s.mem.objects []).1 ∧
    (CreateSnapshot s).mem.objectMaps = s.mem.objectMaps.alloc
      (copyCellsLoop (s.mem.objectMaps.cell s.Objects) s.mem.objects []).2 :=
  ⟨rfl, rfl, rfl, rfl, rfl, rfl, rfl⟩

theorem CreateSnapshot_Snapshots (s : Simulator F) :
    (CreateSnapshot s).Snapshots = s.Snapshots ++
      [{ Time := s.CurrentTime, Ships := s.mem.shipMaps.next,
         Projectiles := s.mem.projectileMaps.next, Objects := s.mem.objectMaps.next }] :=
  rfl

theorem alloc_cell_old {α : Type} (h : Heap α) (v : α) (a : Addr) (ha : a < h.next) :
    (h.alloc v).cell a = h.cell a := by
  simp only [Heap.alloc]
  exact Function.update_noteq (Nat.ne_of_lt ha) _ _

theorem alloc_cell_new {α : Type} (h : Heap α) (v : α) :
    (h.alloc v).cell h.next = v := by
  simp [Heap.alloc]

/-- The registries recorded by the new snapshot hold what the live world
holds. -/
theorem CreateSnapshot_records (s : Simulator F) (hwf : s.WF) :
    shipsAt (CreateSnapshot s).mem s.mem.shipMaps.next = shipsAt s.mem s.Ships ∧
    projectilesAt (CreateSnapshot s).mem s.mem.projectileMaps.next
      = projectilesAt s.mem s.Projectiles ∧
    objectsAt (CreateSnapshot s).mem s.mem.objectMaps.next = objectsAt s.mem s.Objects := by
  obtain ⟨hS, hP, hO, _, hrs, hrp, hro⟩ := hwf
  obtain ⟨m1, m2, m3, m4, m5, m6, m7⟩ := CreateSnapshot_mem s
  refine ⟨?_, ?_, ?_⟩
  · unfold shipsAt
    rw [m1, m3, alloc_cell_new, copy_pointers_eq _ [] (by simpa using (hrs _ hS).1)]
    simp
  · have hspec := copyCellsLoop_spec (s.mem.projectileMaps.cell s.Projectiles)
      s.mem.projectiles [] (by simpa using (hrp _ hP).1) (hrp _ hP).2.2 (by simp) (by simp)
    unfold projectilesAt
    rw [m4, m5, alloc_cell_new, hspec.2.2.1]
    simp
  · have hspec := copyCellsLoop_spec (s.mem.objectMaps.cell s.Objects)
      s.mem.objects [] (by simpa using (hro _ hO).1) (hro _ hO).2.2 (by simp) (by simp)
    have h3 := congrArg (List.map (fun p : String × (Object F) => (p.1, objectRecord s.mem p.2)))
      hspec.2.2.1
    simp only [List.map_map, List.nil_append] at h3
    unfold objectsAt
    rw [m6, m7, alloc_cell_new]
    have hrec : ∀ o, objectRecord (CreateSnapshot s).mem o = objectRecord s.mem o := by
      intro o
      simp only [objectRecord, m2]
    simp only [hrec]
    exact h3

/-- Registries that existed before `CreateSnapshot` hold afterwards what they
held before. -/
theorem CreateSnapshot_frame (s : Simulator F) (hwf : s.WF) :
    (∀ m, m < s.mem.shipMaps.next → shipsAt (CreateSnapshot s).mem m = shipsAt s.mem m) ∧
    (∀ m, m < s.mem.projectileMaps.next →
      projectilesAt (CreateSnapshot s).mem m = projectilesAt s.mem m) ∧
    (∀ m, m < s.mem.objectMaps.next →
      objectsAt (CreateSnapshot s).mem m = objectsAt s.mem m) := by
  obtain ⟨hS, hP, hO, _, hrs, hrp, hro⟩ := hwf
  obtain ⟨m1, m2, m3, m4, m5, m6, m7⟩ := CreateSnapshot_mem s
  refine ⟨?_, ?_, ?_⟩
  · intro m hm
    unfold shipsAt
    rw [m1, m3, alloc_cell_old _ _ _ hm]
  · intro m hm
    have hspec := copyCellsLoop_spec (s.mem.projectileMaps.cell s.Projectiles)
      s.mem.projectiles [] (by simpa using (hrp _ hP).1) (hrp _ hP).2.2 (by simp) (by simp)
    unfold projectilesAt
    rw [m4, m5, alloc_cell_old _ _ _ hm]
    apply List.map_congr_left
    intro e he
    rw [hspec.2.1 _ ((hrp m hm).2.2 e he)]
  · intro m hm
    have hspec := copyCellsLoop_spec (s.mem.objectMaps.cell s.Objects)
      s.mem.objects [] (by simpa using (hro _ hO).1) (hro _ hO).2.2 (by simp) (by simp)
    have hrec : ∀ o, objectRecord (CreateSnapshot s).mem o = objectRecord s.mem o := by
      intro o
      simp only [objectRecord, m2]
    unfold objectsAt
    rw [m6, m7, alloc_cell_old _ _ _ hm]
    apply List.map_congr_left
    intro e he
    rw [hrec, hspec.2.1 _ ((hro m hm).2.2 e he)]

theorem RestoreSnapshot_last (s : Simulator F) (snap : Snapshot F) (older : List (Snapshot F))
    (hs : s.Snapshots = older ++ [snap]) :
    RestoreSnapshot s (older.length : Int) =
      { s with CurrentTime := snap.Time, Ships := snap.Ships,
               Projectiles := snap.Projectiles, Objects := snap.Objects } := by
  have hidx : ¬ (((older.length : Int) < 0) ∨ ((older.length : Int) ≥ (s.Snapshots.length : Int))) := by
    rw [hs]
    simp only [List.length_append, List.length_singleton, Nat.cast_add, Nat.cast_one]
    omega
  have hget : s.Snapshots.get? (older.length : Int).toNat = some snap := by
    rw [hs]
    simp
  simp only [RestoreSnapshot, if_neg hidx, hget]

/-- C6. Snapshot round trip: `CreateSnapshot` appends exactly one snapshot, at
index `len(Snapshots)`; every earlier snapshot is the same snapshot and records
the same world as before; and `RestoreSnapshot` of the new index right
afterwards gives a world whose time, ships, projectiles and objects equal
those of the world the snapshot was taken of. -/
theorem CreateSnapshot_RestoreSnapshot_roundtrip (s : Simulator F) (hwf : s.WF) :
    (∃ snap, (CreateSnapshot s).Snapshots = s.Snapshots ++ [snap]) ∧
    (∀ snap ∈ s.Snapshots,
      snapshotRecord (CreateSnapshot s).mem snap = snapshotRecord s.mem snap) ∧
    worldRecord (RestoreSnapshot (CreateSnapshot s) (s.Snapshots.length : Int))
      = worldRecord s := by
  obtain ⟨f1, f2, f3⟩ := CreateSnapshot_frame s hwf
  obtain ⟨r1, r2, r3⟩ := CreateSnapshot_records s hwf
  refine ⟨⟨_, CreateSnapshot_Snapshots s⟩, ?_, ?_⟩
  · intro snap hsnap
    obtain ⟨b1, b2, b3⟩ := hwf.2.2.2.1 snap hsnap
    simp only [snapshotRecord, f1 _ b1, f2 _ b2, f3 _ b3]
  · rw [RestoreSnapshot_last (CreateSnapshot s) _ s.Snapshots (CreateSnapshot_Snapshots s)]
    simp only [worldRecord, r1, r2, r3]

/-- C6, at the world with one ship, one torpedo in flight and one object:
the first snapshot is appended and restoring it gives back the same world. -/
theorem CreateSnapshot_RestoreSnapshot_roundtrip_witness :
    busyTestSim.WF ∧
    (∃ snap, (CreateSnapshot busyTestSim).Snapshots = busyTestSim.Snapshots ++ [snap]) ∧
    (∀ snap ∈ busyTestSim.Snapshots,
      snapshotRecord (CreateSnapshot busyTestSim).mem snap
        = snapshotRecord busyTestSim.mem snap) ∧
    worldRecord (RestoreSnapshot (CreateSnapshot busyTestSim)
      (busyTestSim.Snapshots.length : Int)) = worldRecord busyTestSim :=
  ⟨by decide, CreateSnapshot_RestoreSnapshot_roundtrip busyTestSim (by decide)⟩

/-- C7. Restore after removal: for a ship id present when the snapshot is
created, `RemoveShip(id)` makes `GetShip(id)` nil, and `RestoreSnapshot` of
that snapshot makes `GetShip(id)` return a ship whose fields are those the ship
had when the snapshot was created. -/
theorem RestoreSnapshot_after_RemoveShip (s : Simulator F) (hwf : s.WF) (id : String)
    (a : Addr) (hship : GetShip s id = some a) :
    GetShip (RemoveShip (CreateSnapshot s) id) id = none ∧
    ∃ b, GetShip (RestoreSnapshot (RemoveShip (CreateSnapshot s) id)
          (s.Snapshots.length : Int)) id = some b ∧
      (RestoreSnapshot (RemoveShip (CreateSnapshot s) id)
          (s.Snapshots.length : Int)).mem.ships.cell b = s.mem.ships.cell a := by
  obtain ⟨hS, _, _, _, hrs, _, _⟩ := hwf
  obtain ⟨m1, _, m3, _, _, _, _⟩ := CreateSnapshot_mem s
  have hsnaps : (RemoveShip (CreateSnapshot s) id).Snapshots = s.Snapshots ++
      [{ Time := s.CurrentTime, Ships := s.mem.shipMaps.next,
         Projectiles := s.mem.projectileMaps.next, Objects := s.mem.objectMaps.next }] :=
    CreateSnapshot_Snapshots s
  have hcopy : (s.mem.shipMaps.cell s.Ships).foldl (fun m e => mapSet m e.1 e.2) []
      = s.mem.shipMaps.cell s.Ships :=
    (copy_pointers_eq _ [] (by simpa using (hrs _ hS).1)).trans (List.nil_append _)
  constructor
  · simp only [GetShip, RemoveShip, Heap.write]
    have : (CreateSnapshot s).Ships = s.Ships := rfl
    rw [Function.update_same]
    exact mapGet_mapDelete_same _ _
  · refine ⟨a, ?_, ?_⟩
    · rw [RestoreSnapshot_last _ _ _ hsnaps]
      simp only [GetShip, RemoveShip, Heap.write]
      have hne : s.mem.shipMaps.next ≠ (CreateSnapshot s).Ships := Nat.ne_of_gt hS
      rw [Function.update_noteq hne, m3, alloc_cell_new, hcopy]
      exact hship
    · rw [RestoreSnapshot_last _ _ _ hsnaps]
      simp only [RemoveShip, Heap.write, m1]

/-- C7, scenario 4 of the specification: create a snapshot, remove `ship_1`,
restore snapshot 0; the ship is back with the fields it had. -/
theorem RestoreSnapshot_after_RemoveShip_witness :
    GetShip snapshotTestSim "ship_1" = some 0 ∧
    GetShip (RemoveShip (CreateSnapshot snapshotTestSim) "ship_1") "ship_1" = none ∧
    ∃ b, GetShip (RestoreSnapshot (RemoveShip (CreateSnapshot snapshotTestSim) "ship_1")
          (snapshotTestSim.Snapshots.length : Int)) "ship_1" = some b ∧
      (RestoreSnapshot (RemoveShip (CreateSnapshot snapshotTestSim) "ship_1")
          (snapshotTestSim.Snapshots.length : Int)).mem.ships.cell b
        = snapshotTestSim.mem.ships.cell 0 :=
  ⟨by decide,
    RestoreSnapshot_after_RemoveShip snapshotTestSim (by decide) "ship_1" 0 (by decide)⟩

/-- C5 fails on the code: after `CreateSnapshot`, damage dealt to the live
ship `ship_1` shows in the snapshot; the ship the snapshot records had its
`forward` emitter at 500 when the snapshot was made and has it at 400 after the
live ship took 100 damage. -/
theorem CreateSnapshot_ship_not_isolated :
    (CreateSnapshot snapshotTestSim).Snapshots
      = [{ Time := 0, Ships := 1, Projectiles := 1, Objects := 1 }] ∧
    forwardStrengthOf (shipsAt (CreateSnapshot snapshotTestSim).mem 1) = some 500 ∧
    forwardStrengthOf
      (shipsAt (DamageShip (CreateSnapshot snapshotTestSim) "ship_1" 100 "forward").mem 1)
        = some 400 := by
  refine ⟨by rfl, by rfl, ?_⟩
  simp [forwardStrengthOf, shipsAt, DamageShip, GetShip, CreateSnapshot, copyShips, copyProjectiles, copyObjects, copyCellsLoop, snapshotTestSim, SpawnShip, NewSimulator, Heap.alloc, Heap.write, Heap.empty, mapGet, mapSet, damageTestClass, NewShip, TakeDamage, defaultLocation, Function.update]
  norm_num

/-- C8 fails on the code: after `RestoreSnapshot(0)` the live ship registry is
the snapshot's own map, so `RemoveShip` removes the ship from the snapshot and
a second `RestoreSnapshot(0)` no longer brings `ship_1` back. -/
theorem RestoreSnapshot_aliases_registry :
    mapKeys (shipsAt (RestoreSnapshot (CreateSnapshot snapshotTestSim) 0).mem
      (RestoreSnapshot (CreateSnapshot snapshotTestSim) 0).Ships) = ["ship_1"] ∧
    mapKeys (shipsAt
      (RestoreSnapshot
        (RemoveShip (RestoreSnapshot (CreateSnapshot snapshotTestSim) 0) "ship_1") 0).mem
      (RestoreSnapshot
        (RemoveShip (RestoreSnapshot (CreateSnapshot snapshotTestSim) 0) "ship_1") 0).Ships)
      = [] := by
  constructor
  · decide
  · decide

/-! ## Collisions -/

theorem damageHull_Position (s : Ship F) (x : F) (loc : String) :
    (damageHull s x loc).Position = s.Position := by
  unfold damageHull
  cases mapGet s.Hull.Sections loc <;> rfl

theorem TakeDamage_Position (s : Ship F) (x : F) (loc : String) :
    (TakeDamage s x loc).Position = s.Position := by
  unfold TakeDamage
  simp only
  split
  · split
    · split
      · rw [damageHull_Position]
      · rfl
    · rw [damageHull_Position]
  · rw [damageHull_Position]

theorem iterate_TakeDamage_Position (n : Nat) (s : Ship F) (x : F) (loc : String) :
    ((fun sh => TakeDamage sh x loc)^[n] s).Position = s.Position := by
  induction n generalizing s with
  | zero => rfl
  | succ k ih =>
    rw [Function.iterate_succ_apply, ih, TakeDamage_Position]

theorem collide_pair_cell (h : Heap (Ship F)) (a b c : Addr) :
    ((if distance (h.cell a).Position (h.cell b).Position < 100
        then hitShip (hitShip h a 10 "forward") b 10 "forward" else h).cell c)
      = (fun sh => TakeDamage sh 10 "forward")^[pairHits (fun x => (h.cell x).Position) a b c]
          (h.cell c) := by
  unfold pairHits
  by_cases hd : distance (h.cell a).Position (h.cell b).Position < 100
  · simp only [if_pos hd, hitShip, Heap.write]
    by_cases hcb : c = b
    · subst hcb
      by_cases hca : c = a
      · subst hca
        simp [Function.update_same]
      · simp [Function.update_same, Function.update_noteq hca, hca]
    · by_cases hca : c = a
      · subst hca
        simp [Function.update_same, Function.update_noteq hcb, hcb]
      · simp [Function.update_noteq hcb, Function.update_noteq hca, hcb, hca]
  · simp only [if_neg hd]
    rfl

theorem collideWith_cell (h : Heap (Ship F)) (a : Addr) (l : List Addr) (c : Addr) :
    (collideWith h a l).cell c
      = (fun sh => TakeDamage sh 10 "forward")^[innerHits (fun x => (h.cell x).Position) a l c]
          (h.cell c) := by
  induction l generalizing h with
  | nil => rfl
  | cons b rest ih =>
    have hpos : (fun x => ((if distance (h.cell a).Position (h.cell b).Position < 100
        then hitShip (hitShip h a 10 "forward") b 10 "forward" else h).cell x).Position)
        = fun x => (h.cell x).Position := by
      funext x
      rw [collide_pair_cell, iterate_TakeDamage_Position]
    simp only [collideWith]
    rw [ih, hpos, collide_pair_cell, ← Function.iterate_add_apply]
    congr 1
    simp only [innerHits, List.map_cons, List.sum_cons]
    exact Nat.add_comm _ _

theorem collidePairs_cell (h : Heap (Ship F)) (l : List Addr) (c : Addr) :
    (collidePairs h l).cell c
      = (fun sh => TakeDamage sh 10 "forward")^[outerHits (fun x => (h.cell x).Position) l c]
          (h.cell c) := by
  induction l generalizing h with
  | nil => rfl
  | cons a rest ih =>
    have hpos : (fun x => ((collideWith h a rest).cell x).Position)
        = fun x => (h.cell x).Position := by
      funext x
      rw [collideWith_cell, iterate_TakeDamage_Position]
    simp only [collidePairs]
    rw [ih, hpos, collideWith_cell, ← Function.iterate_add_apply]
    congr 1
    simp only [outerHits]
    exact Nat.add_comm _ _

theorem distance_comm (a b : Vector3 F) : distance a b = distance b a := by
  unfold distance
  ring

theorem innerHits_absent (pos : Addr → (Vector3 F)) (a : Addr) (l : List Addr) (c : Addr)
    (hca : c ≠ a) (hc : c ∉ l) : innerHits pos a l c = 0 := by
  induction l with
  | nil => rfl
  | cons b rest ih =>
    have hcb : c ≠ b := fun h => hc (h ▸ List.mem_cons_self _ _)
    have hrest : c ∉ rest := fun h => hc (List.mem_cons_of_mem _ h)
    have ih2 := ih hrest
    simp only [innerHits] at ih2
    simp only [innerHits, List.map_cons, List.sum_cons]
    rw [ih2]
    simp [pairHits, hca, hcb]

theorem outerHits_absent (pos : Addr → (Vector3 F)) (l : List Addr) (c : Addr) (hc : c ∉ l) :
    outerHits pos l c = 0 := by
  induction l with
  | nil => rfl
  | cons a rest ih =>
    have hca : c ≠ a := fun h => hc (h ▸ List.mem_cons_self _ _)
    have hrest : c ∉ rest := fun h => hc (List.mem_cons_of_mem _ h)
    simp [outerHits, innerHits_absent pos a rest c hca hrest, ih hrest]

theorem innerHits_self (pos : Addr → (Vector3 F)) (a : Addr) (l : List Addr) (ha : a ∉ l) :
    innerHits pos a l a
      = l.countP (fun b => decide (b ≠ a ∧ distance (pos a) (pos b) < 100)) := by
  induction l with
  | nil => rfl
  | cons b rest ih =>
    have hab : a ≠ b := fun h => ha (h ▸ List.mem_cons_self _ _)
    have hba : b ≠ a := fun h => hab h.symm
    have hrest : a ∉ rest := fun h => ha (List.mem_cons_of_mem _ h)
    have ih2 := ih hrest
    simp only [innerHits] at ih2
    simp only [innerHits, List.map_cons, List.sum_cons, ih2, List.countP_cons]
    by_cases hd : distance (pos a) (pos b) < 100
    · simp [pairHits, hd, hab, hba, Nat.add_comm]
    · simp [pairHits, hd]

theorem innerHits_other (pos : Addr → (Vector3 F)) (a : Addr) (l : List Addr) (c : Addr)
    (hca : c ≠ a) (hc : c ∈ l) (hnd : l.Nodup) :
    innerHits pos a l c = if distance (pos c) (pos a) < 100 then 1 else 0 := by
  induction l with
  | nil => exact absurd hc (List.not_mem_nil _)
  | cons b rest ih =>
    have hb : b ∉ rest := (List.nodup_cons.mp hnd).1
    have hnd2 : rest.Nodup := (List.nodup_cons.mp hnd).2
    simp only [innerHits, List.map_cons, List.sum_cons]
    by_cases hcb : c = b
    · subst hcb
      have h0 := innerHits_absent pos a rest c hca hb
      simp only [innerHits] at h0
      rw [h0, distance_comm (pos c) (pos a)]
      simp [pairHits, hca]
    · have hcr : c ∈ rest := by
        rcases List.mem_cons.mp hc with h | h
        · exact absurd h hcb
        · exact h
      have ih2 := ih hcr hnd2
      simp only [innerHits] at ih2
      rw [ih2]
      simp [pairHits, hca, hcb]

theorem outerHits_eq_closeShips (h : Heap (Ship F)) (l : List Addr) (hnd : l.Nodup) (c : Addr)
    (hc : c ∈ l) :
    outerHits (fun x => (h.cell x).Position) l c = closeShips h l c := by
  induction l with
  | nil => exact absurd hc (List.not_mem_nil _)
  | cons a rest ih =>
    have ha : a ∉ rest := (List.nodup_cons.mp hnd).1
    have hnd2 : rest.Nodup := (List.nodup_cons.mp hnd).2
    simp only [outerHits, closeShips, List.countP_cons]
    by_cases hca : c = a
    · subst hca
      rw [innerHits_self _ c rest ha, outerHits_absent _ rest c ha]
      simp
    · have hcr : c ∈ rest := by
        rcases List.mem_cons.mp hc with h1 | h1
        · exact absurd h1 hca
        · exact h1
      have hac : a ≠ c := fun h1 => hca h1.symm
      rw [innerHits_other _ a rest c hca hcr hnd2, ih hnd2 hcr]
      simp only [closeShips]
      by_cases hd : distance (h.cell c).Position (h.cell a).Position < 100
      · simp [hd, hac, Nat.add_comm]
      · simp [hd]

/-- The ships after `checkCollisions`, cell by cell. -/
theorem checkCollisions_cells (s : Simulator F)
    (hnd : ((s.mem.shipMaps.cell s.Ships).map Prod.snd).Nodup) :
    (∀ a ∈ (s.mem.shipMaps.cell s.Ships).map Prod.snd,
      (checkCollisions s).mem.ships.cell a =
        (fun sh => TakeDamage sh 10 "forward")^[closeShips s.mem.ships
            ((s.mem.shipMaps.cell s.Ships).map Prod.snd) a]
          (s.mem.ships.cell a)) ∧
    (∀ a, a ∉ (s.mem.shipMaps.cell s.Ships).map Prod.snd →
      (checkCollisions s).mem.ships.cell a = s.mem.ships.cell a) := by
  constructor
  · intro a ha
    simp only [checkCollisions]
    rw [collidePairs_cell, outerHits_eq_closeShips _ _ hnd a ha]
  · intro a ha
    simp only [checkCollisions]
    rw [collidePairs_cell, outerHits_absent _ _ a ha]
    rfl

/-- C9. Ship-ship collisions: when the ships of the live registry are distinct
ships, `checkCollisions` leaves every ship of the registry as `k` applications
of `TakeDamage(10, "forward")` make it, `k` being the number of other ships of
the registry whose squared distance to it is below 100, and leaves every ship
outside the registry as it was. -/
theorem checkCollisions_hits (s : Simulator F)
    (hnd : ((s.mem.shipMaps.cell s.Ships).map Prod.snd).Nodup) :
    (∀ a ∈ (s.mem.shipMaps.cell s.Ships).map Prod.snd,
      (checkCollisions s).mem.ships.cell a =
        (fun sh => TakeDamage sh 10 "forward")^[closeShips s.mem.ships
            ((s.mem.shipMaps.cell s.Ships).map Prod.snd) a]
          (s.mem.ships.cell a)) ∧
    (∀ a, a ∉ (s.mem.shipMaps.cell s.Ships).map Prod.snd →
      (checkCollisions s).mem.ships.cell a = s.mem.ships.cell a) :=
  checkCollisions_cells s hnd

/-- C9, scenario 5 of the specification and its converse: `ship_1` and
`ship_2` share a position and each takes `TakeDamage(10, "forward")` exactly
once; `ship_3`, ten units away from both, takes none. -/
theorem checkCollisions_hits_witness :
    (collisionTestSim.mem.shipMaps.cell collisionTestSim.Ships).map Prod.snd = [0, 1, 2] ∧
    (checkCollisions collisionTestSim).mem.ships.cell 0
      = TakeDamage (collisionTestSim.mem.ships.cell 0) 10 "forward" ∧
    (checkCollisions collisionTestSim).mem.ships.cell 1
      = TakeDamage (collisionTestSim.mem.ships.cell 1) 10 "forward" ∧
    (checkCollisions collisionTestSim).mem.ships.cell 2
      = collisionTestSim.mem.ships.cell 2 := by
  have hl : (collisionTestSim.mem.shipMaps.cell collisionTestSim.Ships).map Prod.snd
      = [0, 1, 2] := by decide
  have h := (checkCollisions_hits collisionTestSim (by rw [hl]; decide)).1
  rw [hl] at h
  have k0 : closeShips collisionTestSim.mem.ships [0, 1, 2] 0 = 1 := by
    simp [closeShips, collisionTestSim, SpawnShip, NewSimulator, distance, mapGet, mapSet,
      Heap.alloc, Heap.write, Heap.empty, Function.update, NewShip]
    norm_num
  have k1 : closeShips collisionTestSim.mem.ships [0, 1, 2] 1 = 1 := by
    simp [closeShips, collisionTestSim, SpawnShip, NewSimulator, distance, mapGet, mapSet,
      Heap.alloc, Heap.write, Heap.empty, Function.update, NewShip]
    norm_num
  have k2 : closeShips collisionTestSim.mem.ships [0, 1, 2] 2 = 0 := by
    simp [closeShips, collisionTestSim, SpawnShip, NewSimulator, distance, mapGet, mapSet,
      Heap.alloc, Heap.write, Heap.empty, Function.update, NewShip]
    norm_num
  have h0 := h 0 (by decide)
  have h1 := h 1 (by decide)
  have h2 := h 2 (by decide)
  rw [k0] at h0
  rw [k1] at h1
  rw [k2] at h2
  exact ⟨hl, h0, h1, h2⟩

/-! ## Projectiles -/

/-- C10 fails on the code: a torpedo aimed at `ship_1`, within its lifetime
and at rest ten units from the ship (squared distance 100, so well within 50
units), goes through `updateProjectiles` without hitting: it stays in the
registry and the ship is as it was, its `forward` emitter still at 500. -/
theorem updateProjectiles_misses_within_fifty_units :
    GetShip nearMissSim "ship_1" = some 0 ∧
    (nearMissSim.mem.ships.cell 0).Position = ⟨100, 0, 0⟩ ∧
    projectilesAt nearMissSim.mem nearMissSim.Projectiles =
      [("torpedo_1",
        { ID := "torpedo_1", Type_ := "torpedo", Position := ⟨90, 0, 0⟩,
          Velocity := ⟨0, 0, 0⟩, Damage := 100, SourceID := "ship_2", TargetID := "ship_1",
          Lifetime := 0, MaxLifetime := 10 })] ∧
    distance (⟨90, 0, 0⟩ : Vector3 ℚ) ⟨100, 0, 0⟩ = 100 ∧ (100 : ℚ) < 50 * 50 ∧
    projectilesAt (updateProjectiles nearMissSim).mem (updateProjectiles nearMissSim).Projectiles =
      [("torpedo_1",
        { ID := "torpedo_1", Type_ := "torpedo", Position := ⟨90, 0, 0⟩,
          Velocity := ⟨0, 0, 0⟩, Damage := 100, SourceID := "ship_2", TargetID := "ship_1",
          Lifetime := 1 / 60, MaxLifetime := 10 })] ∧
    (updateProjectiles nearMissSim).mem.ships.cell 0 = nearMissSim.mem.ships.cell 0 ∧
    forwardStrengthOf (shipsAt (updateProjectiles nearMissSim).mem
      (updateProjectiles nearMissSim).Ships) = some 500 := by
  have hstep : updateProjectilesStep nearMissSim
      (nearMissSim.mem.ships, nearMissSim.mem.projectiles, []) ("torpedo_1", 0)
      = (nearMissSim.mem.ships,
          nearMissSim.mem.projectiles.write 0
            { ID := "torpedo_1", Type_ := "torpedo", Position := ⟨90, 0, 0⟩,
              Velocity := ⟨0, 0, 0⟩, Damage := 100, SourceID := "ship_2",
              TargetID := "ship_1", Lifetime := 1 / 60, MaxLifetime := 10 }, []) := by
    simp [updateProjectilesStep, nearMissSim, SpawnProjectile, snapshotTestSim, SpawnShip,
      NewSimulator, distance, mapGet, mapSet, Heap.alloc, Heap.write, Heap.empty,
      Function.update, NewShip]
    norm_num
  have hmap : nearMissSim.mem.projectileMaps.cell nearMissSim.Projectiles
      = [("torpedo_1", 0)] := by decide
  have hupd : (updateProjectiles nearMissSim).mem.ships = nearMissSim.mem.ships ∧
      (updateProjectiles nearMissSim).mem.projectiles =
        nearMissSim.mem.projectiles.write 0
          { ID := "torpedo_1", Type_ := "torpedo", Position := ⟨90, 0, 0⟩,
            Velocity := ⟨0, 0, 0⟩, Damage := 100, SourceID := "ship_2",
            TargetID := "ship_1", Lifetime := 1 / 60, MaxLifetime := 10 } ∧
      (updateProjectiles nearMissSim).mem.projectileMaps.cell
        (updateProjectiles nearMissSim).Projectiles = [("torpedo_1", 0)] ∧
      (updateProjectiles nearMissSim).mem.shipMaps = nearMissSim.mem.shipMaps ∧
      (updateProjectiles nearMissSim).Ships = nearMissSim.Ships := by
    simp only [updateProjectiles, hmap, List.foldl_cons, List.foldl_nil, hstep, Heap.write,
      Function.update_same]
    refine ⟨?_, ?_, ?_, ?_, ?_⟩ <;> trivial
  obtain ⟨u1, u2, u3, u4, u5⟩ := hupd
  refine ⟨by decide, by rfl, by rfl, ?_, by norm_num, ?_, ?_, ?_⟩
  · simp [distance]
    norm_num
  · simp only [projectilesAt, u2, u3, List.map_cons, List.map_nil, Heap.write,
      Function.update_same]
  · rw [u1]
  · simp only [shipsAt, u1, u4, u5]
    rfl

/-! ## Well-formedness is an invariant

`NewSimulator` builds a well-formed state and every operation modelled above
keeps it, so the hypothesis `Simulator.WF` of the snapshot theorems holds in
every state the operations can reach. -/

theorem mem_mapSet {V : Type} (m : List (String × V)) (k : String) (v : V)
    (e : String × V) (he : e ∈ mapSet m k v) : e ∈ m ∨ e = (k, v) := by
  induction m with
  | nil =>
    simp only [mapSet, List.mem_singleton] at he
    exact Or.inr he
  | cons x rest ih =>
    obtain ⟨k0, y⟩ := x
    by_cases h : k0 = k
    · simp only [mapSet, if_pos h, List.mem_cons] at he
      rcases he with he | he
      · exact Or.inr (by rw [he, h])
      · exact Or.inl (List.mem_cons_of_mem _ he)
    · simp only [mapSet, if_neg h, List.mem_cons] at he
      rcases he with he | he
      · exact Or.inl (by rw [he]; exact List.mem_cons_self _ _)
      · rcases ih he with h1 | h1
        · exact Or.inl (List.mem_cons_of_mem _ h1)
        · exact Or.inr h1

theorem mapKeys_mapSet {V : Type} (m : List (String × V)) (k : String) (v : V) :
    mapKeys (mapSet m k v) = if k ∈ mapKeys m then mapKeys m else mapKeys m ++ [k] := by
  induction m with
  | nil => simp [mapSet, mapKeys]
  | cons x rest ih =>
    obtain ⟨k0, y⟩ := x
    by_cases h : k0 = k
    · subst h
      simp [mapSet, mapKeys]
    · have h2 : ¬ k = k0 := fun h3 => h h3.symm
      simp only [mapKeys] at ih
      by_cases hin : k ∈ List.map Prod.fst rest
      · simp [mapSet, mapKeys, h, h2, hin, ih]
      · simp [mapSet, mapKeys, h, h2, hin, ih]

theorem mapKeys_mapSet_nodup {V : Type} (m : List (String × V)) (k : String) (v : V)
    (hnd : (mapKeys m).Nodup) : (mapKeys (mapSet m k v)).Nodup := by
  rw [mapKeys_mapSet]
  by_cases hin : k ∈ mapKeys m
  · rw [if_pos hin]
    exact hnd
  · rw [if_neg hin]
    refine List.nodup_append.mpr ⟨hnd, List.nodup_singleton k, ?_⟩
    intro x hx hx2
    have : x = k := by simpa using hx2
    exact hin (this ▸ hx)

theorem mapDelete_sublist {V : Type} (m : List (String × V)) (k : String) :
    List.Sublist (mapDelete m k) m := by
  induction m with
  | nil => exact List.Sublist.refl _
  | cons x rest ih =>
    obtain ⟨k0, y⟩ := x
    by_cases h : k0 = k
    · simp only [mapDelete, if_pos h]
      exact List.Sublist.cons _ ih
    · simp only [mapDelete, if_neg h]
      exact List.Sublist.cons₂ _ ih

theorem mapSet_pointers_nodup (l : List (String × Addr)) (k : String) (a : Addr)
    (hnd : (l.map Prod.snd).Nodup) (ha : a ∉ l.map Prod.snd) :
    ((mapSet l k a).map Prod.snd).Nodup := by
  induction l with
  | nil => simp [mapSet]
  | cons x rest ih =>
    obtain ⟨k0, y⟩ := x
    have hy : y ∉ rest.map Prod.snd := (List.nodup_cons.mp hnd).1
    have hrest : (rest.map Prod.snd).Nodup := (List.nodup_cons.mp hnd).2
    have har : a ∉ rest.map Prod.snd := fun h => ha (List.mem_cons_of_mem _ h)
    have hay : y ≠ a := fun h => ha (by rw [← h]; exact List.mem_cons_self _ _)
    by_cases h : k0 = k
    · simp only [mapSet, if_pos h, List.map_cons]
      exact List.nodup_cons.mpr ⟨har, hrest⟩
    · simp only [mapSet, if_neg h, List.map_cons]
      refine List.nodup_cons.mpr ⟨?_, ih hrest har⟩
      intro hin
      obtain ⟨e, he, he2⟩ := List.mem_map.mp hin
      rcases mem_mapSet rest k a e he with h1 | h1
      · exact hy (List.mem_map.mpr ⟨e, h1, he2⟩)
      · rw [h1] at he2
        exact hay he2.symm

theorem registry_sublist (l l2 : List (String × Addr)) (bound : Addr)
    (hsub : List.Sublist l2 l) (h : registryOK l bound) : registryOK l2 bound :=
  ⟨List.Nodup.sublist (List.Sublist.map Prod.fst hsub) h.1,
    List.Nodup.sublist (List.Sublist.map Prod.snd hsub) h.2.1,
    fun e he => h.2.2 e (List.Sublist.subset hsub he)⟩

theorem registry_mapSet (l : List (String × Addr)) (k : String) (a : Addr)
    (h : registryOK l a) : registryOK (mapSet l k a) (a + 1) := by
  have hfresh : a ∉ l.map Prod.snd := by
    intro hin
    obtain ⟨e, he, he2⟩ := List.mem_map.mp hin
    have hlt := h.2.2 e he
    rw [he2] at hlt
    exact Nat.lt_irrefl _ hlt
  refine ⟨mapKeys_mapSet_nodup l k a h.1, mapSet_pointers_nodup l k a h.2.1 hfresh, ?_⟩
  intro e he
  rcases mem_mapSet l k a e he with h1 | h1
  · exact Nat.lt_succ_of_lt (h.2.2 e h1)
  · rw [h1]
    exact Nat.lt_succ_self _

theorem registriesWF_mono (maps : Heap (List (String × Addr))) (b b2 : Addr)
    (hb : b ≤ b2) (h : registriesWF maps b) : registriesWF maps b2 :=
  fun m hm => ⟨(h m hm).1, (h m hm).2.1,
    fun e he => Nat.lt_of_lt_of_le ((h m hm).2.2 e he) hb⟩

theorem registriesWF_write (maps : Heap (List (String × Addr))) (b : Addr) (a : Addr)
    (l : List (String × Addr)) (h : registriesWF maps b)
    (hl : registryOK l b) : registriesWF (maps.write a l) b := by
  intro m hm
  by_cases hma : m = a
  · subst hma
    simp only [Heap.write, Function.update_same]
    exact hl
  · simp only [Heap.write, Function.update_noteq hma]
    exact h m hm

theorem registriesWF_alloc (maps : Heap (List (String × Addr))) (b : Addr)
    (l : List (String × Addr)) (h : registriesWF maps b)
    (hl : registryOK l b) : registriesWF (maps.alloc l) b := by
  intro m hm
  by_cases hma : m = maps.next
  · subst hma
    rw [alloc_cell_new]
    exact hl
  · have hlt : m < maps.next := by
      simp only [Heap.alloc] at hm
      exact Nat.lt_of_le_of_ne (Nat.le_of_lt_succ hm) hma
    rw [alloc_cell_old _ _ _ hlt]
    exact h m hlt

/-- In a well-formed state the ships of the live registry are distinct
ships. -/
theorem WF_ships_distinct (s : Simulator F) (hwf : s.WF) :
    ((s.mem.shipMaps.cell s.Ships).map Prod.snd).Nodup :=
  (hwf.2.2.2.2.1 _ hwf.1).2.1

theorem NewSimulator_WF (tickRate : Int) (shipClasses : List (String × ShipClass F)) :
    (NewSimulator tickRate shipClasses).WF := by
  have hreg : ∀ b, registriesWF ((Heap.empty : Heap (List (String × Addr))).alloc []) b := by
    intro b m hm
    have hm0 : m = 0 := by
      simp only [Heap.alloc, Heap.empty] at hm
      exact Nat.lt_one_iff.mp hm
    subst hm0
    simp [Heap.alloc, Heap.empty, mapKeys, registryOK]
  refine ⟨?_, ?_, ?_, ?_, hreg _, hreg _, hreg _⟩
  · exact Nat.zero_lt_one
  · exact Nat.zero_lt_one
  · exact Nat.zero_lt_one
  · intro snap hsnap
    exact absurd hsnap (List.not_mem_nil _)

theorem SpawnShip_WF (s : Simulator F) (id classID name : String) (isPlayer : Bool)
    (position : Vector3 F) (hwf : s.WF) : (SpawnShip s id classID name isPlayer position).WF := by
  obtain ⟨hS, hP, hO, hsn, hrs, hrp, hro⟩ := hwf
  unfold SpawnShip
  cases mapGet s.ShipClasses classID with
  | none => exact ⟨hS, hP, hO, hsn, hrs, hrp, hro⟩
  | some cls =>
    refine ⟨hS, hP, hO, hsn, ?_, hrp, hro⟩
    have hmono := registriesWF_mono _ _ (s.mem.ships.next + 1) (Nat.le_succ _) hrs
    exact registriesWF_write _ _ _ _ hmono (registry_mapSet _ _ _ (hrs _ hS))

theorem RemoveShip_WF (s : Simulator F) (id : String) (hwf : s.WF) : (RemoveShip s id).WF := by
  obtain ⟨hS, hP, hO, hsn, hrs, hrp, hro⟩ := hwf
  refine ⟨hS, hP, hO, hsn, ?_, hrp, hro⟩
  exact registriesWF_write _ _ _ _ hrs
    (registry_sublist _ _ _ (mapDelete_sublist _ _) (hrs _ hS))

theorem SpawnProjectile_WF (s : Simulator F) (id projType sourceID targetID : String)
    (position velocity : Vector3 F) (damage : F) (hwf : s.WF) :
    (SpawnProjectile s id projType sourceID targetID position velocity damage).WF := by
  obtain ⟨hS, hP, hO, hsn, hrs, hrp, hro⟩ := hwf
  refine ⟨hS, hP, hO, hsn, hrs, ?_, hro⟩
  have hmono := registriesWF_mono _ _ (s.mem.projectiles.next + 1) (Nat.le_succ _) hrp
  exact registriesWF_write _ _ _ _ hmono (registry_mapSet _ _ _ (hrp _ hP))

theorem SpawnObject_WF (s : Simulator F) (id objType : String) (position : Vector3 F)
    (hwf : s.WF) : (SpawnObject s id objType position).WF := by
  obtain ⟨hS, hP, hO, hsn, hrs, hrp, hro⟩ := hwf
  refine ⟨hS, hP, hO, hsn, hrs, hrp, ?_⟩
  have hmono := registriesWF_mono _ _ (s.mem.objects.next + 1) (Nat.le_succ _) hro
  exact registriesWF_write _ _ _ _ hmono (registry_mapSet _ _ _ (hro _ hO))

theorem RemoveObject_WF (s : Simulator F) (id : String) (hwf : s.WF) :
    (RemoveObject s id).WF := by
  obtain ⟨hS, hP, hO, hsn, hrs, hrp, hro⟩ := hwf
  refine ⟨hS, hP, hO, hsn, hrs, hrp, ?_⟩
  exact registriesWF_write _ _ _ _ hro
    (registry_sublist _ _ _ (mapDelete_sublist _ _) (hro _ hO))

theorem RestoreSnapshot_WF (s : Simulator F) (index : Int) (hwf : s.WF) :
    (RestoreSnapshot s index).WF := by
  obtain ⟨hS, hP, hO, hsn, hrs, hrp, hro⟩ := hwf
  unfold RestoreSnapshot
  split
  · exact ⟨hS, hP, hO, hsn, hrs, hrp, hro⟩
  · cases hget : s.Snapshots.get? index.toNat with
    | none => exact ⟨hS, hP, hO, hsn, hrs, hrp, hro⟩
    | some snap =>
      obtain ⟨b1, b2, b3⟩ := hsn snap (List.get?_mem hget)
      exact ⟨b1, b2, b3, hsn, hrs, hrp, hro⟩

theorem CreateSnapshot_WF (s : Simulator F) (hwf : s.WF) : (CreateSnapshot s).WF := by
  obtain ⟨hS, hP, hO, hsn, hrs, hrp, hro⟩ := hwf
  obtain ⟨m1, _, m3, m4, m5, m6, m7⟩ := CreateSnapshot_mem s
  have hcopy : (s.mem.shipMaps.cell s.Ships).foldl (fun m e => mapSet m e.1 e.2) []
      = s.mem.shipMaps.cell s.Ships :=
    (copy_pointers_eq _ [] (by simpa using (hrs _ hS).1)).trans (List.nil_append _)
  have hp := copyCellsLoop_spec (s.mem.projectileMaps.cell s.Projectiles)
    s.mem.projectiles [] (by simpa using (hrp _ hP).1) (hrp _ hP).2.2 (by simp) (by simp)
  have ho := copyCellsLoop_spec (s.mem.objectMaps.cell s.Objects)
    s.mem.objects [] (by simpa using (hro _ hO).1) (hro _ hO).2.2 (by simp) (by simp)
  refine ⟨?_, ?_, ?_, ?_, ?_, ?_, ?_⟩
  · rw [m3]
    exact Nat.lt_succ_of_lt hS
  · rw [m5]
    exact Nat.lt_succ_of_lt hP
  · rw [m7]
    exact Nat.lt_succ_of_lt hO
  · intro snap hsnap
    rw [CreateSnapshot_Snapshots, List.mem_append, List.mem_singleton] at hsnap
    rw [m3, m5, m7]
    rcases hsnap with h | h
    · obtain ⟨b1, b2, b3⟩ := hsn snap h
      exact ⟨Nat.lt_succ_of_lt b1, Nat.lt_succ_of_lt b2, Nat.lt_succ_of_lt b3⟩
    · rw [h]
      exact ⟨Nat.lt_succ_self _, Nat.lt_succ_self _, Nat.lt_succ_self _⟩
  · rw [m1, m3, hcopy]
    exact registriesWF_alloc _ _ _ hrs (hrs _ hS)
  · rw [m4, m5]
    have hle : s.mem.projectiles.next ≤ (copyCellsLoop
        (s.mem.projectileMaps.cell s.Projectiles) s.mem.projectiles []).1.next := by
      rw [hp.1]
      exact Nat.le_add_right _ _
    refine registriesWF_alloc _ _ _ (registriesWF_mono _ _ _ hle hrp)
      ⟨?_, hp.2.2.2.2.2, hp.2.2.2.2.1⟩
    rw [hp.2.2.2.1]
    simpa using (hrp _ hP).1
  · rw [m6, m7]
    have hle : s.mem.objects.next ≤ (copyCellsLoop
        (s.mem.objectMaps.cell s.Objects) s.mem.objects []).1.next := by
      rw [ho.1]
      exact Nat.le_add_right _ _
    refine registriesWF_alloc _ _ _ (registriesWF_mono _ _ _ hle hro)
      ⟨?_, ho.2.2.2.2.2, ho.2.2.2.2.1⟩
    rw [ho.2.2.2.1]
    simpa using (hro _ hO).1

theorem DamageShip_WF (s : Simulator F) (shipID : String) (amount : F) (location : String)
    (hwf : s.WF) : (DamageShip s shipID amount location).WF := by
  unfold DamageShip
  cases GetShip s shipID with
  | none => exact hwf
  | some a => exact hwf

theorem collideWith_next (h : Heap (Ship F)) (a : Addr) (l : List Addr) :
    (collideWith h a l).next = h.next := by
  induction l generalizing h with
  | nil => rfl
  | cons b rest ih =>
    simp only [collideWith]
    rw [ih]
    split <;> rfl

theorem collidePairs_next (h : Heap (Ship F)) (l : List Addr) :
    (collidePairs h l).next = h.next := by
  induction l generalizing h with
  | nil => rfl
  | cons a rest ih =>
    simp only [collidePairs]
    rw [ih, collideWith_next]

theorem checkCollisions_WF (s : Simulator F) (hwf : s.WF) : (checkCollisions s).WF := by
  obtain ⟨hS, hP, hO, hsn, hrs, hrp, hro⟩ := hwf
  refine ⟨hS, hP, hO, hsn, ?_, hrp, hro⟩
  simp only [checkCollisions]
  rw [collidePairs_next]
  exact hrs

theorem updateProjectilesStep_next (s : Simulator F)
    (acc : Heap (Ship F) × Heap (Projectile F) × List String) (e : String × Addr) :
    (updateProjectilesStep s acc e).1.next = acc.1.next ∧
    (updateProjectilesStep s acc e).2.1.next = acc.2.1.next := by
  unfold updateProjectilesStep
  simp only
  split
  · exact ⟨rfl, rfl⟩
  · split
    · split
      · split
        · exact ⟨rfl, rfl⟩
        · exact ⟨rfl, rfl⟩
      · exact ⟨rfl, rfl⟩
    · exact ⟨rfl, rfl⟩

theorem updateProjectiles_loop_next (s : Simulator F) (l : List (String × Addr))
    (acc : Heap (Ship F) × Heap (Projectile F) × List String) :
    (l.foldl (updateProjectilesStep s) acc).1.next = acc.1.next ∧
    (l.foldl (updateProjectilesStep s) acc).2.1.next = acc.2.1.next := by
  induction l generalizing acc with
  | nil => exact ⟨rfl, rfl⟩
  | cons e rest ih =>
    rw [List.foldl_cons]
    obtain ⟨h1, h2⟩ := ih (updateProjectilesStep s acc e)
    obtain ⟨h3, h4⟩ := updateProjectilesStep_next s acc e
    exact ⟨h1.trans h3, h2.trans h4⟩

theorem foldl_mapDelete_sublist {V : Type} (ids : List String) (m : List (String × V)) :
    List.Sublist (ids.foldl (fun m id => mapDelete m id) m) m := by
  induction ids generalizing m with
  | nil => exact List.Sublist.refl _
  | cons id rest ih =>
    rw [List.foldl_cons]
    exact List.Sublist.trans (ih _) (mapDelete_sublist m id)

theorem updateProjectiles_WF (s : Simulator F) (hwf : s.WF) : (updateProjectiles s).WF := by
  obtain ⟨hS, hP, hO, hsn, hrs, hrp, hro⟩ := hwf
  obtain ⟨n1, n2⟩ := updateProjectiles_loop_next s (s.mem.projectileMaps.cell s.Projectiles)
    (s.mem.ships, s.mem.projectiles, [])
  refine ⟨hS, hP, hO, hsn, ?_, ?_, hro⟩
  · simp only [updateProjectiles]
    rw [n1]
    exact hrs
  · simp only [updateProjectiles]
    rw [n2]
    exact registriesWF_write _ _ _ _ hrp
      (registry_sublist _ _ _ (foldl_mapDelete_sublist _ _) (hrp _ hP))

/-! ## `Ship.Update`: what each phase leaves alone -/

theorem mapGet_mapValues {V : Type} (f : V → V) (m : List (String × V)) (k : String) :
    mapGet (mapValues f m) k = (mapGet m k).map f := by
  induction m with
  | nil => rfl
  | cons e rest ih =>
    obtain ⟨k0, x⟩ := e
    by_cases h : k0 = k
    · simp [mapValues, mapGet, h]
    · simp only [mapValues] at ih
      simp [mapValues, mapGet, h, ih]

theorem mem_mapValues {V : Type} (f : V → V) (m : List (String × V)) (e : String × V)
    (he : e ∈ mapValues f m) : ∃ x, (e.1, x) ∈ m ∧ e.2 = f x := by
  simp only [mapValues, List.mem_map] at he
  obtain ⟨e0, h0, h1⟩ := he
  refine ⟨e0.2, ?_, ?_⟩
  · rw [← h1]
    exact h0
  · rw [← h1]

theorem foldl_cond_sum {V : Type} (p : V → Bool) (g : V → F) (l : List (String × V)) (c : F) :
    l.foldl (fun c e => if p e.2 = true then c + g e.2 else c) c
      = c + ((l.filter (fun e => p e.2)).map (fun e => g e.2)).sum := by
  induction l generalizing c with
  | nil => simp
  | cons e rest ih =>
    rw [List.foldl_cons, ih]
    by_cases h : p e.2 = true
    · simp [h, add_assoc]
    · simp [h]

theorem updateShields_Power (s : Ship F) (dt : F) : (updateShields s dt).Power = s.Power := by
  unfold updateShields
  split <;> rfl

theorem Update_Power (m : MathFns F) (s : Ship F) (dt : F) :
    (Update m s dt).Power = (updatePower s dt).Power := by
  simp only [Update, updateLifeSupport, updateDamage, updateWeapons, updateShields_Power]
  rfl

theorem updateShields_Emitters (s : Ship F) (dt : F) :
    (updateShields s dt).Shields.Emitters =
      if s.Shields.Enabled = false then s.Shields.Emitters
      else mapValues (rechargeEmitter s.Shields.RechargeRate dt) s.Shields.Emitters := by
  unfold updateShields
  split <;> rfl

theorem Update_Emitters (m : MathFns F) (s : Ship F) (dt : F) :
    (Update m s dt).Shields.Emitters =
      mapValues (fun e => { e with Health := burn dt e.OnFire e.Health })
        (if s.Shields.Enabled = false then s.Shields.Emitters
         else mapValues (rechargeEmitter s.Shields.RechargeRate dt) s.Shields.Emitters) := by
  simp only [Update, updateLifeSupport, updateDamage, updateWeapons]
  rw [updateShields_Emitters]
  rfl

/-! ## Power -/

/-- C18. Power phase of `Update(dt)`: the recorded consumption is the sum of
the power draws of the enabled engines, the enabled weapons and the enabled
subsystems, plus the draw of the shield system if it is enabled; with
max-capacity `≥ 0` the new current-capacity is the old one plus
`(generation - consumption) * dt`, clamped to `[0, max-capacity]`; and the
breakers play no part: any other breaker map gives the same two values. -/
theorem Update_power_phase (m : MathFns F) (s : Ship F) (dt : F)
    (hmax : 0 ≤ s.Power.MaxCapacity) :
    (Update m s dt).Power.Consumption =
      ((s.Engines.filter (fun e => e.2.Enabled)).map (fun e => e.2.PowerDraw)).sum
      + ((s.Weapons.filter (fun e => e.2.Enabled)).map (fun e => e.2.PowerDraw)).sum
      + ((s.Subsystems.filter (fun e => e.2.Enabled)).map (fun e => e.2.PowerDraw)).sum
      + (if s.Shields.Enabled = true then s.Shields.PowerDraw else 0) ∧
    (Update m s dt).Power.CurrentCapacity =
      max 0 (min s.Power.MaxCapacity
        (s.Power.CurrentCapacity
          + (s.Power.Generation - (Update m s dt).Power.Consumption) * dt)) ∧
    (∀ breakers : List (String × Breaker F),
      (Update m { s with Power := { s.Power with Breakers := breakers } } dt).Power.Consumption
        = (Update m s dt).Power.Consumption ∧
      (Update m { s with Power := { s.Power with Breakers := breakers } } dt).Power.CurrentCapacity
        = (Update m s dt).Power.CurrentCapacity) := by
  have hc : powerConsumption s =
      ((s.Engines.filter (fun e => e.2.Enabled)).map (fun e => e.2.PowerDraw)).sum
      + ((s.Weapons.filter (fun e => e.2.Enabled)).map (fun e => e.2.PowerDraw)).sum
      + ((s.Subsystems.filter (fun e => e.2.Enabled)).map (fun e => e.2.PowerDraw)).sum
      + (if s.Shields.Enabled = true then s.Shields.PowerDraw else 0) := by
    simp only [powerConsumption]
    rw [foldl_cond_sum (fun e : Subsystem F => e.Enabled) (fun e => e.PowerDraw),
      foldl_cond_sum (fun e : Weapon F => e.Enabled) (fun e => e.PowerDraw),
      foldl_cond_sum (fun e : Engine F => e.Enabled) (fun e => e.PowerDraw)]
    by_cases hs : s.Shields.Enabled = true
    · simp only [if_pos hs]
      ring
    · simp only [if_neg hs]
      ring
  have hcons : (Update m s dt).Power.Consumption = powerConsumption s := by
    rw [Update_Power]
    rfl
  refine ⟨hcons.trans hc, ?_, ?_⟩
  · rw [hcons, Update_Power]
    simp only [updatePower]
    by_cases h1 : s.Power.CurrentCapacity + (s.Power.Generation - powerConsumption s) * dt
        > s.Power.MaxCapacity
    · rw [if_pos h1, if_neg (not_lt.mpr hmax), min_eq_left (le_of_lt h1), max_eq_right hmax]
    · rw [if_neg h1, min_eq_right (not_lt.mp h1)]
      by_cases h2 : s.Power.CurrentCapacity + (s.Power.Generation - powerConsumption s) * dt < 0
      · rw [if_pos h2, max_eq_left (le_of_lt h2)]
      · rw [if_neg h2, max_eq_right (not_lt.mp h2)]
  · intro breakers
    rw [Update_Power, Update_Power]
    exact ⟨rfl, rfl⟩

/-- C18, at the ship of `TestNewShip` with 5000 stored: engine 100, phaser 50,
sensors 30 and shields 100 make a consumption of 280, and a tick of 0.1 s
stores (1000 - 280) * 0.1 = 72 more. -/
theorem Update_power_phase_witness :
    (0 : ℚ) ≤ fullTestShip.Power.MaxCapacity ∧
    (Update testMath fullTestShip (1 / 10)).Power.Consumption = 280 ∧
    (Update testMath fullTestShip (1 / 10)).Power.CurrentCapacity = 5072 := by
  have hmax : (0 : ℚ) ≤ fullTestShip.Power.MaxCapacity := by
    simp [fullTestShip, NewShip]
  obtain ⟨h1, h2, _⟩ := Update_power_phase testMath fullTestShip (1 / 10) hmax
  have hc : (Update testMath fullTestShip (1 / 10)).Power.Consumption = 280 := by
    rw [h1]
    simp [fullTestShip, NewShip, fullTestClass, mapSet]
    norm_num
  refine ⟨hmax, hc, ?_⟩
  rw [h2, hc]
  simp [fullTestShip, NewShip]
  norm_num

/-! ## Shields -/

theorem rechargeEmitter_Strength (rate dt : F) (e : ShieldEmitter F) :
    (rechargeEmitter rate dt e).Strength =
      if e.Health > 0 ∧ e.Strength < e.MaxStrength then
        min e.MaxStrength (e.Strength + rate * dt)
      else e.Strength := by
  unfold rechargeEmitter
  by_cases h : e.Health > 0 ∧ e.Strength < e.MaxStrength
  · rw [if_pos h, if_pos h]
    by_cases h2 : e.Strength + rate * dt > e.MaxStrength
    · simp only [if_pos h2]
      rw [min_eq_left (le_of_lt h2)]
    · simp only [if_neg h2]
      rw [min_eq_right (not_lt.mp h2)]
  · rw [if_neg h, if_neg h]

/-- C19 as the specification words it fails: with the shield system switched
off, an emitter with health 100 and strength 400 of 500 is still at 400 after
`Update(0.1)`, not at min(500, 400 + 10 * 0.1) = 401. -/
theorem Update_no_recharge_when_shields_off :
    mapGet shieldsOffShip.Shields.Emitters "forward" =
      some { ID := "forward", Facing := "forward", MaxStrength := 500, Strength := 400,
             MaxHealth := 100, Health := 100, OnFire := false } ∧
    shieldsOffShip.Shields.RechargeRate = 10 ∧
    mapGet (Update testMath shieldsOffShip (1 / 10)).Shields.Emitters "forward" =
      some { ID := "forward", Facing := "forward", MaxStrength := 500, Strength := 400,
             MaxHealth := 100, Health := 100, OnFire := false } ∧
    ¬ ((400 : ℚ) = min 500 (400 + 10 * (1 / 10))) := by
  refine ⟨by rfl, by rfl, ?_, by norm_num⟩
  rw [Update_Emitters]
  simp [shieldsOffShip, mapValues, mapGet, burn]

/-- C19 (amended). Shield recharge phase: when the shield system is enabled,
each emitter with health `> 0` and strength `< max-strength` has, after
`Update(dt)`, strength `min(max-strength, old strength + recharge-rate * dt)`,
whatever the ship's power system holds; an emitter with health `≤ 0` or already
at max-strength keeps its strength; and when the shield system is disabled
every emitter keeps its strength. -/
theorem Update_shield_recharge (m : MathFns F) (s : Ship F) (dt : F) (k : String)
    (e : ShieldEmitter F) (he : mapGet s.Shields.Emitters k = some e) :
    (∃ e2, mapGet (Update m s dt).Shields.Emitters k = some e2 ∧
      e2.Strength =
        if s.Shields.Enabled = true ∧ e.Health > 0 ∧ e.Strength < e.MaxStrength then
          min e.MaxStrength (e.Strength + s.Shields.RechargeRate * dt)
        else e.Strength) ∧
    (∀ power : PowerSystem F,
      (mapGet (Update m { s with Power := power } dt).Shields.Emitters k).map
          (fun e2 => e2.Strength)
        = (mapGet (Update m s dt).Shields.Emitters k).map (fun e2 => e2.Strength)) := by
  constructor
  · rw [Update_Emitters, mapGet_mapValues]
    by_cases hen : s.Shields.Enabled = false
    · rw [if_pos hen, he]
      refine ⟨_, rfl, ?_⟩
      have hne : ¬ (s.Shields.Enabled = true ∧ e.Health > 0 ∧ e.Strength < e.MaxStrength) := by
        rintro ⟨h1, _⟩
        rw [hen] at h1
        exact Bool.noConfusion h1
      simp only [if_neg hne]
    · rw [if_neg hen, mapGet_mapValues, he]
      refine ⟨_, rfl, ?_⟩
      have htrue : s.Shields.Enabled = true := by
        cases hb : s.Shields.Enabled
        · exact absurd hb hen
        · rfl
      simp only [Option.map_some', rechargeEmitter_Strength, htrue, true_and]
  · intro power
    rw [Update_Emitters, Update_Emitters]

/-- C19 (amended), at the ship of `TestShipDamage` with shields on and the
`forward` emitter at 400 of 500: `Update(0.1)` with recharge-rate 10 brings it
to 401. -/
theorem Update_shield_recharge_witness :
    mapGet shieldsOnShip.Shields.Emitters "forward" =
      some { ID := "forward", Facing := "forward", MaxStrength := 500, Strength := 400,
             MaxHealth := 100, Health := 100, OnFire := false } ∧
    ∃ e2, mapGet (Update testMath shieldsOnShip (1 / 10)).Shields.Emitters "forward" = some e2 ∧
      e2.Strength = 401 := by
  have he : mapGet shieldsOnShip.Shields.Emitters "forward" =
      some { ID := "forward", Facing := "forward", MaxStrength := 500, Strength := 400,
             MaxHealth := 100, Health := 100, OnFire := false } := by rfl
  obtain ⟨e2, h1, h2⟩ := (Update_shield_recharge testMath shieldsOnShip (1 / 10) "forward" _ he).1
  refine ⟨he, e2, h1, ?_⟩
  rw [h2]
  simp [shieldsOnShip, shieldsOffShip]
  norm_num

/-! ## Life support -/

theorem Update_Compartments (m : MathFns F) (s : Ship F) (dt : F) :
    (Update m s dt).LifeSupport.Compartments =
      mapValues (updateCompartment dt) s.LifeSupport.Compartments := by
  have h : ∀ t : Ship F, (updateShields t dt).LifeSupport = t.LifeSupport := by
    intro t
    unfold updateShields
    split <;> rfl
  simp only [Update, updateLifeSupport, updateDamage, updateWeapons, h]
  rfl

/-- C16 fails on the code: the `bridge` compartment, breached and on fire with
pressure 0 and oxygen 0 (inside the ranges `0 ≤ pressure ≤ 101.3` and
`0 ≤ oxygen ≤ 21`), has oxygen `-1/120` after `Update(1/60)`: the on-fire
branch takes `0.5 * dt` of oxygen and has no floor. -/
theorem Update_oxygen_below_zero :
    mapGet ventedBridgeShip.LifeSupport.Compartments "bridge" =
      some { ID := "bridge", MaxPressure := 1013 / 10, Pressure := 0, MaxOxygen := 21,
             Oxygen := 0, Temperature := 120, OnFire := true, Breached := true } ∧
    (mapGet (Update testMath ventedBridgeShip (1 / 60)).LifeSupport.Compartments "bridge").map
        (fun c => c.Oxygen) = some (-(1 / 120)) ∧
    (-(1 / 120) : ℚ) < 0 := by
  refine ⟨by rfl, ?_, by norm_num⟩
  rw [Update_Compartments, mapGet_mapValues]
  have h : mapGet ventedBridgeShip.LifeSupport.Compartments "bridge" =
      some { ID := "bridge", MaxPressure := 1013 / 10, Pressure := 0, MaxOxygen := 21,
             Oxygen := 0, Temperature := 120, OnFire := true, Breached := true } := by rfl
  rw [h]
  simp [updateCompartment]
  norm_num

/-! ## Clamped ranges -/

theorem mem_of_mapGet {V : Type} (m : List (String × V)) (k : String) (v : V)
    (h : mapGet m k = some v) : (k, v) ∈ m := by
  induction m with
  | nil => simp [mapGet] at h
  | cons e rest ih =>
    obtain ⟨k0, x⟩ := e
    by_cases hk : k0 = k
    · simp only [mapGet, if_pos hk, Option.some.injEq] at h
      rw [hk, h]
      exact List.mem_cons_self _ _
    · simp only [mapGet, if_neg hk] at h
      exact List.mem_cons_of_mem _ (ih h)

theorem forall_mapValues {V : Type} (P : V → Prop) (f : V → V) (m : List (String × V))
    (hm : ∀ e ∈ m, P e.2) (hf : ∀ x, P x → P (f x)) : ∀ e ∈ mapValues f m, P e.2 := by
  intro e he
  obtain ⟨x, hx, hfx⟩ := mem_mapValues f m e he
  rw [hfx]
  exact hf x (hm (e.1, x) hx)

theorem forall_mapSet {V : Type} (P : V → Prop) (m : List (String × V)) (k : String) (v : V)
    (hm : ∀ e ∈ m, P e.2) (hv : P v) : ∀ e ∈ mapSet m k v, P e.2 := by
  intro e he
  rcases mem_mapSet m k v e he with h | h
  · exact hm e h
  · rw [h]
    exact hv

theorem forall_foldl_mapSet {C V : Type} (P : V → Prop) (key : C → String) (val : C → V)
    (l : List C) (acc : List (String × V)) (hacc : ∀ e ∈ acc, P e.2)
    (hl : ∀ c ∈ l, P (val c)) :
    ∀ e ∈ l.foldl (fun m c => mapSet m (key c) (val c)) acc, P e.2 := by
  induction l generalizing acc with
  | nil => exact hacc
  | cons c rest ih =>
    rw [List.foldl_cons]
    exact ih _ (forall_mapSet P acc (key c) (val c) hacc (hl c (List.mem_cons_self _ _)))
      (fun c2 hc2 => hl c2 (List.mem_cons_of_mem _ hc2))

theorem burn_range (dt h mx : F) (onFire : Bool) (hdt : 0 ≤ dt) (h0 : 0 ≤ h) (h1 : h ≤ mx) :
    0 ≤ burn dt onFire h ∧ burn dt onFire h ≤ mx := by
  unfold burn
  by_cases hf : onFire = true
  · rw [if_pos hf]
    by_cases hlt : h - 5 * dt < 0
    · rw [if_pos hlt]
      exact ⟨le_refl _, le_trans h0 h1⟩
    · rw [if_neg hlt]
      constructor
      · exact not_lt.mp hlt
      · have : 0 ≤ 5 * dt := by positivity
        linarith
  · rw [if_neg hf]
    exact ⟨h0, h1⟩

theorem rechargeEmitter_range (rate dt : F) (e : ShieldEmitter F) (hr : 0 ≤ rate)
    (hdt : 0 ≤ dt) (he : emitterInRange e) : emitterInRange (rechargeEmitter rate dt e) := by
  obtain ⟨h1, h2, h3, h4⟩ := he
  unfold rechargeEmitter
  by_cases hc : e.Health > 0 ∧ e.Strength < e.MaxStrength
  · rw [if_pos hc]
    have hpos : 0 ≤ rate * dt := mul_nonneg hr hdt
    by_cases hgt : e.Strength + rate * dt > e.MaxStrength
    · simp only [if_pos hgt]
      exact ⟨h1, h2, le_trans h3 h4, le_refl _⟩
    · simp only [if_neg hgt]
      exact ⟨h1, h2, add_nonneg h3 hpos, not_lt.mp hgt⟩
  · rw [if_neg hc]
    exact ⟨h1, h2, h3, h4⟩

theorem coolWeapon_range (dt : F) (w : Weapon F) (hw : weaponInRange w) :
    weaponInRange (coolWeapon dt w) := by
  obtain ⟨h1, h2, h3, h4, h5⟩ := hw
  unfold coolWeapon
  by_cases hc : w.Cooldown > 0
  · rw [if_pos hc]
    by_cases hlt : w.Cooldown - dt < 0
    · simp only [if_pos hlt]
      exact ⟨h1, h2, le_refl _, h4, h5⟩
    · simp only [if_neg hlt]
      exact ⟨h1, h2, not_lt.mp hlt, h4, h5⟩
  · rw [if_neg hc]
    exact ⟨h1, h2, h3, h4, h5⟩

theorem updatePower_range (s : Ship F) (dt : F)
    (h0 : 0 ≤ s.Power.MaxCapacity) :
    0 ≤ (updatePower s dt).Power.CurrentCapacity ∧
    (updatePower s dt).Power.CurrentCapacity ≤ s.Power.MaxCapacity := by
  simp only [updatePower]
  by_cases h1 : s.Power.CurrentCapacity + (s.Power.Generation - powerConsumption s) * dt
      > s.Power.MaxCapacity
  · rw [if_pos h1, if_neg (not_lt.mpr h0)]
    exact ⟨h0, le_refl _⟩
  · rw [if_neg h1]
    by_cases h2 : s.Power.CurrentCapacity + (s.Power.Generation - powerConsumption s) * dt < 0
    · rw [if_pos h2]
      exact ⟨le_refl _, h0⟩
    · rw [if_neg h2]
      exact ⟨not_lt.mp h2, not_lt.mp h1⟩

theorem Update_clampedRanges (m : MathFns F) (s : Ship F) (dt : F) (hs : clampedRanges s)
    (hdt : 0 ≤ dt) (hr : 0 ≤ s.Shields.RechargeRate) : clampedRanges (Update m s dt) := by
  obtain ⟨hE, hW, hS, hH, hB, hP0, hP1⟩ := hs
  have hsh : ∀ t : Ship F, (updateShields t dt).Engines = t.Engines ∧
      (updateShields t dt).Weapons = t.Weapons ∧ (updateShields t dt).Hull = t.Hull ∧
      (updateShields t dt).Subsystems = t.Subsystems := by
    intro t
    unfold updateShields
    split <;> exact ⟨rfl, rfl, rfl, rfl⟩
  have hEng : (Update m s dt).Engines =
      mapValues (fun e => { e with Health := burn dt e.OnFire e.Health }) s.Engines := by
    simp only [Update, updateLifeSupport, updateDamage, updateWeapons, (hsh _).1]
    rfl
  have hWpn : (Update m s dt).Weapons =
      mapValues (fun w => { w with Health := burn dt w.OnFire w.Health })
        (mapValues (coolWeapon dt) s.Weapons) := by
    simp only [Update, updateLifeSupport, updateDamage, updateWeapons, (hsh _).2.1]
    rfl
  have hHull : (Update m s dt).Hull.Sections =
      mapValues (fun c => { c with Health := burn dt c.OnFire c.Health }) s.Hull.Sections := by
    simp only [Update, updateLifeSupport, updateDamage, updateWeapons, (hsh _).2.2.1]
    rfl
  have hSub : (Update m s dt).Subsystems =
      mapValues (fun b => { b with Health := burn dt b.OnFire b.Health }) s.Subsystems := by
    simp only [Update, updateLifeSupport, updateDamage, updateWeapons, (hsh _).2.2.2]
    rfl
  have hPow := updatePower_range s dt (le_trans hP0 hP1)
  have hPowMax : (Update m s dt).Power.MaxCapacity = s.Power.MaxCapacity := by
    rw [Update_Power]
    rfl
  refine ⟨?_, ?_, ?_, ?_, ?_, ?_, ?_⟩
  · rw [hEng]
    exact forall_mapValues (fun e : Engine F => 0 ≤ e.Health ∧ e.Health ≤ e.MaxHealth) _ _ hE
      (fun x hx => burn_range dt x.Health x.MaxHealth x.OnFire hdt hx.1 hx.2)
  · rw [hWpn]
    refine forall_mapValues weaponInRange _ _
      (forall_mapValues weaponInRange _ _ hW (fun x hx => coolWeapon_range dt x hx)) ?_
    intro x hx
    obtain ⟨h1, h2, h3, h4, h5⟩ := hx
    have hb := burn_range dt x.Health x.MaxHealth x.OnFire hdt h1 h2
    exact ⟨hb.1, hb.2, h3, h4, h5⟩
  · rw [Update_Emitters]
    refine forall_mapValues emitterInRange _ _ ?_ ?_
    · by_cases hen : s.Shields.Enabled = false
      · rw [if_pos hen]
        exact hS
      · rw [if_neg hen]
        exact forall_mapValues emitterInRange _ _ hS
          (fun x hx => rechargeEmitter_range _ dt x hr hdt hx)
    · intro x hx
      obtain ⟨h1, h2, h3, h4⟩ := hx
      have hb := burn_range dt x.Health x.MaxHealth x.OnFire hdt h1 h2
      exact ⟨hb.1, hb.2, h3, h4⟩
  · rw [hHull]
    refine forall_mapValues sectionInRange _ _ hH ?_
    intro x hx
    obtain ⟨h1, h2, h3, h4⟩ := hx
    have hb := burn_range dt x.Health x.MaxHealth x.OnFire hdt h1 h2
    exact ⟨hb.1, hb.2, h3, h4⟩
  · rw [hSub]
    exact forall_mapValues (fun b : Subsystem F => 0 ≤ b.Health ∧ b.Health ≤ b.MaxHealth) _ _ hB
      (fun x hx => burn_range dt x.Health x.MaxHealth x.OnFire hdt hx.1 hx.2)
  · rw [Update_Power]
    exact hPow.1
  · rw [hPowMax, Update_Power]
    exact hPow.2

theorem damageSection_range (sec : HullSection F) (x : F) (hx : 0 ≤ x)
    (hs : sectionInRange sec) : sectionInRange (damageSection sec x) := by
  obtain ⟨h1, h2, h3, h4⟩ := hs
  rw [damageSection_eq sec x h3 hx]
  refine ⟨?_, ?_, le_max_left _ _, ?_⟩
  · show 0 ≤ (if 0 < sec.Health - x then sec.Health - x else 0)
    split
    · rename_i h
      exact le_of_lt h
    · exact le_refl _
  · show (if 0 < sec.Health - x then sec.Health - x else 0) ≤ sec.MaxHealth
    split
    · linarith
    · exact le_trans h1 h2
  · show max 0 (sec.Armor - 1 / 2 * x) ≤ sec.MaxArmor
    apply max_le (le_trans h3 h4)
    have : 0 ≤ 1 / 2 * x := by positivity
    linarith

theorem damageHull_clampedRanges (t : Ship F) (x : F) (loc : String) (hx : 0 ≤ x)
    (ht : clampedRanges t) : clampedRanges (damageHull t x loc) := by
  obtain ⟨hE, hW, hS, hH, hB, hP0, hP1⟩ := ht
  unfold damageHull
  cases hsec : mapGet t.Hull.Sections loc with
  | none => exact ⟨hE, hW, hS, hH, hB, hP0, hP1⟩
  | some sec =>
    refine ⟨hE, hW, hS, ?_, hB, hP0, hP1⟩
    exact forall_mapSet sectionInRange _ _ _ hH
      (damageSection_range sec x hx (hH (loc, sec) (mem_of_mapGet _ _ _ hsec)))

theorem TakeDamage_clampedRanges (s : Ship F) (amount : F) (location : String)
    (ha : 0 ≤ amount) (hs : clampedRanges s) : clampedRanges (TakeDamage s amount location) := by
  cases hem : mapGet s.Shields.Emitters (defaultLocation location) with
  | none =>
    have hT : TakeDamage s amount location = damageHull s amount (defaultLocation location) := by
      simp only [TakeDamage, hem]
    rw [hT]
    exact damageHull_clampedRanges s amount _ ha hs
  | some e =>
    have heR : emitterInRange e := hs.2.2.1 (_, e) (mem_of_mapGet _ _ _ hem)
    obtain ⟨e1, e2, e3, e4⟩ := heR
    by_cases hpos : 0 < e.Strength
    · by_cases hlt : e.Strength - amount < 0
      · rw [TakeDamage_overflow s amount location e hem hpos hlt]
        apply damageHull_clampedRanges _ _ _ (by linarith)
        obtain ⟨hE, hW, hS, hH, hB, hP0, hP1⟩ := hs
        refine ⟨hE, hW, ?_, hH, hB, hP0, hP1⟩
        exact forall_mapSet emitterInRange _ _ _ hS ⟨e1, e2, le_refl _, le_trans e3 e4⟩
      · rw [TakeDamage_absorbed s amount location e hem hpos hlt]
        obtain ⟨hE, hW, hS, hH, hB, hP0, hP1⟩ := hs
        refine ⟨hE, hW, ?_, hH, hB, hP0, hP1⟩
        refine forall_mapSet emitterInRange _ _ _ hS ⟨e1, e2, not_lt.mp hlt, ?_⟩
        show e.Strength - amount ≤ e.MaxStrength
        linarith
    · have hT : TakeDamage s amount location
          = damageHull s amount (defaultLocation location) := by
        have hle : ¬ e.Strength > 0 := hpos
        simp only [TakeDamage, hem, if_neg hle]
      rw [hT]
      exact damageHull_clampedRanges s amount _ ha hs

theorem FireWeapon_clampedRanges (s : Ship F) (weaponID targetID : String)
    (hct : ∀ w, mapGet s.Weapons weaponID = some w → 0 ≤ w.CooldownTime)
    (hs : clampedRanges s) : clampedRanges (FireWeapon s weaponID targetID).1 := by
  cases hw : mapGet s.Weapons weaponID with
  | none =>
    rw [FireWeapon_absent s weaponID targetID hw]
    exact hs
  | some w =>
    by_cases hr : refusesToFire w
    · rw [FireWeapon_refused s weaponID targetID w hw hr]
      exact hs
    · rw [FireWeapon_fired s weaponID targetID w hw hr]
      obtain ⟨hE, hW, hS, hH, hB, hP0, hP1⟩ := hs
      refine ⟨hE, ?_, hS, hH, hB, hP0, hP1⟩
      have hwr : weaponInRange w := hW (weaponID, w) (mem_of_mapGet _ _ _ hw)
      obtain ⟨w1, w2, w3, w4, w5⟩ := hwr
      refine forall_mapSet weaponInRange _ _ _ hW ?_
      unfold firedWeapon
      by_cases ht : w.Type_ = "torpedo"
      · rw [if_pos ht]
        have hammo : 0 < w.AmmoCount :=
          not_le.mp (fun hb => hr (Or.inr (Or.inr ⟨ht, Or.inr (Or.inr (Or.inr hb))⟩)))
        refine ⟨w1, w2, hct w hw, ?_, ?_⟩
        · show 0 ≤ w.AmmoCount - 1
          omega
        · show w.AmmoCount - 1 ≤ w.AmmoCapacity
          omega
      · rw [if_neg ht]
        exact ⟨w1, w2, hct w hw, w4, w5⟩

theorem NewShip_clampedRanges (id classID name : String) (cls : ShipClass F) (isPlayer : Bool)
    (hcls : nonNegativeClass cls) : clampedRanges (NewShip id classID name cls isPlayer) := by
  obtain ⟨cE, cW, cS, cH, cB⟩ := hcls
  refine ⟨?_, ?_, ?_, ?_, ?_, ?_, ?_⟩
  · exact forall_foldl_mapSet (fun e : Engine F => 0 ≤ e.Health ∧ e.Health ≤ e.MaxHealth)
      _ _ cls.Engines [] (fun e he => absurd he (List.not_mem_nil _))
      (fun c hc => ⟨cE c hc, le_refl _⟩)
  · exact forall_foldl_mapSet weaponInRange _ _ cls.Weapons []
      (fun e he => absurd he (List.not_mem_nil _))
      (fun c hc => ⟨(cW c hc).1, le_refl _, le_refl _, (cW c hc).2, le_refl _⟩)
  · exact forall_foldl_mapSet emitterInRange _ _ cls.Shields.Emitters []
      (fun e he => absurd he (List.not_mem_nil _))
      (fun c hc => ⟨(cS c hc).1, le_refl _, (cS c hc).2, le_refl _⟩)
  · exact forall_foldl_mapSet sectionInRange _ _ cls.Hull.Sections []
      (fun e he => absurd he (List.not_mem_nil _))
      (fun c hc => ⟨(cH c hc).1, le_refl _, (cH c hc).2, le_refl _⟩)
  · exact forall_foldl_mapSet (fun b : Subsystem F => 0 ≤ b.Health ∧ b.Health ≤ b.MaxHealth)
      _ _ cls.Subsystems [] (fun e he => absurd he (List.not_mem_nil _))
      (fun c hc => ⟨cB c hc, le_refl _⟩)
  · show (0 : F) ≤ 10000
    norm_num
  · show (10000 : F) ≤ 10000
    exact le_refl _

/-- C15 as the specification words it fails: a ship whose torpedo tube has
cooldown-time `-1` satisfies every clamped range (its cooldown is 0), and after
a successful `FireWeapon` the cooldown of the tube is `-1`, below 0. -/
theorem FireWeapon_breaks_cooldown_range :
    clampedRanges negativeCooldownFreshShip ∧
    (FireWeapon negativeCooldownFreshShip "torpedo_1" "target_1").2 = true ∧
    (mapGet (FireWeapon negativeCooldownFreshShip "torpedo_1" "target_1").1.Weapons
        "torpedo_1").map (fun w => w.Cooldown) = some (-1) ∧
    ¬ clampedRanges (FireWeapon negativeCooldownFreshShip "torpedo_1" "target_1").1 := by
  have hget : mapGet negativeCooldownFreshShip.Weapons "torpedo_1"
      = some { readyTorpedo with CooldownTime := -1 } := by rfl
  have hnr : ¬ refusesToFire ({ readyTorpedo with CooldownTime := -1 } : Weapon ℚ) := by
    simp [refusesToFire, readyTorpedo]
  have hcool : (mapGet (FireWeapon negativeCooldownFreshShip "torpedo_1" "target_1").1.Weapons
      "torpedo_1").map (fun w => w.Cooldown) = some (-1) := by
    rw [FireWeapon_fired _ _ _ _ hget hnr]
    simp only [mapGet_mapSet_same, Option.map_some']
    simp [firedWeapon, readyTorpedo]
  refine ⟨?_, ?_, hcool, ?_⟩
  · simp [clampedRanges, negativeCooldownFreshShip, negativeCooldownClass, torpedoTestClass,
      NewShip, mapSet, weaponInRange, readyTorpedo]
  · rw [FireWeapon_fired _ _ _ _ hget hnr]
  · intro hcr
    cases hw : mapGet (FireWeapon negativeCooldownFreshShip "torpedo_1" "target_1").1.Weapons
        "torpedo_1" with
    | none =>
      rw [hw] at hcool
      simp at hcool
    | some w =>
      rw [hw] at hcool
      have hc : w.Cooldown = -1 := by simpa using hcool
      have hr := (hcr.2.1 ("torpedo_1", w) (mem_of_mapGet _ _ _ hw)).2.2.1
      rw [hc] at hr
      norm_num at hr

/-- C15 (amended). Clamped-range invariant: a ship that satisfies the clamped
ranges still satisfies them after `Update(dt)` with `dt ≥ 0` and
recharge-rate `≥ 0`, after `TakeDamage(amount, location)` with `amount ≥ 0`,
and after `FireWeapon` on a weapon whose cooldown-time is `≥ 0`; and every ship
built by `NewShip` from a class with non-negative values satisfies them. -/
theorem clampedRanges_preserved (m : MathFns F) (s : Ship F) (hs : clampedRanges s) :
    (∀ dt, 0 ≤ dt → 0 ≤ s.Shields.RechargeRate → clampedRanges (Update m s dt)) ∧
    (∀ amount location, 0 ≤ amount → clampedRanges (TakeDamage s amount location)) ∧
    (∀ weaponID targetID,
      (∀ w, mapGet s.Weapons weaponID = some w → 0 ≤ w.CooldownTime) →
        clampedRanges (FireWeapon s weaponID targetID).1) ∧
    (∀ (id classID name : String) (cls : ShipClass F) (isPlayer : Bool),
      nonNegativeClass cls → clampedRanges (NewShip id classID name cls isPlayer)) :=
  ⟨fun dt hdt hr => Update_clampedRanges m s dt hs hdt hr,
    fun amount location ha => TakeDamage_clampedRanges s amount location ha hs,
    fun weaponID targetID hct => FireWeapon_clampedRanges s weaponID targetID hct hs,
    fun id classID name cls isPlayer hcls => NewShip_clampedRanges id classID name cls isPlayer hcls⟩

/-- C15 (amended), at the ship of `TestNewShip`: it satisfies the clamped
ranges, and so does it after a tick of 0.1 s, after 600 damage at `forward`
and after firing its phaser. -/
theorem clampedRanges_preserved_witness :
    clampedRanges fullTestShip ∧
    clampedRanges (Update testMath fullTestShip (1 / 10)) ∧
    clampedRanges (TakeDamage fullTestShip 600 "forward") ∧
    clampedRanges (FireWeapon fullTestShip "phaser_1" "target_1").1 := by
  have hs : clampedRanges fullTestShip := by
    simp [clampedRanges, fullTestShip, fullTestClass, NewShip, mapSet, weaponInRange,
      emitterInRange, sectionInRange]
    norm_num
  obtain ⟨h1, h2, h3, _⟩ := clampedRanges_preserved testMath fullTestShip hs
  refine ⟨hs, h1 (1 / 10) (by norm_num) (by simp [fullTestShip, fullTestClass, NewShip]),
    h2 600 "forward" (by norm_num), h3 "phaser_1" "target_1" ?_⟩
  intro w hw
  have hget : mapGet fullTestShip.Weapons "phaser_1" = some
      { ID := "phaser_1", Type_ := "phaser", Damage := 25, Range := 2000, CooldownTime := 2,
        Cooldown := 0, MaxHealth := 100, Health := 100, Enabled := true, PowerDraw := 50,
        OnFire := false, Armed := false, Loaded := false, Locked := false,
        AmmoCapacity := 0, AmmoCount := 0 } := by rfl
  rw [hget] at hw
  rw [← Option.some.inj hw]
  norm_num

/-! ## Physics -/

theorem updateShields_pose (s : Ship F) (dt : F) :
    (updateShields s dt).Velocity = s.Velocity ∧ (updateShields s dt).Position = s.Position ∧
    (updateShields s dt).Rotation = s.Rotation ∧
    (updateShields s dt).AngularVelocity = s.AngularVelocity := by
  unfold updateShields
  split <;> exact ⟨rfl, rfl, rfl, rfl⟩

theorem Update_Velocity (m : MathFns F) (s : Ship F) (dt : F) :
    (Update m s dt).Velocity = clampSpeed m (draggedVelocity s dt) s.MaxSpeed := by
  simp only [Update, updateLifeSupport, updateDamage, updateWeapons,
    (updateShields_pose _ dt).1]
  rfl

theorem Update_Position (m : MathFns F) (s : Ship F) (dt : F) :
    (Update m s dt).Position =
      { X := s.Position.X + (Update m s dt).Velocity.X * dt
        Y := s.Position.Y + (Update m s dt).Velocity.Y * dt
        Z := s.Position.Z + (Update m s dt).Velocity.Z * dt } := by
  rw [Update_Velocity]
  simp only [Update, updateLifeSupport, updateDamage, updateWeapons,
    (updateShields_pose _ dt).2.1]
  rfl

theorem Update_Rotation (m : MathFns F) (s : Ship F) (dt : F) :
    (Update m s dt).Rotation = (integrateRotation m s.AngularVelocity s.Rotation dt).2 := by
  simp only [Update, updateLifeSupport, updateDamage, updateWeapons,
    (updateShields_pose _ dt).2.2.1]
  rfl

theorem totalThrust_fold (l : List (String × Engine F)) (c : F) :
    l.foldl
      (fun total e =>
        if e.2.Enabled = true ∧ e.2.Health > 0 then
          total + e.2.Thrust * (e.2.Health / e.2.MaxHealth)
        else total) c
      = c + ((l.filter (fun e => decide (e.2.Enabled = true ∧ e.2.Health > 0))).map
          (fun e => e.2.Thrust * (e.2.Health / e.2.MaxHealth))).sum := by
  induction l generalizing c with
  | nil => simp
  | cons e rest ih =>
    rw [List.foldl_cons, ih]
    by_cases h : e.2.Enabled = true ∧ e.2.Health > 0
    · simp [h, add_assoc]
    · simp [h]

theorem totalThrust_eq (s : Ship F) : totalThrust s.Engines = specThrust s := by
  unfold totalThrust specThrust
  rw [totalThrust_fold]
  simp

theorem draggedVelocity_eq (s : Ship F) (dt : F) :
    draggedVelocity s dt = specDraggedVelocity s dt := by
  simp only [draggedVelocity, specDraggedVelocity, totalThrust_eq, getForwardVector,
    specForward]
  congr 1 <;> ring

theorem clampSpeed_eq (m : MathFns F) (u : Vector3 F) (maxSpeed : F) :
    clampSpeed m u maxSpeed = specClampedVelocity m u maxSpeed := rfl

theorem normSq_nonneg (v : Vector3 F) : 0 ≤ normSq v := by
  unfold normSq
  exact add_nonneg (add_nonneg (mul_self_nonneg _) (mul_self_nonneg _)) (mul_self_nonneg _)

theorem quatNormSq_nonneg (q : Quaternion F) : 0 ≤ quatNormSq q := by
  unfold quatNormSq
  exact add_nonneg (add_nonneg (add_nonneg (mul_self_nonneg _) (mul_self_nonneg _))
    (mul_self_nonneg _)) (mul_self_nonneg _)

theorem normSq_scaled (u : Vector3 F) (c : F) :
    normSq { X := u.X * c, Y := u.Y * c, Z := u.Z * c } = normSq u * (c * c) := by
  simp only [normSq]
  ring

theorem clampSpeed_exact (m : MathFns F) (u : Vector3 F) (maxSpeed : F)
    (hmax : 0 ≤ maxSpeed) (hsq : m.Sqrt (normSq u) * m.Sqrt (normSq u) = normSq u)
    (hgt : m.Sqrt (normSq u) > maxSpeed) :
    normSq (clampSpeed m u maxSpeed) = maxSpeed * maxSpeed := by
  have hpos : 0 < m.Sqrt (normSq u) := lt_of_le_of_lt hmax hgt
  have hne : m.Sqrt (normSq u) ≠ 0 := ne_of_gt hpos
  have hc : clampSpeed m u maxSpeed =
      { X := u.X * (maxSpeed / m.Sqrt (normSq u)), Y := u.Y * (maxSpeed / m.Sqrt (normSq u)),
        Z := u.Z * (maxSpeed / m.Sqrt (normSq u)) } := by
    rw [clampSpeed_eq]
    unfold specClampedVelocity
    rw [if_pos hgt]
  rw [hc, normSq_scaled]
  nth_rewrite 1 [← hsq]
  field_simp

theorem clampSpeed_bound (m : MathFns F) (u : Vector3 F) (maxSpeed : F)
    (hmax : 0 ≤ maxSpeed) (h0 : 0 ≤ m.Sqrt (normSq u))
    (hsq : normSq u ≤ m.Sqrt (normSq u) * m.Sqrt (normSq u)) :
    normSq (clampSpeed m u maxSpeed) ≤ maxSpeed * maxSpeed := by
  by_cases hgt : m.Sqrt (normSq u) > maxSpeed
  · have hpos : 0 < m.Sqrt (normSq u) := lt_of_le_of_lt hmax hgt
    have hne : m.Sqrt (normSq u) ≠ 0 := ne_of_gt hpos
    have hc : clampSpeed m u maxSpeed =
        { X := u.X * (maxSpeed / m.Sqrt (normSq u)), Y := u.Y * (maxSpeed / m.Sqrt (normSq u)),
          Z := u.Z * (maxSpeed / m.Sqrt (normSq u)) } := by
      rw [clampSpeed_eq]
      unfold specClampedVelocity
      rw [if_pos hgt]
    rw [hc, normSq_scaled]
    have hcc : 0 ≤ maxSpeed / m.Sqrt (normSq u) * (maxSpeed / m.Sqrt (normSq u)) :=
      mul_self_nonneg _
    calc normSq u * (maxSpeed / m.Sqrt (normSq u) * (maxSpeed / m.Sqrt (normSq u)))
        ≤ m.Sqrt (normSq u) * m.Sqrt (normSq u)
            * (maxSpeed / m.Sqrt (normSq u) * (maxSpeed / m.Sqrt (normSq u))) :=
          mul_le_mul_of_nonneg_right hsq hcc
      _ = maxSpeed * maxSpeed := by field_simp
  · have hc : clampSpeed m u maxSpeed = u := by
      rw [clampSpeed_eq]
      unfold specClampedVelocity
      rw [if_neg hgt]
    rw [hc]
    exact le_trans hsq (mul_self_le_mul_self h0 (not_lt.mp hgt))

/-- C12. Linear physics step of `Update(dt)`: with `T` the sum of
`thrust * (health / max-health)` over the engines that are enabled and have
health `> 0`, and `forward` read from the rotation, the new velocity is
`u = 0.98 * (v + forward * (T / mass) * dt)`, scaled by `max-speed / |u|` when
`|u|` exceeds max-speed, and the new position is the old one plus the new
velocity times `dt`; where `Sqrt` gives the exact `|u|` and max-speed is
`≥ 0`, the scaled velocity has magnitude max-speed. -/
theorem Update_linear_step (m : MathFns F) (s : Ship F) (dt : F) :
    (Update m s dt).Velocity
      = specClampedVelocity m (specDraggedVelocity s dt) s.MaxSpeed ∧
    (Update m s dt).Position =
      { X := s.Position.X + (Update m s dt).Velocity.X * dt
        Y := s.Position.Y + (Update m s dt).Velocity.Y * dt
        Z := s.Position.Z + (Update m s dt).Velocity.Z * dt } ∧
    (0 ≤ s.MaxSpeed →
      m.Sqrt (normSq (specDraggedVelocity s dt)) * m.Sqrt (normSq (specDraggedVelocity s dt))
        = normSq (specDraggedVelocity s dt) →
      m.Sqrt (normSq (specDraggedVelocity s dt)) > s.MaxSpeed →
        normSq (Update m s dt).Velocity = s.MaxSpeed * s.MaxSpeed) := by
  refine ⟨?_, Update_Position m s dt, ?_⟩
  · rw [Update_Velocity, draggedVelocity_eq, clampSpeed_eq]
  · intro hmax hsq hgt
    rw [Update_Velocity, draggedVelocity_eq]
    exact clampSpeed_exact m _ _ hmax hsq hgt

/-- C12, scenario 1 of the specification: one engine of thrust 50000 and
health 100 of 100, mass 100000, max-speed 200, identity rotation, at rest; a
tick of 0.1 s gives velocity (0, 0, 0.049) and position (0, 0, 0.0049). -/
theorem Update_linear_step_witness :
    (Update testMath (updateTestShip : Ship ℚ) (1 / 10)).Velocity
      = { X := 0, Y := 0, Z := 49 / 1000 } ∧
    (Update testMath (updateTestShip : Ship ℚ) (1 / 10)).Position
      = { X := 0, Y := 0, Z := 49 / 10000 } := by
  obtain ⟨h1, h2, _⟩ := Update_linear_step testMath (updateTestShip : Ship ℚ) (1 / 10)
  have hu : specDraggedVelocity (updateTestShip : Ship ℚ) (1 / 10)
      = { X := 0, Y := 0, Z := 49 / 1000 } := by
    simp [specDraggedVelocity, specForward, specThrust, updateTestShip, updateTestClass,
      NewShip, mapSet]
    norm_num
  have hv : (Update testMath (updateTestShip : Ship ℚ) (1 / 10)).Velocity
      = { X := 0, Y := 0, Z := 49 / 1000 } := by
    rw [h1, hu]
    simp [specClampedVelocity, normSq, testMath, updateTestShip, updateTestClass, NewShip]
    norm_num
  refine ⟨hv, ?_⟩
  rw [h2, hv]
  simp [updateTestShip, NewShip]
  norm_num

/-- The speed clamp over any number system: if `Sqrt` returns at the squared
speed before the clamp a value that is not negative and whose square is not
below it, the squared speed after `Update(dt)` is at most max-speed squared. -/
theorem Update_speed_bound (m : MathFns F) (s : Ship F) (dt : F)
    (hmax : 0 ≤ s.MaxSpeed)
    (h0 : 0 ≤ m.Sqrt (normSq (draggedVelocity s dt)))
    (hsq : normSq (draggedVelocity s dt)
      ≤ m.Sqrt (normSq (draggedVelocity s dt)) * m.Sqrt (normSq (draggedVelocity s dt))) :
    normSq (Update m s dt).Velocity ≤ s.MaxSpeed * s.MaxSpeed := by
  rw [Update_Velocity]
  exact clampSpeed_bound m _ _ hmax h0 hsq

/-- The speed clamp run on the rationals: the ship of `TestShipUpdate` moving
at 300 with max-speed 200 has, after a tick, a squared speed of at most 200
squared. -/
theorem Update_speed_bound_rational :
    normSq (Update testMath (fastSpinningShip : Ship ℚ) (1 / 10)).Velocity ≤ 200 * 200 := by
  have hmax : (fastSpinningShip : Ship ℚ).MaxSpeed = 200 := by rfl
  have hover : ∀ x : ℚ, 0 ≤ x → 0 ≤ testMath.Sqrt x ∧ x ≤ testMath.Sqrt x * testMath.Sqrt x := by
    intro x hx
    simp only [testMath]
    by_cases h : x = 0
    · simp [h]
    · simp only [if_neg h]
      constructor
      · positivity
      · nlinarith [sq_nonneg (x - 1)]
  have hs := hover _ (normSq_nonneg (draggedVelocity (fastSpinningShip : Ship ℚ) (1 / 10)))
  have h := Update_speed_bound testMath (fastSpinningShip : Ship ℚ) (1 / 10)
    (by rw [hmax]; norm_num) hs.1 hs.2
  rw [hmax] at h
  exact h

/-- C13. Speed clamp invariant, over real arithmetic: for every ship with
max-speed `≥ 0` and mass `≠ 0`, every prior velocity and every `dt`, after
`Update(dt)` the magnitude of the velocity is at most max-speed. -/
theorem Update_speed_clamp (s : Ship ℝ) (dt : ℝ)
    (hmax : 0 ≤ s.MaxSpeed) (_hmass : s.Mass ≠ 0) :
    Real.sqrt (normSq (Update ⟨Real.sqrt, Real.sin, Real.cos⟩ s dt).Velocity) ≤ s.MaxSpeed := by
  have h := Update_speed_bound ⟨Real.sqrt, Real.sin, Real.cos⟩ s dt hmax
    (Real.sqrt_nonneg _) (le_of_eq (Real.mul_self_sqrt (normSq_nonneg _)).symm)
  calc Real.sqrt (normSq (Update ⟨Real.sqrt, Real.sin, Real.cos⟩ s dt).Velocity)
      ≤ Real.sqrt (s.MaxSpeed * s.MaxSpeed) := Real.sqrt_le_sqrt h
    _ = s.MaxSpeed := Real.sqrt_mul_self hmax

/-- C13, at the ship of `TestShipUpdate` (mass 100000, max-speed 200) moving at
300: after a tick of 0.1 s its speed is at most 200. -/
theorem Update_speed_clamp_witness :
    (0 : ℝ) ≤ (fastSpinningShip : Ship ℝ).MaxSpeed ∧
    (fastSpinningShip : Ship ℝ).Mass ≠ 0 ∧
    Real.sqrt (normSq (Update ⟨Real.sqrt, Real.sin, Real.cos⟩
      (fastSpinningShip : Ship ℝ) (1 / 10)).Velocity) ≤ 200 := by
  have hmax : (fastSpinningShip : Ship ℝ).MaxSpeed = 200 := by rfl
  have hmass : (fastSpinningShip : Ship ℝ).Mass ≠ 0 := by
    simp [fastSpinningShip, updateTestShip, updateTestClass, NewShip]
  have h := Update_speed_clamp (fastSpinningShip : Ship ℝ) (1 / 10)
    (by rw [hmax]; norm_num) hmass
  rw [hmax] at h
  exact ⟨by rw [hmax]; norm_num, hmass, h⟩

theorem normalizeQuaternion_unit (m : MathFns F) (q : Quaternion F)
    (hsq : m.Sqrt (quatNormSq q) * m.Sqrt (quatNormSq q) = quatNormSq q) :
    quatNormSq (normalizeQuaternion m q) = 1 := by
  have hmag : m.Sqrt (q.W * q.W + q.X * q.X + q.Y * q.Y + q.Z * q.Z)
      = m.Sqrt (quatNormSq q) := rfl
  unfold normalizeQuaternion
  simp only [hmag]
  by_cases hlt : m.Sqrt (quatNormSq q) < 1 / 10000
  · rw [if_pos hlt]
    simp [quatNormSq]
  · rw [if_neg hlt]
    have hpos : 0 < m.Sqrt (quatNormSq q) :=
      lt_of_lt_of_le (by norm_num) (not_lt.mp hlt)
    have hne : m.Sqrt (quatNormSq q) ≠ 0 := ne_of_gt hpos
    have hsum : quatNormSq
        { W := q.W / m.Sqrt (quatNormSq q), X := q.X / m.Sqrt (quatNormSq q),
          Y := q.Y / m.Sqrt (quatNormSq q), Z := q.Z / m.Sqrt (quatNormSq q) }
        = quatNormSq q / (m.Sqrt (quatNormSq q) * m.Sqrt (quatNormSq q)) := by
      simp only [quatNormSq]
      field_simp
    rw [hsum, hsq]
    exact div_self (by rw [← hsq]; exact mul_ne_zero hne hne)

/-- The rotation after `Update(dt)`: the one before, or a normalized one. -/
theorem Update_Rotation_cases (m : MathFns F) (s : Ship F) (dt : F) :
    (Update m s dt).Rotation = s.Rotation ∨
    (Update m s dt).Rotation =
      normalizeQuaternion m
        (turnedRotation m (draggedAngularVelocity s.AngularVelocity)
          (turnAngle m (draggedAngularVelocity s.AngularVelocity) dt) s.Rotation) := by
  rw [Update_Rotation]
  unfold integrateRotation
  simp only
  split
  · exact Or.inr rfl
  · exact Or.inl rfl

/-- The unit rotation run on the rationals, where the scenario square root is
exact at 1: the identity is normalized to itself. -/
theorem normalizeQuaternion_rational :
    normalizeQuaternion testMath ({ W := 1, X := 0, Y := 0, Z := 0 } : Quaternion ℚ)
      = { W := 1, X := 0, Y := 0, Z := 0 } := by
  simp [normalizeQuaternion, testMath]

/-- C14. Unit rotation invariant, over real arithmetic: `normalizeQuaternion`
returns a quaternion of magnitude 1 for every input, the identity when the
magnitude of the input is below 0.0001; and for every ship whose rotation has
magnitude within 0.0001 of 1, the rotation after `Update(dt)` has magnitude
within 0.0001 of 1 as well, for every angular velocity and `dt`. -/
theorem Update_rotation_unit (q : Quaternion ℝ) (s : Ship ℝ) (dt : ℝ)
    (hrot : |Real.sqrt (quatNormSq s.Rotation) - 1| ≤ 1 / 10000) :
    Real.sqrt (quatNormSq (normalizeQuaternion ⟨Real.sqrt, Real.sin, Real.cos⟩ q)) = 1 ∧
    (Real.sqrt (quatNormSq q) < 1 / 10000 →
      normalizeQuaternion ⟨Real.sqrt, Real.sin, Real.cos⟩ q
        = { W := 1, X := 0, Y := 0, Z := 0 }) ∧
    |Real.sqrt (quatNormSq (Update ⟨Real.sqrt, Real.sin, Real.cos⟩ s dt).Rotation) - 1|
      ≤ 1 / 10000 := by
  have hunit : ∀ p : Quaternion ℝ,
      Real.sqrt (quatNormSq (normalizeQuaternion ⟨Real.sqrt, Real.sin, Real.cos⟩ p)) = 1 := by
    intro p
    rw [normalizeQuaternion_unit ⟨Real.sqrt, Real.sin, Real.cos⟩ p
      (Real.mul_self_sqrt (quatNormSq_nonneg p))]
    exact Real.sqrt_one
  refine ⟨hunit q, ?_, ?_⟩
  · intro hlt
    have hlt2 : (⟨Real.sqrt, Real.sin, Real.cos⟩ : MathFns ℝ).Sqrt
        (q.W * q.W + q.X * q.X + q.Y * q.Y + q.Z * q.Z) < 1 / 10000 := hlt
    simp only [normalizeQuaternion, if_pos hlt2]
  · rcases Update_Rotation_cases ⟨Real.sqrt, Real.sin, Real.cos⟩ s dt with h | h
    · rw [h]
      exact hrot
    · rw [h, hunit]
      norm_num

/-- C14, at the ship of `TestShipUpdate` spinning at 2 about `z`, whose
rotation is the identity: the quaternion (3, 4, 0, 0) is normalized to
magnitude 1, and after a tick of 0.1 s the rotation of the ship is within
0.0001 of magnitude 1. -/
theorem Update_rotation_unit_witness :
    |Real.sqrt (quatNormSq (fastSpinningShip : Ship ℝ).Rotation) - 1| ≤ 1 / 10000 ∧
    Real.sqrt (quatNormSq (normalizeQuaternion ⟨Real.sqrt, Real.sin, Real.cos⟩
      ({ W := 3, X := 4, Y := 0, Z := 0 } : Quaternion ℝ))) = 1 ∧
    |Real.sqrt (quatNormSq (Update ⟨Real.sqrt, Real.sin, Real.cos⟩
      (fastSpinningShip : Ship ℝ) (1 / 10)).Rotation) - 1| ≤ 1 / 10000 := by
  have hrot : |Real.sqrt (quatNormSq (fastSpinningShip : Ship ℝ).Rotation) - 1|
      ≤ 1 / 10000 := by
    have h1 : quatNormSq (fastSpinningShip : Ship ℝ).Rotation = 1 := by
      simp [quatNormSq, fastSpinningShip, updateTestShip, NewShip]
    rw [h1, Real.sqrt_one]
    norm_num
  have h := Update_rotation_unit ({ W := 3, X := 4, Y := 0, Z := 0 } : Quaternion ℝ)
    (fastSpinningShip : Ship ℝ) (1 / 10) hrot
  exact ⟨hrot, h.1, h.2.2⟩

/-! ## The breach invariant -/

theorem Update_Sections (m : MathFns F) (s : Ship F) (dt : F) :
    (Update m s dt).Hull.Sections =
      mapValues (fun c => { c with Health := burn dt c.OnFire c.Health }) s.Hull.Sections := by
  have h : ∀ t : Ship F, (updateShields t dt).Hull = t.Hull := by
    intro t
    unfold updateShields
    split <;> rfl
  simp only [Update, updateLifeSupport, updateDamage, updateWeapons, h]
  rfl

theorem damageHull_sections (R : HullSection F → Prop) (t : Ship F) (x : F) (loc : String)
    (hx : 0 ≤ x) (hR : ∀ sec y, 0 ≤ y → R sec → R (damageSection sec y))
    (ht : ∀ c ∈ t.Hull.Sections, R c.2) :
    ∀ c ∈ (damageHull t x loc).Hull.Sections, R c.2 := by
  unfold damageHull
  cases hsec : mapGet t.Hull.Sections loc with
  | none => exact ht
  | some sec =>
    exact forall_mapSet R _ _ _ ht (hR sec x hx (ht (loc, sec) (mem_of_mapGet _ _ _ hsec)))

theorem TakeDamage_sections (R : HullSection F → Prop) (s : Ship F) (amount : F)
    (location : String) (ha : 0 ≤ amount)
    (hR : ∀ sec y, 0 ≤ y → R sec → R (damageSection sec y))
    (hs : ∀ c ∈ s.Hull.Sections, R c.2) :
    ∀ c ∈ (TakeDamage s amount location).Hull.Sections, R c.2 := by
  cases hem : mapGet s.Shields.Emitters (defaultLocation location) with
  | none =>
    have hT : TakeDamage s amount location = damageHull s amount (defaultLocation location) := by
      simp only [TakeDamage, hem]
    rw [hT]
    exact damageHull_sections R s amount _ ha hR hs
  | some e =>
    by_cases hpos : 0 < e.Strength
    · by_cases hlt : e.Strength - amount < 0
      · rw [TakeDamage_overflow s amount location e hem hpos hlt]
        exact damageHull_sections R _ _ _ (by linarith) hR hs
      · rw [TakeDamage_absorbed s amount location e hem hpos hlt]
        exact hs
    · have hT : TakeDamage s amount location
          = damageHull s amount (defaultLocation location) := by
        have hle : ¬ e.Strength > 0 := hpos
        simp only [TakeDamage, hem, if_neg hle]
      rw [hT]
      exact damageHull_sections R s amount _ ha hR hs

/-- What the breach invariant asks of one section, with the side conditions it
is preserved under: health and max-health not negative. -/
theorem damageSection_sound (sec : HullSection F) (y : F) (hy : 0 ≤ y)
    (h : (sec.Breached = true → sec.Health = 0) ∧ 0 ≤ sec.Health) :
    ((damageSection sec y).Breached = true → (damageSection sec y).Health = 0) ∧
      0 ≤ (damageSection sec y).Health := by
  unfold damageSection
  simp only
  by_cases hle : sec.Health - y ≤ 0
  · rw [if_pos hle]
    exact ⟨fun _ => rfl, le_refl _⟩
  · rw [if_neg hle]
    refine ⟨?_, le_of_lt (not_le.mp hle)⟩
    intro hb
    have h0 := h.1 hb
    exfalso
    apply hle
    rw [h0]
    linarith

theorem burn_sound (dt : F) (hdt : 0 ≤ dt) (c : HullSection F)
    (h : (c.Breached = true → c.Health = 0) ∧ 0 ≤ c.Health) :
    (c.Breached = true → burn dt c.OnFire c.Health = 0) ∧ 0 ≤ burn dt c.OnFire c.Health := by
  have hb := burn_range dt c.Health c.Health c.OnFire hdt h.2 (le_refl _)
  refine ⟨?_, hb.1⟩
  intro hbr
  exact le_antisymm (le_trans hb.2 (le_of_eq (h.1 hbr))) hb.1

theorem startFire_sections (R : HullSection F → Prop) (s : Ship F) (location : String)
    (hR : ∀ sec : HullSection F, R sec → R { sec with OnFire := true })
    (hs : ∀ c ∈ s.Hull.Sections, R c.2) :
    ∀ c ∈ (startFire s location).state.Hull.Sections, R c.2 := by
  unfold startFire
  cases hsec : mapGet s.Hull.Sections location with
  | none => exact hs
  | some sec =>
    have h1 : ∀ c ∈ mapSet s.Hull.Sections location { sec with OnFire := true }, R c.2 :=
      forall_mapSet R _ _ _ hs (hR sec (hs (location, sec) (mem_of_mapGet _ _ _ hsec)))
    simp only
    split <;> exact h1

theorem pressureDrops_Hull (rnd : Nat → F) (l : List String) (s : Ship F) (i : Nat) :
    (pressureDrops rnd l s i).1.Hull = s.Hull := by
  induction l generalizing s i with
  | nil => rfl
  | cons loc rest ih =>
    simp only [pressureDrops]
    split
    · split
      · rw [ih]
      · rw [ih]
    · rw [ih]

theorem spreadFire_sections (R : HullSection F → Prop) (rnd : Nat → F) (l : List String)
    (s : Ship F) (i : Nat)
    (hR : ∀ sec : HullSection F, R sec → R { sec with OnFire := true })
    (hs : ∀ c ∈ s.Hull.Sections, R c.2) :
    ∀ c ∈ (spreadFire rnd l s i).state.1.Hull.Sections, R c.2 := by
  induction l generalizing s i with
  | nil => exact hs
  | cons loc rest ih =>
    simp only [spreadFire]
    split
    · have h1 := startFire_sections R s loc hR hs
      cases hsf : startFire s loc with
      | done s1 =>
        rw [hsf] at h1
        exact ih s1 (i + 1) h1
      | panicked s1 =>
        rw [hsf] at h1
        exact h1
    · exact ih s (i + 1) hs

theorem checkCascadingFailures_sections (R : HullSection F → Prop) (rnd : Nat → F)
    (s : Ship F) (i : Nat) (location : String)
    (hfire : ∀ sec : HullSection F, R sec → R { sec with OnFire := true })
    (hbreach : ∀ sec : HullSection F, sec.Health ≤ 0 → R sec → R { sec with Breached := true })
    (hs : ∀ c ∈ s.Hull.Sections, R c.2) :
    ∀ c ∈ (checkCascadingFailures rnd s i location).state.1.Hull.Sections, R c.2 := by
  unfold checkCascadingFailures
  cases hsec : mapGet s.Hull.Sections location with
  | none => exact hs
  | some sec =>
    simp only
    have hr : ∀ c ∈ (if sec.Health ≤ 0 ∧ sec.Breached = false then
          pressureDrops rnd (getAdjacentLocations location)
            (match mapGet s.LifeSupport.Compartments location with
              | some comp =>
                { s with
                  Hull := { s.Hull with
                    Sections := mapSet s.Hull.Sections location { sec with Breached := true } }
                  LifeSupport := { s.LifeSupport with
                    Compartments := mapSet s.LifeSupport.Compartments location
                      { comp with Breached := true } } }
              | none =>
                { s with Hull := { s.Hull with
                    Sections := mapSet s.Hull.Sections location
                      { sec with Breached := true } } }) i
        else (s, i)).1.Hull.Sections, R c.2 := by
      split
      · rename_i hc
        rw [pressureDrops_Hull]
        have h1 : ∀ c ∈ mapSet s.Hull.Sections location { sec with Breached := true }, R c.2 :=
          forall_mapSet R _ _ _ hs
            (hbreach sec hc.1 (hs (location, sec) (mem_of_mapGet _ _ _ hsec)))
        split <;> exact h1
      · exact hs
    split
    · exact spreadFire_sections R rnd _ _ _ hfire hr
    · exact hr

theorem foldl_TakeDamage_sections (R : HullSection F → Prop) (l : List String) (s : Ship F)
    (amount : F) (ha : 0 ≤ amount)
    (hR : ∀ sec y, 0 ≤ y → R sec → R (damageSection sec y))
    (hs : ∀ c ∈ s.Hull.Sections, R c.2) :
    ∀ c ∈ (l.foldl (fun t loc => TakeDamage t amount loc) s).Hull.Sections, R c.2 := by
  induction l generalizing s with
  | nil => exact hs
  | cons loc rest ih =>
    rw [List.foldl_cons]
    exact ih _ (TakeDamage_sections R s amount loc ha hR hs)

theorem ApplyDamage_sections (R : HullSection F → Prop) (rnd : Nat → F) (s : Ship F) (i : Nat)
    (amount : F) (location damageType : String) (ha : 0 ≤ amount)
    (hR : ∀ sec y, 0 ≤ y → R sec → R (damageSection sec y))
    (hfire : ∀ sec : HullSection F, R sec → R { sec with OnFire := true })
    (hbreach : ∀ sec : HullSection F, sec.Health ≤ 0 → R sec → R { sec with Breached := true })
    (hs : ∀ c ∈ s.Hull.Sections, R c.2) :
    ∀ c ∈ (ApplyDamage rnd s i amount location damageType).state.1.Hull.Sections, R c.2 := by
  have hdam : ∀ c ∈ (if damageType = "kinetic" then applyKineticDamage rnd s i amount location
      else if damageType = "energy" then applyEnergyDamage rnd s i amount location
      else if damageType = "explosive" then applyExplosiveDamage rnd s i amount location
      else Outcome.done (TakeDamage s amount location, i)).state.1.Hull.Sections, R c.2 := by
    split
    · unfold applyKineticDamage
      simp only
      have h1 := TakeDamage_sections R s amount location ha hR hs
      split
      · have h2 := startFire_sections R _ location hfire h1
        cases hsf : startFire (TakeDamage s amount location) location with
        | done s2 =>
          rw [hsf] at h2
          exact h2
        | panicked s2 =>
          rw [hsf] at h2
          exact h2
      · exact h1
    · split
      · unfold applyEnergyDamage
        simp only
        have h1 := TakeDamage_sections R s (amount * (3 / 2)) location (by positivity) hR hs
        split
        · exact h1
        · exact h1
      · split
        · unfold applyExplosiveDamage
          simp only
          have h1 := TakeDamage_sections R s amount location ha hR hs
          have h2 := foldl_TakeDamage_sections R (getAdjacentLocations location) _
            (amount * (1 / 2)) (by positivity) hR h1
          split
          · have h3 := startFire_sections R _ location hfire h2
            cases hsf : startFire ((getAdjacentLocations location).foldl
                (fun t loc => TakeDamage t (amount * (1 / 2)) loc)
                (TakeDamage s amount location)) location with
            | done s3 =>
              rw [hsf] at h3
              exact h3
            | panicked s3 =>
              rw [hsf] at h3
              exact h3
          · exact h2
        · exact TakeDamage_sections R s amount location ha hR hs
  unfold ApplyDamage
  simp only
  cases hd : (if damageType = "kinetic" then applyKineticDamage rnd s i amount location
      else if damageType = "energy" then applyEnergyDamage rnd s i amount location
      else if damageType = "explosive" then applyExplosiveDamage rnd s i amount location
      else Outcome.done (TakeDamage s amount location, i)) with
  | done r =>
    rw [hd] at hdam
    exact checkCascadingFailures_sections R rnd r.1 r.2 location hfire hbreach hdam
  | panicked r =>
    rw [hd] at hdam
    exact hdam

theorem repairSection_sound (amount : F) (sec : HullSection F) (ha : 0 ≤ amount)
    (hmax : 0 ≤ sec.MaxHealth)
    (h : (sec.Breached = true → sec.Health = 0) ∧ 0 ≤ sec.Health) :
    ((repairSection amount sec).Breached = true → (repairSection amount sec).Health = 0) ∧
      0 ≤ (repairSection amount sec).Health := by
  have hcap : 0 ≤ repairedHealth amount sec.Health sec.MaxHealth := by
    unfold repairedHealth
    split
    · exact hmax
    · exact add_nonneg h.2 ha
  have hdef : repairSection amount sec =
      if repairedHealth amount sec.Health sec.MaxHealth > 0 then
        { sec with Health := repairedHealth amount sec.Health sec.MaxHealth, Breached := false }
      else { sec with Health := repairedHealth amount sec.Health sec.MaxHealth } := rfl
  by_cases hpos : repairedHealth amount sec.Health sec.MaxHealth > 0
  · rw [hdef, if_pos hpos]
    refine ⟨?_, hcap⟩
    intro hb
    simp at hb
  · rw [hdef, if_neg hpos]
    exact ⟨fun _ => le_antisymm (not_lt.mp hpos) hcap, hcap⟩

theorem RepairSystem_sections (s : Ship F) (systemType systemID : String) (amount : F)
    (ha : 0 ≤ amount)
    (hmax : ∀ sec, mapGet s.Hull.Sections systemID = some sec → 0 ≤ sec.MaxHealth)
    (hs : ∀ c ∈ s.Hull.Sections, (c.2.Breached = true → c.2.Health = 0) ∧ 0 ≤ c.2.Health) :
    ∀ c ∈ (RepairSystem s systemType systemID amount).Hull.Sections,
      (c.2.Breached = true → c.2.Health = 0) ∧ 0 ≤ c.2.Health := by
  unfold RepairSystem
  split
  · split <;> exact hs
  · split
    · split <;> exact hs
    · split
      · split <;> exact hs
      · split
        · cases hsec : mapGet s.Hull.Sections systemID with
          | none => exact hs
          | some sec =>
            exact forall_mapSet
              (fun c : HullSection F => (c.Breached = true → c.Health = 0) ∧ 0 ≤ c.Health)
              _ _ _ hs
              (repairSection_sound amount sec ha (hmax sec hsec)
                (hs (systemID, sec) (mem_of_mapGet _ _ _ hsec)))
        · split
          · split <;> exact hs
          · exact hs

theorem SealBreach_Sections_eq (s : Ship F) (location : String) :
    (SealBreach s location).Hull.Sections =
      match mapGet s.Hull.Sections location with
      | some sec => mapSet s.Hull.Sections location { sec with Breached := false }
      | none => s.Hull.Sections := by
  cases hcomp : mapGet s.LifeSupport.Compartments location <;>
    cases hsec : mapGet s.Hull.Sections location <;>
    simp only [SealBreach, hcomp, hsec]

theorem SealBreach_sections (s : Ship F) (location : String)
    (hs : ∀ c ∈ s.Hull.Sections, (c.2.Breached = true → c.2.Health = 0) ∧ 0 ≤ c.2.Health) :
    ∀ c ∈ (SealBreach s location).Hull.Sections,
      (c.2.Breached = true → c.2.Health = 0) ∧ 0 ≤ c.2.Health := by
  rw [SealBreach_Sections_eq]
  cases hsec : mapGet s.Hull.Sections location with
  | none => exact hs
  | some sec0 =>
    refine forall_mapSet
      (fun c : HullSection F => (c.Breached = true → c.Health = 0) ∧ 0 ≤ c.Health)
      _ _ _ hs ⟨?_, (hs (location, sec0) (mem_of_mapGet _ _ _ hsec)).2⟩
    intro hb
    simp at hb

theorem Update_sections_sound (m : MathFns F) (s : Ship F) (dt : F) (hdt : 0 ≤ dt)
    (hs : ∀ c ∈ s.Hull.Sections, (c.2.Breached = true → c.2.Health = 0) ∧ 0 ≤ c.2.Health) :
    ∀ c ∈ (Update m s dt).Hull.Sections,
      (c.2.Breached = true → c.2.Health = 0) ∧ 0 ≤ c.2.Health := by
  rw [Update_Sections]
  exact forall_mapValues
    (fun c : HullSection F => (c.Breached = true → c.Health = 0) ∧ 0 ≤ c.Health)
    _ _ hs (fun c hc => burn_sound dt hdt c hc)

theorem ApplyDamage_sections_sound (rnd : Nat → F) (s : Ship F) (i : Nat) (amount : F)
    (location damageType : String) (ha : 0 ≤ amount)
    (hs : ∀ c ∈ s.Hull.Sections, (c.2.Breached = true → c.2.Health = 0) ∧ 0 ≤ c.2.Health) :
    ∀ c ∈ (ApplyDamage rnd s i amount location damageType).state.1.Hull.Sections,
      (c.2.Breached = true → c.2.Health = 0) ∧ 0 ≤ c.2.Health :=
  ApplyDamage_sections
    (fun c : HullSection F => (c.Breached = true → c.Health = 0) ∧ 0 ≤ c.Health)
    rnd s i amount location damageType ha
    (fun sec y hy h => damageSection_sound sec y hy h)
    (fun _ h => h)
    (fun _ hle h => ⟨fun _ => le_antisymm hle h.2, h.2⟩)
    hs

theorem TakeDamage_sections_sound (s : Ship F) (amount : F) (location : String)
    (ha : 0 ≤ amount)
    (hs : ∀ c ∈ s.Hull.Sections, (c.2.Breached = true → c.2.Health = 0) ∧ 0 ≤ c.2.Health) :
    ∀ c ∈ (TakeDamage s amount location).Hull.Sections,
      (c.2.Breached = true → c.2.Health = 0) ∧ 0 ≤ c.2.Health :=
  TakeDamage_sections
    (fun c : HullSection F => (c.Breached = true → c.Health = 0) ∧ 0 ≤ c.Health)
    s amount location ha (fun sec y hy h => damageSection_sound sec y hy h) hs

/-- Under the side conditions of the breach invariant the section healths stay
`≥ 0` as well, so the hypothesis of the invariant is re-established after each
operation. -/
theorem sectionHealthsNonneg_preserved (m : MathFns F) (rnd : Nat → F) (s : Ship F)
    (hinv : breachInvariant s) (hh : sectionHealthsNonneg s) :
    (∀ amount location, 0 ≤ amount → sectionHealthsNonneg (TakeDamage s amount location)) ∧
    (∀ dt, 0 ≤ dt → sectionHealthsNonneg (Update m s dt)) ∧
    (∀ i amount location damageType, 0 ≤ amount →
      sectionHealthsNonneg (ApplyDamage rnd s i amount location damageType).state.1) ∧
    (∀ systemType systemID amount, 0 ≤ amount → sectionMaxHealthsNonneg s →
      sectionHealthsNonneg (RepairSystem s systemType systemID amount)) ∧
    (∀ location, sectionHealthsNonneg (SealBreach s location)) := by
  have hs : ∀ c ∈ s.Hull.Sections,
      (c.2.Breached = true → c.2.Health = 0) ∧ 0 ≤ c.2.Health :=
    fun c hc => ⟨hinv c hc, hh c hc⟩
  refine ⟨?_, ?_, ?_, ?_, ?_⟩
  · intro amount location ha c hc
    exact (TakeDamage_sections_sound s amount location ha hs c hc).2
  · intro dt hdt c hc
    exact (Update_sections_sound m s dt hdt hs c hc).2
  · intro i amount location damageType ha c hc
    exact (ApplyDamage_sections_sound rnd s i amount location damageType ha hs c hc).2
  · intro systemType systemID amount ha hmax c hc
    exact (RepairSystem_sections s systemType systemID amount ha
      (fun sec hsec => hmax (systemID, sec) (mem_of_mapGet _ _ _ hsec)) hs c hc).2
  · intro location c hc
    exact (SealBreach_sections s location hs c hc).2

theorem spreadFire_quiet (rnd : Nat → F) (hq : ∀ j, ¬ rnd j < 1 / 10) (l : List String)
    (s : Ship F) (i : Nat) : spreadFire rnd l s i = Outcome.done (s, i + l.length) := by
  induction l generalizing i with
  | nil => rfl
  | cons loc rest ih =>
    simp only [spreadFire, if_neg (hq i), ih, List.length_cons]
    congr 2
    omega

theorem checkCascadingFailures_quiet (rnd : Nat → F) (hq : ∀ j, ¬ rnd j < 1 / 10)
    (s : Ship F) (i : Nat) (location : String) (sec : HullSection F)
    (hsec : mapGet s.Hull.Sections location = some sec) (hb : sec.Breached = true) :
    (checkCascadingFailures rnd s i location).state.1 = s := by
  have hno : ¬ (sec.Health ≤ 0 ∧ sec.Breached = false) := by
    simp [hb]
  unfold checkCascadingFailures
  rw [hsec]
  simp only [if_neg hno]
  split
  · rw [spreadFire_quiet rnd hq]
    rfl
  · rfl

/-- C17 (as stated) fails in three places, each on a ship whose breached
section `forward` has health 0. `Update` with `dt = -1` burns the section on
fire up to health 5; `ApplyDamage` with amount `-10` and no shields raises its
health to 10; `RepairSystem` with amount 0 on a section of max-health `-1`
caps its health at `-1`. The section stays breached each time. -/
theorem breachInvariant_not_preserved :
    (breachInvariant breachedShip ∧ sectionHealthsNonneg breachedShip ∧
      ¬ breachInvariant (Update testMath breachedShip (-1))) ∧
    ¬ breachInvariant
      (ApplyDamage (fun _ => 1) breachedShip 0 (-10) "forward" "").state.1 ∧
    (breachInvariant negativeMaxHealthShip ∧ sectionHealthsNonneg negativeMaxHealthShip ∧
      ¬ breachInvariant (RepairSystem negativeMaxHealthShip "hull" "forward" 0)) := by
  refine ⟨⟨?_, ?_, ?_⟩, ?_, ⟨?_, ?_, ?_⟩⟩
  · intro c hc _
    simp [breachedShip] at hc
    rw [hc]
  · intro c hc
    simp [breachedShip] at hc
    rw [hc]
  · unfold breachInvariant
    rw [Update_Sections]
    simp [breachedShip, mapValues, burn]
  · have hT : (TakeDamage breachedShip (-10) "forward").Hull.Sections =
        [("forward", ⟨"forward", 200, 0, 500, 10, true, true⟩)] := by
      simp [TakeDamage, defaultLocation, damageHull, damageSection, breachedShip, mapGet,
        mapSet]
    have h0 : ApplyDamage (fun _ => (1 : ℚ)) breachedShip 0 (-10) "forward" "" =
        checkCascadingFailures (fun _ => 1) (TakeDamage breachedShip (-10) "forward") 0
          "forward" := by
      simp [ApplyDamage]
    have hA : (ApplyDamage (fun _ => (1 : ℚ)) breachedShip 0 (-10) "forward" "").state.1 =
        TakeDamage breachedShip (-10) "forward" := by
      rw [h0]
      refine checkCascadingFailures_quiet _ (fun _ => by norm_num) _ _ _
        ⟨"forward", 200, 0, 500, 10, true, true⟩ ?_ rfl
      rw [hT]
      simp [mapGet]
    unfold breachInvariant
    rw [hA, hT]
    simp
  · intro c hc _
    simp [negativeMaxHealthShip] at hc
    rw [hc]
  · intro c hc
    simp [negativeMaxHealthShip] at hc
    rw [hc]
  · unfold breachInvariant
    simp [RepairSystem, repairSection, negativeMaxHealthShip, mapGet, mapSet]
    norm_num

/-- C17 (amended). On every ship whose hull sections satisfy "breached implies
health = 0" and have health `≥ 0`, the predicate "breached implies health = 0"
holds again after `TakeDamage` with amount `≥ 0`, after `Update` with
`dt ≥ 0`, after `ApplyDamage` with amount `≥ 0` (of any damage type, for any
random draws, whether the call returns or stops in a nil dereference), after
`RepairSystem` with amount `≥ 0` when the section max-healths are `≥ 0`, and
after `SealBreach`. -/
theorem breachInvariant_preserved (m : MathFns F) (rnd : Nat → F) (s : Ship F)
    (hinv : breachInvariant s) (hh : sectionHealthsNonneg s) :
    (∀ amount location, 0 ≤ amount → breachInvariant (TakeDamage s amount location)) ∧
    (∀ dt, 0 ≤ dt → breachInvariant (Update m s dt)) ∧
    (∀ i amount location damageType, 0 ≤ amount →
      breachInvariant (ApplyDamage rnd s i amount location damageType).state.1) ∧
    (∀ systemType systemID amount, 0 ≤ amount → sectionMaxHealthsNonneg s →
      breachInvariant (RepairSystem s systemType systemID amount)) ∧
    (∀ location, breachInvariant (SealBreach s location)) := by
  have hs : ∀ c ∈ s.Hull.Sections,
      (c.2.Breached = true → c.2.Health = 0) ∧ 0 ≤ c.2.Health :=
    fun c hc => ⟨hinv c hc, hh c hc⟩
  refine ⟨?_, ?_, ?_, ?_, ?_⟩
  · intro amount location ha c hc
    exact (TakeDamage_sections_sound s amount location ha hs c hc).1
  · intro dt hdt c hc
    exact (Update_sections_sound m s dt hdt hs c hc).1
  · intro i amount location damageType ha c hc
    exact (ApplyDamage_sections_sound rnd s i amount location damageType ha hs c hc).1
  · intro systemType systemID amount ha hmax c hc
    exact (RepairSystem_sections s systemType systemID amount ha
      (fun sec hsec => hmax (systemID, sec) (mem_of_mapGet _ _ _ hsec)) hs c hc).1
  · intro location c hc
    exact (SealBreach_sections s location hs c hc).1

theorem breachInvariant_preserved_witness :
    breachInvariant breachedShip ∧ sectionHealthsNonneg breachedShip ∧
    breachInvariant (TakeDamage breachedShip 50 "forward") ∧
    breachInvariant (Update testMath breachedShip 1) ∧
    breachInvariant (ApplyDamage (fun _ => 0) breachedShip 0 50 "forward" "kinetic").state.1 ∧
    breachInvariant (RepairSystem breachedShip "hull" "forward" 50) ∧
    breachInvariant (SealBreach breachedShip "forward") := by
  have hinv : breachInvariant breachedShip := by
    intro c hc _
    simp [breachedShip] at hc
    rw [hc]
  have hh : sectionHealthsNonneg breachedShip := by
    intro c hc
    simp [breachedShip] at hc
    rw [hc]
  have hmax : sectionMaxHealthsNonneg breachedShip := by
    intro c hc
    simp [breachedShip] at hc
    rw [hc]
    norm_num
  obtain ⟨h1, h2, h3, h4, h5⟩ :=
    breachInvariant_preserved testMath (fun _ => 0) breachedShip hinv hh
  exact ⟨hinv, hh, h1 50 "forward" (by norm_num), h2 1 (by norm_num),
    h3 0 50 "forward" "kinetic" (by norm_num), h4 "hull" "forward" 50 (by norm_num) hmax,
    h5 "forward"⟩

/-! ## Projectile ageing -/

theorem mapGet_map_cell {V : Type} (f : Addr → V) (l : List (String × Addr)) (k : String) :
    mapGet (l.map (fun e => (e.1, f e.2))) k = (mapGet l k).map f := by
  induction l with
  | nil => rfl
  | cons e rest ih =>
    obtain ⟨k0, a⟩ := e
    by_cases h : k0 = k
    · simp [mapGet, h]
    · simp [mapGet, h, ih]

theorem mapGet_foldl_mapDelete_mem {V : Type} (ids : List String) (m : List (String × V))
    (k : String) (hk : k ∈ ids) :
    mapGet (ids.foldl (fun m id => mapDelete m id) m) k = none := by
  induction ids generalizing m with
  | nil => simp at hk
  | cons id rest ih =>
    rw [List.foldl_cons]
    by_cases hr : k ∈ rest
    · exact ih _ hr
    · have hid : k = id := by
        rcases List.mem_cons.mp hk with h | h
        · exact h
        · exact absurd h hr
      subst hid
      have hgen : ∀ (l : List String) (m2 : List (String × V)), mapGet m2 k = none →
          mapGet (l.foldl (fun m id => mapDelete m id) m2) k = none := by
        intro l
        induction l with
        | nil => intro m2 h2; exact h2
        | cons j l2 ih2 =>
          intro m2 h2
          rw [List.foldl_cons]
          apply ih2
          by_cases hj : j = k
          · rw [hj]
            exact mapGet_mapDelete_same m2 k
          · rw [mapGet_mapDelete_ne m2 j k (fun h => hj h.symm)]
            exact h2
      exact hgen rest _ (mapGet_mapDelete_same m k)

theorem mapGet_foldl_mapDelete_not_mem {V : Type} (ids : List String) (m : List (String × V))
    (k : String) (hk : k ∉ ids) :
    mapGet (ids.foldl (fun m id => mapDelete m id) m) k = mapGet m k := by
  induction ids generalizing m with
  | nil => rfl
  | cons id rest ih =>
    rw [List.foldl_cons]
    have h1 : id ≠ k := fun h => hk (by rw [h]; exact List.mem_cons_self _ _)
    have h2 : k ∉ rest := fun h => hk (List.mem_cons_of_mem _ h)
    rw [ih _ h2, mapGet_mapDelete_ne m id k (fun h => h1 h.symm)]

theorem updateProjectilesStep_expired (s : Simulator F)
    (acc : Heap (Ship F) × Heap (Projectile F) × List String) (e : String × Addr)
    (hx : expired (advanced s.dt (acc.2.1.cell e.2))) :
    updateProjectilesStep s acc e =
      (acc.1, acc.2.1.write e.2 (advanced s.dt (acc.2.1.cell e.2)), acc.2.2 ++ [e.1]) := by
  unfold expired advanced at hx
  unfold updateProjectilesStep advanced
  simp only
  rw [if_pos hx]

theorem updateProjectilesStep_hit (s : Simulator F)
    (acc : Heap (Ship F) × Heap (Projectile F) × List String) (e : String × Addr)
    (target : Addr)
    (hx : ¬ expired (advanced s.dt (acc.2.1.cell e.2)))
    (ht : (acc.2.1.cell e.2).TargetID ≠ "")
    (hm : mapGet (s.mem.shipMaps.cell s.Ships) (acc.2.1.cell e.2).TargetID = some target)
    (hd : distance (advanced s.dt (acc.2.1.cell e.2)).Position (acc.1.cell target).Position
      < 50) :
    updateProjectilesStep s acc e =
      (hitShip acc.1 target (acc.2.1.cell e.2).Damage "forward",
        acc.2.1.write e.2 (advanced s.dt (acc.2.1.cell e.2)), acc.2.2 ++ [e.1]) := by
  unfold expired advanced at hx
  unfold advanced at hd
  unfold updateProjectilesStep advanced
  simp only
  rw [if_neg hx, if_pos ht]
  simp only [hm]
  rw [if_pos hd]

theorem updateProjectilesStep_miss (s : Simulator F)
    (acc : Heap (Ship F) × Heap (Projectile F) × List String) (e : String × Addr)
    (hx : ¬ expired (advanced s.dt (acc.2.1.cell e.2)))
    (hh : ¬ hitsTarget s acc.1 (advanced s.dt (acc.2.1.cell e.2))) :
    updateProjectilesStep s acc e =
      (acc.1, acc.2.1.write e.2 (advanced s.dt (acc.2.1.cell e.2)), acc.2.2) := by
  unfold expired advanced at hx
  unfold hitsTarget advanced at hh
  unfold updateProjectilesStep advanced
  simp only
  rw [if_neg hx]
  split
  · rename_i ht
    split
    · rename_i target hm
      split
      · rename_i hd
        exact absurd ⟨ht, target, hm, hd⟩ hh
      · rfl
    · rfl
  · rfl

theorem hitShip_Position (h : Heap (Ship F)) (a : Addr) (amount : F) (location : String)
    (c : Addr) : ((hitShip h a amount location).cell c).Position = (h.cell c).Position := by
  unfold hitShip Heap.write
  simp only
  by_cases hc : c = a
  · rw [hc, Function.update_same, TakeDamage_Position]
  · rw [Function.update_noteq hc]

theorem hitsTarget_congr (s : Simulator F) (h1 h2 : Heap (Ship F)) (p : Projectile F)
    (hpos : ∀ c, (h1.cell c).Position = (h2.cell c).Position) :
    hitsTarget s h1 p ↔ hitsTarget s h2 p := by
  unfold hitsTarget
  simp only [hpos]

/-- What one pass of the loop of `updateProjectiles` does to its state, for
the three ways through its body. -/
theorem updateProjectilesStep_cases (s : Simulator F)
    (acc : Heap (Ship F) × Heap (Projectile F) × List String) (e : String × Addr) :
    (updateProjectilesStep s acc e).2.1 =
        acc.2.1.write e.2 (advanced s.dt (acc.2.1.cell e.2)) ∧
    (∀ c, ((updateProjectilesStep s acc e).1.cell c).Position = (acc.1.cell c).Position) ∧
    (expired (advanced s.dt (acc.2.1.cell e.2)) → (updateProjectilesStep s acc e).1 = acc.1) ∧
    (∀ id, id ∈ (updateProjectilesStep s acc e).2.2 ↔
      id ∈ acc.2.2 ∨ (e.1 = id ∧ (expired (advanced s.dt (acc.2.1.cell e.2)) ∨
        hitsTarget s acc.1 (advanced s.dt (acc.2.1.cell e.2))))) := by
  by_cases hx : expired (advanced s.dt (acc.2.1.cell e.2))
  · rw [updateProjectilesStep_expired s acc e hx]
    refine ⟨rfl, fun _ => rfl, fun _ => rfl, ?_⟩
    intro id
    simp only [List.mem_append, List.mem_singleton, hx, true_or, and_true]
    exact or_congr Iff.rfl eq_comm
  · by_cases hh : hitsTarget s acc.1 (advanced s.dt (acc.2.1.cell e.2))
    · obtain ⟨ht, target, hm, hd⟩ := hh
      have hh2 : hitsTarget s acc.1 (advanced s.dt (acc.2.1.cell e.2)) := ⟨ht, target, hm, hd⟩
      rw [updateProjectilesStep_hit s acc e target hx ht hm hd]
      refine ⟨rfl, fun c => hitShip_Position _ _ _ _ c, fun h => absurd h hx, ?_⟩
      intro id
      simp only [List.mem_append, List.mem_singleton, hh2, or_true, and_true]
      exact or_congr Iff.rfl eq_comm
    · rw [updateProjectilesStep_miss s acc e hx hh]
      refine ⟨rfl, fun _ => rfl, fun _ => rfl, ?_⟩
      intro id
      simp only [hx, hh, or_self, and_false, or_false]

/-- The loop of `updateProjectiles` over a registry whose pointers are
distinct: ship positions are kept, every projectile of the registry is stepped
once, the other projectile cells are kept, and `toDelete` gains the ids of the
projectiles that expire or hit. -/
theorem updateProjectiles_loop (s : Simulator F) (l : List (String × Addr))
    (hnd : (l.map Prod.snd).Nodup)
    (acc : Heap (Ship F) × Heap (Projectile F) × List String) :
    (∀ c, ((l.foldl (updateProjectilesStep s) acc).1.cell c).Position
      = (acc.1.cell c).Position) ∧
    (∀ e ∈ l, (l.foldl (updateProjectilesStep s) acc).2.1.cell e.2
      = advanced s.dt (acc.2.1.cell e.2)) ∧
    (∀ a, a ∉ l.map Prod.snd →
      (l.foldl (updateProjectilesStep s) acc).2.1.cell a = acc.2.1.cell a) ∧
    (∀ id, id ∈ (l.foldl (updateProjectilesStep s) acc).2.2 ↔
      id ∈ acc.2.2 ∨ ∃ e ∈ l, e.1 = id ∧
        (expired (advanced s.dt (acc.2.1.cell e.2)) ∨
          hitsTarget s acc.1 (advanced s.dt (acc.2.1.cell e.2)))) := by
  induction l generalizing acc with
  | nil =>
    refine ⟨fun _ => rfl, ?_, fun _ _ => rfl, ?_⟩
    · intro e he
      simp at he
    · intro id
      simp
  | cons e rest ih =>
    rw [List.map_cons, List.nodup_cons] at hnd
    obtain ⟨hnot, hrest⟩ := hnd
    obtain ⟨c1, c2, _, c4⟩ := updateProjectilesStep_cases s acc e
    obtain ⟨i1, i2, i3, i4⟩ := ih hrest (updateProjectilesStep s acc e)
    have hcellne : ∀ a, a ≠ e.2 →
        (updateProjectilesStep s acc e).2.1.cell a = acc.2.1.cell a := by
      intro a ha
      rw [c1]
      exact Function.update_noteq ha _ _
    have hcell : ∀ e2 ∈ rest,
        (updateProjectilesStep s acc e).2.1.cell e2.2 = acc.2.1.cell e2.2 := by
      intro e2 he2
      apply hcellne
      intro heq
      apply hnot
      rw [← heq]
      exact List.mem_map_of_mem Prod.snd he2
    rw [List.foldl_cons]
    refine ⟨fun c => (i1 c).trans (c2 c), ?_, ?_, ?_⟩
    · intro e2 he2
      rcases List.mem_cons.mp he2 with h | h
      · rw [h, i3 e.2 hnot, c1]
        exact Function.update_same _ _ _
      · rw [i2 e2 h, hcell e2 h]
    · intro a ha
      rw [List.map_cons, List.mem_cons, not_or] at ha
      rw [i3 a ha.2, hcellne a ha.1]
    · intro id
      rw [i4 id, c4 id]
      constructor
      · rintro ((h | ⟨h1, h2⟩) | ⟨e2, he2, h1, h2⟩)
        · exact Or.inl h
        · exact Or.inr ⟨e, List.mem_cons_self _ _, h1, h2⟩
        · refine Or.inr ⟨e2, List.mem_cons_of_mem _ he2, h1, ?_⟩
          rw [hcell e2 he2, hitsTarget_congr s _ acc.1 _ c2] at h2
          exact h2
      · rintro (h | ⟨e2, he2, h1, h2⟩)
        · exact Or.inl (Or.inl h)
        · rcases List.mem_cons.mp he2 with h | h
          · rw [h] at h1 h2
            exact Or.inl (Or.inr ⟨h1, h2⟩)
          · refine Or.inr ⟨e2, h, h1, ?_⟩
            rw [hcell e2 h, hitsTarget_congr s _ acc.1 _ c2]
            exact h2

theorem foldl_congr_mem {α β : Type} (f g : β → α → β) (l : List α) (b : β)
    (h : ∀ a ∈ l, ∀ b, f b a = g b a) : l.foldl f b = l.foldl g b := by
  induction l generalizing b with
  | nil => rfl
  | cons a rest ih =>
    rw [List.foldl_cons, List.foldl_cons, h a (List.mem_cons_self _ _) b]
    exact ih _ (fun a2 ha2 => h a2 (List.mem_cons_of_mem _ ha2))

theorem foldl_filter_id {α β : Type} (f : β → α → β) (q : α → Bool) (l : List α) (b : β)
    (h : ∀ a ∈ l, q a = false → ∀ b, f b a = b) :
    l.foldl f b = (l.filter q).foldl f b := by
  induction l generalizing b with
  | nil => rfl
  | cons a rest ih =>
    have hrest : ∀ a2 ∈ rest, q a2 = false → ∀ b, f b a2 = b :=
      fun a2 ha2 => h a2 (List.mem_cons_of_mem _ ha2)
    cases hq : q a with
    | true =>
      rw [List.filter_cons_of_pos hq, List.foldl_cons, List.foldl_cons]
      exact ih _ hrest
    | false =>
      rw [List.filter_cons_of_neg (by simp [hq]), List.foldl_cons,
        h a (List.mem_cons_self _ _) hq b]
      exact ih _ hrest

/-- The ships after one pass of the loop depend on the loop state only through
the ships and the cell of the projectile at hand. -/
theorem updateProjectilesStep_ships_congr (s : Simulator F) (h : Heap (Ship F))
    (P P2 : Heap (Projectile F)) (d d2 : List String) (e : String × Addr)
    (hc : P.cell e.2 = P2.cell e.2) :
    (updateProjectilesStep s (h, P, d) e).1 = (updateProjectilesStep s (h, P2, d2) e).1 := by
  unfold updateProjectilesStep
  simp only [hc]
  split
  · rfl
  · split
    · split
      · split <;> rfl
      · rfl
    · rfl

/-- The ships after the loop, computed without the projectile heap being
written. -/
theorem updateProjectiles_loop_ships (s : Simulator F) (l : List (String × Addr))
    (hnd : (l.map Prod.snd).Nodup) (h : Heap (Ship F)) (P : Heap (Projectile F))
    (d : List String) :
    (l.foldl (updateProjectilesStep s) (h, P, d)).1 =
      l.foldl (fun h2 e => (updateProjectilesStep s (h2, P, []) e).1) h := by
  induction l generalizing h P d with
  | nil => rfl
  | cons e rest ih =>
    rw [List.map_cons, List.nodup_cons] at hnd
    obtain ⟨hnot, hrest⟩ := hnd
    obtain ⟨c1, _, _, _⟩ := updateProjectilesStep_cases s (h, P, d) e
    rw [List.foldl_cons, List.foldl_cons]
    have hacc : updateProjectilesStep s (h, P, d) e =
        ((updateProjectilesStep s (h, P, d) e).1, (updateProjectilesStep s (h, P, d) e).2.1,
          (updateProjectilesStep s (h, P, d) e).2.2) := rfl
    rw [hacc, ih hrest, updateProjectilesStep_ships_congr s h P P d [] e rfl]
    apply foldl_congr_mem
    intro e2 he2 h2
    apply updateProjectilesStep_ships_congr
    rw [c1]
    apply Function.update_noteq
    intro heq
    apply hnot
    rw [← heq]
    exact List.mem_map_of_mem Prod.snd he2

theorem mapGet_unique {V : Type} (m : List (String × V)) (k : String) (v w : V)
    (hnd : (mapKeys m).Nodup) (hmem : (k, w) ∈ m) (hget : mapGet m k = some v) : w = v := by
  induction m with
  | nil => simp at hmem
  | cons e rest ih =>
    obtain ⟨k0, x⟩ := e
    simp only [mapKeys, List.map_cons, List.nodup_cons] at hnd
    by_cases h : k0 = k
    · subst h
      simp only [mapGet, if_true] at hget
      rcases List.mem_cons.mp hmem with h2 | h2
      · have hx : w = x := (Prod.mk.inj h2).2
        rw [hx]
        exact Option.some.inj hget
      · exact absurd (List.mem_map_of_mem Prod.fst h2) hnd.1
    · simp only [mapGet, if_neg h] at hget
      rcases List.mem_cons.mp hmem with h2 | h2
      · exact absurd (Prod.mk.inj h2).1.symm h
      · exact ih hnd.2 h2 hget

theorem SpawnProjectile_entry (s : Simulator F) (id projType sourceID targetID : String)
    (position velocity : Vector3 F) (damage : F) :
    mapGet (projectilesAt
        (SpawnProjectile s id projType sourceID targetID position velocity damage).mem
        (SpawnProjectile s id projType sourceID targetID position velocity damage).Projectiles)
      id =
      some ⟨id, projType, position, velocity, damage, sourceID, targetID, 0, 10⟩ := by
  unfold projectilesAt
  rw [mapGet_map_cell]
  simp only [SpawnProjectile, Heap.write, Function.update_same, mapGet_mapSet_same,
    Option.map_some', Heap.alloc]

/-- C11. Projectile ageing. `SpawnProjectile` records under its id a projectile
with lifetime 0 and max-lifetime 10. In a well-formed world, for every
projectile of the registry (id `id`, pointer `a`), `updateProjectiles` (the
phase of the tick that touches projectiles) leaves in its cell the projectile
`advanced`: position plus velocity times `dt`, lifetime plus `dt`, every other
field as it was. If the new lifetime exceeds the max-lifetime, or the
projectile hits, the id is gone from the registry; if it neither expires nor
hits, the id still holds the pointer `a`. The ships after the phase are those
of the same loop run over the registry without the expired projectiles: a
projectile removed for age applies no damage, whatever its distance to its
target. -/
theorem projectile_ageing (s : Simulator F) (hwf : s.WF) :
    (∀ id projType sourceID targetID position velocity damage,
      mapGet (projectilesAt
          (SpawnProjectile s id projType sourceID targetID position velocity damage).mem
          (SpawnProjectile s id projType sourceID targetID position velocity damage).Projectiles)
        id =
        some ⟨id, projType, position, velocity, damage, sourceID, targetID, 0, 10⟩) ∧
    (∀ id a, mapGet (s.mem.projectileMaps.cell s.Projectiles) id = some a →
      (updateProjectiles s).mem.projectiles.cell a
        = advanced s.dt (s.mem.projectiles.cell a) ∧
      (expired (advanced s.dt (s.mem.projectiles.cell a)) ∨
          hitsTarget s s.mem.ships (advanced s.dt (s.mem.projectiles.cell a)) →
        mapGet ((updateProjectiles s).mem.projectileMaps.cell (updateProjectiles s).Projectiles)
          id = none) ∧
      (¬ expired (advanced s.dt (s.mem.projectiles.cell a)) →
        ¬ hitsTarget s s.mem.ships (advanced s.dt (s.mem.projectiles.cell a)) →
        mapGet ((updateProjectiles s).mem.projectileMaps.cell (updateProjectiles s).Projectiles)
          id = some a)) ∧
    (updateProjectiles s).mem.ships =
      (((s.mem.projectileMaps.cell s.Projectiles).filter
          (fun e => decide (¬ expired (advanced s.dt (s.mem.projectiles.cell e.2))))).foldl
        (updateProjectilesStep s) (s.mem.ships, s.mem.projectiles, [])).1 := by
  obtain ⟨_, hP, _, _, _, hrp, _⟩ := hwf
  obtain ⟨hkeys, hptrs, _⟩ := hrp _ hP
  obtain ⟨_, l2, _, l4⟩ := updateProjectiles_loop s (s.mem.projectileMaps.cell s.Projectiles)
    hptrs (s.mem.ships, s.mem.projectiles, [])
  have hreg : (updateProjectiles s).mem.projectileMaps.cell (updateProjectiles s).Projectiles =
      ((s.mem.projectileMaps.cell s.Projectiles).foldl (updateProjectilesStep s)
        (s.mem.ships, s.mem.projectiles, [])).2.2.foldl (fun m id => mapDelete m id)
        (s.mem.projectileMaps.cell s.Projectiles) := by
    simp only [updateProjectiles, Heap.write, Function.update_same]
  refine ⟨fun id projType sourceID targetID position velocity damage =>
    SpawnProjectile_entry s id projType sourceID targetID position velocity damage, ?_, ?_⟩
  · intro id a hget
    have hmem := mem_of_mapGet _ _ _ hget
    refine ⟨l2 (id, a) hmem, ?_, ?_⟩
    · intro hx
      rw [hreg]
      apply mapGet_foldl_mapDelete_mem
      exact (l4 id).mpr (Or.inr ⟨(id, a), hmem, rfl, hx⟩)
    · intro hx hh
      rw [hreg, mapGet_foldl_mapDelete_not_mem _ _ _ ?_, hget]
      intro hin
      rcases (l4 id).mp hin with h | ⟨e, he, h1, h2⟩
      · simp at h
      · obtain ⟨k, w⟩ := e
        simp only at h1 h2
        subst h1
        have hw : w = a := mapGet_unique _ _ _ _ hkeys he hget
        subst hw
        rcases h2 with h2 | h2
        · exact hx h2
        · exact hh h2
  · have hships : (updateProjectiles s).mem.ships =
        ((s.mem.projectileMaps.cell s.Projectiles).foldl (updateProjectilesStep s)
          (s.mem.ships, s.mem.projectiles, [])).1 := rfl
    rw [hships, updateProjectiles_loop_ships s _ hptrs,
      updateProjectiles_loop_ships s _
        (List.Nodup.sublist (List.Sublist.map _ (List.filter_sublist _)) hptrs)]
    apply foldl_filter_id
    intro e _ hq h2
    have hx : expired (advanced s.dt (s.mem.projectiles.cell e.2)) := by
      simpa using hq
    rw [updateProjectilesStep_expired s (h2, s.mem.projectiles, []) e hx]

theorem projectile_ageing_witness :
    agedTorpedoSim.WF ∧
    agedTorpedoSim.mem.projectileMaps.cell agedTorpedoSim.Projectiles
      = [("torpedo_1", 0), ("torpedo_2", 1)] ∧
    (updateProjectiles agedTorpedoSim).mem.projectiles.cell 0
      = ⟨"torpedo_1", "torpedo", ⟨1, 0, 0⟩, ⟨60, 0, 0⟩, 100, "ship_2", "ship_1", 1 / 60, 10⟩ ∧
    (updateProjectiles agedTorpedoSim).mem.projectiles.cell 1
      = ⟨"torpedo_2", "torpedo", ⟨99, 0, 0⟩, ⟨0, 0, 0⟩, 100, "ship_2", "ship_1",
          10 + 1 / 60, 10⟩ ∧
    mapGet ((updateProjectiles agedTorpedoSim).mem.projectileMaps.cell
      (updateProjectiles agedTorpedoSim).Projectiles) "torpedo_1" = some 0 ∧
    mapGet ((updateProjectiles agedTorpedoSim).mem.projectileMaps.cell
      (updateProjectiles agedTorpedoSim).Projectiles) "torpedo_2" = none ∧
    hitsTarget agedTorpedoSim agedTorpedoSim.mem.ships
      (advanced agedTorpedoSim.dt (agedTorpedoSim.mem.projectiles.cell 1)) ∧
    (updateProjectiles agedTorpedoSim).mem.ships = agedTorpedoSim.mem.ships := by
  have hwf : agedTorpedoSim.WF := by decide
  have hreg : agedTorpedoSim.mem.projectileMaps.cell agedTorpedoSim.Projectiles
      = [("torpedo_1", 0), ("torpedo_2", 1)] := by decide
  have hdt : agedTorpedoSim.dt = 1 / 60 := by
    simp [agedTorpedoSim, SpawnProjectile, snapshotTestSim, SpawnShip, NewSimulator, mapGet]
  have hp0 : agedTorpedoSim.mem.projectiles.cell 0
      = ⟨"torpedo_1", "torpedo", ⟨0, 0, 0⟩, ⟨60, 0, 0⟩, 100, "ship_2", "ship_1", 0, 10⟩ := by
    rfl
  have hp1 : agedTorpedoSim.mem.projectiles.cell 1
      = ⟨"torpedo_2", "torpedo", ⟨99, 0, 0⟩, ⟨0, 0, 0⟩, 100, "ship_2", "ship_1", 10, 10⟩ := by
    rfl
  have hship : mapGet (agedTorpedoSim.mem.shipMaps.cell agedTorpedoSim.Ships) "ship_1"
      = some 0 := by decide
  have hpos : (agedTorpedoSim.mem.ships.cell 0).Position = ⟨100, 0, 0⟩ := by rfl
  obtain ⟨_, h2, h3⟩ := projectile_ageing agedTorpedoSim hwf
  have hx0 : ¬ expired (advanced agedTorpedoSim.dt (agedTorpedoSim.mem.projectiles.cell 0)) := by
    rw [hdt, hp0]
    simp [expired, advanced]
    norm_num
  have hx1 : expired (advanced agedTorpedoSim.dt (agedTorpedoSim.mem.projectiles.cell 1)) := by
    rw [hdt, hp1]
    simp [expired, advanced]
  have hh0 : ¬ hitsTarget agedTorpedoSim agedTorpedoSim.mem.ships
      (advanced agedTorpedoSim.dt (agedTorpedoSim.mem.projectiles.cell 0)) := by
    rw [hdt, hp0]
    rintro ⟨_, target, hm, hd⟩
    simp only [advanced] at hm hd
    rw [hship] at hm
    have ht : target = 0 := (Option.some.inj hm).symm
    rw [ht, hpos] at hd
    simp [distance] at hd
    norm_num at hd
  have hh1 : hitsTarget agedTorpedoSim agedTorpedoSim.mem.ships
      (advanced agedTorpedoSim.dt (agedTorpedoSim.mem.projectiles.cell 1)) := by
    rw [hdt, hp1]
    refine ⟨by simp [advanced], 0, hship, ?_⟩
    rw [hpos]
    simp [advanced, distance]
    norm_num
  have hships : (updateProjectiles agedTorpedoSim).mem.ships = agedTorpedoSim.mem.ships := by
    rw [h3, hreg]
    simp only [List.filter, hx0, hx1, not_false_eq_true, not_true_eq_false, decide_True,
      decide_False, List.foldl_cons, List.foldl_nil]
    rw [updateProjectilesStep_miss agedTorpedoSim _ _ hx0 hh0]
  obtain ⟨a1, _, a3⟩ := h2 "torpedo_1" 0 (by rw [hreg]; rfl)
  obtain ⟨b1, b2, _⟩ := h2 "torpedo_2" 1 (by rw [hreg]; rfl)
  refine ⟨hwf, hreg, ?_, ?_, a3 hx0 hh0, b2 (Or.inl hx1), hh1, hships⟩
  · rw [a1, hdt, hp0]
    simp [advanced]
  · rw [b1, hdt, hp1]
    simp [advanced]

/-! ## The AI health gate -/

theorem foldl_pair_sum {V : Type} (f g : V → F) (l : List (String × V)) (a b : F) :
    l.foldl (fun (acc : F × F) e => (acc.1 + f e.2, acc.2 + g e.2)) (a, b) =
      (a + (l.map (fun e => f e.2)).sum, b + (l.map (fun e => g e.2)).sum) := by
  induction l generalizing a b with
  | nil => simp
  | cons e rest ih =>
    rw [List.foldl_cons, ih]
    simp only [List.map_cons, List.sum_cons, add_assoc]

theorem calculateHullHealth_eq (sh : Ship F) : calculateHullHealth sh = hullFraction sh := by
  unfold calculateHullHealth hullFraction
  simp only
  rw [foldl_pair_sum (fun c : HullSection F => c.Health) (fun c => c.MaxHealth)]
  simp only [zero_add]

theorem calculateShieldHealth_eq (sh : Ship F) :
    calculateShieldHealth sh = shieldFraction sh := by
  unfold calculateShieldHealth shieldFraction
  simp only
  rw [foldl_pair_sum (fun e : ShieldEmitter F => e.Strength) (fun e => e.MaxStrength)]
  simp only [zero_add]

/-- In `Controller.Update` the ships are those left by the dispatch:
`evaluateState` only reads the ship. -/
theorem Controller_Update_ships (m : MathFns F) (rnd : Nat → F) (c : Controller F) (dt : F)
    (sh : Addr) (allShips : List (String × Addr)) (ships : Heap (Ship F)) (i : Nat) :
    (Controller.Update m rnd c dt sh allShips ships i).2.1 =
      (Controller.dispatch m rnd c dt sh allShips ships i).2.1 := rfl

/-- C20. AI health gate. With the hull fraction (sum of section health over
sum of section max-health, 1 when the latter is 0) and the shield fraction
(sum of emitter strength over sum of emitter max-strength, 0 when the latter
is 0) of the ship as the state dispatch leaves it: if the hull fraction is
below 0.3 or the shield fraction is below 0.2, `Controller.Update` ends with
the state `retreat`, for every controller (whatever its prior state), every
registry of ships, every heap of ships and every sequence of random draws. -/
theorem Controller_Update_health_gate (m : MathFns F) (rnd : Nat → F) (c : Controller F)
    (dt : F) (sh : Addr) (allShips : List (String × Addr)) (ships : Heap (Ship F)) (i : Nat)
    (h : hullFraction ((Controller.dispatch m rnd c dt sh allShips ships i).2.1.cell sh)
          < 3 / 10 ∨
        shieldFraction ((Controller.dispatch m rnd c dt sh allShips ships i).2.1.cell sh)
          < 2 / 10) :
    (Controller.Update m rnd c dt sh allShips ships i).1.State = "retreat" := by
  unfold Controller.Update Controller.evaluateState
  simp only [calculateHullHealth_eq, calculateShieldHealth_eq]
  rw [if_pos h]
  split
  · rfl
  · rename_i hs
    exact not_not.mp hs

theorem Controller_Update_health_gate_witness :
    hullFraction weakHullShip = 2 / 10 ∧
    (Controller.Update testMath (fun _ => 0) (controllerIn "patrol") (1 / 60) 0
      [("ship_1", 0)] weakHullWorld 0).1.State = "retreat" ∧
    (Controller.Update testMath (fun _ => 0) (controllerIn "combat") (1 / 60) 0
      [("ship_1", 0)] weakHullWorld 0).1.State = "retreat" ∧
    (Controller.Update testMath (fun _ => 0) (controllerIn "evade") (1 / 60) 0
      [("ship_1", 0)] weakHullWorld 0).1.State = "retreat" ∧
    (Controller.Update testMath (fun _ => 0) (controllerIn "retreat") (1 / 60) 0
      [("ship_1", 0)] weakHullWorld 0).1.State = "retreat" := by
  have hf : hullFraction weakHullShip = 2 / 10 := by
    simp [hullFraction, weakHullShip]
    norm_num
  have hcell : ∀ st : String, st = "patrol" ∨ st = "combat" ∨ st = "evade" ∨ st = "retreat" →
      ((Controller.dispatch testMath (fun _ => 0) (controllerIn st) (1 / 60) 0
        [("ship_1", 0)] weakHullWorld 0).2.1.cell 0).Hull = weakHullShip.Hull := by
    intro st hst
    rcases hst with h | h | h | h <;> subst h
    · simp [Controller.dispatch, controllerIn, NewController, Controller.updatePatrol,
        callShip, ApplyThrust, ApplyRotation, findNearestThreat, nearestThreatStep,
        weakHullWorld, Heap.alloc, Heap.write, Heap.empty]
    · simp [Controller.dispatch, controllerIn, NewController, Controller.updateCombat, mapGet,
        weakHullWorld, Heap.alloc, Heap.empty]
    · simp [Controller.dispatch, controllerIn, NewController, Controller.updateEvade, mapGet,
        weakHullWorld, Heap.alloc, Heap.empty]
    · simp [Controller.dispatch, controllerIn, NewController, Controller.updateRetreat,
        callShip, ApplyThrust, weakHullWorld, Heap.alloc, Heap.write, Heap.empty]
      split <;> simp
  have hgate : ∀ st : String, st = "patrol" ∨ st = "combat" ∨ st = "evade" ∨ st = "retreat" →
      hullFraction ((Controller.dispatch testMath (fun _ => 0) (controllerIn st) (1 / 60) 0
          [("ship_1", 0)] weakHullWorld 0).2.1.cell 0) < 3 / 10 ∨
        shieldFraction ((Controller.dispatch testMath (fun _ => 0) (controllerIn st) (1 / 60) 0
          [("ship_1", 0)] weakHullWorld 0).2.1.cell 0) < 2 / 10 := by
    intro st hst
    left
    have h1 : hullFraction ((Controller.dispatch testMath (fun _ => 0) (controllerIn st)
        (1 / 60) 0 [("ship_1", 0)] weakHullWorld 0).2.1.cell 0) = hullFraction weakHullShip := by
      unfold hullFraction
      rw [hcell st hst]
    rw [h1, hf]
    norm_num
  exact ⟨hf,
    Controller_Update_health_gate _ _ _ _ _ _ _ _ (hgate "patrol" (Or.inl rfl)),
    Controller_Update_health_gate _ _ _ _ _ _ _ _ (hgate "combat" (Or.inr (Or.inl rfl))),
    Controller_Update_health_gate _ _ _ _ _ _ _ _ (hgate "evade" (Or.inr (Or.inr (Or.inl rfl)))),
    Controller_Update_health_gate _ _ _ _ _ _ _ _
      (hgate "retreat" (Or.inr (Or.inr (Or.inr rfl))))⟩

/-! ## Patrol to combat -/

/-- The loop of `findNearestThreat`, from a state that is right for the entries
`seen` so far: at the end the state is right for `seen ++ l`. -/
theorem nearestThreat_loop (m : MathFns F) (ships : Heap (Ship F)) (sh : Addr)
    (l seen : List (String × Addr)) (acc : Option Addr × Option F)
    (hacc : (acc = (none, none) ∧ ∀ e ∈ seen, ¬ isThreat ships sh e.2) ∨
      ∃ t, acc = (some t, some (ai.distance m (ships.cell sh).Position (ships.cell t).Position))
        ∧ (∃ e ∈ seen, e.2 = t) ∧ isThreat ships sh t ∧
        ∀ e ∈ seen, isThreat ships sh e.2 →
          ai.distance m (ships.cell sh).Position (ships.cell t).Position
            ≤ ai.distance m (ships.cell sh).Position (ships.cell e.2).Position) :
    ((l.foldl (nearestThreatStep m ships sh) acc).1 = none ∧
      ∀ e ∈ seen ++ l, ¬ isThreat ships sh e.2) ∨
    ∃ t, (l.foldl (nearestThreatStep m ships sh) acc).1 = some t
      ∧ (∃ e ∈ seen ++ l, e.2 = t) ∧ isThreat ships sh t ∧
      ∀ e ∈ seen ++ l, isThreat ships sh e.2 →
        ai.distance m (ships.cell sh).Position (ships.cell t).Position
          ≤ ai.distance m (ships.cell sh).Position (ships.cell e.2).Position := by
  induction l generalizing seen acc with
  | nil =>
    rw [List.foldl_nil, List.append_nil]
    rcases hacc with ⟨h1, h2⟩ | ⟨t, h1, h2⟩
    · left
      rw [h1]
      exact ⟨rfl, h2⟩
    · right
      rw [h1]
      exact ⟨t, rfl, h2⟩
  | cons e rest ih =>
    rw [List.foldl_cons]
    have happ : seen ++ e :: rest = (seen ++ [e]) ++ rest := by simp
    rw [happ]
    apply ih
    by_cases hthreat : isThreat ships sh e.2
    · have hstep : nearestThreatStep m ships sh acc e =
          match acc.2 with
          | none => (some e.2,
              some (ai.distance m (ships.cell sh).Position (ships.cell e.2).Position))
          | some minDist =>
            if ai.distance m (ships.cell sh).Position (ships.cell e.2).Position < minDist then
              (some e.2, some (ai.distance m (ships.cell sh).Position (ships.cell e.2).Position))
            else acc := by
        unfold nearestThreatStep
        rw [if_neg hthreat.1, if_neg hthreat.2]
      right
      rcases hacc with ⟨h1, h2⟩ | ⟨t, h1, ⟨e0, he0, het⟩, h3, h4⟩
      · refine ⟨e.2, ?_, ⟨e, by simp, rfl⟩, hthreat, ?_⟩
        · rw [hstep, h1]
        · intro e2 he2 hth
          rcases List.mem_append.mp he2 with h | h
          · exact absurd hth (h2 e2 h)
          · rw [List.mem_singleton.mp h]
      · by_cases hlt : ai.distance m (ships.cell sh).Position (ships.cell e.2).Position
            < ai.distance m (ships.cell sh).Position (ships.cell t).Position
        · refine ⟨e.2, ?_, ⟨e, by simp, rfl⟩, hthreat, ?_⟩
          · rw [hstep, h1]
            simp only [if_pos hlt]
          · intro e2 he2 hth
            rcases List.mem_append.mp he2 with h | h
            · exact le_trans (le_of_lt hlt) (h4 e2 h hth)
            · rw [List.mem_singleton.mp h]
        · refine ⟨t, ?_, ⟨e0, List.mem_append_left _ he0, het⟩, h3, ?_⟩
          · rw [hstep, h1]
            simp only [if_neg hlt]
          · intro e2 he2 hth
            rcases List.mem_append.mp he2 with h | h
            · exact h4 e2 h hth
            · rw [List.mem_singleton.mp h]
              exact not_lt.mp hlt
    · have hstep : nearestThreatStep m ships sh acc e = acc := by
        unfold nearestThreatStep
        by_cases hid : (ships.cell e.2).ID = (ships.cell sh).ID
        · rw [if_pos hid]
        · rw [if_neg hid]
          have hp : (ships.cell sh).IsPlayer = (ships.cell e.2).IsPlayer := by
            by_contra hne
            exact hthreat ⟨hid, hne⟩
          rw [if_pos hp]
      rw [hstep]
      rcases hacc with ⟨h1, h2⟩ | ⟨t, h1, ⟨e0, he0, het⟩, h3, h4⟩
      · left
        refine ⟨h1, ?_⟩
        intro e2 he2
        rcases List.mem_append.mp he2 with h | h
        · exact h2 e2 h
        · rw [List.mem_singleton.mp h]
          exact hthreat
      · right
        refine ⟨t, h1, ⟨e0, List.mem_append_left _ he0, het⟩, h3, ?_⟩
        intro e2 he2 hth
        rcases List.mem_append.mp he2 with h | h
        · exact h4 e2 h hth
        · rw [List.mem_singleton.mp h] at hth
          exact absurd hth hthreat

/-- What `findNearestThreat` returns: nil when no ship of the registry is a
threat, and otherwise a threat of the registry at the least distance. -/
theorem findNearestThreat_spec (m : MathFns F) (ships : Heap (Ship F)) (sh : Addr)
    (allShips : List (String × Addr)) :
    (findNearestThreat m ships sh allShips = none ∧
      ∀ e ∈ allShips, ¬ isThreat ships sh e.2) ∨
    ∃ t, findNearestThreat m ships sh allShips = some t
      ∧ (∃ e ∈ allShips, e.2 = t) ∧ isThreat ships sh t ∧
      ∀ e ∈ allShips, isThreat ships sh e.2 →
        ai.distance m (ships.cell sh).Position (ships.cell t).Position
          ≤ ai.distance m (ships.cell sh).Position (ships.cell e.2).Position := by
  have h := nearestThreat_loop m ships sh allShips [] (none, none)
    (Or.inl ⟨rfl, fun e he => by simp at he⟩)
  rw [List.nil_append] at h
  exact h

theorem nearestThreatStep_congr (m : MathFns F) (ships ships2 : Heap (Ship F)) (sh : Addr)
    (h : ∀ a, (ships2.cell a).ID = (ships.cell a).ID ∧
      (ships2.cell a).IsPlayer = (ships.cell a).IsPlayer ∧
      (ships2.cell a).Position = (ships.cell a).Position) :
    nearestThreatStep m ships2 sh = nearestThreatStep m ships sh := by
  funext acc e
  unfold nearestThreatStep
  simp only [(h _).1, (h _).2.1, (h _).2.2]

theorem findNearestThreat_congr (m : MathFns F) (ships ships2 : Heap (Ship F)) (sh : Addr)
    (allShips : List (String × Addr))
    (h : ∀ a, (ships2.cell a).ID = (ships.cell a).ID ∧
      (ships2.cell a).IsPlayer = (ships.cell a).IsPlayer ∧
      (ships2.cell a).Position = (ships.cell a).Position) :
    findNearestThreat m ships2 sh allShips = findNearestThreat m ships sh allShips := by
  unfold findNearestThreat
  rw [nearestThreatStep_congr m ships ships2 sh h]

/-- A method call that keeps a field of the ship keeps it in every cell. -/
theorem callShip_cell (ships : Heap (Ship F)) (a : Addr) (f : Ship F → Ship F) (b : Addr) :
    (callShip ships a f).cell b = if b = a then f (ships.cell a) else ships.cell b := by
  unfold callShip Heap.write
  simp only
  by_cases hb : b = a
  · rw [if_pos hb, hb, Function.update_same]
  · rw [if_neg hb, Function.update_noteq hb]

theorem updatePatrol_cell (m : MathFns F) (c : Controller F) (sh : Addr)
    (allShips : List (String × Addr)) (ships : Heap (Ship F)) (a : Addr) :
    ((Controller.updatePatrol m c sh allShips ships).2.cell a).ID = (ships.cell a).ID ∧
    ((Controller.updatePatrol m c sh allShips ships).2.cell a).IsPlayer
      = (ships.cell a).IsPlayer ∧
    ((Controller.updatePatrol m c sh allShips ships).2.cell a).Position
      = (ships.cell a).Position ∧
    ((Controller.updatePatrol m c sh allShips ships).2.cell a).Hull = (ships.cell a).Hull ∧
    ((Controller.updatePatrol m c sh allShips ships).2.cell a).Shields
      = (ships.cell a).Shields := by
  have h2 : (Controller.updatePatrol m c sh allShips ships).2 =
      callShip (callShip ships sh (fun s => ApplyThrust s 0 0 (s.MaxSpeed * (3 / 10)))) sh
        (fun s => ApplyRotation s 0 (1 / 10 * c.Difficulty) 0) := by
    unfold Controller.updatePatrol
    simp only
    split
    · split <;> rfl
    · rfl
  rw [h2, callShip_cell, callShip_cell]
  by_cases ha : a = sh
  · subst ha
    simp [ApplyRotation, ApplyThrust]
  · simp only [if_neg ha]
    rw [callShip_cell, if_neg ha]
    exact ⟨rfl, rfl, rfl, rfl, rfl⟩

theorem updatePatrol_controller (m : MathFns F) (c : Controller F) (sh : Addr)
    (allShips : List (String × Addr)) (ships : Heap (Ship F)) :
    (Controller.updatePatrol m c sh allShips ships).1 =
      match findNearestThreat m ships sh allShips with
      | some t =>
        if ai.distance m (ships.cell sh).Position (ships.cell t).Position < 5000 then
          { c with State := "combat", TargetID := (ships.cell t).ID }
        else c
      | none => c := by
  have hcell : ∀ a,
      ((callShip (callShip ships sh (fun s => ApplyThrust s 0 0 (s.MaxSpeed * (3 / 10)))) sh
        (fun s => ApplyRotation s 0 (1 / 10 * c.Difficulty) 0)).cell a).ID = (ships.cell a).ID ∧
      ((callShip (callShip ships sh (fun s => ApplyThrust s 0 0 (s.MaxSpeed * (3 / 10)))) sh
        (fun s => ApplyRotation s 0 (1 / 10 * c.Difficulty) 0)).cell a).IsPlayer
          = (ships.cell a).IsPlayer ∧
      ((callShip (callShip ships sh (fun s => ApplyThrust s 0 0 (s.MaxSpeed * (3 / 10)))) sh
        (fun s => ApplyRotation s 0 (1 / 10 * c.Difficulty) 0)).cell a).Position
          = (ships.cell a).Position := by
    intro a
    rw [callShip_cell, callShip_cell]
    by_cases ha : a = sh
    · subst ha
      simp [ApplyRotation, ApplyThrust]
    · simp only [if_neg ha]
      rw [callShip_cell, if_neg ha]
      exact ⟨rfl, rfl, rfl⟩
  unfold Controller.updatePatrol
  simp only
  rw [findNearestThreat_congr m ships _ sh allShips hcell]
  cases findNearestThreat m ships sh allShips with
  | none => rfl
  | some t =>
    simp only [(hcell _).1, (hcell _).2.2]
    split <;> rfl

theorem evaluateState_healthy (rnd : Nat → F) (c : Controller F) (s : Ship F) (i : Nat)
    (hhull : 6 / 10 ≤ hullFraction s) (hshield : 2 / 10 ≤ shieldFraction s) :
    Controller.evaluateState rnd c s i = (c, i) := by
  unfold Controller.evaluateState
  simp only [calculateHullHealth_eq, calculateShieldHealth_eq]
  have h1 : ¬ (hullFraction s < 3 / 10 ∨ shieldFraction s < 2 / 10) := by
    intro h
    rcases h with h | h
    · have : (3 : F) / 10 < 6 / 10 := by norm_num
      exact absurd (lt_of_le_of_lt hhull h) (not_lt.mpr (le_of_lt this))
    · exact absurd (lt_of_le_of_lt hshield h) (lt_irrefl _)
  have h2 : ¬ (hullFraction s < 6 / 10 ∧ shieldFraction s < 5 / 10) :=
    fun h => absurd (lt_of_le_of_lt hhull h.1) (lt_irrefl _)
  rw [if_neg h1, if_neg h2]

/-- C21. Patrol to combat. `findNearestThreat` returns nil when no ship of the
registry is a threat (another id, the other `IsPlayer` flag), and otherwise a
threat of the registry whose distance `ai.distance` to the AI ship is the least
among all threats. For a controller in patrol whose ship has hull fraction
`≥ 0.6` and shield fraction `≥ 0.2`, `Controller.Update` ends in combat with
`TargetID` the id of that ship when that distance is below 5000, and otherwise
leaves the controller as it was (in patrol, with its `TargetID`). -/
theorem patrol_to_combat (m : MathFns F) (rnd : Nat → F) (c : Controller F) (dt : F)
    (sh : Addr) (allShips : List (String × Addr)) (ships : Heap (Ship F)) (i : Nat)
    (hstate : c.State = "patrol")
    (hhull : 6 / 10 ≤ hullFraction (ships.cell sh))
    (hshield : 2 / 10 ≤ shieldFraction (ships.cell sh)) :
    (findNearestThreat m ships sh allShips = none ∧
      (∀ e ∈ allShips, ¬ isThreat ships sh e.2) ∧
      (Controller.Update m rnd c dt sh allShips ships i).1 = c) ∨
    ∃ t, findNearestThreat m ships sh allShips = some t
      ∧ (∃ e ∈ allShips, e.2 = t) ∧ isThreat ships sh t ∧
      (∀ e ∈ allShips, isThreat ships sh e.2 →
        ai.distance m (ships.cell sh).Position (ships.cell t).Position
          ≤ ai.distance m (ships.cell sh).Position (ships.cell e.2).Position) ∧
      (ai.distance m (ships.cell sh).Position (ships.cell t).Position < 5000 →
        (Controller.Update m rnd c dt sh allShips ships i).1
          = { c with State := "combat", TargetID := (ships.cell t).ID }) ∧
      (¬ ai.distance m (ships.cell sh).Position (ships.cell t).Position < 5000 →
        (Controller.Update m rnd c dt sh allShips ships i).1 = c) := by
  have hd : Controller.dispatch m rnd c dt sh allShips ships i =
      ((Controller.updatePatrol m c sh allShips ships).1,
        (Controller.updatePatrol m c sh allShips ships).2, i) := by
    unfold Controller.dispatch
    rw [if_pos hstate]
  obtain ⟨_, _, _, hH, hS⟩ := updatePatrol_cell m c sh allShips ships sh
  have hU : (Controller.Update m rnd c dt sh allShips ships i).1 =
      (Controller.updatePatrol m c sh allShips ships).1 := by
    unfold Controller.Update
    simp only [hd]
    rw [evaluateState_healthy]
    · unfold hullFraction
      rw [hH]
      exact hhull
    · unfold shieldFraction
      rw [hS]
      exact hshield
  rw [hU, updatePatrol_controller]
  rcases findNearestThreat_spec m ships sh allShips with ⟨h1, h2⟩ | ⟨t, h1, h2, h3, h4⟩
  · left
    rw [h1]
    exact ⟨rfl, h2, rfl⟩
  · right
    rw [h1]
    refine ⟨t, rfl, h2, h3, h4, ?_, ?_⟩
    · intro hlt
      simp only [if_pos hlt]
    · intro hlt
      simp only [if_neg hlt]

theorem patrol_to_combat_witness :
    patrolTestSim.mem.shipMaps.cell patrolTestSim.Ships
      = [("ship_1", 0), ("player_1", 1), ("player_2", 2)] ∧
    findNearestThreat testMath patrolTestSim.mem.ships 0
      (patrolTestSim.mem.shipMaps.cell patrolTestSim.Ships) = some 1 ∧
    (Controller.Update testMath (fun _ => 0) (controllerIn "patrol") (1 / 60) 0
      (patrolTestSim.mem.shipMaps.cell patrolTestSim.Ships) patrolTestSim.mem.ships 0).1
      = { controllerIn "patrol" with State := "combat", TargetID := "player_1" } := by
  have hreg : patrolTestSim.mem.shipMaps.cell patrolTestSim.Ships
      = [("ship_1", 0), ("player_1", 1), ("player_2", 2)] := by decide
  have hid0 : (patrolTestSim.mem.ships.cell 0).ID = "ship_1" := rfl
  have hid1 : (patrolTestSim.mem.ships.cell 1).ID = "player_1" := rfl
  have hid2 : (patrolTestSim.mem.ships.cell 2).ID = "player_2" := rfl
  have hp0 : (patrolTestSim.mem.ships.cell 0).IsPlayer = false := rfl
  have hp1 : (patrolTestSim.mem.ships.cell 1).IsPlayer = true := rfl
  have hp2 : (patrolTestSim.mem.ships.cell 2).IsPlayer = true := rfl
  have hpos0 : (patrolTestSim.mem.ships.cell 0).Position = ⟨100, 0, 0⟩ := rfl
  have hpos1 : (patrolTestSim.mem.ships.cell 1).Position = ⟨100, 0, 1⟩ := rfl
  have hpos2 : (patrolTestSim.mem.ships.cell 2).Position = ⟨0, 0, 0⟩ := rfl
  have hhullS : (patrolTestSim.mem.ships.cell 0).Hull.Sections
      = [("forward", ⟨"forward", 200, 200, 500, 500, false, false⟩)] := rfl
  have hem : (patrolTestSim.mem.ships.cell 0).Shields.Emitters
      = [("forward", ⟨"forward", "forward", 500, 500, 100, 100, false⟩)] := rfl
  have hfind : findNearestThreat testMath patrolTestSim.mem.ships 0
      (patrolTestSim.mem.shipMaps.cell patrolTestSim.Ships) = some 1 := by
    rw [hreg]
    simp only [findNearestThreat, List.foldl, nearestThreatStep, hid0, hid1, hid2, hp0, hp1, hp2,
      hpos0, hpos1, hpos2, ai.distance, testMath]
    norm_num
    simp
    norm_num
  have hhull : (6 : ℚ) / 10 ≤ hullFraction (patrolTestSim.mem.ships.cell 0) := by
    simp [hullFraction, hhullS]
    norm_num
  have hshield : (2 : ℚ) / 10 ≤ shieldFraction (patrolTestSim.mem.ships.cell 0) := by
    simp [shieldFraction, hem]
    norm_num
  refine ⟨hreg, hfind, ?_⟩
  rcases patrol_to_combat testMath (fun _ => 0) (controllerIn "patrol") (1 / 60) 0
      (patrolTestSim.mem.shipMaps.cell patrolTestSim.Ships) patrolTestSim.mem.ships 0 rfl
      hhull hshield with ⟨h1, _⟩ | ⟨t, h1, _, _, _, h5, _⟩
  · rw [hfind] at h1
    exact absurd h1 (by simp)
  · rw [hfind] at h1
    have ht : t = 1 := (Option.some.inj h1).symm
    subst ht
    rw [h5, hid1]
    rw [hpos0, hpos1]
    simp [ai.distance, testMath]

/-- In `updateCombat` the dot product is taken with the position of the ship,
so a ship at the origin of the world never reaches `attemptFire`: without a
torpedo attempt, the controller and the weapons, shields and hull of every
ship are as before. -/
theorem updateCombat_at_origin (m : MathFns F) (rnd : Nat → F) (c : Controller F)
    (sh target : Addr) (allShips : List (String × Addr)) (ships : Heap (Ship F)) (i : Nat)
    (ht : mapGet allShips c.TargetID = some target)
    (hpos : (ships.cell sh).Position = ⟨0, 0, 0⟩)
    (hrnd : ¬ rnd i < 1 / 10 * c.AggressionLevel) (b : Addr) :
    (Controller.updateCombat m rnd c sh allShips ships i).1 = c ∧
    ((Controller.updateCombat m rnd c sh allShips ships i).2.1.cell b).Weapons
      = (ships.cell b).Weapons ∧
    ((Controller.updateCombat m rnd c sh allShips ships i).2.1.cell b).Shields
      = (ships.cell b).Shields ∧
    ((Controller.updateCombat m rnd c sh allShips ships i).2.1.cell b).Hull
      = (ships.cell b).Hull := by
  have h95 : ¬ ((0 : F) > 95 / 100) := by norm_num
  unfold Controller.updateCombat
  simp only [ht, hpos, mul_zero, add_zero, h95, false_and, if_false, if_neg hrnd]
  refine ⟨trivial, ?_⟩
  split <;> split <;> (try split) <;>
    simp only [callShip_cell, ApplyThrust, ApplyRotation] <;>
    (by_cases hb : b = sh <;> simp [hb])

/-- C22 fails on the code. The AI ship `ai_1` is in combat with `player_1`,
which is one unit straight ahead of it: the distance is 1, the forward vector
derived from the rotation and the unit vector to the target are both
`(0, 0, 1)`, so their dot product is 1, and the phaser has health 100 and
cooldown 0. `Controller.Update` does not fire: the dot product is taken with
the position of the ship (the origin), which gives 0. The phaser keeps cooldown
0, not its cooldown-time 2, and the shields and hull of the target are what
they were, where `TakeDamage(50, "forward")` would have left its `forward`
emitter at 450. -/
theorem Controller_Update_aligned_phaser_not_fired (m : MathFns F) (hsqrt : m.Sqrt 1 = 1) :
    mapGet ((alignedSim : Simulator F).mem.shipMaps.cell (alignedSim : Simulator F).Ships)
      "player_1" = some 1 ∧
    ai.distance m ((alignedSim : Simulator F).mem.ships.cell 0).Position
      ((alignedSim : Simulator F).mem.ships.cell 1).Position = 1 ∧
    getForwardVector ((alignedSim : Simulator F).mem.ships.cell 0) = ⟨0, 0, 1⟩ ∧
    ai.normalize m ⟨0 - 0, 0 - 0, 1 - 0⟩ = ⟨0, 0, 1⟩ ∧
    mapGet ((alignedSim : Simulator F).mem.ships.cell 0).Weapons "phaser_1" =
      some ⟨"phaser_1", "phaser", 50, 2000, 2, 0, 100, 100, true, 20, false, false, false,
        false, 0, 0⟩ ∧
    (Controller.Update m (fun _ => 1) combatController (1 / 60) 0
      ((alignedSim : Simulator F).mem.shipMaps.cell (alignedSim : Simulator F).Ships)
      (alignedSim : Simulator F).mem.ships 0).1 = combatController ∧
    mapGet ((Controller.Update m (fun _ => 1) combatController (1 / 60) 0
      ((alignedSim : Simulator F).mem.shipMaps.cell (alignedSim : Simulator F).Ships)
      (alignedSim : Simulator F).mem.ships 0).2.1.cell 0).Weapons "phaser_1" =
      some ⟨"phaser_1", "phaser", 50, 2000, 2, 0, 100, 100, true, 20, false, false, false,
        false, 0, 0⟩ ∧
    ((Controller.Update m (fun _ => 1) combatController (1 / 60) 0
      ((alignedSim : Simulator F).mem.shipMaps.cell (alignedSim : Simulator F).Ships)
      (alignedSim : Simulator F).mem.ships 0).2.1.cell 1).Shields
      = ((alignedSim : Simulator F).mem.ships.cell 1).Shields ∧
    ((Controller.Update m (fun _ => 1) combatController (1 / 60) 0
      ((alignedSim : Simulator F).mem.shipMaps.cell (alignedSim : Simulator F).Ships)
      (alignedSim : Simulator F).mem.ships 0).2.1.cell 1).Hull
      = ((alignedSim : Simulator F).mem.ships.cell 1).Hull ∧
    forwardStrengthOf [("ship_1", TakeDamage ((alignedSim : Simulator F).mem.ships.cell 1)
      (50 * 1) "forward")] = some 450 := by
  have hreg : mapGet ((alignedSim : Simulator F).mem.shipMaps.cell
      (alignedSim : Simulator F).Ships) "player_1" = some 1 := rfl
  have hpos0 : ((alignedSim : Simulator F).mem.ships.cell 0).Position = ⟨0, 0, 0⟩ := rfl
  have hpos1 : ((alignedSim : Simulator F).mem.ships.cell 1).Position = ⟨0, 0, 1⟩ := rfl
  have hrnd : ¬ ((fun _ : Nat => (1 : F)) 0
      < 1 / 10 * (combatController : Controller F).AggressionLevel) := by
    simp [combatController, NewController]
    norm_num
  have hd : Controller.dispatch m (fun _ => 1) (combatController : Controller F) (1 / 60) 0
      ((alignedSim : Simulator F).mem.shipMaps.cell (alignedSim : Simulator F).Ships)
      (alignedSim : Simulator F).mem.ships 0 =
      Controller.updateCombat m (fun _ => 1) combatController 0
        ((alignedSim : Simulator F).mem.shipMaps.cell (alignedSim : Simulator F).Ships)
        (alignedSim : Simulator F).mem.ships 0 := by
    simp [Controller.dispatch, combatController]
  have hc := fun b => updateCombat_at_origin m (fun _ => 1) (combatController : Controller F)
    0 1 ((alignedSim : Simulator F).mem.shipMaps.cell (alignedSim : Simulator F).Ships)
    (alignedSim : Simulator F).mem.ships 0 hreg hpos0 hrnd b
  have hhull : (6 : F) / 10 ≤ hullFraction ((Controller.updateCombat m (fun _ => 1)
      (combatController : Controller F) 0
      ((alignedSim : Simulator F).mem.shipMaps.cell (alignedSim : Simulator F).Ships)
      (alignedSim : Simulator F).mem.ships 0).2.1.cell 0) := by
    unfold hullFraction
    rw [(hc 0).2.2.2]
    have hs : ((alignedSim : Simulator F).mem.ships.cell 0).Hull.Sections
        = [("forward", ⟨"forward", 200, 200, 500, 500, false, false⟩)] := rfl
    simp [hs]
    norm_num
  have hshield : (2 : F) / 10 ≤ shieldFraction ((Controller.updateCombat m (fun _ => 1)
      (combatController : Controller F) 0
      ((alignedSim : Simulator F).mem.shipMaps.cell (alignedSim : Simulator F).Ships)
      (alignedSim : Simulator F).mem.ships 0).2.1.cell 0) := by
    unfold shieldFraction
    rw [(hc 0).2.2.1]
    have hs : ((alignedSim : Simulator F).mem.ships.cell 0).Shields.Emitters
        = [("forward", ⟨"forward", "forward", 500, 500, 100, 100, false⟩)] := rfl
    simp [hs]
    norm_num
  have hU1 : (Controller.Update m (fun _ => 1) (combatController : Controller F) (1 / 60) 0
      ((alignedSim : Simulator F).mem.shipMaps.cell (alignedSim : Simulator F).Ships)
      (alignedSim : Simulator F).mem.ships 0).1 = combatController := by
    unfold Controller.Update
    simp only [hd]
    rw [evaluateState_healthy _ _ _ _ hhull hshield]
    exact (hc 0).1
  have hU2 : (Controller.Update m (fun _ => 1) (combatController : Controller F) (1 / 60) 0
      ((alignedSim : Simulator F).mem.shipMaps.cell (alignedSim : Simulator F).Ships)
      (alignedSim : Simulator F).mem.ships 0).2.1 =
      (Controller.updateCombat m (fun _ => 1) combatController 0
        ((alignedSim : Simulator F).mem.shipMaps.cell (alignedSim : Simulator F).Ships)
        (alignedSim : Simulator F).mem.ships 0).2.1 := by
    rw [Controller_Update_ships, hd]
  refine ⟨hreg, ?_, ?_, ?_, rfl, hU1, ?_, ?_, ?_, ?_⟩
  · rw [hpos0, hpos1]
    simp [ai.distance, hsqrt]
  · have hrot : ((alignedSim : Simulator F).mem.ships.cell 0).Rotation = ⟨1, 0, 0, 0⟩ := rfl
    simp [getForwardVector, hrot]
  · simp [ai.normalize, hsqrt]
  · rw [hU2, (hc 0).2.1]
    rfl
  · rw [hU2, (hc 1).2.2.1]
  · rw [hU2, (hc 1).2.2.2]
  · simp [forwardStrengthOf, mapGet, TakeDamage, defaultLocation, alignedSim, SpawnShip,
      NewSimulator, NewShip, phaserTestClass, Heap.alloc, Heap.empty, mapSet]
    norm_num
    simp [mapGet]

theorem Controller_Update_aligned_phaser_not_fired_witness :
    testMath.Sqrt 1 = 1 ∧
    (Controller.Update testMath (fun _ => 1) combatController (1 / 60) 0
      ((alignedSim : Simulator ℚ).mem.shipMaps.cell (alignedSim : Simulator ℚ).Ships)
      (alignedSim : Simulator ℚ).mem.ships 0).1 = combatController ∧
    mapGet ((Controller.Update testMath (fun _ => 1) combatController (1 / 60) 0
      ((alignedSim : Simulator ℚ).mem.shipMaps.cell (alignedSim : Simulator ℚ).Ships)
      (alignedSim : Simulator ℚ).mem.ships 0).2.1.cell 0).Weapons "phaser_1" =
      some ⟨"phaser_1", "phaser", 50, 2000, 2, 0, 100, 100, true, 20, false, false, false,
        false, 0, 0⟩ := by
  have hsqrt : testMath.Sqrt 1 = 1 := by
    simp [testMath]
  obtain ⟨_, _, _, _, _, h6, h7, _⟩ :=
    Controller_Update_aligned_phaser_not_fired testMath hsqrt
  exact ⟨hsqrt, h6, h7⟩

theorem registerHandlers_keys (fmt0 : F → String) :
    mapKeys (registerHandlers fmt0) = registeredKeys ∧ registeredKeys.length = 22 ∧
      registeredKeys.Nodup := by
  refine ⟨rfl, rfl, by decide⟩

theorem not_startsWith_append (l x p : String) (h : ¬ startsWith l p)
    (hlen : p.data.length ≤ l.data.length) : ¬ startsWith (l ++ x) p := by
  unfold startsWith at *
  rw [String.data_append]
  intro hp
  exact h (List.prefix_of_prefix_length_le hp (List.prefix_append _ _) hlen)

theorem handleToggleBreaker_error (s : Simulator F) (a : Action F) (e : String)
    (he : (handleToggleBreaker s a).2 = some e) : ¬ startsWith e "no handler" := by
  unfold handleToggleBreaker at he
  repeat' ((try dsimp only at he); split at he)
  all_goals simp at he
  all_goals subst he
  all_goals first
    | (unfold startsWith; decide)
    | exact not_startsWith_append _ _ _ (by unfold startsWith; decide) (by decide)

theorem handleRepair_error (s : Simulator F) (a : Action F) (e : String)
    (he : (handleRepair s a).2 = some e) : ¬ startsWith e "no handler" := by
  unfold handleRepair at he
  repeat' ((try dsimp only at he); split at he)
  all_goals simp at he
  all_goals subst he
  all_goals (unfold startsWith; decide)

theorem handleExtinguishFire_error (s : Simulator F) (a : Action F) (e : String)
    (he : (handleExtinguishFire s a).2 = some e) : ¬ startsWith e "no handler" := by
  unfold handleExtinguishFire at he
  repeat' ((try dsimp only at he); split at he)
  all_goals simp at he
  all_goals subst he
  all_goals (unfold startsWith; decide)

theorem handleSealBreach_error (s : Simulator F) (a : Action F) (e : String)
    (he : (handleSealBreach s a).2 = some e) : ¬ startsWith e "no handler" := by
  unfold handleSealBreach at he
  repeat' ((try dsimp only at he); split at he)
  all_goals simp at he
  all_goals subst he
  all_goals (unfold startsWith; decide)

theorem handleSetThrust_error (s : Simulator F) (a : Action F) (e : String)
    (he : (handleSetThrust s a).2 = some e) : ¬ startsWith e "no handler" := by
  unfold handleSetThrust at he
  repeat' ((try dsimp only at he); split at he)
  all_goals simp at he
  all_goals subst he
  all_goals (unfold startsWith; decide)

theorem handleSetRotation_error (s : Simulator F) (a : Action F) (e : String)
    (he : (handleSetRotation s a).2 = some e) : ¬ startsWith e "no handler" := by
  unfold handleSetRotation at he
  repeat' ((try dsimp only at he); split at he)
  all_goals simp at he
  all_goals subst he
  all_goals (unfold startsWith; decide)

theorem handleReleaseDocking_error (s : Simulator F) (a : Action F) (e : String)
    (he : (handleReleaseDocking s a).2 = some e) : ¬ startsWith e "no handler" := by
  unfold handleReleaseDocking at he
  repeat' ((try dsimp only at he); split at he)
  all_goals simp at he
  all_goals subst he
  all_goals (unfold startsWith; decide)

theorem handleArmTorpedo_error (s : Simulator F) (a : Action F) (e : String)
    (he : (handleArmTorpedo s a).2 = some e) : ¬ startsWith e "no handler" := by
  unfold handleArmTorpedo at he
  repeat' ((try dsimp only at he); split at he)
  all_goals simp at he
  all_goals subst he
  all_goals first
    | (unfold startsWith; decide)
    | exact not_startsWith_append _ _ _ (by unfold startsWith; decide) (by decide)

theorem handleLoadTorpedo_error (s : Simulator F) (a : Action F) (e : String)
    (he : (handleLoadTorpedo s a).2 = some e) : ¬ startsWith e "no handler" := by
  unfold handleLoadTorpedo at he
  repeat' ((try dsimp only at he); split at he)
  all_goals simp at he
  all_goals subst he
  all_goals first
    | (unfold startsWith; decide)
    | exact not_startsWith_append _ _ _ (by unfold startsWith; decide) (by decide)

theorem handleLockTorpedo_error (s : Simulator F) (a : Action F) (e : String)
    (he : (handleLockTorpedo s a).2 = some e) : ¬ startsWith e "no handler" := by
  unfold handleLockTorpedo at he
  repeat' ((try dsimp only at he); split at he)
  all_goals simp at he
  all_goals subst he
  all_goals first
    | (unfold startsWith; decide)
    | exact not_startsWith_append _ _ _ (by unfold startsWith; decide) (by decide)

theorem handleFireTorpedo_error (fmt0 : F → String) (s : Simulator F) (a : Action F) (e : String)
    (he : (handleFireTorpedo fmt0 s a).2 = some e) : ¬ startsWith e "no handler" := by
  unfold handleFireTorpedo at he
  repeat' ((try dsimp only at he); split at he)
  all_goals simp at he
  all_goals subst he
  all_goals first
    | (unfold startsWith; decide)
    | exact not_startsWith_append _ _ _ (by unfold startsWith; decide) (by decide)

theorem handleFirePhaser_error (s : Simulator F) (a : Action F) (e : String)
    (he : (handleFirePhaser s a).2 = some e) : ¬ startsWith e "no handler" := by
  unfold handleFirePhaser at he
  repeat' ((try dsimp only at he); split at he)
  all_goals simp at he
  all_goals subst he
  all_goals first
    | (unfold startsWith; decide)
    | exact not_startsWith_append _ _ _ (by unfold startsWith; decide) (by decide)

theorem handleSetTarget_error (s : Simulator F) (a : Action F) (e : String)
    (he : (handleSetTarget s a).2 = some e) : ¬ startsWith e "no handler" := by
  unfold handleSetTarget at he
  repeat' ((try dsimp only at he); split at he)
  all_goals simp at he
  all_goals subst he
  all_goals (unfold startsWith; decide)

theorem handleToggleShields_error (s : Simulator F) (a : Action F) (e : String)
    (he : (handleToggleShields s a).2 = some e) : ¬ startsWith e "no handler" := by
  unfold handleToggleShields at he
  repeat' ((try dsimp only at he); split at he)
  all_goals simp at he
  all_goals subst he
  all_goals (unfold startsWith; decide)

theorem handleToggleSystem_error (s : Simulator F) (a : Action F) (e : String)
    (he : (handleToggleSystem s a).2 = some e) : ¬ startsWith e "no handler" := by
  unfold handleToggleSystem at he
  repeat' ((try dsimp only at he); split at he)
  all_goals simp at he
  all_goals subst he
  all_goals (unfold startsWith; decide)

theorem stringOnlyHandler_error (errorText : String) (s : Simulator F) (a : Action F)
    (e : String) (he : (stringOnlyHandler errorText s a).2 = some e) : e = errorText := by
  unfold stringOnlyHandler at he
  split at he
  · simp at he
  · simpa using he.symm

theorem handleSetAlert_error (s : Simulator F) (a : Action F) (e : String)
    (he : (handleSetAlert s a).2 = some e) : ¬ startsWith e "no handler" := by
  rw [stringOnlyHandler_error _ s a e he]
  unfold startsWith
  decide

theorem handleIssueOrder_error (s : Simulator F) (a : Action F) (e : String)
    (he : (handleIssueOrder s a).2 = some e) : ¬ startsWith e "no handler" := by
  rw [stringOnlyHandler_error _ s a e he]
  unfold startsWith
  decide

theorem handleSendHail_error (s : Simulator F) (a : Action F) (e : String)
    (he : (handleSendHail s a).2 = some e) : ¬ startsWith e "no handler" := by
  rw [stringOnlyHandler_error _ s a e he]
  unfold startsWith
  decide

theorem handleSendMessage_error (s : Simulator F) (a : Action F) (e : String)
    (he : (handleSendMessage s a).2 = some e) : ¬ startsWith e "no handler" := by
  rw [stringOnlyHandler_error _ s a e he]
  unfold startsWith
  decide

theorem handleInitiateScan_error (s : Simulator F) (a : Action F) (e : String)
    (he : (handleInitiateScan s a).2 = some e) : ¬ startsWith e "no handler" := by
  rw [stringOnlyHandler_error _ s a e he]
  unfold startsWith
  decide

theorem handleSetSensorMode_error (s : Simulator F) (a : Action F) (e : String)
    (he : (handleSetSensorMode s a).2 = some e) : ¬ startsWith e "no handler" := by
  rw [stringOnlyHandler_error _ s a e he]
  unfold startsWith
  decide

theorem handleRoutePower_error (s : Simulator F) (a : Action F) (e : String)
    (he : (handleRoutePower s a).2 = some e) : ¬ startsWith e "no handler" := by
  simp [handleRoutePower] at he

/-- No handler of the table returns an error that starts with `no handler`. -/
theorem registered_handler_error (fmt0 : F → String) (k : String) (h : ActionHandler F)
    (hmem : (k, h) ∈ registerHandlers fmt0) (s : Simulator F) (a : Action F) (e : String)
    (he : (h s a).2 = some e) : ¬ startsWith e "no handler" := by
  simp only [registerHandlers, List.mem_cons, Prod.mk.injEq, List.mem_singleton,
    List.mem_nil_iff, or_false] at hmem
  rcases hmem with ⟨_, rfl⟩ | ⟨_, rfl⟩ | ⟨_, rfl⟩ | ⟨_, rfl⟩ | ⟨_, rfl⟩ | ⟨_, rfl⟩ | ⟨_, rfl⟩ | ⟨_, rfl⟩ | ⟨_, rfl⟩ | ⟨_, rfl⟩ | ⟨_, rfl⟩ | ⟨_, rfl⟩ | ⟨_, rfl⟩ | ⟨_, rfl⟩ | ⟨_, rfl⟩ | ⟨_, rfl⟩ | ⟨_, rfl⟩ | ⟨_, rfl⟩ | ⟨_, rfl⟩ | ⟨_, rfl⟩ | ⟨_, rfl⟩ | ⟨_, rfl⟩
  all_goals first
    | exact handleToggleBreaker_error s a e he
    | exact handleRepair_error s a e he
    | exact handleExtinguishFire_error s a e he
    | exact handleSealBreach_error s a e he
    | exact handleSetThrust_error s a e he
    | exact handleSetRotation_error s a e he
    | exact handleReleaseDocking_error s a e he
    | exact handleArmTorpedo_error s a e he
    | exact handleLoadTorpedo_error s a e he
    | exact handleLockTorpedo_error s a e he
    | exact handleFireTorpedo_error fmt0 s a e he
    | exact handleFirePhaser_error s a e he
    | exact handleSetTarget_error s a e he
    | exact handleSetAlert_error s a e he
    | exact handleIssueOrder_error s a e he
    | exact handleSendHail_error s a e he
    | exact handleSendMessage_error s a e he
    | exact handleRoutePower_error s a e he
    | exact handleToggleShields_error s a e he
    | exact handleInitiateScan_error s a e he
    | exact handleSetSensorMode_error s a e he
    | exact handleToggleSystem_error s a e he

theorem mapGet_none_iff {V : Type} (m : List (String × V)) (k : String) :
    mapGet m k = none ↔ k ∉ mapKeys m := by
  induction m with
  | nil => simp [mapGet, mapKeys]
  | cons e rest ih =>
    obtain ⟨k0, x⟩ := e
    by_cases h : k0 = k
    · simp [mapGet, mapKeys, h]
    · have h2 : ¬ k = k0 := fun h3 => h h3.symm
      simp only [mapKeys] at ih
      simp [mapGet, mapKeys, h, h2, ih]

/-- C23. Unknown actions. With `key = role + "." + system + "." + action`: when
`key` is not one of the 22 registered keys, `RouteAction` returns the error
`no handler for action: key` and the simulator as it was; when `key` is
registered, `RouteAction` returns what the registered handler returns, and
that is never an error starting with `no handler`. Hence the error starts with
`no handler` exactly when the key is not registered. -/
theorem RouteAction_unknown (fmt0 : F → String) (s : Simulator F) (action : Action F) :
    (mapKeys (registerHandlers fmt0) = registeredKeys ∧ registeredKeys.length = 22 ∧
      registeredKeys.Nodup) ∧
    (action.Role ++ "." ++ action.System ++ "." ++ action.Action_ ∉ registeredKeys →
      RouteAction fmt0 s action = (s, some ("no handler for action: "
        ++ (action.Role ++ "." ++ action.System ++ "." ++ action.Action_)))) ∧
    (action.Role ++ "." ++ action.System ++ "." ++ action.Action_ ∈ registeredKeys →
      ∃ handler, mapGet (registerHandlers fmt0)
          (action.Role ++ "." ++ action.System ++ "." ++ action.Action_) = some handler ∧
        RouteAction fmt0 s action = handler s action) ∧
    ((∃ e, (RouteAction fmt0 s action).2 = some e ∧ startsWith e "no handler") ↔
      action.Role ++ "." ++ action.System ++ "." ++ action.Action_ ∉ registeredKeys) := by
  have hkeys := registerHandlers_keys fmt0
  have hnot : action.Role ++ "." ++ action.System ++ "." ++ action.Action_ ∉ registeredKeys →
      RouteAction fmt0 s action = (s, some ("no handler for action: "
        ++ (action.Role ++ "." ++ action.System ++ "." ++ action.Action_))) := by
    intro hk
    rw [← hkeys.1, ← mapGet_none_iff] at hk
    unfold RouteAction
    simp only [hk]
  have hin : action.Role ++ "." ++ action.System ++ "." ++ action.Action_ ∈ registeredKeys →
      ∃ handler, mapGet (registerHandlers fmt0)
          (action.Role ++ "." ++ action.System ++ "." ++ action.Action_) = some handler ∧
        RouteAction fmt0 s action = handler s action := by
    intro hk
    cases hget : mapGet (registerHandlers fmt0)
        (action.Role ++ "." ++ action.System ++ "." ++ action.Action_) with
    | none =>
      rw [mapGet_none_iff, hkeys.1] at hget
      exact absurd hk hget
    | some handler =>
      refine ⟨handler, rfl, ?_⟩
      unfold RouteAction
      simp only [hget]
  refine ⟨hkeys, hnot, hin, ?_⟩
  constructor
  · rintro ⟨e, he, hpre⟩ hk
    obtain ⟨handler, hget, hroute⟩ := hin hk
    rw [hroute] at he
    exact registered_handler_error fmt0 _ handler (mem_of_mapGet _ _ _ hget) s action e he hpre
  · intro hk
    refine ⟨_, by rw [hnot hk], ?_⟩
    unfold startsWith
    rw [String.data_append]
    exact List.IsPrefix.trans (by decide) (List.prefix_append _ _)

/-- The key built from the intent `(weapons, w, arm)` is registered only for
`w = "torpedo"`. -/
theorem arm_key_registered (w : String)
    (hmem : "weapons" ++ "." ++ w ++ "." ++ "arm" ∈ registeredKeys) : w = "torpedo" := by
  simp only [registeredKeys, List.mem_cons, List.mem_singleton, List.mem_nil_iff,
    or_false] at hmem
  rcases hmem with h | h | h | h | h | h | h | h | h | h | h | h | h | h | h | h | h | h | h | h | h | h
  all_goals have h2 := congrArg (fun x => x.data.reverse) h
  all_goals simp [String.data_append] at h2
  apply String.ext
  have h3 : w.data.reverse ++ ['.', 's', 'n', 'o', 'p', 'a', 'e', 'w'] =
      ['o', 'd', 'e', 'p', 'r', 'o', 't'] ++ ['.', 's', 'n', 'o', 'p', 'a', 'e', 'w'] := h2
  have h4 := congrArg List.reverse (List.append_cancel_right h3)
  rw [List.reverse_reverse] at h4
  exact h4

/-- C24 fails on the code. The player ship has the tube `torpedo_bay_1`, not
armed. The intents `(weapons, torpedo_bay_1, arm | load | lock | fire)` are not
routed: the key is built from the system field, so it is
`weapons.torpedo_bay_1.arm`, which is not in the table, and the answer is the
`no handler` error with nothing changed. The registered key
`weapons.torpedo.arm` needs `system = "torpedo"`, and then the handler looks
for a weapon called `torpedo`. Called directly, the handler does arm the
tube named in the system field. -/
theorem RouteAction_torpedo_intents_unrouted (fmt0 : ℚ → String) :
    getPlayerShip bridgeSim = some 0 ∧
    (∃ w, mapGet (bridgeSim.mem.ships.cell 0).Weapons "torpedo_bay_1" = some w ∧
      w.Armed = false) ∧
    RouteAction fmt0 bridgeSim (weaponsIntent "torpedo_bay_1" "arm" (ActionValue.flag true))
      = (bridgeSim, some "no handler for action: weapons.torpedo_bay_1.arm") ∧
    RouteAction fmt0 bridgeSim (weaponsIntent "torpedo_bay_1" "load" ActionValue.null)
      = (bridgeSim, some "no handler for action: weapons.torpedo_bay_1.load") ∧
    RouteAction fmt0 bridgeSim (weaponsIntent "torpedo_bay_1" "lock" (ActionValue.flag true))
      = (bridgeSim, some "no handler for action: weapons.torpedo_bay_1.lock") ∧
    RouteAction fmt0 bridgeSim (weaponsIntent "torpedo_bay_1" "fire" ActionValue.null)
      = (bridgeSim, some "no handler for action: weapons.torpedo_bay_1.fire") ∧
    RouteAction fmt0 bridgeSim (weaponsIntent "torpedo" "arm" (ActionValue.flag true))
      = (bridgeSim, some "weapon not found: torpedo") ∧
    (∃ w, mapGet ((handleArmTorpedo bridgeSim
        (weaponsIntent "torpedo_bay_1" "arm" (ActionValue.flag true))).1.mem.ships.cell 0).Weapons
        "torpedo_bay_1" = some w ∧ w.Armed = true) := by
  have hp : getPlayerShip bridgeSim = some 0 := by decide
  have hw : mapGet (bridgeSim.mem.ships.cell 0).Weapons "torpedo_bay_1" =
      some ⟨"torpedo_bay_1", "torpedo", 100, 5000, 5, 0, 100, 100, true, 20, false, false,
        false, false, 10, 10⟩ := rfl
  have hnone : mapGet (bridgeSim.mem.ships.cell 0).Weapons "torpedo" = none := rfl
  have k1 : "weapons" ++ "." ++ "torpedo_bay_1" ++ "." ++ "arm"
      = "weapons.torpedo_bay_1.arm" := by decide
  have k2 : "weapons" ++ "." ++ "torpedo_bay_1" ++ "." ++ "load"
      = "weapons.torpedo_bay_1.load" := by decide
  have k3 : "weapons" ++ "." ++ "torpedo_bay_1" ++ "." ++ "lock"
      = "weapons.torpedo_bay_1.lock" := by decide
  have k4 : "weapons" ++ "." ++ "torpedo_bay_1" ++ "." ++ "fire"
      = "weapons.torpedo_bay_1.fire" := by decide
  have k5 : "weapons" ++ "." ++ "torpedo" ++ "." ++ "arm" = "weapons.torpedo.arm" := by decide
  refine ⟨hp, ⟨_, hw, rfl⟩, ?_, ?_, ?_, ?_, ?_, ?_⟩
  · simp [RouteAction, weaponsIntent, k1, registerHandlers, mapGet]
  · simp [RouteAction, weaponsIntent, k2, registerHandlers, mapGet]
  · simp [RouteAction, weaponsIntent, k3, registerHandlers, mapGet]
  · simp [RouteAction, weaponsIntent, k4, registerHandlers, mapGet]
  · simp [RouteAction, weaponsIntent, k5, registerHandlers, mapGet, handleArmTorpedo, hp, hnone]
  · simp only [handleArmTorpedo, weaponsIntent, hp, hw, withShip, callShip, Heap.write,
      Function.update_same, mapGet_mapSet_same]
    exact ⟨_, rfl, rfl⟩

/-- The same for every world and every weapon id other than `torpedo`: the arm
intent with the weapon id in the system field is answered `no handler`. -/
theorem RouteAction_arm_unrouted (fmt0 : F → String) (s : Simulator F) (w : String)
    (v : ActionValue F) (hw : w ≠ "torpedo") :
    RouteAction fmt0 s { Role := "weapons", System := w, Action_ := "arm", Value := v } =
      (s, some ("no handler for action: " ++ ("weapons" ++ "." ++ w ++ "." ++ "arm"))) := by
  have hk : mapGet (registerHandlers fmt0) ("weapons" ++ "." ++ w ++ "." ++ "arm") = none := by
    rw [mapGet_none_iff, (registerHandlers_keys fmt0).1]
    exact fun hmem => hw (arm_key_registered w hmem)
  unfold RouteAction
  simp only [hk]

theorem withShip_self (s : Simulator F) (a : Addr) :
    withShip s a (fun _ => s.mem.ships.cell a) = s := by
  unfold withShip callShip Heap.write
  rw [Function.update_eq_self]

/-- `handleFireTorpedo` on a weapon that exists and is blocked: an error, and
the simulator is as it was. -/
theorem handleFireTorpedo_blocked (fmt0 : F → String) (s : Simulator F) (action : Action F)
    (p : Addr) (weapon : Weapon F) (hp : getPlayerShip s = some p)
    (hw : mapGet (s.mem.ships.cell p).Weapons action.System = some weapon)
    (hb : torpedoFireBlocked (s.mem.ships.cell p) weapon) :
    (∃ e, (handleFireTorpedo fmt0 s action).2 = some e) ∧
      (handleFireTorpedo fmt0 s action).1 = s := by
  unfold handleFireTorpedo
  simp only [hp, hw]
  by_cases h1 : weapon.Armed = false ∨ weapon.Loaded = false ∨ weapon.Locked = false
  · rw [if_pos h1]
    exact ⟨⟨_, rfl⟩, rfl⟩
  · rw [if_neg h1]
    by_cases h2 : weapon.Cooldown > 0
    · rw [if_pos h2]
      exact ⟨⟨_, rfl⟩, rfl⟩
    · rw [if_neg h2]
      by_cases h3 : (s.mem.ships.cell p).TargetID = ""
      · rw [if_pos h3]
        exact ⟨⟨_, rfl⟩, rfl⟩
      · rw [if_neg h3]
        have hr : refusesToFire weapon := by
          rcases hb with h | h | h | h | h | h | h
          · exact absurd (Or.inl h) h1
          · exact absurd (Or.inr (Or.inl h)) h1
          · exact absurd (Or.inr (Or.inr h)) h1
          · exact absurd h h2
          · exact absurd h h3
          · exact Or.inl h
          · exact Or.inr (Or.inr ⟨h.1, Or.inr (Or.inr (Or.inr h.2))⟩)
        rw [FireWeapon_refused _ _ _ weapon hw hr]
        simp only [withShip_self, Bool.false_eq_true, if_false]
        exact ⟨⟨_, rfl⟩, trivial⟩

/-- `handleFireTorpedo` on a weapon that exists and is not blocked: no error;
the weapon is fired and one call of `SpawnProjectile` is made, with the
position of the ship and its velocity plus 500 along x. -/
theorem handleFireTorpedo_fired (fmt0 : F → String) (s : Simulator F) (action : Action F)
    (p : Addr) (weapon : Weapon F) (hp : getPlayerShip s = some p)
    (hw : mapGet (s.mem.ships.cell p).Weapons action.System = some weapon)
    (hb : ¬ torpedoFireBlocked (s.mem.ships.cell p) weapon) :
    handleFireTorpedo fmt0 s action =
      (SpawnProjectile
        (withShip s p (fun _ =>
          { s.mem.ships.cell p with
            Weapons := mapSet (s.mem.ships.cell p).Weapons action.System (firedWeapon weapon)
            TargetID := (s.mem.ships.cell p).TargetID }))
        ("torpedo_" ++ action.System ++ "_" ++ fmt0 s.CurrentTime) "torpedo"
        (s.mem.ships.cell p).ID (s.mem.ships.cell p).TargetID (s.mem.ships.cell p).Position
        ⟨(s.mem.ships.cell p).Velocity.X + 500, (s.mem.ships.cell p).Velocity.Y + 0,
          (s.mem.ships.cell p).Velocity.Z + 0⟩
        weapon.Damage, none) := by
  have h1 : ¬ (weapon.Armed = false ∨ weapon.Loaded = false ∨ weapon.Locked = false) := by
    rintro (h | h | h)
    · exact hb (Or.inl h)
    · exact hb (Or.inr (Or.inl h))
    · exact hb (Or.inr (Or.inr (Or.inl h)))
  have h2 : ¬ weapon.Cooldown > 0 := fun h => hb (Or.inr (Or.inr (Or.inr (Or.inl h))))
  have h3 : ¬ (s.mem.ships.cell p).TargetID = "" :=
    fun h => hb (Or.inr (Or.inr (Or.inr (Or.inr (Or.inl h)))))
  have hr : ¬ refusesToFire weapon := by
    rintro (h | h | ⟨ht, h | h | h | h⟩)
    · exact hb (Or.inr (Or.inr (Or.inr (Or.inr (Or.inr (Or.inl h))))))
    · exact h2 h
    · exact h1 (Or.inl h)
    · exact h1 (Or.inr (Or.inl h))
    · exact h1 (Or.inr (Or.inr h))
    · exact hb (Or.inr (Or.inr (Or.inr (Or.inr (Or.inr (Or.inr ⟨ht, h⟩))))))
  unfold handleFireTorpedo
  simp only [hp, hw, if_neg h1, if_neg h2, if_neg h3, FireWeapon_fired _ _ _ weapon hw hr,
    if_true, withShip, callShip, Heap.write, Function.update_same]

/-- The torpedo fire handler on a state that no code path builds: the phaser
of the player ship has its three flags written by hand, cooldown 0, health
100, a target, and ammo count 0 (a loaded weapon without ammunition). The
handler returns no error and adds a projectile, whatever the rendering of the
time in the projectile id: the ammunition check of `FireWeapon` is made for a
weapon of type torpedo only. -/
theorem handleFireTorpedo_phaser_fires (fmt0 : ℚ → String) :
    getPlayerShip phaserBridgeSim = some 0 ∧
    mapGet (phaserBridgeSim.mem.ships.cell 0).Weapons "phaser_1" =
      some ⟨"phaser_1", "phaser", 50, 2000, 2, 0, 100, 100, true, 20, false, true, true,
        true, 0, 0⟩ ∧
    (phaserBridgeSim.mem.ships.cell 0).TargetID = "enemy_1" ∧
    (handleFireTorpedo fmt0 phaserBridgeSim (weaponsIntent "phaser_1" "fire" ActionValue.null)).2
      = none ∧
    (handleFireTorpedo fmt0 phaserBridgeSim
      (weaponsIntent "phaser_1" "fire" ActionValue.null)).1 ≠ phaserBridgeSim ∧
    phaserBridgeSim.mem.projectileMaps.cell phaserBridgeSim.Projectiles = [] ∧
    (handleFireTorpedo fmt0 phaserBridgeSim
      (weaponsIntent "phaser_1" "fire" ActionValue.null)).1.mem.projectileMaps.cell
        phaserBridgeSim.Projectiles = [("torpedo_phaser_1_" ++ fmt0 0, 0)] := by
  have hp : getPlayerShip phaserBridgeSim = some 0 := by decide
  have hw : mapGet (phaserBridgeSim.mem.ships.cell 0).Weapons
      (weaponsIntent "phaser_1" "fire" ActionValue.null).System =
      some ⟨"phaser_1", "phaser", 50, 2000, 2, 0, 100, 100, true, 20, false, true, true,
        true, 0, 0⟩ := rfl
  have ht : (phaserBridgeSim.mem.ships.cell 0).TargetID = "enemy_1" := rfl
  have hb : ¬ torpedoFireBlocked (phaserBridgeSim.mem.ships.cell 0)
      (⟨"phaser_1", "phaser", 50, 2000, 2, 0, 100, 100, true, 20, false, true, true,
        true, 0, 0⟩ : Weapon ℚ) := by
    unfold torpedoFireBlocked
    rw [ht]
    simp
  have hf := handleFireTorpedo_fired fmt0 phaserBridgeSim
    (weaponsIntent "phaser_1" "fire" ActionValue.null) 0 _ hp hw hb
  have hreg0 : phaserBridgeSim.mem.projectileMaps.cell phaserBridgeSim.Projectiles = [] := by
    decide
  have hreg1 : (handleFireTorpedo fmt0 phaserBridgeSim
      (weaponsIntent "phaser_1" "fire" ActionValue.null)).1.mem.projectileMaps.cell
        phaserBridgeSim.Projectiles = [("torpedo_phaser_1_" ++ fmt0 0, 0)] := by
    rw [hf]
    simp only [SpawnProjectile, withShip, Heap.write, Function.update_same]
    rw [hreg0]
    rfl
  refine ⟨hp, hw, ht, by rw [hf], ?_, hreg0, hreg1⟩
  intro heq
  rw [heq, hreg0] at hreg1
  simp at hreg1

/-- C25 fails on the code. The player ship is at rest at `(10, 20, 30)`, with
rotation the identity, so its forward vector is `(0, 0, 1)` and the claim gives
the torpedo the velocity `(0, 0, 500)`. The fire handler succeeds and spawns
one projectile, at the position of the ship, with the velocity `(500, 0, 0)`:
500 is added along x whatever the rotation. -/
theorem handleFireTorpedo_velocity_ignores_rotation (fmt0 : ℚ → String) :
    getPlayerShip readyBridgeSim = some 0 ∧
    (readyBridgeSim.mem.ships.cell 0).Velocity = ⟨0, 0, 0⟩ ∧
    getForwardVector (readyBridgeSim.mem.ships.cell 0) = ⟨0, 0, 1⟩ ∧
    (handleFireTorpedo fmt0 readyBridgeSim
      (weaponsIntent "torpedo_bay_1" "fire" ActionValue.null)).2 = none ∧
    readyBridgeSim.mem.projectileMaps.cell readyBridgeSim.Projectiles = [] ∧
    (handleFireTorpedo fmt0 readyBridgeSim
      (weaponsIntent "torpedo_bay_1" "fire" ActionValue.null)).1.mem.projectileMaps.cell
        readyBridgeSim.Projectiles = [("torpedo_torpedo_bay_1_" ++ fmt0 0, 0)] ∧
    (handleFireTorpedo fmt0 readyBridgeSim
      (weaponsIntent "torpedo_bay_1" "fire" ActionValue.null)).1.mem.projectiles.cell 0 =
      ⟨"torpedo_torpedo_bay_1_" ++ fmt0 0, "torpedo", ⟨10, 20, 30⟩, ⟨500, 0, 0⟩, 100,
        "player_1", "enemy_1", 0, 10⟩ := by
  have hp : getPlayerShip readyBridgeSim = some 0 := by decide
  have hw : mapGet (readyBridgeSim.mem.ships.cell 0).Weapons
      (weaponsIntent "torpedo_bay_1" "fire" ActionValue.null).System =
      some ⟨"torpedo_bay_1", "torpedo", 100, 5000, 5, 0, 100, 100, true, 20, false, true,
        true, true, 10, 10⟩ := rfl
  have ht : (readyBridgeSim.mem.ships.cell 0).TargetID = "enemy_1" := rfl
  have hv : (readyBridgeSim.mem.ships.cell 0).Velocity = ⟨0, 0, 0⟩ := rfl
  have hpos : (readyBridgeSim.mem.ships.cell 0).Position = ⟨10, 20, 30⟩ := rfl
  have hid : (readyBridgeSim.mem.ships.cell 0).ID = "player_1" := rfl
  have hrot : (readyBridgeSim.mem.ships.cell 0).Rotation = ⟨1, 0, 0, 0⟩ := rfl
  have hb : ¬ torpedoFireBlocked (readyBridgeSim.mem.ships.cell 0)
      (⟨"torpedo_bay_1", "torpedo", 100, 5000, 5, 0, 100, 100, true, 20, false, true,
        true, true, 10, 10⟩ : Weapon ℚ) := by
    unfold torpedoFireBlocked
    rw [ht]
    simp
  have hf := handleFireTorpedo_fired fmt0 readyBridgeSim
    (weaponsIntent "torpedo_bay_1" "fire" ActionValue.null) 0 _ hp hw hb
  have hreg0 : readyBridgeSim.mem.projectileMaps.cell readyBridgeSim.Projectiles = [] := by
    decide
  have hnext : readyBridgeSim.mem.projectiles.next = 0 := rfl
  refine ⟨hp, hv, ?_, by rw [hf], hreg0, ?_, ?_⟩
  · simp [getForwardVector, hrot]
  · rw [hf]
    simp only [SpawnProjectile, withShip, Heap.write, Function.update_same]
    rw [hreg0]
    rfl
  · rw [hf]
    simp only [SpawnProjectile, withShip, Heap.alloc, hnext, Function.update_same, hv, hpos,
      hid, ht]
    norm_num
    rfl

theorem mapSet_mapSet {V : Type} (m : List (String × V)) (k : String) (v w : V) :
    mapSet (mapSet m k v) k w = mapSet m k w := by
  induction m with
  | nil => simp [mapSet]
  | cons e rest ih =>
    obtain ⟨k0, x⟩ := e
    by_cases h : k0 = k
    · simp [mapSet, h]
    · simp [mapSet, h, ih]

theorem mapSet_self {V : Type} (m : List (String × V)) (k : String) (v : V)
    (h : mapGet m k = some v) : mapSet m k v = m := by
  induction m with
  | nil => simp [mapGet] at h
  | cons e rest ih =>
    obtain ⟨k0, x⟩ := e
    by_cases hk : k0 = k
    · simp only [mapGet, hk, if_true] at h
      have hx : x = v := Option.some.inj h
      simp [mapSet, hk, hx]
    · simp only [mapGet, hk, if_false] at h
      simp [mapSet, hk, ih h]

theorem withShip_cell (s : Simulator F) (a : Addr) (f : Ship F → Ship F) :
    (withShip s a f).mem.ships.cell a = f (s.mem.ships.cell a) := by
  unfold withShip
  simp only [callShip_cell, if_true]

theorem withShip_withShip (s : Simulator F) (a : Addr) (f g : Ship F → Ship F) :
    withShip (withShip s a f) a g = withShip s a (fun sh => g (f sh)) := by
  unfold withShip callShip Heap.write
  simp only [Function.update_same, Function.update_idem]

theorem withShip_fixed (s : Simulator F) (a : Addr) (f : Ship F → Ship F)
    (h : f (s.mem.ships.cell a) = s.mem.ships.cell a) : withShip s a f = s := by
  unfold withShip callShip Heap.write
  rw [h, Function.update_eq_self]

/-- A write through a ship pointer that keeps the `IsPlayer` flag keeps the
player ship. -/
theorem getPlayerShip_withShip (s : Simulator F) (a : Addr) (f : Ship F → Ship F)
    (h : (f (s.mem.ships.cell a)).IsPlayer = (s.mem.ships.cell a).IsPlayer) :
    getPlayerShip (withShip s a f) = getPlayerShip s := by
  have hc : ∀ b, ((withShip s a f).mem.ships.cell b).IsPlayer = (s.mem.ships.cell b).IsPlayer := by
    intro b
    unfold withShip
    simp only [callShip_cell]
    by_cases hb : b = a
    · rw [if_pos hb, hb, h]
    · rw [if_neg hb]
  unfold getPlayerShip
  have hreg : (withShip s a f).mem.shipMaps.cell (withShip s a f).Ships
      = s.mem.shipMaps.cell s.Ships := rfl
  rw [hreg]
  simp only [hc]

/-- `handleToggleBreaker` on a breaker that exists. -/
theorem handleToggleBreaker_found (s : Simulator F) (p : Addr) (b : String)
    (breaker : Breaker F) (v : Bool)
    (hp : getPlayerShip s = some p)
    (hb : mapGet (s.mem.ships.cell p).Power.Breakers b = some breaker) :
    handleToggleBreaker s (breakerIntent b v) =
      (withShip s p (fun sh => { sh with Power := { sh.Power with
        Breakers := mapSet sh.Power.Breakers b { breaker with Enabled := v } } }), none) := by
  unfold handleToggleBreaker breakerIntent
  simp only [hp, hb]

theorem rangedAs_registry (s : Simulator F) (o : List (String × Addr)) :
    (rangedAs s o).mem.shipMaps.cell (rangedAs s o).Ships = o := by
  unfold rangedAs Heap.write
  simp only [Function.update_same]

theorem rangedAs_rangedAs (s : Simulator F) (o1 o2 : List (String × Addr)) :
    rangedAs (rangedAs s o1) o2 = rangedAs s o2 := by
  unfold rangedAs Heap.write
  simp only [Function.update_idem]

theorem rangedAs_withShip (s : Simulator F) (o : List (String × Addr)) (a : Addr)
    (f : Ship F → Ship F) : withShip (rangedAs s o) a f = rangedAs (withShip s a f) o := rfl

/-- With one player ship, `getPlayerShip` finds it whatever the order in which
the ship map is ranged over. -/
theorem getPlayerShip_rangedAs (s : Simulator F) (p : Addr) (hp : getPlayerShip s = some p)
    (hone : onlyPlayerShip s p) (o : List (String × Addr))
    (ho : o.Perm (s.mem.shipMaps.cell s.Ships)) : getPlayerShip (rangedAs s o) = some p := by
  unfold getPlayerShip at hp ⊢
  rw [rangedAs_registry]
  have hships : (rangedAs s o).mem.ships = s.mem.ships := rfl
  rw [hships]
  cases h0 : (s.mem.shipMaps.cell s.Ships).find? (fun e => (s.mem.ships.cell e.2).IsPlayer) with
  | none =>
    rw [h0] at hp
    exact absurd hp (by simp)
  | some e0 =>
    have hm0 : e0 ∈ s.mem.shipMaps.cell s.Ships := List.mem_of_find?_eq_some h0
    have hq0 : (s.mem.ships.cell e0.2).IsPlayer = true :=
      List.find?_some (p := fun e : String × Addr => (s.mem.ships.cell e.2).IsPlayer) h0
    cases h1 : o.find? (fun e => (s.mem.ships.cell e.2).IsPlayer) with
    | none =>
      rw [List.find?_eq_none] at h1
      exact absurd hq0 (h1 e0 (ho.mem_iff.mpr hm0))
    | some e1 =>
      have hm1 : e1 ∈ o := List.mem_of_find?_eq_some h1
      have hq1 : (s.mem.ships.cell e1.2).IsPlayer = true :=
        List.find?_some (p := fun e : String × Addr => (s.mem.ships.cell e.2).IsPlayer) h1
      rw [Option.map_some', hone e1 (ho.mem_iff.mp hm1) hq1]

/-- `handleToggleBreaker` when the player ship has no breaker of that id: an
error, and nothing changes. -/
theorem handleToggleBreaker_absent (s : Simulator F) (p : Addr) (action : Action F)
    (hp : getPlayerShip s = some p)
    (hb : mapGet (s.mem.ships.cell p).Power.Breakers action.System = none) :
    (handleToggleBreaker s action).1 = s ∧ (handleToggleBreaker s action).2 ≠ none := by
  unfold handleToggleBreaker
  simp only [hp]
  cases action.Value with
  | flag v =>
    simp only [hb]
    exact ⟨trivial, by simp⟩
  | null => exact ⟨rfl, by simp⟩
  | num _ => exact ⟨rfl, by simp⟩
  | str _ => exact ⟨rfl, by simp⟩
  | table _ => exact ⟨rfl, by simp⟩

/-- `handleToggleBreaker` with a value that is not a flag: an error, and
nothing changes. -/
theorem handleToggleBreaker_not_flag (s : Simulator F) (action : Action F)
    (hv : ∀ v, action.Value ≠ ActionValue.flag v) :
    (handleToggleBreaker s action).1 = s := by
  unfold handleToggleBreaker
  split
  · rfl
  · split
    · next v hval => exact absurd hval (hv v)
    · rfl

/-- `handleToggleBreaker` with a flag, on a breaker that the player ship has. -/
theorem handleToggleBreaker_set (s : Simulator F) (p : Addr) (action : Action F) (v : Bool)
    (breaker : Breaker F) (hp : getPlayerShip s = some p)
    (hv : action.Value = ActionValue.flag v)
    (hb : mapGet (s.mem.ships.cell p).Power.Breakers action.System = some breaker) :
    handleToggleBreaker s action =
      (withShip s p (fun sh => { sh with Power := { sh.Power with
        Breakers := mapSet sh.Power.Breakers action.System { breaker with Enabled := v } } }),
        none) := by
  unfold handleToggleBreaker
  simp only [hp, hv, hb]

/-- The handler sees the order of the ship map through `getPlayerShip` only. -/
theorem handleToggleBreaker_rangedAs (s : Simulator F) (p : Addr) (action : Action F)
    (hp : getPlayerShip s = some p) (hone : onlyPlayerShip s p) (o : List (String × Addr))
    (ho : o.Perm (s.mem.shipMaps.cell s.Ships)) :
    handleToggleBreaker (rangedAs s o) action =
      (rangedAs (handleToggleBreaker s action).1 o, (handleToggleBreaker s action).2) := by
  have hp2 := getPlayerShip_rangedAs s p hp hone o ho
  unfold handleToggleBreaker
  simp only [hp, hp2]
  cases action.Value with
  | flag v =>
    simp only
    have hc : (rangedAs s o).mem.ships.cell p = s.mem.ships.cell p := rfl
    rw [hc]
    cases mapGet (s.mem.ships.cell p).Power.Breakers action.System with
    | none => rfl
    | some breaker => rfl
  | null => rfl
  | num _ => rfl
  | str _ => rfl
  | table _ => rfl

/-- The handler keeps the player ship and the registry. -/
theorem handleToggleBreaker_keeps (s : Simulator F) (p : Addr) (action : Action F)
    (hp : getPlayerShip s = some p) (hone : onlyPlayerShip s p) :
    getPlayerShip (handleToggleBreaker s action).1 = some p ∧
    onlyPlayerShip (handleToggleBreaker s action).1 p ∧
    (handleToggleBreaker s action).1.mem.shipMaps.cell (handleToggleBreaker s action).1.Ships
      = s.mem.shipMaps.cell s.Ships := by
  by_cases hv : ∃ v, action.Value = ActionValue.flag v
  · obtain ⟨v, hv⟩ := hv
    cases hb : mapGet (s.mem.ships.cell p).Power.Breakers action.System with
    | none =>
      rw [(handleToggleBreaker_absent s p action hp hb).1]
      exact ⟨hp, hone, rfl⟩
    | some breaker =>
      rw [handleToggleBreaker_set s p action v breaker hp hv hb]
      refine ⟨by rw [getPlayerShip_withShip _ _ _ rfl, hp], ?_, rfl⟩
      intro e he hq
      apply hone e he
      have hflag : ∀ c, ((withShip s p (fun sh => { sh with Power := { sh.Power with
          Breakers := mapSet sh.Power.Breakers action.System
            { breaker with Enabled := v } } })).mem.ships.cell c).IsPlayer
          = (s.mem.ships.cell c).IsPlayer := by
        intro c
        unfold withShip
        simp only [callShip_cell]
        by_cases hcp : c = p
        · rw [if_pos hcp, hcp]
        · rw [if_neg hcp]
      rw [← hflag e.2]
      exact hq
  · rw [handleToggleBreaker_not_flag s action (fun v h => hv ⟨v, h⟩)]
    exact ⟨hp, hone, rfl⟩

/-- Two calls of the handler with one action, on one world, do what one does. -/
theorem handleToggleBreaker_twice (s : Simulator F) (p : Addr) (action : Action F)
    (hp : getPlayerShip s = some p) :
    handleToggleBreaker (handleToggleBreaker s action).1 action = handleToggleBreaker s action := by
  by_cases hv : ∃ v, action.Value = ActionValue.flag v
  · obtain ⟨v, hv⟩ := hv
    cases hb : mapGet (s.mem.ships.cell p).Power.Breakers action.System with
    | none => rw [(handleToggleBreaker_absent s p action hp hb).1]
    | some breaker =>
      rw [handleToggleBreaker_set s p action v breaker hp hv hb]
      have hp2 : getPlayerShip (withShip s p (fun sh => { sh with Power := { sh.Power with
          Breakers := mapSet sh.Power.Breakers action.System
            { breaker with Enabled := v } } })) = some p := by
        rw [getPlayerShip_withShip _ _ _ rfl, hp]
      have hb2 : mapGet ((withShip s p (fun sh => { sh with Power := { sh.Power with
          Breakers := mapSet sh.Power.Breakers action.System
            { breaker with Enabled := v } } })).mem.ships.cell p).Power.Breakers action.System
          = some { breaker with Enabled := v } := by
        rw [withShip_cell]
        exact mapGet_mapSet_same _ _ _
      rw [handleToggleBreaker_set _ p action v _ hp2 hv hb2, withShip_withShip]
      simp only [mapSet_mapSet]
  · rw [handleToggleBreaker_not_flag s action (fun v h => hv ⟨v, h⟩)]

/-- Off, then on, for a breaker that is enabled or that the ship does not have:
the world is the original one. -/
theorem handleToggleBreaker_off_on (s : Simulator F) (p : Addr) (b : String)
    (hp : getPlayerShip s = some p)
    (hb : ∀ breaker, mapGet (s.mem.ships.cell p).Power.Breakers b = some breaker →
      breaker.Enabled = true) :
    (handleToggleBreaker (handleToggleBreaker s (breakerIntent b false)).1
      (breakerIntent b true)).1 = s := by
  cases hget : mapGet (s.mem.ships.cell p).Power.Breakers b with
  | none =>
    rw [(handleToggleBreaker_absent s p (breakerIntent b false) hp hget).1]
    exact (handleToggleBreaker_absent s p (breakerIntent b true) hp hget).1
  | some breaker =>
    have hen := hb breaker hget
    rw [handleToggleBreaker_set s p (breakerIntent b false) false breaker hp rfl hget]
    have hp2 : getPlayerShip (withShip s p (fun sh => { sh with Power := { sh.Power with
        Breakers := mapSet sh.Power.Breakers (breakerIntent b false : Action F).System
          { breaker with Enabled := false } } })) = some p := by
      rw [getPlayerShip_withShip _ _ _ rfl, hp]
    have hb2 : mapGet ((withShip s p (fun sh => { sh with Power := { sh.Power with
        Breakers := mapSet sh.Power.Breakers (breakerIntent b false : Action F).System
          { breaker with Enabled := false } } })).mem.ships.cell p).Power.Breakers
          (breakerIntent b true : Action F).System
        = some { breaker with Enabled := false } := by
      rw [withShip_cell]
      exact mapGet_mapSet_same _ _ _
    rw [handleToggleBreaker_set _ p (breakerIntent b true) true _ hp2 rfl hb2, withShip_withShip]
    have hbr : ({ breaker with Enabled := true } : Breaker F) = breaker := by
      cases breaker
      simp only at hen
      simp only [hen]
    apply withShip_fixed
    have hsys : (breakerIntent b true : Action F).System = b := rfl
    have hsys2 : (breakerIntent b false : Action F).System = b := rfl
    simp only [hsys, hsys2, mapSet_mapSet]
    rw [hbr, mapSet_self _ _ _ hget]

/-- C27. Breaker toggle law. For a world with one player ship, whatever the
order in which each call of the handler ranges over the ship map, and for a
breaker id `b` that is an enabled breaker of the player ship (or no breaker of
it, as on every ship that `NewShip` builds: its breaker map is empty):
the toggle handler applied to `b` with value false and then with value true
leaves the world the original one, every ship in memory included, with no
error from either call when `b` is a breaker; and for every action, applying
the handler twice equals applying it once. -/
theorem toggle_breaker_law (s : Simulator F) (p : Addr) (b : String)
    (hp : getPlayerShip s = some p) (hone : onlyPlayerShip s p)
    (hb : ∀ breaker, mapGet (s.mem.ships.cell p).Power.Breakers b = some breaker →
      breaker.Enabled = true)
    (o1 o2 : List (String × Addr))
    (h1 : o1.Perm (s.mem.shipMaps.cell s.Ships)) (h2 : o2.Perm (s.mem.shipMaps.cell s.Ships)) :
    ((handleToggleBreaker
        (rangedAs (handleToggleBreaker (rangedAs s o1) (breakerIntent b false)).1 o2)
        (breakerIntent b true)).1 = rangedAs s o2 ∧
      (handleToggleBreaker
        (rangedAs (handleToggleBreaker (rangedAs s o1) (breakerIntent b false)).1 o2)
        (breakerIntent b true)).1.mem.ships = s.mem.ships ∧
      (mapGet (s.mem.ships.cell p).Power.Breakers b ≠ none →
        (handleToggleBreaker (rangedAs s o1) (breakerIntent b false)).2 = none ∧
        (handleToggleBreaker
          (rangedAs (handleToggleBreaker (rangedAs s o1) (breakerIntent b false)).1 o2)
          (breakerIntent b true)).2 = none)) ∧
    (∀ action : Action F,
      handleToggleBreaker (rangedAs (handleToggleBreaker (rangedAs s o1) action).1 o2) action
        = handleToggleBreaker (rangedAs s o2) action) := by
  have hstep : ∀ a1 a2 : Action F,
      handleToggleBreaker (rangedAs (handleToggleBreaker (rangedAs s o1) a1).1 o2) a2 =
        (rangedAs (handleToggleBreaker (handleToggleBreaker s a1).1 a2).1 o2,
          (handleToggleBreaker (handleToggleBreaker s a1).1 a2).2) := by
    intro a1 a2
    obtain ⟨k1, k2, k3⟩ := handleToggleBreaker_keeps s p a1 hp hone
    rw [handleToggleBreaker_rangedAs s p a1 hp hone o1 h1]
    simp only [rangedAs_rangedAs]
    exact handleToggleBreaker_rangedAs _ p a2 k1 k2 o2 (by rw [k3]; exact h2)
  refine ⟨?_, ?_⟩
  · have hoff := handleToggleBreaker_off_on s p b hp hb
    refine ⟨?_, ?_, ?_⟩
    · rw [hstep]
      simp only [hoff]
    · rw [hstep]
      simp only [hoff]
      rfl
    · intro hsome
      cases hget : mapGet (s.mem.ships.cell p).Power.Breakers b with
      | none => exact absurd hget hsome
      | some breaker =>
        have e1 := handleToggleBreaker_set s p (breakerIntent b false) false breaker hp rfl hget
        obtain ⟨k1, _, _⟩ := handleToggleBreaker_keeps s p (breakerIntent b false) hp hone
        have hget2 : mapGet ((handleToggleBreaker s (breakerIntent b false)).1.mem.ships.cell
            p).Power.Breakers (breakerIntent b true : Action F).System
            = some { breaker with Enabled := false } := by
          rw [e1, withShip_cell]
          exact mapGet_mapSet_same _ _ _
        have e2 := handleToggleBreaker_set _ p (breakerIntent b true) true _ k1 rfl hget2
        refine ⟨?_, ?_⟩
        · rw [handleToggleBreaker_rangedAs s p _ hp hone o1 h1, e1]
        · rw [hstep, e2]
  · intro action
    rw [hstep, handleToggleBreaker_twice s p action hp,
      handleToggleBreaker_rangedAs s p action hp hone o2 h2]

/-- Witness for C27. In `escortSim`, built by `SpawnShip`, the player ship has
no breaker (no code path fills the breaker map): the handler returns "breaker
not found" at both calls, whichever of the two ships its range statement meets
first, and the world is as it was. In `breakerSim`, where two breakers have
been written into the map, `aux` goes off and on again. -/
theorem toggle_breaker_law_witness :
    getPlayerShip escortSim = some 0 ∧
    escortSim.mem.shipMaps.cell escortSim.Ships = [("player_1", 0), ("escort_1", 1)] ∧
    (escortSim.mem.ships.cell 0).Power.Breakers = [] ∧
    (handleToggleBreaker (rangedAs escortSim [("escort_1", 1), ("player_1", 0)])
      (breakerIntent "main" false)).2 = some "breaker not found: main" ∧
    (handleToggleBreaker
      (rangedAs (handleToggleBreaker (rangedAs escortSim [("escort_1", 1), ("player_1", 0)])
        (breakerIntent "main" false)).1 [("player_1", 0), ("escort_1", 1)])
      (breakerIntent "main" true)).1.mem.ships = escortSim.mem.ships ∧
    handleToggleBreaker
      (rangedAs (handleToggleBreaker (rangedAs escortSim [("escort_1", 1), ("player_1", 0)])
        (breakerIntent "main" true)).1 [("player_1", 0), ("escort_1", 1)])
      (breakerIntent "main" true) =
      handleToggleBreaker (rangedAs escortSim [("player_1", 0), ("escort_1", 1)])
        (breakerIntent "main" true) ∧
    getPlayerShip breakerSim = some 0 ∧
    mapGet (breakerSim.mem.ships.cell 0).Power.Breakers "aux"
      = some ⟨"aux", "shields", true, 10⟩ ∧
    (handleToggleBreaker
      (rangedAs (handleToggleBreaker (rangedAs breakerSim [("player_1", 0)])
        (breakerIntent "aux" false)).1 [("player_1", 0)])
      (breakerIntent "aux" true)).1 = rangedAs breakerSim [("player_1", 0)] := by
  have hp : getPlayerShip escortSim = some 0 := by decide
  have hreg : escortSim.mem.shipMaps.cell escortSim.Ships
      = [("player_1", 0), ("escort_1", 1)] := by decide
  have hnb : (escortSim.mem.ships.cell 0).Power.Breakers = [] := rfl
  have hb : ∀ breaker : Breaker ℚ,
      mapGet (escortSim.mem.ships.cell 0).Power.Breakers "main" = some breaker →
        breaker.Enabled = true := by
    intro breaker h
    rw [hnb] at h
    exact absurd h (by simp [mapGet])
  obtain ⟨⟨_, w2, _⟩, w4⟩ := toggle_breaker_law escortSim 0 "main" hp (by decide) hb
    [("escort_1", 1), ("player_1", 0)] [("player_1", 0), ("escort_1", 1)]
    (by rw [hreg]; decide) (by rw [hreg])
  have hp2 : getPlayerShip breakerSim = some 0 := by decide
  have hreg2 : breakerSim.mem.shipMaps.cell breakerSim.Ships = [("player_1", 0)] := by decide
  have hget2 : mapGet (breakerSim.mem.ships.cell 0).Power.Breakers "aux" =
      some ⟨"aux", "shields", true, 10⟩ := rfl
  have hb2 : ∀ breaker : Breaker ℚ,
      mapGet (breakerSim.mem.ships.cell 0).Power.Breakers "aux" = some breaker →
        breaker.Enabled = true := by
    intro breaker h
    rw [hget2] at h
    rw [← Option.some.inj h]
  obtain ⟨⟨v1, _, _⟩, _⟩ := toggle_breaker_law breakerSim 0 "aux" hp2 (by decide) hb2
    [("player_1", 0)] [("player_1", 0)] (by rw [hreg2]) (by rw [hreg2])
  refine ⟨hp, hreg, hnb, ?_, w2, w4 (breakerIntent "main" true), hp2, hget2, v1⟩
  rw [handleToggleBreaker_rangedAs escortSim 0 _ hp (by decide) _ (by rw [hreg]; decide)]
  exact congrArg Prod.snd
    (show handleToggleBreaker escortSim (breakerIntent "main" false)
      = (escortSim, some "breaker not found: main") from by
        unfold handleToggleBreaker breakerIntent
        simp only [hp]
        rw [hnb]
        rfl)

/-! ## The panel projector: what is found under an indicator key -/

theorem append_left_cancel_str (p a b : String) (h : p ++ a = p ++ b) : a = b := by
  have h2 := congrArg String.data h
  simp only [String.data_append] at h2
  exact String.ext (List.append_cancel_left h2)

theorem append_right_cancel_str (p a b : String) (h : a ++ p = b ++ p) : a = b := by
  have h2 := congrArg String.data h
  simp only [String.data_append] at h2
  exact String.ext (List.append_cancel_right h2)

/-- A loop over the entries of a map that leaves the indicator under `key k`
alone for every entry with another id leaves it alone altogether when `k` is
not among the ids. -/
theorem foldl_indicator_keep {V : Type} (step : PanelState F → String × V → PanelState F)
    (key : String → String)
    (hkeep : ∀ st e k, k ≠ e.1 →
      mapGet (step st e).Indicators (key k) = mapGet st.Indicators (key k))
    (l : List (String × V)) (st : PanelState F) (k : String) (hk : ∀ e ∈ l, k ≠ e.1) :
    mapGet (l.foldl step st).Indicators (key k) = mapGet st.Indicators (key k) := by
  induction l generalizing st with
  | nil => rfl
  | cons e rest ih =>
    rw [List.foldl_cons, ih _ (fun e2 he2 => hk e2 (List.mem_cons_of_mem _ he2)),
      hkeep st e k (hk e (List.mem_cons_self _ _))]

/-- A loop over the entries of a map with distinct ids: the indicator under
`key id` is the one set for the entry `id`. -/
theorem foldl_indicator {V : Type} (step : PanelState F → String × V → PanelState F)
    (key : String → String) (ind : String × V → Indicator F) (sets : String × V → Prop)
    (hset : ∀ st e, sets e → mapGet (step st e).Indicators (key e.1) = some (ind e))
    (hkeep : ∀ st e k, k ≠ e.1 →
      mapGet (step st e).Indicators (key k) = mapGet st.Indicators (key k))
    (l : List (String × V)) (hnd : (mapKeys l).Nodup) (st : PanelState F)
    (e : String × V) (he : e ∈ l) (hs : sets e) :
    mapGet (l.foldl step st).Indicators (key e.1) = some (ind e) := by
  induction l generalizing st with
  | nil => simp at he
  | cons e0 rest ih =>
    simp only [mapKeys, List.map_cons, List.nodup_cons] at hnd
    rw [List.foldl_cons]
    rcases List.mem_cons.mp he with h | h
    · subst h
      rw [foldl_indicator_keep step key hkeep rest _ e.1, hset st e hs]
      intro e2 he2 heq
      apply hnd.1
      rw [heq]
      exact List.mem_map_of_mem Prod.fst he2
    · exact ih hnd.2 _ h

theorem colourFor_eq (p : F) :
    (if p < 25 then "red" else if p < 50 then "yellow" else "green") = colourFor p := by
  unfold colourFor
  by_cases h1 : p < 25
  · rw [if_pos h1, if_pos h1]
  · rw [if_neg h1, if_neg h1]
    by_cases h2 : p < 50
    · rw [if_pos h2, if_pos ⟨not_lt.mp h1, h2⟩]
    · rw [if_neg h2, if_neg (fun h => h2 h.2)]

theorem setDisplay_Indicators (st : PanelState F) (k : String) (d : Display F) :
    (setDisplay st k d).Indicators = st.Indicators := rfl

theorem setIndicator_Indicators (st : PanelState F) (k : String) (i : Indicator F) :
    (setIndicator st k i).Indicators = mapSet st.Indicators k i := rfl

/-- A loop that only sets displays keeps the indicators. -/
theorem foldl_keeps_Indicators {V : Type} (step : PanelState F → String × V → PanelState F)
    (h : ∀ st e, (step st e).Indicators = st.Indicators) (l : List (String × V))
    (st : PanelState F) : (l.foldl step st).Indicators = st.Indicators := by
  induction l generalizing st with
  | nil => rfl
  | cons e rest ih => rw [List.foldl_cons, ih, h]

theorem UpdateFromShip_state (psm : PanelStateManager F) (panelID : String) (sh : Ship F)
    (t : F) : (UpdateFromShip psm panelID sh t).2 =
      projectPanel panelID ⟨panelID, [], [], t⟩ sh := rfl

theorem hullPanelStep_set (st : PanelState F) (e : String × HullSection F) :
    mapGet (hullPanelStep st e).Indicators ("hull_" ++ e.1) =
      some ⟨"led", PanelValue.flag true, colourFor (e.2.Health / e.2.MaxHealth * 100),
        e.2.OnFire || e.2.Breached⟩ := by
  have h2 : "hull_" ++ e.1 ≠ "fire_" ++ e.1 := by
    intro h
    have := congrArg String.data h
    simp [String.data_append] at this
  have h3 : "hull_" ++ e.1 ≠ "breach_" ++ e.1 := by
    intro h
    have := congrArg String.data h
    simp [String.data_append] at this
  unfold hullPanelStep
  simp only [colourFor_eq]
  split <;> split <;>
    simp only [setIndicator_Indicators, setDisplay_Indicators, mapGet_mapSet_ne _ _ _ _ h2,
      mapGet_mapSet_ne _ _ _ _ h3, mapGet_mapSet_same]

theorem hullPanelStep_keep (st : PanelState F) (e : String × HullSection F) (k : String)
    (hk : k ≠ e.1) :
    mapGet (hullPanelStep st e).Indicators ("hull_" ++ k) = mapGet st.Indicators ("hull_" ++ k) := by
  have h1 : "hull_" ++ k ≠ "hull_" ++ e.1 := fun h => hk (append_left_cancel_str _ _ _ h)
  have h2 : "hull_" ++ k ≠ "fire_" ++ e.1 := by
    intro h
    have := congrArg String.data h
    simp [String.data_append] at this
  have h3 : "hull_" ++ k ≠ "breach_" ++ e.1 := by
    intro h
    have := congrArg String.data h
    simp [String.data_append] at this
  unfold hullPanelStep
  simp only
  split <;> split <;>
    simp only [setIndicator_Indicators, setDisplay_Indicators, mapGet_mapSet_ne _ _ _ _ h1,
      mapGet_mapSet_ne _ _ _ _ h2, mapGet_mapSet_ne _ _ _ _ h3]

/-- The indicator `hull_<id>` of the panel `engineer_damage_main`. -/
theorem hull_indicator (st : PanelState F) (sh : Ship F)
    (hnd : (mapKeys sh.Hull.Sections).Nodup) (id : String) (sec : HullSection F)
    (hmem : (id, sec) ∈ sh.Hull.Sections) :
    mapGet (updateEngineerDamagePanel st sh).Indicators ("hull_" ++ id) =
      some ⟨"led", PanelValue.flag true, colourFor (sec.Health / sec.MaxHealth * 100),
        sec.OnFire || sec.Breached⟩ := by
  unfold updateEngineerDamagePanel
  rw [foldl_keeps_Indicators compartmentPanelStep (fun _ _ => rfl)]
  exact foldl_indicator hullPanelStep (fun k => "hull_" ++ k)
    (fun e => ⟨"led", PanelValue.flag true, colourFor (e.2.Health / e.2.MaxHealth * 100),
      e.2.OnFire || e.2.Breached⟩) (fun _ => True)
    (fun st e _ => hullPanelStep_set st e) hullPanelStep_keep _ hnd st (id, sec) hmem trivial

/-- A loop that never touches the indicator under `key0` keeps it. -/
theorem foldl_indicator_const {V : Type} (step : PanelState F → String × V → PanelState F)
    (key0 : String)
    (h : ∀ st e, mapGet (step st e).Indicators key0 = mapGet st.Indicators key0)
    (l : List (String × V)) (st : PanelState F) :
    mapGet (l.foldl step st).Indicators key0 = mapGet st.Indicators key0 := by
  induction l generalizing st with
  | nil => rfl
  | cons e rest ih => rw [List.foldl_cons, ih, h]

/-- The indicator `engine_<id>` of the panel `engineer_systems`. -/
theorem engine_indicator (st : PanelState F) (sh : Ship F)
    (hnd : (mapKeys sh.Engines).Nodup) (id : String) (engine : Engine F)
    (hmem : (id, engine) ∈ sh.Engines) :
    mapGet (updateEngineerSystemsPanel st sh).Indicators ("engine_" ++ id) =
      some ⟨"led", PanelValue.flag engine.Enabled,
        colourFor (engine.Health / engine.MaxHealth * 100), engine.OnFire⟩ := by
  unfold updateEngineerSystemsPanel
  refine foldl_indicator enginePanelStep (fun k => "engine_" ++ k)
    (fun e => ⟨"led", PanelValue.flag e.2.Enabled,
      colourFor (e.2.Health / e.2.MaxHealth * 100), e.2.OnFire⟩) (fun _ => True)
    ?_ ?_ _ hnd st (id, engine) hmem trivial
  · intro st e _
    unfold enginePanelStep
    simp only [colourFor_eq, setIndicator_Indicators, setDisplay_Indicators, mapGet_mapSet_same]
  · intro st e k hk
    have h1 : "engine_" ++ k ≠ "engine_" ++ e.1 := fun h => hk (append_left_cancel_str _ _ _ h)
    unfold enginePanelStep
    simp only [setIndicator_Indicators, setDisplay_Indicators, mapGet_mapSet_ne _ _ _ _ h1]

/-- The indicator `phaser_<id>` of the panel `weapons_phasers`. -/
theorem phaser_indicator (st : PanelState F) (sh : Ship F)
    (hnd : (mapKeys sh.Weapons).Nodup) (id : String) (weapon : Weapon F)
    (hmem : (id, weapon) ∈ sh.Weapons) (htype : weapon.Type_ = "phaser") :
    mapGet (updateWeaponsPhasersPanel st sh).Indicators ("phaser_" ++ id) =
      some ⟨"led", PanelValue.flag (weapon.Enabled && decide (weapon.Health > 0)),
        colourFor (weapon.Health / weapon.MaxHealth * 100), decide (weapon.Cooldown > 0)⟩ := by
  unfold updateWeaponsPhasersPanel
  rw [setDisplay_Indicators]
  refine foldl_indicator phaserPanelStep (fun k => "phaser_" ++ k)
    (fun e => ⟨"led", PanelValue.flag (e.2.Enabled && decide (e.2.Health > 0)),
      colourFor (e.2.Health / e.2.MaxHealth * 100), decide (e.2.Cooldown > 0)⟩)
    (fun e => e.2.Type_ = "phaser") ?_ ?_ _ hnd st (id, weapon) hmem htype
  · intro st e he
    unfold phaserPanelStep
    rw [if_neg (not_not.mpr he)]
    simp only [colourFor_eq, setIndicator_Indicators, setDisplay_Indicators, mapGet_mapSet_same]
  · intro st e k hk
    have h1 : "phaser_" ++ k ≠ "phaser_" ++ e.1 := fun h => hk (append_left_cancel_str _ _ _ h)
    unfold phaserPanelStep
    split
    · rfl
    · simp only [setIndicator_Indicators, setDisplay_Indicators, mapGet_mapSet_ne _ _ _ _ h1]

/-- The indicator `shield_<id>_status` of the panel `operations_power`. -/
theorem shield_indicator (st : PanelState F) (sh : Ship F)
    (hnd : (mapKeys sh.Shields.Emitters).Nodup) (id : String) (emitter : ShieldEmitter F)
    (hmem : (id, emitter) ∈ sh.Shields.Emitters) :
    mapGet (updateOperationsPowerPanel st sh).Indicators ("shield_" ++ id ++ "_status") =
      some ⟨"led", PanelValue.flag true,
        colourFor (emitter.Strength / emitter.MaxStrength * 100), false⟩ := by
  unfold updateOperationsPowerPanel
  refine foldl_indicator shieldPanelStep (fun k => "shield_" ++ k ++ "_status")
    (fun e => ⟨"led", PanelValue.flag true,
      colourFor (e.2.Strength / e.2.MaxStrength * 100), false⟩) (fun _ => True)
    ?_ ?_ _ hnd _ (id, emitter) hmem trivial
  · intro st e _
    unfold shieldPanelStep
    simp only [colourFor_eq, setIndicator_Indicators, setDisplay_Indicators, mapGet_mapSet_same]
  · intro st e k hk
    have h1 : "shield_" ++ k ++ "_status" ≠ "shield_" ++ e.1 ++ "_status" :=
      fun h => hk (append_left_cancel_str _ _ _ (append_right_cancel_str _ _ _ h))
    unfold shieldPanelStep
    simp only [setIndicator_Indicators, setDisplay_Indicators, mapGet_mapSet_ne _ _ _ _ h1]

/-- The indicator `system_<id>` of the panel `first_officer_main`. -/
theorem system_indicator (st : PanelState F) (sh : Ship F)
    (hnd : (mapKeys sh.Subsystems).Nodup) (id : String) (subsystem : Subsystem F)
    (hmem : (id, subsystem) ∈ sh.Subsystems) :
    mapGet (updateFirstOfficerMainPanel st sh).Indicators ("system_" ++ id) =
      some ⟨"led", PanelValue.flag subsystem.Enabled,
        colourFor (subsystem.Health / subsystem.MaxHealth * 100), subsystem.OnFire⟩ := by
  unfold updateFirstOfficerMainPanel
  refine foldl_indicator systemPanelStep (fun k => "system_" ++ k)
    (fun e => ⟨"led", PanelValue.flag e.2.Enabled,
      colourFor (e.2.Health / e.2.MaxHealth * 100), e.2.OnFire⟩) (fun _ => True)
    ?_ ?_ _ hnd st (id, subsystem) hmem trivial
  · intro st e _
    unfold systemPanelStep
    simp only [colourFor_eq, setIndicator_Indicators, setDisplay_Indicators, mapGet_mapSet_same]
  · intro st e k hk
    have h1 : "system_" ++ k ≠ "system_" ++ e.1 := fun h => hk (append_left_cancel_str _ _ _ h)
    unfold systemPanelStep
    simp only [setIndicator_Indicators, setDisplay_Indicators, mapGet_mapSet_ne _ _ _ _ h1]

/-- The indicator `crew_<role>` of the panel `captain_command`. -/
theorem crew_indicator (st : PanelState F) (sh : Ship F)
    (hnd : (mapKeys sh.Crew).Nodup) (role : String) (crew : CrewMember F)
    (hmem : (role, crew) ∈ sh.Crew) :
    mapGet (updateCaptainCommandPanel st sh).Indicators ("crew_" ++ role) =
      some ⟨"led", PanelValue.flag (decide (crew.Health > 0)), colourFor crew.Health,
        decide (crew.Status ≠ "healthy")⟩ := by
  unfold updateCaptainCommandPanel
  refine foldl_indicator crewPanelStep (fun k => "crew_" ++ k)
    (fun e => ⟨"led", PanelValue.flag (decide (e.2.Health > 0)), colourFor e.2.Health,
      decide (e.2.Status ≠ "healthy")⟩) (fun _ => True)
    ?_ ?_ _ hnd _ (role, crew) hmem trivial
  · intro st e _
    unfold crewPanelStep
    simp only [colourFor_eq, setIndicator_Indicators, mapGet_mapSet_same]
  · intro st e k hk
    have h1 : "crew_" ++ k ≠ "crew_" ++ e.1 := fun h => hk (append_left_cancel_str _ _ _ h)
    unfold crewPanelStep
    simp only [setIndicator_Indicators, mapGet_mapSet_ne _ _ _ _ h1]

/-- The indicator `power_status` of the panel `engineer_power_main`. -/
theorem power_indicator (st : PanelState F) (sh : Ship F) :
    mapGet (updateEngineerPowerPanel st sh).Indicators "power_status" =
      some ⟨"led", PanelValue.flag true,
        colourFor (sh.Power.CurrentCapacity / sh.Power.MaxCapacity * 100),
        decide (sh.Power.CurrentCapacity / sh.Power.MaxCapacity * 100 < 15)⟩ := by
  unfold updateEngineerPowerPanel
  simp only
  rw [foldl_indicator_const breakerPanelStep "power_status"]
  · simp only [colourFor_eq, setIndicator_Indicators, mapGet_mapSet_same]
  · intro st e
    have h1 : "power_status" ≠ "breaker_" ++ e.1 := by
      intro h
      have := congrArg String.data h
      simp [String.data_append] at this
    unfold breakerPanelStep
    simp only [setIndicator_Indicators, setDisplay_Indicators, mapGet_mapSet_ne _ _ _ _ h1]

/-- The indicator `comms_online` of the panel `comms_main`. -/
theorem comms_indicator (st : PanelState F) (sh : Ship F) (comms : Subsystem F)
    (hget : mapGet sh.Subsystems "comms" = some comms) :
    mapGet (updateCommsMainPanel st sh).Indicators "comms_online" =
      some ⟨"led",
        PanelValue.flag (comms.Enabled && decide (comms.Health / comms.MaxHealth * 100 > 0)),
        colourFor (comms.Health / comms.MaxHealth * 100), false⟩ := by
  unfold updateCommsMainPanel
  simp only [hget, colourFor_eq, setIndicator_Indicators, mapGet_mapSet_same]

/-- The indicator `sensors_online` of the panel `relay_sensors`. -/
theorem sensors_indicator (st : PanelState F) (sh : Ship F) (sensors : Subsystem F)
    (hget : mapGet sh.Subsystems "sensors" = some sensors) :
    mapGet (updateRelaySensorsPanel st sh).Indicators "sensors_online" =
      some ⟨"led",
        PanelValue.flag (sensors.Enabled && decide (sensors.Health / sensors.MaxHealth * 100 > 0)),
        colourFor (sensors.Health / sensors.MaxHealth * 100), false⟩ := by
  unfold updateRelaySensorsPanel
  simp only [hget, colourFor_eq, setIndicator_Indicators, mapGet_mapSet_same]

/-- C28. Panel colour mapping: every indicator that a panel projection colours
by a health, strength or power percentage `p` (the nine indicator families of
the panels) has the colour `colourFor p`: red if `p < 25`, yellow if
`25 ≤ p < 50`, green otherwise, for every ship with max values above 0 (the
keys of each Go map being distinct). -/
theorem panel_colour_mapping (psm : PanelStateManager F) (sh : Ship F) (t : F)
    (hsections : (mapKeys sh.Hull.Sections).Nodup) (hengines : (mapKeys sh.Engines).Nodup)
    (hweapons : (mapKeys sh.Weapons).Nodup)
    (hemitters : (mapKeys sh.Shields.Emitters).Nodup)
    (hsubsystems : (mapKeys sh.Subsystems).Nodup) (hcrew : (mapKeys sh.Crew).Nodup) :
    (∀ id sec, mapGet sh.Hull.Sections id = some sec → 0 < sec.MaxHealth →
      indicatorColour (UpdateFromShip psm "engineer_damage_main" sh t).2 ("hull_" ++ id) =
        some (colourFor (sec.Health / sec.MaxHealth * 100))) ∧
    (∀ id engine, mapGet sh.Engines id = some engine → 0 < engine.MaxHealth →
      indicatorColour (UpdateFromShip psm "engineer_systems" sh t).2 ("engine_" ++ id) =
        some (colourFor (engine.Health / engine.MaxHealth * 100))) ∧
    (∀ id weapon, mapGet sh.Weapons id = some weapon → weapon.Type_ = "phaser" →
      0 < weapon.MaxHealth →
      indicatorColour (UpdateFromShip psm "weapons_phasers" sh t).2 ("phaser_" ++ id) =
        some (colourFor (weapon.Health / weapon.MaxHealth * 100))) ∧
    (∀ id emitter, mapGet sh.Shields.Emitters id = some emitter → 0 < emitter.MaxStrength →
      indicatorColour (UpdateFromShip psm "operations_power" sh t).2
          ("shield_" ++ id ++ "_status") =
        some (colourFor (emitter.Strength / emitter.MaxStrength * 100))) ∧
    (∀ id subsystem, mapGet sh.Subsystems id = some subsystem → 0 < subsystem.MaxHealth →
      indicatorColour (UpdateFromShip psm "first_officer_main" sh t).2 ("system_" ++ id) =
        some (colourFor (subsystem.Health / subsystem.MaxHealth * 100))) ∧
    (∀ comms, mapGet sh.Subsystems "comms" = some comms → 0 < comms.MaxHealth →
      indicatorColour (UpdateFromShip psm "comms_main" sh t).2 "comms_online" =
        some (colourFor (comms.Health / comms.MaxHealth * 100))) ∧
    (∀ sensors, mapGet sh.Subsystems "sensors" = some sensors → 0 < sensors.MaxHealth →
      indicatorColour (UpdateFromShip psm "relay_sensors" sh t).2 "sensors_online" =
        some (colourFor (sensors.Health / sensors.MaxHealth * 100))) ∧
    (∀ role crew, mapGet sh.Crew role = some crew →
      indicatorColour (UpdateFromShip psm "captain_command" sh t).2 ("crew_" ++ role) =
        some (colourFor crew.Health)) ∧
    (0 < sh.Power.MaxCapacity →
      indicatorColour (UpdateFromShip psm "engineer_power_main" sh t).2 "power_status" =
        some (colourFor (sh.Power.CurrentCapacity / sh.Power.MaxCapacity * 100))) := by
  refine ⟨?_, ?_, ?_, ?_, ?_, ?_, ?_, ?_, ?_⟩
  · intro id sec hget _
    have h : (UpdateFromShip psm "engineer_damage_main" sh t).2 =
        updateEngineerDamagePanel ⟨"engineer_damage_main", [], [], t⟩ sh := rfl
    rw [h, indicatorColour, hull_indicator _ sh hsections id sec (mem_of_mapGet _ _ _ hget)]
    rfl
  · intro id engine hget _
    have h : (UpdateFromShip psm "engineer_systems" sh t).2 =
        updateEngineerSystemsPanel ⟨"engineer_systems", [], [], t⟩ sh := rfl
    rw [h, indicatorColour, engine_indicator _ sh hengines id engine (mem_of_mapGet _ _ _ hget)]
    rfl
  · intro id weapon hget htype _
    have h : (UpdateFromShip psm "weapons_phasers" sh t).2 =
        updateWeaponsPhasersPanel ⟨"weapons_phasers", [], [], t⟩ sh := rfl
    rw [h, indicatorColour,
      phaser_indicator _ sh hweapons id weapon (mem_of_mapGet _ _ _ hget) htype]
    rfl
  · intro id emitter hget _
    have h : (UpdateFromShip psm "operations_power" sh t).2 =
        updateOperationsPowerPanel ⟨"operations_power", [], [], t⟩ sh := rfl
    rw [h, indicatorColour,
      shield_indicator _ sh hemitters id emitter (mem_of_mapGet _ _ _ hget)]
    rfl
  · intro id subsystem hget _
    have h : (UpdateFromShip psm "first_officer_main" sh t).2 =
        updateFirstOfficerMainPanel ⟨"first_officer_main", [], [], t⟩ sh := rfl
    rw [h, indicatorColour,
      system_indicator _ sh hsubsystems id subsystem (mem_of_mapGet _ _ _ hget)]
    rfl
  · intro comms hget _
    have h : (UpdateFromShip psm "comms_main" sh t).2 =
        updateCommsMainPanel ⟨"comms_main", [], [], t⟩ sh := rfl
    rw [h, indicatorColour, comms_indicator _ sh comms hget]
    rfl
  · intro sensors hget _
    have h : (UpdateFromShip psm "relay_sensors" sh t).2 =
        updateRelaySensorsPanel ⟨"relay_sensors", [], [], t⟩ sh := rfl
    rw [h, indicatorColour, sensors_indicator _ sh sensors hget]
    rfl
  · intro role crew hget
    have h : (UpdateFromShip psm "captain_command" sh t).2 =
        updateCaptainCommandPanel ⟨"captain_command", [], [], t⟩ sh := rfl
    rw [h, indicatorColour, crew_indicator _ sh hcrew role crew (mem_of_mapGet _ _ _ hget)]
    rfl
  · intro _
    have h : (UpdateFromShip psm "engineer_power_main" sh t).2 =
        updateEngineerPowerPanel ⟨"engineer_power_main", [], [], t⟩ sh := rfl
    rw [h, indicatorColour, power_indicator]
    rfl

/-- Witness for C28: on a fresh player ship with its energy store at 100 %
the hull indicator of section `forward` has the colour of 500 / 500 * 100. -/
theorem panel_colour_mapping_witness :
    indicatorColour (UpdateFromShip NewPanelStateManager "engineer_damage_main"
        panelTestShip 0).2 ("hull_" ++ "forward") = some (colourFor ((500 : ℚ) / 500 * 100)) :=
  (panel_colour_mapping NewPanelStateManager panelTestShip 0 (by decide) (by decide)
    (by decide) (by decide) (by decide) (by decide)).1 "forward"
    ⟨"forward", 200, 200, 500, 500, false, false⟩ rfl (by norm_num)

/-- The projections of the phaser and of the shield emitter do not read the
flag `OnFire`: on `burningShip`, a state that no code path builds (phaser and
emitter on fire, phaser cooldown 0), the status indicator `phaser_phaser_1` of
the panel `weapons_phasers` and the status indicator `shield_forward_status` of
the panel `operations_power` both have blink = false. -/
theorem blink_ignores_fire :
    (mapGet burningShip.Weapons "phaser_1").map
        (fun w => (w.Type_, w.OnFire, decide (w.Cooldown > 0))) = some ("phaser", true, false) ∧
    indicatorBlink (UpdateFromShip NewPanelStateManager "weapons_phasers" burningShip 0).2
        ("phaser_" ++ "phaser_1") = some false ∧
    (mapGet burningShip.Shields.Emitters "forward").map (fun e => e.OnFire) = some true ∧
    indicatorBlink (UpdateFromShip NewPanelStateManager "operations_power" burningShip 0).2
        ("shield_" ++ "forward" ++ "_status") = some false := by
  refine ⟨?_, ?_, rfl, ?_⟩
  · simp [burningShip, panelTestShip, NewShip, panelTestClass, mapValues, mapSet, mapGet]
  · have h : (UpdateFromShip NewPanelStateManager "weapons_phasers" burningShip 0).2 =
        updateWeaponsPhasersPanel ⟨"weapons_phasers", [], [], 0⟩ burningShip := rfl
    rw [h, indicatorBlink,
      phaser_indicator _ burningShip (by decide) "phaser_1" _ (mem_of_mapGet _ _ _ rfl) rfl]
    simp [burningShip, panelTestShip, NewShip, panelTestClass, mapValues, mapSet]
  · have h : (UpdateFromShip NewPanelStateManager "operations_power" burningShip 0).2 =
        updateOperationsPowerPanel ⟨"operations_power", [], [], 0⟩ burningShip := rfl
    rw [h, indicatorBlink,
      shield_indicator _ burningShip (by decide) "forward" _ (mem_of_mapGet _ _ _ rfl)]
    rfl

/-- Running a step of the interpreter leaves the pointer `active` alone. -/
theorem run_active (e : mission.Engine F) (step : ScriptWorld F → ScriptWorld F × ScriptExit) :
    (e.run step).1.active = e.active := by
  unfold mission.Engine.run
  cases e.L with
  | none => rfl
  | some l =>
    cases h : e.active with
    | none => simp [h]
    | some a => simp [h]

/-- Running a step of the interpreter leaves the map `missions` alone. -/
theorem run_missions (e : mission.Engine F)
    (step : ScriptWorld F → ScriptWorld F × ScriptExit) :
    (e.run step).1.missions = e.missions := by
  unfold mission.Engine.run
  cases e.L with
  | none => rfl
  | some l =>
    cases h : e.active with
    | none => rfl
    | some a => rfl

/-- Registering the API leaves the pointer `active` alone. -/
theorem registerAPI_active (e : mission.Engine F) : (registerAPI e).active = e.active := by
  unfold registerAPI
  cases e.L <;> rfl

/-- `StartMission` with an id that is not loaded. -/
theorem StartMission_not_found (lua : Interpreter F) (e : mission.Engine F)
    (missionID : String) (hget : mapGet e.missions missionID = none) :
    mission.Engine.StartMission lua e missionID =
      (e, some ("mission not found: " ++ missionID)) := by
  unfold mission.Engine.StartMission
  rw [hget]

/-- `StartMission` with a loaded id: the mission becomes the active one, and
an error is returned exactly when the script fails to execute. -/
theorem StartMission_found (lua : Interpreter F) (e : mission.Engine F)
    (missionID : String) (m : Addr) (hget : mapGet e.missions missionID = some m) :
    (mission.Engine.StartMission lua e missionID).1.active = some m ∧
    ((mission.Engine.StartMission lua e missionID).2 = none ∨
      ∃ err, (mission.Engine.StartMission lua e missionID).2 =
        some ("executing mission script: " ++ err)) := by
  unfold mission.Engine.StartMission
  rw [hget]
  simp only
  split
  · next e2 err heq =>
    have h := congrArg (fun r => r.1.active) heq
    simp only [run_active, registerAPI_active] at h
    exact ⟨h.symm, Or.inr ⟨err, rfl⟩⟩
  · next e2 heq =>
    have h := congrArg (fun r => r.1.active) heq
    simp only [run_active, registerAPI_active] at h
    exact ⟨h.symm, Or.inl rfl⟩
  · next e2 heq =>
    have h := congrArg (fun r => r.1.active) heq
    simp only [run_active, registerAPI_active] at h
    exact ⟨by rw [run_active]; exact h.symm, Or.inl rfl⟩

/-- C30. With a mission active, the claim has `StartMission(id)` for a loaded
mission id return an error and leave the active mission as it is. On the engine
whose mission `tutorial` is active (pointer 0, interpreter state not nil),
`StartMission("patrol")` for the loaded mission `patrol` returns nil and makes
`patrol` (pointer 1) the active mission: `StartMission` does not look at
`e.active`, and puts a new interpreter state in `e.L` where `StopMission` closes
the old one first. -/
theorem StartMission_replaces_active :
    activeEngine.active = some 0 ∧ activeEngine.L ≠ none ∧
    mapGet activeEngine.missions "patrol" = some 1 ∧
    (mission.Engine.StartMission quietLua activeEngine "patrol").2 = none ∧
    (mission.Engine.StartMission quietLua activeEngine "patrol").1.active = some 1 ∧
    (mission.Engine.StopMission activeEngine).L = none := by
  refine ⟨rfl, by decide, rfl, rfl, rfl, rfl⟩

/-- C36. The adjacency of `getAdjacentLocations` is not symmetric: `forward`
is adjacent to `dorsal`, `ventral` and `weapons_bay`, and none of the three is
adjacent to `forward`; `aft` is adjacent to `dorsal` and `ventral`, and
neither is adjacent to `aft`. -/
theorem getAdjacentLocations_not_symmetric :
    getAdjacentLocations "forward" = ["port", "starboard", "bridge"] ∧
    getAdjacentLocations "aft" = ["port", "starboard", "engineering"] ∧
    "forward" ∈ getAdjacentLocations "dorsal" ∧
    "dorsal" ∉ getAdjacentLocations "forward" ∧
    "forward" ∈ getAdjacentLocations "ventral" ∧
    "ventral" ∉ getAdjacentLocations "forward" ∧
    "forward" ∈ getAdjacentLocations "weapons_bay" ∧
    "weapons_bay" ∉ getAdjacentLocations "forward" ∧
    "aft" ∈ getAdjacentLocations "dorsal" ∧ "dorsal" ∉ getAdjacentLocations "aft" ∧
    "aft" ∈ getAdjacentLocations "ventral" ∧ "ventral" ∉ getAdjacentLocations "aft" := by
  decide

/-- C37. A subsystem at health 20 that the overload draw selects ends at
health 0 and is still enabled. -/
theorem causeSystemOverload_zero_health_enabled :
    (mapGet overloadTestShip.Subsystems "sensors").map (fun b => (b.Health, b.Enabled)) =
      some (20, true) ∧
    (mapGet (causeSystemOverload (fun _ => 0) overloadTestShip 0).1.Subsystems "sensors").map
      (fun b => (b.Health, b.Enabled)) = some (0, true) := by
  constructor
  · rfl
  · simp [causeSystemOverload, overloadLoop, overloadSubsystem, overloadTestShip, NewShip,
      overloadTestClass, mapSet, mapGet]

/-- C38. `ApplyDamage(100, "bridge", "collision")` brings the hull section
`bridge` from health 100, not breached, to health 0 and breached, and the
life-support compartment `bridge` is not marked breached. -/
theorem ApplyDamage_breach_not_cascaded :
    (mapGet bridgeHullShip.Hull.Sections "bridge").map (fun c => (c.Health, c.Breached)) =
      some (100, false) ∧
    (mapGet (ApplyDamage (fun _ => 1) bridgeHullShip 0 100 "bridge"
      "collision").state.1.Hull.Sections "bridge").map (fun c => (c.Health, c.Breached)) =
      some (0, true) ∧
    (mapGet (ApplyDamage (fun _ => 1) bridgeHullShip 0 100 "bridge"
      "collision").state.1.LifeSupport.Compartments "bridge").map (fun c => c.Breached) =
      some false := by
  have h : ApplyDamage (fun _ => 1) bridgeHullShip 0 100 "bridge" "collision" =
      Outcome.done (TakeDamage bridgeHullShip 100 "bridge", 0) := by
    simp [ApplyDamage, checkCascadingFailures, TakeDamage, damageHull, damageSection,
      defaultLocation, bridgeHullShip, NewShip, bridgeHullClass, mapSet, mapGet]
  refine ⟨rfl, ?_, ?_⟩
  · rw [h]
    simp [Outcome.state, TakeDamage, damageHull, damageSection,
      defaultLocation, bridgeHullShip, NewShip, bridgeHullClass, mapSet, mapGet]
  · rw [h]
    simp [Outcome.state, TakeDamage, damageHull, damageSection,
      defaultLocation, bridgeHullShip, NewShip, bridgeHullClass, mapSet, mapGet,
      compartmentNames]

/-- C39. `ApplyDamage(10, "bridge", "kinetic")` on the ship of `TestShipDamage`,
which has no hull section `bridge`, panics in `startFire` when the fire draw
is below 0.3; and with the section `forward` on fire, `ApplyDamage(10,
"forward", "collision")` panics when the first spread draw is below 0.1, in
`startFire("port")`. -/
theorem ApplyDamage_panics :
    mapGet damageTestShip.Hull.Sections "bridge" = none ∧
    ApplyDamage (fun _ => 0) damageTestShip 0 10 "bridge" "kinetic" =
      Outcome.panicked (damageTestShip, 1) ∧
    (∃ r, startFire damageTestShip "forward" = Outcome.done r ∧
      ∃ r2, ApplyDamage (fun _ => 0) r 0 10 "forward" "collision" = Outcome.panicked r2) := by
  refine ⟨rfl, ?_, ?_⟩
  · simp [ApplyDamage, applyKineticDamage, startFire, TakeDamage, damageHull,
      defaultLocation, damageTestShip, NewShip, damageTestClass, mapSet, mapGet]
  · refine ⟨_, rfl, ?_⟩
    simp [ApplyDamage, checkCascadingFailures, spreadFire, getAdjacentLocations, startFire,
      TakeDamage, damageHull, damageSection, defaultLocation, damageTestShip, NewShip,
      damageTestClass, mapSet, mapGet, compartmentNames]

/-- C32. After `SpawnShip` of the AI ship `ai_1`, `CreateSnapshot`,
`RemoveShip("ai_1")` and `RestoreSnapshot(0)` the live registry holds the AI
ship `ai_1` and there is no AI controller; after `SpawnShip` of an AI ship and
of a player ship under the same id there is an AI controller and no AI
ship. -/
theorem controllers_not_one_per_ai_ship :
    aiShipIds restoredAISim = ["ai_1"] ∧ controllerIds restoredAISim = [] ∧
    aiShipIds respawnedSim = [] ∧ controllerIds respawnedSim = ["ship_1"] := by
  decide

/-- Every entry of a map filled by a loop of `m[key c] = val c` was in the map
before or is made from an element of the list. -/
theorem mem_foldl_mapSet {C V : Type} (key : C → String) (val : C → V)
    (l : List C) (acc : List (String × V)) (e : String × V)
    (he : e ∈ l.foldl (fun m c => mapSet m (key c) (val c)) acc) :
    e ∈ acc ∨ ∃ c ∈ l, e = (key c, val c) := by
  induction l generalizing acc with
  | nil => exact Or.inl he
  | cons c rest ih =>
    rw [List.foldl_cons] at he
    rcases ih _ he with h | ⟨c2, hc2, h⟩
    · rcases mem_mapSet acc (key c) (val c) e h with h2 | h2
      · exact Or.inl h2
      · exact Or.inr ⟨c, List.mem_cons_self _ _, h2⟩
    · exact Or.inr ⟨c2, List.mem_cons_of_mem _ hc2, h⟩

/-- The registry and the new ship after `SpawnShip` with a known class. -/
theorem SpawnShip_known (s : Simulator F) (id classID name : String) (isPlayer : Bool)
    (position : Vector3 F) (cls : ShipClass F) (hcls : mapGet s.ShipClasses classID = some cls) :
    (SpawnShip s id classID name isPlayer position).mem.shipMaps.cell
        (SpawnShip s id classID name isPlayer position).Ships =
      mapSet (s.mem.shipMaps.cell s.Ships) id s.mem.ships.next ∧
    (SpawnShip s id classID name isPlayer position).mem.ships =
      s.mem.ships.alloc { NewShip id classID name cls isPlayer with Position := position } := by
  unfold SpawnShip
  rw [hcls]
  simp only [Heap.write, Function.update_same]
  exact ⟨trivial, trivial⟩

/-- C31. `SpawnShip` with a class id present in `ShipClasses`: afterwards
`GetShip(id)` is a ship with the given id, class id, name, player flag and
position, zero velocity and identity rotation, whose engines, weapons,
emitters, hull sections and subsystems each come from an entry of the class
with health (and strength, armor, ammo count) at the configured maximum; every
other id maps to the same pointer, and to the same ship, as before. -/
theorem SpawnShip_spec (s : Simulator F) (hwf : s.WF) (id classID name : String)
    (isPlayer : Bool) (position : Vector3 F) (cls : ShipClass F)
    (hcls : mapGet s.ShipClasses classID = some cls) :
    (∃ a, GetShip (SpawnShip s id classID name isPlayer position) id = some a ∧
      ((SpawnShip s id classID name isPlayer position).mem.ships.cell a).ID = id ∧
      ((SpawnShip s id classID name isPlayer position).mem.ships.cell a).ClassID = classID ∧
      ((SpawnShip s id classID name isPlayer position).mem.ships.cell a).Name = name ∧
      ((SpawnShip s id classID name isPlayer position).mem.ships.cell a).IsPlayer = isPlayer ∧
      ((SpawnShip s id classID name isPlayer position).mem.ships.cell a).Position = position ∧
      ((SpawnShip s id classID name isPlayer position).mem.ships.cell a).Velocity = ⟨0, 0, 0⟩ ∧
      ((SpawnShip s id classID name isPlayer position).mem.ships.cell a).Rotation
        = ⟨1, 0, 0, 0⟩ ∧
      (∀ e ∈ ((SpawnShip s id classID name isPlayer position).mem.ships.cell a).Engines,
        ∃ c ∈ cls.Engines, e.1 = c.ID ∧ e.2.Health = c.Health ∧ e.2.MaxHealth = c.Health) ∧
      (∀ e ∈ ((SpawnShip s id classID name isPlayer position).mem.ships.cell a).Weapons,
        ∃ c ∈ cls.Weapons, e.1 = c.ID ∧ e.2.Health = c.Health ∧ e.2.MaxHealth = c.Health ∧
          e.2.AmmoCount = c.AmmoCapacity ∧ e.2.AmmoCapacity = c.AmmoCapacity) ∧
      (∀ e ∈ ((SpawnShip s id classID name isPlayer position).mem.ships.cell a).Shields.Emitters,
        ∃ c ∈ cls.Shields.Emitters, e.1 = c.ID ∧ e.2.Health = c.Health ∧
          e.2.MaxHealth = c.Health ∧ e.2.Strength = c.Strength ∧
          e.2.MaxStrength = c.Strength) ∧
      (∀ e ∈ ((SpawnShip s id classID name isPlayer position).mem.ships.cell a).Hull.Sections,
        ∃ c ∈ cls.Hull.Sections, e.1 = c.ID ∧ e.2.Health = c.Health ∧
          e.2.MaxHealth = c.Health ∧ e.2.Armor = c.Armor ∧ e.2.MaxArmor = c.Armor) ∧
      (∀ e ∈ ((SpawnShip s id classID name isPlayer position).mem.ships.cell a).Subsystems,
        ∃ c ∈ cls.Subsystems, e.1 = c.ID ∧ e.2.Health = c.Health ∧
          e.2.MaxHealth = c.Health)) ∧
    (∀ other, other ≠ id →
      GetShip (SpawnShip s id classID name isPlayer position) other = GetShip s other ∧
      ∀ b, GetShip s other = some b →
        (SpawnShip s id classID name isPlayer position).mem.ships.cell b
          = s.mem.ships.cell b) := by
  obtain ⟨hreg, hmem⟩ := SpawnShip_known s id classID name isPlayer position cls hcls
  constructor
  · refine ⟨s.mem.ships.next, ?_, ?_⟩
    · unfold GetShip
      rw [hreg, mapGet_mapSet_same]
    · rw [hmem, alloc_cell_new]
      refine ⟨rfl, rfl, rfl, rfl, rfl, rfl, rfl, ?_, ?_, ?_, ?_, ?_⟩
      · intro e he
        rcases mem_foldl_mapSet _ _ cls.Engines [] e he with h | ⟨c, hc, h⟩
        · exact absurd h (List.not_mem_nil _)
        · exact ⟨c, hc, by rw [h], by rw [h], by rw [h]⟩
      · intro e he
        rcases mem_foldl_mapSet _ _ cls.Weapons [] e he with h | ⟨c, hc, h⟩
        · exact absurd h (List.not_mem_nil _)
        · exact ⟨c, hc, by rw [h], by rw [h], by rw [h], by rw [h], by rw [h]⟩
      · intro e he
        rcases mem_foldl_mapSet _ _ cls.Shields.Emitters [] e he with h | ⟨c, hc, h⟩
        · exact absurd h (List.not_mem_nil _)
        · exact ⟨c, hc, by rw [h], by rw [h], by rw [h], by rw [h], by rw [h]⟩
      · intro e he
        rcases mem_foldl_mapSet _ _ cls.Hull.Sections [] e he with h | ⟨c, hc, h⟩
        · exact absurd h (List.not_mem_nil _)
        · exact ⟨c, hc, by rw [h], by rw [h], by rw [h], by rw [h], by rw [h]⟩
      · intro e he
        rcases mem_foldl_mapSet _ _ cls.Subsystems [] e he with h | ⟨c, hc, h⟩
        · exact absurd h (List.not_mem_nil _)
        · exact ⟨c, hc, by rw [h], by rw [h], by rw [h]⟩
  · intro other hne
    have hget : GetShip (SpawnShip s id classID name isPlayer position) other =
        GetShip s other := by
      unfold GetShip
      rw [hreg, mapGet_mapSet_ne _ _ _ _ hne]
    refine ⟨hget, ?_⟩
    intro b hb
    rw [hmem]
    apply alloc_cell_old
    obtain ⟨hS, _, _, _, hrs, _, _⟩ := hwf
    exact (hrs _ hS).2.2 (other, b) (mem_of_mapGet _ _ _ hb)

/-- Witness for C31: `SpawnShip("ship_2", "test_ship", ...)` in the world of
`TestSnapshotRestore`, which holds `ship_1`. -/
theorem SpawnShip_spec_witness :
    snapshotTestSim.WF ∧
    GetShip (SpawnShip snapshotTestSim "ship_2" "test_ship" "Second" false ⟨100, 200, 300⟩)
        "ship_1" = GetShip snapshotTestSim "ship_1" :=
  ⟨by decide,
    ((SpawnShip_spec snapshotTestSim (by decide) "ship_2" "test_ship" "Second" false
      ⟨100, 200, 300⟩ damageTestClass rfl).2 "ship_1" (by decide)).1⟩

/-- Replacing the value under a key by one with the same image keeps the list
of images. -/
theorem map_mapSet_image {V β : Type} (g : V → β) (m : List (String × V)) (k : String)
    (v w : V) (hget : mapGet m k = some v) (hg : g w = g v) :
    (mapSet m k w).map (fun e => g e.2) = m.map (fun e => g e.2) := by
  induction m with
  | nil => simp [mapGet] at hget
  | cons e rest ih =>
    obtain ⟨k0, x⟩ := e
    by_cases h : k0 = k
    · simp only [mapGet, if_pos h, Option.some.injEq] at hget
      simp only [mapSet, if_pos h, List.map_cons, hg, hget]
    · simp only [mapGet, if_neg h] at hget
      simp only [mapSet, if_neg h, List.map_cons, ih hget]

theorem damageHull_maxStrengths (s : Ship F) (x : F) (loc : String) :
    maxStrengths (damageHull s x loc) = maxStrengths s := by
  unfold maxStrengths
  rw [damageHull_Shields]

theorem TakeDamage_maxStrengths (s : Ship F) (x : F) (loc : String) :
    maxStrengths (TakeDamage s x loc) = maxStrengths s := by
  unfold TakeDamage
  simp only
  split
  · next emitter he =>
    split
    · split
      · rw [damageHull_maxStrengths]
        exact map_mapSet_image (fun e : ShieldEmitter F => e.MaxStrength) _ _ emitter _ he rfl
      · exact map_mapSet_image (fun e : ShieldEmitter F => e.MaxStrength) _ _ emitter _ he rfl
    · rw [damageHull_maxStrengths]
  · rw [damageHull_maxStrengths]

theorem FireWeapon_Shields (s : Ship F) (weaponID targetID : String) :
    (FireWeapon s weaponID targetID).1.Shields = s.Shields := by
  unfold FireWeapon
  split
  · rfl
  · split
    · rfl
    · split
      · split
        · rfl
        · split <;> rfl
      · rfl

/-- A call through a pointer of a method that keeps the emitters' max-strengths
keeps them in every cell. -/
theorem callShip_maxStrengths (ships : Heap (Ship F)) (a : Addr) (f : Ship F → Ship F)
    (hf : ∀ s, maxStrengths (f s) = maxStrengths s) (b : Addr) :
    maxStrengths ((callShip ships a f).cell b) = maxStrengths (ships.cell b) := by
  rw [callShip_cell]
  by_cases hb : b = a
  · rw [if_pos hb, hf, hb]
  · rw [if_neg hb]

theorem write_maxStrengths (ships : Heap (Ship F)) (a : Addr) (v : Ship F)
    (hv : maxStrengths v = maxStrengths (ships.cell a)) (b : Addr) :
    maxStrengths ((ships.write a v).cell b) = maxStrengths (ships.cell b) := by
  unfold Heap.write
  simp only
  by_cases hb : b = a
  · rw [hb, Function.update_same, hv]
  · rw [Function.update_noteq hb]

theorem attemptFireLoop_maxStrengths (c : Controller F) (sh target : Addr) (ids : List String)
    (ships : Heap (Ship F)) (b : Addr) :
    maxStrengths ((attemptFireLoop c sh target ids ships).cell b)
      = maxStrengths (ships.cell b) := by
  induction ids generalizing ships with
  | nil => rfl
  | cons id rest ih =>
    unfold attemptFireLoop
    split
    · exact ih ships
    · next weapon _ =>
      have hw : ∀ b2, maxStrengths ((ships.write sh
          (FireWeapon (ships.cell sh) id (ships.cell target).ID).1).cell b2)
          = maxStrengths (ships.cell b2) := by
        intro b2
        apply write_maxStrengths
        unfold maxStrengths
        rw [FireWeapon_Shields]
      split
      · simp only
        split
        · rw [callShip_maxStrengths _ _ _ (fun s => TakeDamage_maxStrengths s _ _), hw]
        · rw [ih, hw]
      · exact ih ships

theorem attemptMissilefireLoop_maxStrengths (sh target : Addr) (ids : List String)
    (ships : Heap (Ship F)) (b : Addr) :
    maxStrengths ((attemptMissilefireLoop sh target ids ships).cell b)
      = maxStrengths (ships.cell b) := by
  induction ids generalizing ships with
  | nil => rfl
  | cons id rest ih =>
    unfold attemptMissilefireLoop
    split
    · exact ih ships
    · next weapon _ =>
      split
      · simp only
        have h1 : ∀ b2, maxStrengths ((callShip ships sh
            (fun s => { s with Weapons := mapSet s.Weapons id (readiedTube weapon) })).cell b2)
            = maxStrengths (ships.cell b2) := by
          intro b2
          exact callShip_maxStrengths ships sh
            (fun s => { s with Weapons := mapSet s.Weapons id (readiedTube weapon) })
            (fun _ => rfl) b2
        have h2 : ∀ (h : Heap (Ship F)) (b2 : Addr), maxStrengths ((h.write sh
            (FireWeapon (h.cell sh) id (h.cell target).ID).1).cell b2)
            = maxStrengths (h.cell b2) := by
          intro h b2
          apply write_maxStrengths
          unfold maxStrengths
          rw [FireWeapon_Shields]
        split
        · rw [h2, h1]
        · rw [ih, h2, h1]
      · exact ih ships

theorem ite_snd {α β : Type} (p : Prop) [Decidable p] (a b : α) (s : β) :
    (if p then (a, s) else (b, s)).2 = s := by
  split <;> rfl

theorem ApplyThrust_maxStrengths (s : Ship F) (x y z : F) :
    maxStrengths (ApplyThrust s x y z) = maxStrengths s := rfl

theorem ApplyRotation_maxStrengths (s : Ship F) (x y z : F) :
    maxStrengths (ApplyRotation s x y z) = maxStrengths s := rfl

/-- The dispatch of `Controller.Update` keeps the emitters' max-strengths of
every ship. -/
theorem dispatch_maxStrengths (m : MathFns F) (rnd : Nat → F) (c : Controller F) (dt : F)
    (sh : Addr) (allShips : List (String × Addr)) (ships : Heap (Ship F)) (i : Nat)
    (b : Addr) :
    maxStrengths ((Controller.dispatch m rnd c dt sh allShips ships i).2.1.cell b)
      = maxStrengths (ships.cell b) := by
  unfold Controller.dispatch
  split
  · simp only
    unfold Controller.updatePatrol
    simp only
    have h : maxStrengths ((callShip (callShip ships sh
        (fun s => ApplyThrust s 0 0 (s.MaxSpeed * (3 / 10)))) sh
        (fun s => ApplyRotation s 0 (1 / 10 * c.Difficulty) 0)).cell b)
        = maxStrengths (ships.cell b) := by
      rw [callShip_maxStrengths _ _ _ (fun s => ApplyRotation_maxStrengths s _ _ _),
        callShip_maxStrengths _ _ _ (fun s => ApplyThrust_maxStrengths s _ _ _)]
    split
    · split <;> exact h
    · exact h
  · split
    · unfold Controller.updateCombat
      split
      · rfl
      · simp only
        have hT : ∀ (h : Heap (Ship F)) (z : Ship F → F) (b2 : Addr),
            maxStrengths ((callShip h sh (fun s => ApplyThrust s 0 0 (z s))).cell b2)
              = maxStrengths (h.cell b2) :=
          fun h z b2 => callShip_maxStrengths _ _ _ (fun s => ApplyThrust_maxStrengths s _ _ _) b2
        have hR : ∀ (h : Heap (Ship F)) (x y z : F) (b2 : Addr),
            maxStrengths ((callShip h sh (fun s => ApplyRotation s x y z)).cell b2)
              = maxStrengths (h.cell b2) :=
          fun h x y z b2 =>
            callShip_maxStrengths _ _ _ (fun s => ApplyRotation_maxStrengths s _ _ _) b2
        split_ifs <;>
          simp only [Controller.attemptFire, Controller.attemptMissilefire,
            attemptFireLoop_maxStrengths, attemptMissilefireLoop_maxStrengths, hT, hR]
    · split
      · unfold Controller.updateEvade
        split
        · rfl
        · simp only
          split <;>
            simp only [callShip_maxStrengths _ _ _ (fun s => ApplyRotation_maxStrengths s _ _ _),
              callShip_maxStrengths _ _ _ (fun s => ApplyThrust_maxStrengths s _ _ _)]
      · split
        · simp only
          unfold Controller.updateRetreat
          simp only
          rw [ite_snd]
          exact callShip_maxStrengths _ _ _ (fun s => ApplyThrust_maxStrengths s _ _ _) b
        · rfl

/-- C40. A ship without shields never stays out of retreat: for a ship with
no shield emitters, or whose emitters' max-strengths sum to 0, `Controller.Update`
ends with the state `retreat` (so neither `combat` nor `patrol`), for every
prior controller state, every hull health, every registry and heap of ships
and every sequence of random draws. -/
theorem Controller_Update_no_shields_retreat (m : MathFns F) (rnd : Nat → F)
    (c : Controller F) (dt : F) (sh : Addr) (allShips : List (String × Addr))
    (ships : Heap (Ship F)) (i : Nat)
    (h : (ships.cell sh).Shields.Emitters = [] ∨
      ((ships.cell sh).Shields.Emitters.map (fun e => e.2.MaxStrength)).sum = 0) :
    (Controller.Update m rnd c dt sh allShips ships i).1.State = "retreat" ∧
    (Controller.Update m rnd c dt sh allShips ships i).1.State ≠ "combat" ∧
    (Controller.Update m rnd c dt sh allShips ships i).1.State ≠ "patrol" := by
  have hsum : ((ships.cell sh).Shields.Emitters.map (fun e => e.2.MaxStrength)).sum = 0 := by
    rcases h with h | h
    · rw [h]
      rfl
    · exact h
  have hafter : shieldFraction ((Controller.dispatch m rnd c dt sh allShips ships i).2.1.cell sh)
      = 0 := by
    have hms := dispatch_maxStrengths m rnd c dt sh allShips ships i sh
    unfold maxStrengths at hms
    unfold shieldFraction
    rw [hms, if_pos hsum]
  have hstate : (Controller.Update m rnd c dt sh allShips ships i).1.State = "retreat" := by
    unfold Controller.Update Controller.evaluateState
    simp only [calculateShieldHealth_eq, hafter]
    rw [if_pos (Or.inr (by norm_num))]
    split
    · rfl
    · rename_i hs
      exact not_not.mp hs
  refine ⟨hstate, ?_, ?_⟩
  · rw [hstate]
    decide
  · rw [hstate]
    decide

/-- Witness for C40: the AI ship of the class without emitters, its controller
in combat with a target that is not in the registry. -/
theorem Controller_Update_no_shields_retreat_witness :
    (noShieldWorld.cell 0).Shields.Emitters = [] ∧
    (Controller.Update testMath (fun _ => 0) (controllerIn "combat") (1 / 60) 0
      [("ship_1", 0)] noShieldWorld 0).1.State = "retreat" :=
  ⟨rfl, (Controller_Update_no_shields_retreat testMath (fun _ => 0) (controllerIn "combat")
    (1 / 60) 0 [("ship_1", 0)] noShieldWorld 0 (Or.inl rfl)).1⟩

theorem integrateRotation_fst (m : MathFns F) (w0 : Vector3 F) (rotation : Quaternion F)
    (dt : F) : (integrateRotation m w0 rotation dt).1 = draggedAngularVelocity w0 := by
  unfold integrateRotation
  simp only
  split <;> rfl

theorem Update_AngularVelocity (m : MathFns F) (s : Ship F) (dt : F) :
    (Update m s dt).AngularVelocity = draggedAngularVelocity s.AngularVelocity := by
  have h : (Update m s dt).AngularVelocity =
      (integrateRotation m s.AngularVelocity s.Rotation dt).1 := by
    simp only [Update, updateLifeSupport, updateDamage, updateWeapons,
      (updateShields_pose _ dt).2.2.2]
    rfl
  rw [h, integrateRotation_fst]

/-- The integration of the rotation is the specified one taken at the damped
angular velocity. -/
theorem integrateRotation_eq (m : MathFns F) (w0 : Vector3 F) (rotation : Quaternion F)
    (dt : F) :
    (integrateRotation m w0 rotation dt).2 =
      specRotation m (draggedAngularVelocity w0) rotation dt := by
  unfold integrateRotation specRotation turnAngle turnedRotation
  simp only
  split <;> rfl

/-- C35 (amended). Angular integration in `Update(dt)`: with `w0` the angular
velocity at the start of the tick and `w = 0.95 * w0`, the angular velocity
after the tick is `w`, and with `theta = |w| * dt` the new rotation is
`normalize(axisAngle(w / theta, theta) * old rotation)` if `theta > 0.001` and
the old rotation otherwise: the damping is applied before `theta` and the
rotation delta are computed. -/
theorem Update_angular_integration (m : MathFns F) (s : Ship F) (dt : F) :
    (Update m s dt).AngularVelocity =
      { X := s.AngularVelocity.X * (95 / 100), Y := s.AngularVelocity.Y * (95 / 100),
        Z := s.AngularVelocity.Z * (95 / 100) } ∧
    (Update m s dt).Rotation =
      specRotation m (Update m s dt).AngularVelocity s.Rotation dt := by
  rw [Update_AngularVelocity, Update_Rotation, integrateRotation_eq]
  exact ⟨rfl, rfl⟩

/-- C35 as the claim words it fails, over real arithmetic: for the ship
spinning at 1 about `z` and `dt = 0.00102`, the angle `|w0| * dt = 0.00102`
is above 0.001, so the claimed rotation is a turned one, while `Update` takes
the angle from the damped angular velocity, `0.95 * 0.00102 < 0.001`, and
leaves the rotation as it was. -/
theorem Update_rotation_not_from_initial_spin :
    (Update ⟨Real.sqrt, Real.sin, Real.cos⟩ (unitSpinShip : Ship ℝ) (102 / 100000)).Rotation
      = (unitSpinShip : Ship ℝ).Rotation ∧
    specRotation ⟨Real.sqrt, Real.sin, Real.cos⟩ (unitSpinShip : Ship ℝ).AngularVelocity
      (unitSpinShip : Ship ℝ).Rotation (102 / 100000) ≠ (unitSpinShip : Ship ℝ).Rotation := by
  have hrot : (unitSpinShip : Ship ℝ).Rotation = ⟨1, 0, 0, 0⟩ := rfl
  have hw : (unitSpinShip : Ship ℝ).AngularVelocity = ⟨0, 0, 1⟩ := rfl
  constructor
  · rw [Update_Rotation, integrateRotation_eq, hw, hrot]
    have hs : Real.sqrt ((0 : ℝ) * (95 / 100) * (0 * (95 / 100))
        + 0 * (95 / 100) * (0 * (95 / 100)) + 1 * (95 / 100) * (1 * (95 / 100))) = 95 / 100 := by
      have : (0 : ℝ) * (95 / 100) * (0 * (95 / 100))
        + 0 * (95 / 100) * (0 * (95 / 100)) + 1 * (95 / 100) * (1 * (95 / 100))
        = (95 / 100) * (95 / 100) := by ring
      rw [this, Real.sqrt_mul_self (by norm_num)]
    simp only [specRotation, draggedAngularVelocity, hs]
    rw [if_neg (by norm_num)]
  · rw [hw, hrot]
    have hs : Real.sqrt ((0 : ℝ) * 0 + 0 * 0 + 1 * 1) = 1 := by
      have : (0 : ℝ) * 0 + 0 * 0 + 1 * 1 = 1 := by ring
      rw [this, Real.sqrt_one]
    simp only [specRotation, hs]
    simp only [one_mul]
    rw [if_pos (by norm_num)]
    have hsin : 0 < Real.sin (102 / 100000 * (1 / 2)) := by
      apply Real.sin_pos_of_pos_of_lt_pi
      · norm_num
      · have := Real.pi_gt_three
        linarith
    have hq : multiplyQuaternions
        (axisAngleToQuaternion ⟨Real.sqrt, Real.sin, Real.cos⟩
          { X := 0 / (102 / 100000), Y := 0 / (102 / 100000), Z := 1 / (102 / 100000) }
          (102 / 100000))
        ⟨1, 0, 0, 0⟩ =
        ⟨Real.cos (102 / 100000 * (1 / 2)), 0, 0,
          1 / (102 / 100000) * Real.sin (102 / 100000 * (1 / 2))⟩ := by
      simp [multiplyQuaternions, axisAngleToQuaternion]
    rw [hq]
    intro heq
    have hZ := congrArg Quaternion.Z heq
    unfold normalizeQuaternion at hZ
    simp only at hZ
    have hmag : (1 / 10000 : ℝ) ≤ Real.sqrt
        (Real.cos (102 / 100000 * (1 / 2)) * Real.cos (102 / 100000 * (1 / 2)) + 0 * 0 + 0 * 0
          + 1 / (102 / 100000) * Real.sin (102 / 100000 * (1 / 2))
            * (1 / (102 / 100000) * Real.sin (102 / 100000 * (1 / 2)))) := by
      rw [Real.le_sqrt' (by norm_num)]
      have h1 := Real.sin_sq_add_cos_sq (102 / 100000 * (1 / 2))
      have h2 := mul_self_nonneg (Real.sin (102 / 100000 * (1 / 2)))
      nlinarith
    rw [if_neg (not_lt.mpr hmag)] at hZ
    simp only at hZ
    rcases div_eq_zero_iff.mp hZ with h0 | h0
    · have h3 : Real.sin (102 / 100000 * (1 / 2)) = 0 := by
        rcases mul_eq_zero.mp h0 with h4 | h4
        · norm_num at h4
        · exact h4
      rw [h3] at hsin
      exact lt_irrefl _ hsin
    · rw [h0] at hmag
      norm_num at hmag

/-- C35 (amended) at the ship spinning at 1 about `z`, run on the rationals:
the angular velocity after `Update(1/60)` is the damped one. -/
theorem Update_angular_integration_witness :
    (Update testMath (unitSpinShip : Ship ℚ) (1 / 60)).AngularVelocity =
      { X := (unitSpinShip : Ship ℚ).AngularVelocity.X * (95 / 100),
        Y := (unitSpinShip : Ship ℚ).AngularVelocity.Y * (95 / 100),
        Z := (unitSpinShip : Ship ℚ).AngularVelocity.Z * (95 / 100) } :=
  (Update_angular_integration testMath unitSpinShip (1 / 60)).1

/-- The logged handler does what `handleArmTorpedo` does. -/
theorem handleArmTorpedoLogged_fst (s : Simulator F) (action : Action F) :
    (handleArmTorpedoLogged s action).1 = handleArmTorpedo s action := by
  unfold handleArmTorpedoLogged handleArmTorpedo
  cases getPlayerShip s with
  | none => rfl
  | some p =>
    simp only
    cases mapGet (s.mem.ships.cell p).Weapons action.System with
    | none => rfl
    | some w => cases action.Value <;> rfl

/-- The logged loop does what the loop of `attemptMissilefire` does. -/
theorem attemptMissilefireLogged_fst (sh target : Addr) (ids : List String)
    (ships : Heap (Ship F)) :
    (attemptMissilefireLogged sh target ids ships).1 =
      attemptMissilefireLoop sh target ids ships := by
  induction ids generalizing ships with
  | nil => rfl
  | cons id rest ih =>
    unfold attemptMissilefireLogged attemptMissilefireLoop
    cases mapGet (ships.cell sh).Weapons id with
    | none => exact ih ships
    | some weapon =>
      simp only
      by_cases hc : weapon.Type_ = "torpedo" ∧ weapon.Health > 0 ∧ weapon.Cooldown ≤ 0
          ∧ weapon.AmmoCount > 0
      · rw [if_pos hc, if_pos hc]
        split
        · rfl
        · exact ih _
      · rw [if_neg hc, if_neg hc]
        exact ih ships

/-- `Ship.Update` keeps the lock discipline. -/
theorem UpdateEvents_guarded (a : Addr) : guarded (UpdateEvents a) = true := by
  simp [guarded, UpdateEvents, guardedFrom]

/-- `Ship.FireWeapon` keeps the lock discipline. -/
theorem FireWeaponEvents_guarded (a : Addr) (s : Ship F) (weaponID targetID : String) :
    guarded (FireWeaponEvents a s weaponID targetID) = true := by
  unfold guarded FireWeaponEvents
  split <;> simp [guardedFrom]

/-- C34. The handler `handleArmTorpedo`, run on the player ship with the tube
`torpedo_bay_1`, reads and writes the weapons of the ship with its lock not
held, and so does `attemptMissilefire` of the AI on its own ship before it calls
`FireWeapon`; `Ship.Update` and `Ship.FireWeapon` hold the lock throughout. -/
theorem ship_lock_not_held_by_handlers :
    (handleArmTorpedoLogged bridgeSim
      (weaponsIntent "torpedo_bay_1" "arm" (ActionValue.flag true))).2 =
      [LockEvent.read 0 "Weapons", LockEvent.write 0 "Weapons"] ∧
    guarded (handleArmTorpedoLogged bridgeSim
      (weaponsIntent "torpedo_bay_1" "arm" (ActionValue.flag true))).2 = false ∧
    (attemptMissilefireLogged 0 1 (mapKeys (torpedoDuelWorld.cell 0).Weapons)
      torpedoDuelWorld).2 =
      [LockEvent.read 0 "Weapons", LockEvent.write 0 "Weapons", LockEvent.write 0 "Weapons",
        LockEvent.write 0 "Weapons", LockEvent.lock 0, LockEvent.read 0 "Weapons",
        LockEvent.write 0 "Weapons", LockEvent.write 0 "TargetID", LockEvent.unlock 0] ∧
    guarded (attemptMissilefireLogged 0 1 (mapKeys (torpedoDuelWorld.cell 0).Weapons)
      torpedoDuelWorld).2 = false ∧
    (∀ a, guarded (UpdateEvents a) = true) ∧
    (∀ (a : Addr) (s : Ship ℚ) (weaponID targetID : String),
      guarded (FireWeaponEvents a s weaponID targetID) = true) := by
  have h1 : (handleArmTorpedoLogged bridgeSim
      (weaponsIntent "torpedo_bay_1" "arm" (ActionValue.flag true))).2 =
      [LockEvent.read 0 "Weapons", LockEvent.write 0 "Weapons"] := by
    rfl
  have h2 : (attemptMissilefireLogged 0 1 (mapKeys (torpedoDuelWorld.cell 0).Weapons)
      torpedoDuelWorld).2 =
      [LockEvent.read 0 "Weapons", LockEvent.write 0 "Weapons", LockEvent.write 0 "Weapons",
        LockEvent.write 0 "Weapons", LockEvent.lock 0, LockEvent.read 0 "Weapons",
        LockEvent.write 0 "Weapons", LockEvent.write 0 "TargetID", LockEvent.unlock 0] := by
    simp [attemptMissilefireLogged, torpedoDuelWorld, Heap.alloc, Heap.empty, NewShip,
      torpedoTestClass, mapKeys, mapSet, mapGet, FireWeaponEvents, FireWeapon, callShip,
      Heap.write, readiedTube]
    norm_num
  refine ⟨h1, ?_, h2, ?_, UpdateEvents_guarded, FireWeaponEvents_guarded⟩
  · rw [h1]
    rfl
  · rw [h2]
    rfl

theorem HullSection_eq (a b : HullSection F) (h1 : a.ID = b.ID) (h2 : a.MaxArmor = b.MaxArmor)
    (h3 : a.Armor = b.Armor) (h4 : a.MaxHealth = b.MaxHealth) (h5 : a.Health = b.Health)
    (h6 : a.Breached = b.Breached) (h7 : a.OnFire = b.OnFire) : a = b := by
  cases a
  cases b
  simp only at h1 h2 h3 h4 h5 h6 h7
  simp only [HullSection.mk.injEq]
  exact ⟨h1, h2, h3, h4, h5, h6, h7⟩

/-- The fields of a hull section after a hit. -/
theorem damageSection_fields (c : HullSection F) (x : F) :
    (damageSection c x).ID = c.ID ∧ (damageSection c x).MaxArmor = c.MaxArmor ∧
    (damageSection c x).Armor = armorAfter c.Armor x ∧
    (damageSection c x).MaxHealth = c.MaxHealth ∧
    (damageSection c x).Health = healthAfter c.Health x ∧
    (damageSection c x).Breached = (if c.Health - x ≤ 0 then true else c.Breached) ∧
    (damageSection c x).OnFire = c.OnFire := by
  unfold damageSection armorAfter healthAfter
  simp only
  by_cases h : c.Health - x ≤ 0
  · simp only [if_pos h]
    exact ⟨trivial, trivial, trivial, trivial, trivial, trivial, trivial⟩
  · simp only [if_neg h]
    exact ⟨trivial, trivial, trivial, trivial, trivial, trivial, trivial⟩

theorem armorAfter_add (a x y : F) (hy : 0 < y) :
    armorAfter (armorAfter a x) y = armorAfter a (x + y) := by
  unfold armorAfter
  split_ifs <;> linarith

theorem healthAfter_add (h x y : F) (hy : 0 < y) :
    healthAfter (healthAfter h x) y = healthAfter h (x + y) := by
  unfold healthAfter
  split_ifs <;> linarith

theorem breached_add (h x y : F) (b : Bool) (hy : 0 < y) :
    (if healthAfter h x - y ≤ 0 then true else (if h - x ≤ 0 then true else b)) =
      (if h - (x + y) ≤ 0 then true else b) := by
  unfold healthAfter
  split_ifs <;> first | rfl | (exfalso; linarith)

/-- Two hits on a hull section, the second of a positive amount, do what one
hit of their sum does. -/
theorem damageSection_add (c : HullSection F) (x y : F) (hy : 0 < y) :
    damageSection (damageSection c x) y = damageSection c (x + y) := by
  obtain ⟨a1, a2, a3, a4, a5, a6, a7⟩ := damageSection_fields c x
  obtain ⟨b1, b2, b3, b4, b5, b6, b7⟩ := damageSection_fields (damageSection c x) y
  obtain ⟨c1, c2, c3, c4, c5, c6, c7⟩ := damageSection_fields c (x + y)
  apply HullSection_eq
  · exact b1.trans (a1.trans c1.symm)
  · exact b2.trans (a2.trans c2.symm)
  · exact b3.trans ((congrArg (fun t => armorAfter t y) a3).trans
      ((armorAfter_add _ x y hy).trans c3.symm))
  · exact b4.trans (a4.trans c4.symm)
  · exact b5.trans ((congrArg (fun t => healthAfter t y) a5).trans
      ((healthAfter_add _ x y hy).trans c5.symm))
  · refine b6.trans (Eq.trans ?_ ((breached_add c.Health x y c.Breached hy).trans c6.symm))
    rw [a5, a6]
  · exact b7.trans (a7.trans c7.symm)

theorem damageHull_add (s : Ship F) (x y : F) (loc : String) (hy : 0 < y) :
    damageHull (damageHull s x loc) y loc = damageHull s (x + y) loc := by
  cases hget : mapGet s.Hull.Sections loc with
  | none =>
    have h1 : ∀ z, damageHull s z loc = s := by
      intro z
      simp only [damageHull, hget]
    rw [h1 x, h1 y, h1 (x + y)]
  | some sec =>
    have h1 : ∀ z, damageHull s z loc =
        { s with Hull := { s.Hull with
            Sections := mapSet s.Hull.Sections loc (damageSection sec z) } } := by
      intro z
      simp only [damageHull, hget]
    rw [h1 x, h1 (x + y)]
    simp only [damageHull, mapGet_mapSet_same, mapSet_mapSet, damageSection_add sec x y hy]

theorem withEmitter_withEmitter (s : Ship F) (loc : String) (e1 e2 : ShieldEmitter F) :
    withEmitter (withEmitter s loc e1) loc e2 = withEmitter s loc e2 := by
  simp only [withEmitter, mapSet_mapSet]

theorem withEmitter_get (s : Ship F) (loc : String) (e : ShieldEmitter F) :
    mapGet (withEmitter s loc e).Shields.Emitters loc = some e := by
  simp only [withEmitter, mapGet_mapSet_same]

/-- `TakeDamage` where no emitter with strength above 0 stands at the
location: the whole amount goes to the hull. -/
theorem TakeDamage_unshielded (s : Ship F) (D : F) (location : String)
    (h : ∀ e, mapGet s.Shields.Emitters (defaultLocation location) = some e → ¬ e.Strength > 0) :
    TakeDamage s D location = damageHull s D (defaultLocation location) := by
  unfold TakeDamage
  simp only
  cases hget : mapGet s.Shields.Emitters (defaultLocation location) with
  | none => rfl
  | some e =>
    simp only
    rw [if_neg (h e hget)]

/-- Two calls of `TakeDamage` at one location, the second of a positive amount,
do what one call of their sum does. -/
theorem TakeDamage_add (s : Ship F) (x y : F) (location : String) (hy : 0 < y) :
    TakeDamage (TakeDamage s x location) y location = TakeDamage s (x + y) location := by
  cases hget : mapGet s.Shields.Emitters (defaultLocation location) with
  | none =>
    have hn : ∀ e, mapGet s.Shields.Emitters (defaultLocation location) = some e →
        ¬ e.Strength > 0 := by
      intro e he
      rw [hget] at he
      exact absurd he (by simp)
    rw [TakeDamage_unshielded s x location hn, TakeDamage_unshielded s (x + y) location hn,
      TakeDamage_unshielded _ y location (by rw [damageHull_Shields]; exact hn),
      damageHull_add s x y _ hy]
  | some e =>
    by_cases hS : e.Strength > 0
    · by_cases hlt : e.Strength - x < 0
      · -- the first hit breaks through
        have h1 : TakeDamage s x location =
            damageHull (withEmitter s (defaultLocation location) { e with Strength := 0 })
              (-(e.Strength - x)) (defaultLocation location) :=
          TakeDamage_overflow s x location e hget hS hlt
        have h3 : TakeDamage s (x + y) location =
            damageHull (withEmitter s (defaultLocation location) { e with Strength := 0 })
              (-(e.Strength - (x + y))) (defaultLocation location) :=
          TakeDamage_overflow s (x + y) location e hget hS (by linarith)
        have h2 : TakeDamage (TakeDamage s x location) y location =
            damageHull (TakeDamage s x location) y (defaultLocation location) := by
          apply TakeDamage_unshielded
          intro e2 he2
          rw [h1, damageHull_Shields, withEmitter_get] at he2
          rw [← Option.some.inj he2]
          exact lt_irrefl _
        rw [h2, h1, h3, damageHull_add _ _ y _ hy]
        congr 1
        ring
      · have h1 : TakeDamage s x location =
            withEmitter s (defaultLocation location) { e with Strength := e.Strength - x } :=
          TakeDamage_absorbed s x location e hget hS hlt
        by_cases hS2 : e.Strength - x > 0
        · by_cases hlt2 : e.Strength - x - y < 0
          · have h2 := TakeDamage_overflow (TakeDamage s x location) y location
              { e with Strength := e.Strength - x } (by rw [h1, withEmitter_get]) hS2 hlt2
            have h3 : TakeDamage s (x + y) location =
                damageHull (withEmitter s (defaultLocation location) { e with Strength := 0 })
                  (-(e.Strength - (x + y))) (defaultLocation location) :=
              TakeDamage_overflow s (x + y) location e hget hS (by linarith)
            rw [h2, h3]
            have h4 : ({ TakeDamage s x location with Shields :=
                { (TakeDamage s x location).Shields with
                  Emitters := mapSet (TakeDamage s x location).Shields.Emitters
                    (defaultLocation location)
                    { ({ e with Strength := e.Strength - x } : ShieldEmitter F) with
                      Strength := 0 } } } : Ship F) =
                withEmitter s (defaultLocation location) { e with Strength := 0 } := by
              rw [h1]
              exact withEmitter_withEmitter _ _ _ _
            rw [h4]
            congr 1
            ring
          · have h2 := TakeDamage_absorbed (TakeDamage s x location) y location
              { e with Strength := e.Strength - x } (by rw [h1, withEmitter_get]) hS2 hlt2
            have h3 : TakeDamage s (x + y) location =
                withEmitter s (defaultLocation location)
                  { e with Strength := e.Strength - (x + y) } :=
              TakeDamage_absorbed s (x + y) location e hget hS (by linarith)
            rw [h2, h3]
            have h4 : ({ TakeDamage s x location with Shields :=
                { (TakeDamage s x location).Shields with
                  Emitters := mapSet (TakeDamage s x location).Shields.Emitters
                    (defaultLocation location)
                    { ({ e with Strength := e.Strength - x } : ShieldEmitter F) with
                      Strength := e.Strength - x - y } } } : Ship F) =
                withEmitter s (defaultLocation location)
                  { e with Strength := e.Strength - x - y } := by
              rw [h1]
              exact withEmitter_withEmitter _ _ _ _
            rw [h4]
            congr 2
            ring
        · -- the first hit uses the emitter up exactly
          have hz : e.Strength - x = 0 := le_antisymm (not_lt.mp hS2) (not_lt.mp hlt)
          have h2 : TakeDamage (TakeDamage s x location) y location =
              damageHull (TakeDamage s x location) y (defaultLocation location) := by
            apply TakeDamage_unshielded
            intro e2 he2
            rw [h1, withEmitter_get] at he2
            rw [← Option.some.inj he2]
            exact hS2
          have h3 : TakeDamage s (x + y) location =
              damageHull (withEmitter s (defaultLocation location) { e with Strength := 0 })
                (-(e.Strength - (x + y))) (defaultLocation location) :=
            TakeDamage_overflow s (x + y) location e hget hS (by linarith)
          rw [h2, h1, h3, hz]
          congr 1
          linarith
    · have hn : ∀ e2, mapGet s.Shields.Emitters (defaultLocation location) = some e2 →
          ¬ e2.Strength > 0 := by
        intro e2 he2
        rw [hget] at he2
        rw [← Option.some.inj he2]
        exact hS
      rw [TakeDamage_unshielded s x location hn, TakeDamage_unshielded s (x + y) location hn,
        TakeDamage_unshielded _ y location (by rw [damageHull_Shields]; exact hn),
        damageHull_add s x y _ hy]

theorem Heap_eq {α : Type} (h1 h2 : Heap α) (hn : h1.next = h2.next)
    (hc : ∀ a, h1.cell a = h2.cell a) : h1 = h2 := by
  cases h1
  cases h2
  simp only at hn hc
  simp only [Heap.mk.injEq]
  exact ⟨hn, funext hc⟩

theorem hitShip_cell (h : Heap (Ship F)) (a : Addr) (x : F) (loc : String) (c : Addr) :
    (hitShip h a x loc).cell c = if c = a then TakeDamage (h.cell a) x loc else h.cell c :=
  callShip_cell h a (fun sh => TakeDamage sh x loc) c

/-- In exact arithmetic, two hits of positive amounts commute, on one ship or
on two. -/
theorem hitShip_comm (h : Heap (Ship F)) (a b : Addr) (x y : F) (loc : String)
    (hx : 0 < x) (hy : 0 < y) :
    hitShip (hitShip h a x loc) b y loc = hitShip (hitShip h b y loc) a x loc := by
  apply Heap_eq
  · rfl
  · intro c
    simp only [hitShip_cell]
    by_cases hab : a = b
    · subst hab
      by_cases hca : c = a
      · simp only [hca, if_true]
        rw [TakeDamage_add _ x y loc hy, TakeDamage_add _ y x loc hx, add_comm]
      · simp only [hca, if_false]
    · have hab2 : ¬ b = a := fun h2 => hab h2.symm
      by_cases hca : c = a
      · simp only [hca, if_true, hab, hab2, if_false]
      · by_cases hcb : c = b
        · simp only [hcb, if_true, hab, hab2, if_false]
        · simp only [hca, hcb, if_false]

/-- The ships after one pass of the loop of `updateProjectiles`: the pass does
nothing to them whatever they are, or it is a hit on one target, made when the
target is near. -/
theorem updateProjectilesStep_ships_form (s : Simulator F) (P : Heap (Projectile F))
    (e : String × Addr) :
    (∀ h d, (updateProjectilesStep s (h, P, d) e).1 = h) ∨
    ∃ target pos, ∀ h d, (updateProjectilesStep s (h, P, d) e).1 =
      if distance pos (h.cell target).Position < 50 then
        hitShip h target (P.cell e.2).Damage "forward"
      else h := by
  by_cases hx : expired (advanced s.dt (P.cell e.2))
  · left
    intro h d
    rw [updateProjectilesStep_expired s (h, P, d) e hx]
  · by_cases ht : (P.cell e.2).TargetID ≠ ""
    · cases hget : mapGet (s.mem.shipMaps.cell s.Ships) (P.cell e.2).TargetID with
      | none =>
        left
        intro h d
        rw [updateProjectilesStep_miss s (h, P, d) e hx]
        rintro ⟨_, target, hm, _⟩
        have hm2 : mapGet (s.mem.shipMaps.cell s.Ships) (P.cell e.2).TargetID = some target := hm
        rw [hget] at hm2
        exact absurd hm2 (by simp)
      | some target =>
        right
        refine ⟨target, (advanced s.dt (P.cell e.2)).Position, ?_⟩
        intro h d
        by_cases hd : distance (advanced s.dt (P.cell e.2)).Position (h.cell target).Position < 50
        · rw [updateProjectilesStep_hit s (h, P, d) e target hx ht hget hd, if_pos hd]
        · rw [updateProjectilesStep_miss s (h, P, d) e hx, if_neg hd]
          rintro ⟨_, target2, hm, hd2⟩
          have hm2 : mapGet (s.mem.shipMaps.cell s.Ships) (P.cell e.2).TargetID
              = some target2 := hm
          rw [hget] at hm2
          rw [← Option.some.inj hm2] at hd2
          exact hd hd2
    · left
      intro h d
      rw [updateProjectilesStep_miss s (h, P, d) e hx]
      rintro ⟨ht2, _⟩
      exact ht ht2

/-- In exact arithmetic, two passes of the loop of `updateProjectiles` for
projectiles with damage above 0 commute, as far as the ships go. -/
theorem updateProjectilesStep_ships_comm (s : Simulator F) (P : Heap (Projectile F))
    (e1 e2 : String × Addr) (h1 : 0 < (P.cell e1.2).Damage) (h2 : 0 < (P.cell e2.2).Damage)
    (h : Heap (Ship F)) :
    (updateProjectilesStep s ((updateProjectilesStep s (h, P, []) e1).1, P, []) e2).1 =
      (updateProjectilesStep s ((updateProjectilesStep s (h, P, []) e2).1, P, []) e1).1 := by
  rcases updateProjectilesStep_ships_form s P e1 with f1 | ⟨t1, p1, f1⟩
  · rw [f1, f1]
  · rcases updateProjectilesStep_ships_form s P e2 with f2 | ⟨t2, p2, f2⟩
    · rw [f2, f2]
    · rw [f1, f2, f1, f2]
      by_cases c1 : distance p1 (h.cell t1).Position < 50
      · by_cases c2 : distance p2 (h.cell t2).Position < 50
        · simp only [c1, c2, hitShip_Position, if_true]
          exact hitShip_comm _ _ _ _ _ _ h1 h2
        · simp only [c1, c2, hitShip_Position, if_true, if_false]
      · by_cases c2 : distance p2 (h.cell t2).Position < 50
        · simp only [c1, c2, hitShip_Position, if_true, if_false]
        · simp only [c1, c2, if_false]

/-- A ship as `NewShip` builds it has no loaded weapon. -/
theorem NewShip_loadedHasAmmo (id classID name : String) (cls : ShipClass F) (isPlayer : Bool) :
    loadedHasAmmo (NewShip id classID name cls isPlayer) := by
  intro e he hl
  rcases mem_foldl_mapSet _ _ cls.Weapons [] e he with h | ⟨c, _, h⟩
  · exact absurd h (List.not_mem_nil _)
  · rw [h] at hl
    exact absurd hl (by simp)

/-- Replacing a weapon by one that is unloaded or has ammunition keeps
`loadedHasAmmo`. -/
theorem loadedHasAmmo_mapSet (sh : Ship F) (k : String) (w : Weapon F)
    (h : loadedHasAmmo sh) (hw : w.Loaded = true → 0 < w.AmmoCount) (sh2 : Ship F)
    (h2 : sh2.Weapons = mapSet sh.Weapons k w) : loadedHasAmmo sh2 := by
  intro e he hl
  rw [h2] at he
  rcases mem_mapSet _ _ _ _ he with h3 | h3
  · exact h e h3 hl
  · rw [h3] at hl ⊢
    exact hw hl

/-- A change of the weapons that keeps the flag `Loaded` and the ammo count of
each keeps `loadedHasAmmo`. -/
theorem loadedHasAmmo_mapValues (sh : Ship F) (f : Weapon F → Weapon F)
    (h : loadedHasAmmo sh)
    (hf : ∀ w, (f w).Loaded = w.Loaded ∧ (f w).AmmoCount = w.AmmoCount) (sh2 : Ship F)
    (h2 : sh2.Weapons = mapValues f sh.Weapons) : loadedHasAmmo sh2 := by
  intro e he hl
  rw [h2] at he
  obtain ⟨x, hx, hex⟩ := mem_mapValues _ _ _ he
  rw [hex, (hf x).1] at hl
  rw [hex, (hf x).2]
  exact h (e.1, x) hx hl

/-- `FireWeapon` keeps `loadedHasAmmo`: a torpedo tube that fires is unloaded. -/
theorem FireWeapon_loadedHasAmmo (s : Ship F) (weaponID targetID : String)
    (h : loadedHasAmmo s) : loadedHasAmmo (FireWeapon s weaponID targetID).1 := by
  cases hw : mapGet s.Weapons weaponID with
  | none =>
    simp only [FireWeapon, hw]
    exact h
  | some w =>
    by_cases hr : refusesToFire w
    · rw [FireWeapon_refused s weaponID targetID w hw hr]
      exact h
    · rw [FireWeapon_fired s weaponID targetID w hw hr]
      apply loadedHasAmmo_mapSet s weaponID (firedWeapon w) h _ _ rfl
      unfold firedWeapon
      split
      · intro hl
        exact absurd hl (by simp)
      · intro hl
        exact h (weaponID, w) (mem_of_mapGet _ _ _ hw) hl

/-- `Update` keeps `loadedHasAmmo`: the weapon phases change cooldown and
health only. -/
theorem Update_loadedHasAmmo (m : MathFns F) (s : Ship F) (dt : F) (h : loadedHasAmmo s) :
    loadedHasAmmo (Update m s dt) := by
  have h1 : loadedHasAmmo (updateWeapons s dt) := by
    apply loadedHasAmmo_mapValues s (coolWeapon dt) h _ _ rfl
    intro w
    unfold coolWeapon
    split
    · simp only
      split <;> exact ⟨rfl, rfl⟩
    · exact ⟨rfl, rfl⟩
  have h2 : loadedHasAmmo (updateDamage (updateWeapons s dt) dt) :=
    loadedHasAmmo_mapValues _ (fun w => { w with Health := burn dt w.OnFire w.Health }) h1
      (fun _ => ⟨rfl, rfl⟩) _ rfl
  have hW : (Update m s dt).Weapons = (updateDamage (updateWeapons s dt) dt).Weapons := by
    unfold Update updateLifeSupport updateDamage updateWeapons updateShields updatePower
      updatePhysics
    simp only
    split <;> rfl
  intro e he hl
  rw [hW] at he
  exact h2 e he hl

/-- `TakeDamage` keeps `loadedHasAmmo`: it does not touch the weapons. -/
theorem TakeDamage_loadedHasAmmo (s : Ship F) (amount : F) (location : String)
    (h : loadedHasAmmo s) : loadedHasAmmo (TakeDamage s amount location) := by
  have hW : (TakeDamage s amount location).Weapons = s.Weapons := by
    unfold TakeDamage damageHull
    simp only
    split
    · split
      · split
        · split <;> rfl
        · rfl
      · split <;> rfl
    · split <;> rfl
  intro e he hl
  rw [hW] at he
  exact h e he hl

/-- A write through a ship pointer keeps `loadedHasAmmo` on every ship when the
ship written has it. -/
theorem withShip_loadedHasAmmo (s : Simulator F) (a : Addr) (f : Ship F → Ship F)
    (h : ∀ b, loadedHasAmmo (s.mem.ships.cell b)) (hf : loadedHasAmmo (f (s.mem.ships.cell a)))
    (b : Addr) : loadedHasAmmo ((withShip s a f).mem.ships.cell b) := by
  unfold withShip
  simp only [callShip_cell]
  by_cases hb : b = a
  · rw [if_pos hb]
    exact hf
  · rw [if_neg hb]
    exact h b

/-- `handleLoadTorpedo` keeps `loadedHasAmmo`: it loads a weapon only when its
ammo count is above 0. -/
theorem handleLoadTorpedo_loadedHasAmmo (s : Simulator F) (action : Action F)
    (h : ∀ b, loadedHasAmmo (s.mem.ships.cell b)) (b : Addr) :
    loadedHasAmmo ((handleLoadTorpedo s action).1.mem.ships.cell b) := by
  unfold handleLoadTorpedo
  cases getPlayerShip s with
  | none => exact h b
  | some p =>
    simp only
    cases hw : mapGet (s.mem.ships.cell p).Weapons action.System with
    | none => exact h b
    | some w =>
      simp only
      by_cases ha : w.AmmoCount ≤ 0
      · rw [if_pos ha]
        exact h b
      · rw [if_neg ha]
        apply withShip_loadedHasAmmo s p _ h
        exact loadedHasAmmo_mapSet (s.mem.ships.cell p) action.System { w with Loaded := true }
          (h p) (fun _ => not_le.mp ha) _ rfl

/-- `handleArmTorpedo` keeps `loadedHasAmmo`. -/
theorem handleArmTorpedo_loadedHasAmmo (s : Simulator F) (action : Action F)
    (h : ∀ b, loadedHasAmmo (s.mem.ships.cell b)) (b : Addr) :
    loadedHasAmmo ((handleArmTorpedo s action).1.mem.ships.cell b) := by
  unfold handleArmTorpedo
  cases getPlayerShip s with
  | none => exact h b
  | some p =>
    simp only
    cases hw : mapGet (s.mem.ships.cell p).Weapons action.System with
    | none => exact h b
    | some w =>
      simp only
      cases action.Value with
      | flag armed =>
        apply withShip_loadedHasAmmo s p _ h
        exact loadedHasAmmo_mapSet (s.mem.ships.cell p) action.System { w with Armed := armed }
          (h p) (fun hl => h p (action.System, w) (mem_of_mapGet _ _ _ hw) hl) _ rfl
      | null => exact h b
      | num _ => exact h b
      | str _ => exact h b
      | table _ => exact h b

/-- `handleLockTorpedo` keeps `loadedHasAmmo`. -/
theorem handleLockTorpedo_loadedHasAmmo (s : Simulator F) (action : Action F)
    (h : ∀ b, loadedHasAmmo (s.mem.ships.cell b)) (b : Addr) :
    loadedHasAmmo ((handleLockTorpedo s action).1.mem.ships.cell b) := by
  unfold handleLockTorpedo
  cases getPlayerShip s with
  | none => exact h b
  | some p =>
    simp only
    cases hw : mapGet (s.mem.ships.cell p).Weapons action.System with
    | none => exact h b
    | some w =>
      simp only
      cases action.Value with
      | flag locked =>
        apply withShip_loadedHasAmmo s p _ h
        exact loadedHasAmmo_mapSet (s.mem.ships.cell p) action.System { w with Locked := locked }
          (h p) (fun hl => h p (action.System, w) (mem_of_mapGet _ _ _ hw) hl) _ rfl
      | null => exact h b
      | num _ => exact h b
      | str _ => exact h b
      | table _ => exact h b

/-- `handleFireTorpedo` keeps `loadedHasAmmo`. -/
theorem handleFireTorpedo_loadedHasAmmo (fmt0 : F → String) (s : Simulator F)
    (action : Action F) (h : ∀ b, loadedHasAmmo (s.mem.ships.cell b)) (b : Addr) :
    loadedHasAmmo ((handleFireTorpedo fmt0 s action).1.mem.ships.cell b) := by
  cases hp : getPlayerShip s with
  | none =>
    unfold handleFireTorpedo
    simp only [hp]
    exact h b
  | some p =>
    cases hw : mapGet (s.mem.ships.cell p).Weapons action.System with
    | none =>
      unfold handleFireTorpedo
      simp only [hp, hw]
      exact h b
    | some w =>
      by_cases hb : torpedoFireBlocked (s.mem.ships.cell p) w
      · rw [(handleFireTorpedo_blocked fmt0 s action p w hp hw hb).2]
        exact h b
      · rw [handleFireTorpedo_fired fmt0 s action p w hp hw hb]
        have hf := FireWeapon_loadedHasAmmo (s.mem.ships.cell p) action.System
          (s.mem.ships.cell p).TargetID (h p)
        have hr : ¬ refusesToFire w := by
          rintro (h1 | h1 | ⟨ht, h1 | h1 | h1 | h1⟩)
          · exact hb (Or.inr (Or.inr (Or.inr (Or.inr (Or.inr (Or.inl h1))))))
          · exact hb (Or.inr (Or.inr (Or.inr (Or.inl h1))))
          · exact hb (Or.inl h1)
          · exact hb (Or.inr (Or.inl h1))
          · exact hb (Or.inr (Or.inr (Or.inl h1)))
          · exact hb (Or.inr (Or.inr (Or.inr (Or.inr (Or.inr (Or.inr ⟨ht, h1⟩))))))
        rw [FireWeapon_fired _ _ _ w hw hr] at hf
        exact withShip_loadedHasAmmo s p (fun _ => _) h hf b

/-- The loop of `attemptMissilefire` keeps `loadedHasAmmo`: it loads a tube
only when its ammo count is above 0. -/
theorem attemptMissilefireLoop_loadedHasAmmo (sh target : Addr) (ids : List String)
    (ships : Heap (Ship F)) (h : ∀ b, loadedHasAmmo (ships.cell b)) (b : Addr) :
    loadedHasAmmo ((attemptMissilefireLoop sh target ids ships).cell b) := by
  induction ids generalizing ships with
  | nil => exact h b
  | cons id rest ih =>
    unfold attemptMissilefireLoop
    cases hw : mapGet (ships.cell sh).Weapons id with
    | none => exact ih ships h
    | some w =>
      simp only
      by_cases hc : w.Type_ = "torpedo" ∧ w.Health > 0 ∧ w.Cooldown ≤ 0 ∧ w.AmmoCount > 0
      · rw [if_pos hc]
        have h1 : ∀ c, loadedHasAmmo ((callShip ships sh
            (fun s => { s with Weapons := mapSet s.Weapons id (readiedTube w) })).cell c) := by
          intro c
          simp only [callShip_cell]
          by_cases hcs : c = sh
          · rw [if_pos hcs]
            exact loadedHasAmmo_mapSet (ships.cell sh) id (readiedTube w) (h sh)
              (fun _ => hc.2.2.2) _ rfl
          · rw [if_neg hcs]
            exact h c
        have h2 : ∀ c, loadedHasAmmo (((callShip ships sh
            (fun s => { s with Weapons := mapSet s.Weapons id (readiedTube w) })).write sh
            (FireWeapon ((callShip ships sh
              (fun s => { s with Weapons := mapSet s.Weapons id (readiedTube w) })).cell sh) id
              ((callShip ships sh
                (fun s => { s with Weapons := mapSet s.Weapons id (readiedTube w) })).cell
                  target).ID).1).cell c) := by
          intro c
          unfold Heap.write
          simp only [Function.update_apply]
          by_cases hcs : c = sh
          · rw [if_pos hcs]
            exact FireWeapon_loadedHasAmmo _ _ _ (h1 sh)
          · rw [if_neg hcs]
            exact h1 c
        split
        · exact h2 b
        · exact ih _ h2
      · rw [if_neg hc]
        exact ih ships h

/-- C26. With a player ship whose loaded weapons have ammunition (every ship
that the code builds: `loadedHasAmmo`), the torpedo fire handler returns an
error and leaves the simulator (the player ship and the projectile registry
included) entirely as it was whenever the weapon id is unknown, the weapon is
not armed, not loaded or not locked, its cooldown is `> 0`, the ship has no
target, its ammo count is `≤ 0`, or its health is `≤ 0`; in every other case
it returns no error. -/
theorem handleFireTorpedo_precondition (fmt0 : F → String) (s : Simulator F)
    (action : Action F) (p : Addr) (hp : getPlayerShip s = some p)
    (hinv : loadedHasAmmo (s.mem.ships.cell p)) :
    (mapGet (s.mem.ships.cell p).Weapons action.System = none →
      (handleFireTorpedo fmt0 s action).2 = some ("weapon not found: " ++ action.System) ∧
      (handleFireTorpedo fmt0 s action).1 = s) ∧
    (∀ weapon, mapGet (s.mem.ships.cell p).Weapons action.System = some weapon →
      ((weapon.Armed = false ∨ weapon.Loaded = false ∨ weapon.Locked = false ∨
          weapon.Cooldown > 0 ∨ (s.mem.ships.cell p).TargetID = "" ∨
          weapon.AmmoCount ≤ 0 ∨ weapon.Health ≤ 0) →
        (∃ e, (handleFireTorpedo fmt0 s action).2 = some e) ∧
        (handleFireTorpedo fmt0 s action).1 = s) ∧
      (¬ (weapon.Armed = false ∨ weapon.Loaded = false ∨ weapon.Locked = false ∨
          weapon.Cooldown > 0 ∨ (s.mem.ships.cell p).TargetID = "" ∨
          weapon.AmmoCount ≤ 0 ∨ weapon.Health ≤ 0) →
        (handleFireTorpedo fmt0 s action).2 = none)) := by
  refine ⟨?_, ?_⟩
  · intro hnone
    unfold handleFireTorpedo
    simp only [hp, hnone]
    exact ⟨trivial, trivial⟩
  · intro weapon hw
    have hammo : weapon.AmmoCount ≤ 0 → weapon.Loaded = false := by
      intro h
      cases hl : weapon.Loaded with
      | false => rfl
      | true =>
        exact absurd (hinv (action.System, weapon) (mem_of_mapGet _ _ _ hw) hl) (not_lt.mpr h)
    constructor
    · intro hb
      apply handleFireTorpedo_blocked fmt0 s action p weapon hp hw
      unfold torpedoFireBlocked
      tauto
    · intro hb
      rw [handleFireTorpedo_fired fmt0 s action p weapon hp hw]
      unfold torpedoFireBlocked
      tauto

/-- Witness for C26, on three worlds built by `SpawnShip` and the handlers:
in `bridgeSim` the tube is not armed, and the handler returns an error and
changes nothing; in `dryBridgeSim` the tube has no ammunition (so the load
handler has left it unloaded), and the handler returns an error and changes
nothing; in `readyBridgeSim` no clause holds and the handler returns no
error. -/
theorem handleFireTorpedo_precondition_witness :
    getPlayerShip bridgeSim = some 0 ∧ getPlayerShip dryBridgeSim = some 0 ∧
    getPlayerShip readyBridgeSim = some 0 ∧
    loadedHasAmmo (bridgeSim.mem.ships.cell 0) ∧ loadedHasAmmo (dryBridgeSim.mem.ships.cell 0) ∧
    loadedHasAmmo (readyBridgeSim.mem.ships.cell 0) ∧
    (∃ e, (handleFireTorpedo (fun _ => "0") bridgeSim
      (weaponsIntent "torpedo_bay_1" "fire" ActionValue.null)).2 = some e) ∧
    (handleFireTorpedo (fun _ => "0") bridgeSim
      (weaponsIntent "torpedo_bay_1" "fire" ActionValue.null)).1 = bridgeSim ∧
    mapGet (dryBridgeSim.mem.ships.cell 0).Weapons "torpedo_bay_1" =
      some ⟨"torpedo_bay_1", "torpedo", 100, 5000, 5, 0, 100, 100, true, 20, false, true,
        false, true, 0, 0⟩ ∧
    (∃ e, (handleFireTorpedo (fun _ => "0") dryBridgeSim
      (weaponsIntent "torpedo_bay_1" "fire" ActionValue.null)).2 = some e) ∧
    (handleFireTorpedo (fun _ => "0") dryBridgeSim
      (weaponsIntent "torpedo_bay_1" "fire" ActionValue.null)).1 = dryBridgeSim ∧
    (handleFireTorpedo (fun _ => "0") readyBridgeSim
      (weaponsIntent "torpedo_bay_1" "fire" ActionValue.null)).2 = none := by
  have hp : getPlayerShip bridgeSim = some 0 := by decide
  have hp2 : getPlayerShip readyBridgeSim = some 0 := by decide
  have hp3 : getPlayerShip dryBridgeSim = some 0 := by decide
  have hi : loadedHasAmmo (bridgeSim.mem.ships.cell 0) := by decide
  have hi2 : loadedHasAmmo (readyBridgeSim.mem.ships.cell 0) := by decide
  have hi3 : loadedHasAmmo (dryBridgeSim.mem.ships.cell 0) := by decide
  have hw : mapGet (bridgeSim.mem.ships.cell 0).Weapons
      (weaponsIntent "torpedo_bay_1" "fire" ActionValue.null).System =
      some ⟨"torpedo_bay_1", "torpedo", 100, 5000, 5, 0, 100, 100, true, 20, false, false,
        false, false, 10, 10⟩ := rfl
  have hw2 : mapGet (readyBridgeSim.mem.ships.cell 0).Weapons
      (weaponsIntent "torpedo_bay_1" "fire" ActionValue.null).System =
      some ⟨"torpedo_bay_1", "torpedo", 100, 5000, 5, 0, 100, 100, true, 20, false, true,
        true, true, 10, 10⟩ := rfl
  have hw3 : mapGet (dryBridgeSim.mem.ships.cell 0).Weapons
      (weaponsIntent "torpedo_bay_1" "fire" ActionValue.null).System =
      some ⟨"torpedo_bay_1", "torpedo", 100, 5000, 5, 0, 100, 100, true, 20, false, true,
        false, true, 0, 0⟩ := rfl
  have ht2 : (readyBridgeSim.mem.ships.cell 0).TargetID = "enemy_1" := rfl
  obtain ⟨h1, h2⟩ := ((handleFireTorpedo_precondition (fun _ => "0") bridgeSim
    (weaponsIntent "torpedo_bay_1" "fire" ActionValue.null) 0 hp hi).2 _ hw).1 (Or.inl rfl)
  obtain ⟨h3, h4⟩ := ((handleFireTorpedo_precondition (fun _ => "0") dryBridgeSim
    (weaponsIntent "torpedo_bay_1" "fire" ActionValue.null) 0 hp3 hi3).2 _ hw3).1
    (Or.inr (Or.inr (Or.inr (Or.inr (Or.inr (Or.inl (le_refl 0)))))))
  refine ⟨hp, hp3, hp2, hi, hi3, hi2, h1, h2, hw3, h3, h4, ?_⟩
  apply ((handleFireTorpedo_precondition (fun _ => "0") readyBridgeSim
    (weaponsIntent "torpedo_bay_1" "fire" ActionValue.null) 0 hp2 hi2).2 _ hw2).2
  rw [ht2]
  simp

/-! ## The blink flag of the status indicators -/

/-- `TakeDamage` changes the strength of an emitter at most: no weapon and no
emitter is set on fire. -/
theorem TakeDamage_notOnFire (s : Ship F) (amount : F) (location : String)
    (h : weaponsAndEmittersNotOnFire s) :
    weaponsAndEmittersNotOnFire (TakeDamage s amount location) := by
  obtain ⟨hw, he⟩ := h
  have hW : (TakeDamage s amount location).Weapons = s.Weapons := by
    unfold TakeDamage damageHull
    simp only
    split
    · split
      · split
        · split <;> rfl
        · rfl
      · split <;> rfl
    · split <;> rfl
  refine ⟨by rw [hW]; exact hw, ?_⟩
  intro e hmem
  cases hget : mapGet s.Shields.Emitters (defaultLocation location) with
  | none =>
    have hE : (TakeDamage s amount location).Shields = s.Shields := by
      unfold TakeDamage damageHull
      simp only [hget]
      split <;> rfl
    rw [hE] at hmem
    exact he e hmem
  | some em =>
    have hE : (TakeDamage s amount location).Shields.Emitters = s.Shields.Emitters ∨
        ∃ x, (TakeDamage s amount location).Shields.Emitters =
          mapSet s.Shields.Emitters (defaultLocation location) { em with Strength := x } := by
      unfold TakeDamage damageHull
      simp only [hget]
      split
      · split
        · right
          refine ⟨0, ?_⟩
          split <;> rfl
        · right
          exact ⟨_, rfl⟩
      · left
        split <;> rfl
    rcases hE with hE | ⟨x, hE⟩
    · rw [hE] at hmem
      exact he e hmem
    · rw [hE] at hmem
      rcases mem_mapSet _ _ _ _ hmem with h3 | h3
      · exact he e h3
      · rw [h3]
        exact he (defaultLocation location, em) (mem_of_mapGet _ _ _ hget)

/-- `Update` sets no weapon and no emitter on fire. -/
theorem Update_notOnFire (m : MathFns F) (s : Ship F) (dt : F)
    (h : weaponsAndEmittersNotOnFire s) : weaponsAndEmittersNotOnFire (Update m s dt) := by
  obtain ⟨hw, he⟩ := h
  have hW : (Update m s dt).Weapons = mapValues
      (fun w => { w with Health := burn dt w.OnFire w.Health })
      (mapValues (coolWeapon dt) s.Weapons) := by
    unfold Update updateLifeSupport updateDamage updateWeapons updateShields updatePower
      updatePhysics
    simp only
    split <;> rfl
  constructor
  · intro e hmem
    rw [hW] at hmem
    obtain ⟨x, hx, hex⟩ := mem_mapValues _ _ _ hmem
    obtain ⟨y, hy, hxy⟩ := mem_mapValues _ _ _ hx
    rw [hex]
    simp only at hxy
    rw [hxy]
    have hc : (coolWeapon dt y).OnFire = y.OnFire := by
      unfold coolWeapon
      split
      · simp only
        split <;> rfl
      · rfl
    show (coolWeapon dt y).OnFire = false
    rw [hc]
    exact hw (e.1, y) hy
  · intro e hmem
    have hfl : ∀ (l : List (String × ShieldEmitter F)) (f : ShieldEmitter F → ShieldEmitter F),
        (∀ x, (f x).OnFire = x.OnFire) → (∀ e ∈ l, e.2.OnFire = false) →
        ∀ e ∈ mapValues f l, e.2.OnFire = false := by
      intro l f hf hl e2 he2
      obtain ⟨x, hx, hex⟩ := mem_mapValues _ _ _ he2
      rw [hex, hf]
      exact hl (e2.1, x) hx
    have hE : (Update m s dt).Shields.Emitters =
        mapValues (fun e => { e with Health := burn dt e.OnFire e.Health })
          (if s.Shields.Enabled = false then s.Shields.Emitters
           else mapValues (rechargeEmitter s.Shields.RechargeRate dt) s.Shields.Emitters) := by
      unfold Update updateLifeSupport updateDamage updateWeapons updateShields updatePower
        updatePhysics
      simp only
      split <;> split <;> rfl
    rw [hE] at hmem
    have hr : ∀ x : ShieldEmitter F,
        (rechargeEmitter s.Shields.RechargeRate dt x).OnFire = x.OnFire := by
      intro x
      unfold rechargeEmitter
      split
      · simp only
        split <;> rfl
      · rfl
    have hin : ∀ e2 ∈ (if s.Shields.Enabled = false then s.Shields.Emitters
        else mapValues (rechargeEmitter s.Shields.RechargeRate dt) s.Shields.Emitters),
        e2.2.OnFire = false := by
      split
      · exact he
      · exact hfl _ _ hr he
    exact hfl _ (fun e => { e with Health := burn dt e.OnFire e.Health }) (fun _ => rfl) hin
      e hmem

end Celestial
